import Mathlib

/-!
# komodo_DEX.h : a shallow embedding and its verified properties

The gossip store of `src/komodo_DEX.h` is embedded as pure functions over an
explicit state record `DEXState`.

Conventions of the embedding.

* C arrays are total functions from indices to values; every index the code
  uses is guarded by the code itself, and an index the code lets out of range
  is a fault.
* A pointer to a `DEX_datablob` is a natural number, `0` being the null
  pointer; the allocated blobs live in `DEXState.heap`.  Dereferencing a
  pointer that is null or not allocated is a fault.
* A function that can fault returns an `Option`; `none` is the fault
  (undefined behaviour of the C program), `some` a normal return.
* Machine integers are `Nat` or `Int` with the wrap-around written out.
* An input buffer `uint8_t *msg` is a function from offsets to bytes, its
  length `len` is passed next to it as in the source.
* Text written to `stderr` is not part of the model.
-/

set_option linter.unusedVariables false
set_option maxRecDepth 100000

namespace DEX

/-! ## Constants -/

abbrev KOMODO_DEX_ROUTESIZE : Nat := 6
abbrev KOMODO_DEX_LOCALHEARTBEAT : Nat := 1
abbrev KOMODO_DEX_MAXHOPS : Nat := 10
abbrev KOMODO_DEX_MAXLAG : Nat := 60 + KOMODO_DEX_LOCALHEARTBEAT * KOMODO_DEX_MAXHOPS
abbrev KOMODO_DEX_RELAYDEPTH : Nat := KOMODO_DEX_MAXHOPS
abbrev KOMODO_DEX_MAXFANOUT : Nat := 3
abbrev KOMODO_DEX_HASHLOG2 : Nat := 14
abbrev KOMODO_DEX_HASHSIZE : Nat := 2 ^ KOMODO_DEX_HASHLOG2
abbrev KOMODO_DEX_HASHMASK : Nat := KOMODO_DEX_HASHSIZE - 1
abbrev KOMODO_DEX_PURGETIME : Nat := 3600
abbrev KOMOD_DEX_PEERMASKSIZE : Nat := 128
abbrev KOMODO_DEX_MAXPEERID : Nat := KOMOD_DEX_PEERMASKSIZE * 8
abbrev SECONDS_IN_DAY : Nat := 24 * 3600
abbrev KOMODO_DEX_PEERPERIOD : Nat := 300
abbrev KOMODO_DEX_PEEREPOCHS : Nat := SECONDS_IN_DAY / KOMODO_DEX_PEERPERIOD
abbrev KOMODO_DEX_TAGSIZE : Nat := 16
abbrev KOMODO_DEX_MAXKEYSIZE : Nat := 34
abbrev KOMODO_DEX_MAXINDEX : Nat := 64
abbrev KOMODO_DEX_MAXINDICES : Nat := 3
abbrev KOMODO_DEX_TXPOWBITS : Nat := 12
abbrev KOMODO_DEX_TXPOWMASK : Nat := 2 ^ KOMODO_DEX_TXPOWBITS - 1

/-- Number of cells of the `Pendings` table,
`sizeof(Pendings)/sizeof(*Pendings)`. -/
abbrev PENDINGS_SIZE : Nat := KOMODO_DEX_MAXLAG * KOMODO_DEX_HASHSIZE - 1

/-- Two to the 32, the modulus of `uint32_t` arithmetic. -/
abbrev U32 : Nat := 4294967296

/-! ## Machine integers and byte buffers -/

/-- Value of a byte converted to `int8_t`. -/
def toInt8 (b : Nat) : Int :=
  if b % 256 < 128 then ((b % 256 : Nat) : Int) else ((b % 256 : Nat) : Int) - 256

/-- Value of a 32-bit word converted to `int32_t`. -/
def toInt32 (x : Nat) : Int :=
  if x % U32 < 2147483648 then ((x % U32 : Nat) : Int) else ((x % U32 : Nat) : Int) - 4294967296

/-- The `uint32_t` value of an integer expression: its residue modulo 2^32. -/
def wrap32 (x : Int) : Nat := (x % 4294967296).toNat

/-- The buffer `&msg[off]`. -/
def bufAt (msg : Nat → Nat) (off : Nat) : Nat → Nat := fun i => msg (off + i)

/-- The `n` bytes a `memcpy(dst, msg, n)` copies. -/
def memBytes (msg : Nat → Nat) (n : Nat) : List Nat :=
  (List.range n).map (fun i => msg i % 256)

/-- Modelled from the spec: `iguana_rwnum(0, msg, len, &x)` is declared outside
this file; the spec fixes the byte order ("all multi-byte integers in bodies
are little-endian").  Decoding of `len` bytes. -/
def iguana_rwnum_dec (msg : Nat → Nat) : Nat → Nat
  | 0 => 0
  | n + 1 => msg 0 % 256 + 256 * iguana_rwnum_dec (bufAt msg 1) n

/-- Modelled from the spec: `iguana_rwnum(1, out, len, &x)`, the `len`
little-endian bytes it writes. -/
def iguana_rwnum_enc : Nat → Nat → List Nat
  | 0, _ => []
  | n + 1, x => (x % 256) :: iguana_rwnum_enc n (x / 256)

/-- Modelled from the spec: the macro `SETBIT(bits, bitoffset)` is defined
outside this file; the spec calls it `mark(blob, slot)`, "sets a bit" of the
1024-bit presence bitmap.  The 128-byte array is read as one little-endian
number, so that bit `k` of the number is bit `k & 7` of byte `k >> 3`. -/
def SETBIT (bits bitoffset : Nat) : Nat := bits ||| (1 <<< bitoffset)

/-- Modelled from the spec: the macro `GETBIT(bits, bitoffset)`, the spec's
`known(blob, slot)`, "tests one" bit; `true` when the macro is non-zero. -/
def GETBIT (bits bitoffset : Nat) : Bool := Nat.testBit bits bitoffset

/-- Modelled from the spec: the union `bits256` is declared outside this file.
The four 64-bit words `ulongs[0..3]` of the 256-bit hash; `uints[0]` is the low
half of `ulongs[0]` ("short_hash: low 32 bits of hash"). -/
structure bits256 where
  ulongs0 : Nat
  ulongs1 : Nat
  ulongs2 : Nat
  ulongs3 : Nat
deriving DecidableEq, Repr

/-- The member `hash.uints[0]`. -/
def bits256.uints0 (h : bits256) : Nat := h.ulongs0 % U32

/-! ## Data model -/

/-- The record `struct DEX_datablob`; `prevs`/`nexts` are indexed by the axis
`0..2` and hold blob pointers, `data` is the flexible array member. -/
structure DEX_datablob where
  hash : bits256
  prevs : Nat → Nat
  nexts : Nat → Nat
  peermask : Nat
  recvtime : Nat
  datalen : Nat
  numsent : Nat
  offset : Nat
  data : List Nat

/-- The record `struct DEX_index`. -/
structure DEX_index where
  tip : Nat
  count : Int
  len : Nat
  key : List Nat

/-- The file-scope and function-static variables of `komodo_DEX.h`, the heap
of allocated blobs, the per-peer field `dexlastping` of the host's `CNode`
(keyed by `peer->id`) and the list of messages handed to `PushMessage`. -/
structure DEXState where
  DEX_tagABs : Nat → DEX_index
  DEX_tagAs : Nat → DEX_index
  DEX_destpubs : Nat → DEX_index
  DEX_totallag : Int
  Got_Recent_Quote : Nat
  DEX_totalsent : Nat
  DEX_totalrecv : Nat
  DEX_totaladd : Nat
  DEX_duplicate : Nat
  DEX_lookup32 : Nat
  DEX_collision32 : Nat
  DEX_add32 : Nat
  DEX_maxlag : Nat
  DEX_Numpending : Int
  DEX_peermaps : Nat → Nat → Int
  Pendings : Nat → Nat
  Hashtables : Nat → Nat → Nat
  Datablobs : Nat → Nat → Nat
  heap : Nat → Option DEX_datablob
  purgetime : Nat
  lastcutoff : Nat
  dexlastping : Int → Nat
  outbox : List (Int × List Nat)

/-- The all-zero index entry of static storage. -/
def DEX_index.zero : DEX_index :=
  { tip := 0, count := 0, len := 0, key := List.replicate KOMODO_DEX_MAXKEYSIZE 0 }

/-- The state at program start: static storage is zero, nothing is allocated,
nothing was sent. -/
def DEXState.empty : DEXState :=
  { DEX_tagABs := fun _ => DEX_index.zero
    DEX_tagAs := fun _ => DEX_index.zero
    DEX_destpubs := fun _ => DEX_index.zero
    DEX_totallag := 0
    Got_Recent_Quote := 0
    DEX_totalsent := 0
    DEX_totalrecv := 0
    DEX_totaladd := 0
    DEX_duplicate := 0
    DEX_lookup32 := 0
    DEX_collision32 := 0
    DEX_add32 := 0
    DEX_maxlag := 0
    DEX_Numpending := 0
    DEX_peermaps := fun _ _ => 0
    Pendings := fun _ => 0
    Hashtables := fun _ _ => 0
    Datablobs := fun _ _ => 0
    heap := fun _ => none
    purgetime := 0
    lastcutoff := 0
    dexlastping := fun _ => 0
    outbox := [] }

/-- Write of one cell of a two-dimensional array. -/
def set2 {α : Type} (tbl : Nat → Nat → α) (m i : Nat) (v : α) : Nat → Nat → α :=
  Function.update tbl m (Function.update (tbl m) i v)

/-- Write of the blob stored at pointer `p`. -/
def heapSet (s : DEXState) (p : Nat) (b : DEX_datablob) : DEXState :=
  { s with heap := Function.update s.heap p (some b) }

/-- The index array of an axis, as selected by the `switch` of
`DEX_unlinkindices`: `0` is `DEX_destpubs`, `1` is `DEX_tagAs`, `2` is
`DEX_tagABs`. -/
def DEX_axis (s : DEXState) (which : Nat) : Nat → DEX_index :=
  if which = 0 then s.DEX_destpubs else if which = 1 then s.DEX_tagAs else s.DEX_tagABs

/-- Replacement of the index array of an axis. -/
def DEX_setaxis (s : DEXState) (which : Nat) (arr : Nat → DEX_index) : DEXState :=
  if which = 0 then { s with DEX_destpubs := arr }
  else if which = 1 then { s with DEX_tagAs := arr }
  else { s with DEX_tagABs := arr }

/-! ## Priority, hash, peer slots -/

/-- The scan `for (i=0; i<64; i++,h>>=1) if ((h & 1) != 0) return(i);`, with
the number of iterations left as first argument. -/
def komodo_DEX_priority_loop : Nat → Nat → Nat → Nat
  | 0, i, _ => i
  | n + 1, i, h => if h &&& 1 ≠ 0 then i else komodo_DEX_priority_loop n (i + 1) (h >>> 1)

/-- The function `komodo_DEX_priority` on a `uint64_t`. -/
def komodo_DEX_priority (h : Nat) : Nat :=
  komodo_DEX_priority_loop 64 0 ((h % 2 ^ 64) >>> KOMODO_DEX_TXPOWBITS)

/-- The function `komodo_DEXquotehash`: the hash of `msg[1 .. len-1]`; the
returned short hash is `uints0` of the result.  `vcalc_sha256` is declared
outside this file and is a parameter here. -/
def komodo_DEXquotehash (vcalc_sha256 : List Nat → bits256) (msg : Nat → Nat) (len : Nat) :
    bits256 :=
  vcalc_sha256 (memBytes (bufAt msg 1) (len - 1))

/-- The loop of `komodo_DEXpeerpos` over one row of `DEX_peermaps`; first
argument: iterations left, second: the index `i`. -/
def komodo_DEXpeerpos_loop (peerid : Int) : Nat → Nat → (Nat → Int) → (Nat → Int) × Nat
  | 0, _, peermap => (peermap, 0xffff)
  | n + 1, i, peermap =>
    if peermap i = 0 then (Function.update peermap i peerid, i)
    else if peermap i = peerid then (peermap, i)
    else komodo_DEXpeerpos_loop peerid n (i + 1) peermap

/-- The function `komodo_DEXpeerpos`. -/
def komodo_DEXpeerpos (s : DEXState) (timestamp : Nat) (peerid : Int) : DEXState × Nat :=
  let epoch := (timestamp % SECONDS_IN_DAY) / KOMODO_DEX_PEERPERIOD
  let r := komodo_DEXpeerpos_loop peerid (KOMODO_DEX_MAXPEERID - 1) 1 (s.DEX_peermaps epoch)
  ({ s with DEX_peermaps := Function.update s.DEX_peermaps epoch r.1 }, r.2)

/-! ## The pending table -/

/-- The function `komodo_DEXadd32`; every caller passes `Pendings`. -/
def komodo_DEXadd32 (s : DEXState) (hashsize shorthash : Nat) : DEXState × Int :=
  let ind := shorthash % hashsize
  ({ s with Pendings := Function.update s.Pendings ind shorthash,
            DEX_add32 := (s.DEX_add32 + 1) % U32 }, (ind : Int))

/-- The function `komodo_DEXfind32`; every caller passes `Pendings`. -/
def komodo_DEXfind32 (s : DEXState) (hashsize shorthash : Nat) (clearflag : Int) :
    DEXState × Int :=
  let ind := shorthash % hashsize
  let s1 := { s with DEX_lookup32 := (s.DEX_lookup32 + 1) % U32 }
  if s1.Pendings ind = shorthash then
    if clearflag ≠ 0 then
      ({ s1 with Pendings := Function.update s1.Pendings ind 0 }, (ind : Int))
    else (s1, (ind : Int))
  else if s1.Pendings ind ≠ 0 then
    ({ s1 with DEX_collision32 := (s1.DEX_collision32 + 1) % U32 }, -1)
  else (s1, -1)

/-! ## The short-hash table -/

/-- The probe loop of `komodo_DEXfind`; first argument: iterations left,
second: `hashind`.  The result is the returned value and `openind`. -/
def komodo_DEXfind_loop (table : Nat → Nat) (shorthash : Nat) : Nat → Nat → Int × Int
  | 0, _ => (-1, -1)
  | n + 1, hashind =>
    if table hashind = 0 then (-1, (hashind : Int))
    else if table hashind = shorthash then ((hashind : Int), -1)
    else komodo_DEXfind_loop table shorthash n
      (if hashind + 1 ≥ KOMODO_DEX_HASHSIZE then 0 else hashind + 1)

/-- The function `komodo_DEXfind`: the returned value and `openind`. -/
def komodo_DEXfind (s : DEXState) (modval shorthash : Nat) : Int × Int :=
  komodo_DEXfind_loop (s.Hashtables modval) shorthash KOMODO_DEX_HASHSIZE
    (shorthash &&& KOMODO_DEX_HASHMASK)

/-! ## Quote header -/

/-- The values `komodo_DEX_extract` hands back on a successful return: the
out-parameters and the returned offset.  `tagA`, `tagB` are the bytes copied
into the tag buffers, `destpub33` the 33-byte buffer. -/
structure DEX_extracted where
  amountA : Nat
  amountB : Nat
  lenA : Int
  tagA : List Nat
  lenB : Int
  tagB : List Nat
  destpub33 : List Nat
  plen : Int
  offset : Nat

/-- The function `komodo_DEX_extract`.  `none` is a fault: a length byte of
128..255 is negative as `int8_t`, passes the test `<= KOMODO_DEX_TAGSIZE` and
reaches `memcpy` as a huge `size_t`.  `some none` is the return value `-1`,
`some (some x)` the return of `x.offset`. -/
def komodo_DEX_extract (msg : Nat → Nat) (len : Nat) : Option (Option DEX_extracted) :=
  if len < 8 + 8 + 3 then some none
  else
    let amountA := iguana_rwnum_dec msg 8
    let amountB := iguana_rwnum_dec (bufAt msg 8) 8
    let plen := toInt8 (msg 16)
    if plen ≠ 0 ∧ plen ≠ 33 then some none
    else
      let destpub33 := if plen ≠ 0 then memBytes (bufAt msg 17) 33 else List.replicate 33 0
      let offset1 := if plen ≠ 0 then 17 + 33 else 17
      let lenA := toInt8 (msg offset1)
      if lenA ≠ 0 ∧ ¬ lenA ≤ (KOMODO_DEX_TAGSIZE : Int) then some none
      else if lenA < 0 then none
      else
        let tagA := memBytes (bufAt msg (offset1 + 1)) lenA.toNat
        let offset2 := offset1 + 1 + lenA.toNat
        let lenB := toInt8 (msg offset2)
        if lenB ≠ 0 ∧ ¬ lenB ≤ (KOMODO_DEX_TAGSIZE : Int) then some none
        else if lenB < 0 then none
        else
          let tagB := memBytes (bufAt msg (offset2 + 1)) lenB.toNat
          let offset3 := offset2 + 1 + lenB.toNat
          some (some { amountA := amountA, amountB := amountB, lenA := lenA, tagA := tagA,
                       lenB := lenB, tagB := tagB, destpub33 := destpub33, plen := plen,
                       offset := offset3 })

/-! ## Secondary indices

A pointer `struct DEX_index *` is `none` (null) or `some (which, i)`, the
entry `i` of the index array `DEX_axis s which`. -/

/-- Write of one entry of an index array. -/
def DEX_setindex (s : DEXState) (which i : Nat) (x : DEX_index) : DEXState :=
  DEX_setaxis s which (Function.update (DEX_axis s which) i x)

/-- The function `komodo_DEX_indexappend` on the entry `index = &arr[i]`. -/
def komodo_DEX_indexappend (s : DEXState) (ind which i ptr : Nat) :
    Option (DEXState × Option (Nat × Nat)) :=
  let tip := (DEX_axis s which i).tip
  if tip = 0 then some (s, none)
  else
    match s.heap ptr with
    | none => none
    | some b =>
      let s1 := heapSet s ptr { b with prevs := Function.update b.prevs ind tip }
      match s1.heap tip with
      | none => none
      | some tb =>
        let s2 := heapSet s1 tip { tb with nexts := Function.update tb.nexts ind ptr }
        let index := DEX_axis s2 which i
        some (DEX_setindex s2 which i { index with tip := ptr, count := index.count + 1 },
              some (which, i))

/-- The function `komodo_DEX_indexcreate` on the entry `index = &arr[i]`;
`keybuf` holds the `keylen` bytes of the key. -/
def komodo_DEX_indexcreate (s : DEXState) (which i : Nat) (keybuf : List Nat) (keylen ptr : Nat) :
    DEXState × Option (Nat × Nat) :=
  let index := DEX_axis s which i
  if index.tip ≠ 0 ∨ index.len ≠ 0 then (s, none)
  else
    (DEX_setindex s which i
      { index with key := keybuf ++ List.replicate (KOMODO_DEX_MAXKEYSIZE - keylen) 0,
                   len := keylen, tip := ptr },
     some (which, i))

/-- The `n` bytes a `memcpy` reads from a buffer held as a list; reading past
the end of the buffer is a fault. -/
def memTake (src : List Nat) (n : Int) : Option (List Nat) :=
  if 0 ≤ n ∧ n.toNat ≤ src.length then some (src.take n.toNat) else none

/-- The key built at the head of `DEX_indexsearch` together with the index
array chosen; `none` when no branch applies (then `index` stays null) or when a
`memcpy` has a negative length, reads past its source or writes past the 34
bytes of `keybuf`.  `tagB` is `none` for a null pointer. -/
def DEX_indexsearch_key (lenA : Int) (key : List Nat) (lenB : Int) (tagB : Option (List Nat)) :
    Option (Nat × List Nat) :=
  if lenA = 33 then
    (memTake key 33).map (fun k => (0, 33 :: k))
  else if lenB = 0 then
    if lenA + 1 ≤ (KOMODO_DEX_MAXKEYSIZE : Int) then
      (memTake key lenA).map (fun k => (1, lenA.toNat :: k))
    else none
  else if lenA > 0 ∧ lenB > 0 ∧ tagB ≠ none ∧ lenA ≤ (KOMODO_DEX_TAGSIZE : Int)
      ∧ lenB ≤ (KOMODO_DEX_TAGSIZE : Int) then
    match memTake key lenA, tagB.bind (fun b => memTake b lenB) with
    | some ka, some kb => some (2, (lenA.toNat :: ka) ++ (lenB.toNat :: kb))
    | _, _ => none
  else none

/-- The search loop of `DEX_indexsearch`; first argument: iterations left,
second: `i`.  The result is `(true, i)` when entry `i` matches the key and
`(false, i)` when the loop ended at `i` without a match. -/
def DEX_indexsearch_loop (index : Nat → DEX_index) (keybuf : List Nat) : Nat → Nat → Bool × Nat
  | 0, i => (false, i)
  | n + 1, i =>
    if (index i).tip = 0 then (false, i)
    else if (index i).len = keybuf.length ∧ (index i).key.take keybuf.length = keybuf then (true, i)
    else DEX_indexsearch_loop index keybuf n (i + 1)

/-- The function `DEX_indexsearch`. -/
def DEX_indexsearch (s : DEXState) (ind : Nat) (priority : Nat) (ptr : Nat) (lenA : Int)
    (key : List Nat) (lenB : Int) (tagB : Option (List Nat)) :
    Option (DEXState × Option (Nat × Nat)) :=
  match DEX_indexsearch_key lenA key lenB tagB with
  | none => none
  | some (which, keybuf) =>
    let r := DEX_indexsearch_loop (DEX_axis s which) keybuf KOMODO_DEX_MAXINDEX 0
    if r.1 then
      if ptr ≠ 0 then komodo_DEX_indexappend s ind which r.2 ptr
      else some (s, some (which, r.2))
    else if ptr = 0 then some (s, none)
    else if r.2 = KOMODO_DEX_MAXINDEX then some (s, none)
    else some (komodo_DEX_indexcreate s which r.2 keybuf keybuf.length ptr)

/-- The update `mask |= (1 << (ind+16))` or `mask |= (1 << ind)` of
`DEX_updatetips`, after a search that returned `r`. -/
def DEX_tipmask (r : Option (Nat × Nat)) (ind mask : Nat) : Nat :=
  if r = none then mask ||| (1 <<< (ind + 16)) else mask ||| (1 <<< ind)

/-- The function `DEX_updatetips`: the array `tips` and the returned mask.
The final test `ind >= KOMODO_DEX_MAXINDICES` never holds (`ind` ends as 1 or
2) and is left out. -/
def DEX_updatetips (s : DEXState) (priority ptr : Nat) (lenA : Int) (tagA : List Nat)
    (lenB : Int) (tagB : List Nat) (destpub : List Nat) (plen : Int) :
    Option (DEXState × (Nat → Option (Nat × Nat)) × Nat) :=
  let tips0 : Nat → Option (Nat × Nat) := fun _ => none
  if lenA = 0 ∧ lenB = 0 ∧ plen = 0 then some (s, tips0, 0)
  else
    match (if plen ≠ 0 then
             (DEX_indexsearch s 0 priority ptr plen destpub 0 none).map
               (fun r => (r.1, Function.update tips0 0 r.2, DEX_tipmask r.2 0 0))
           else some (s, tips0, 0)) with
    | none => none
    | some (s1, tips1, mask1) =>
      if lenA ≠ 0 then
        match DEX_indexsearch s1 1 priority ptr lenA tagA 0 none with
        | none => none
        | some (s2, r2) =>
          if lenB ≠ 0 then
            match DEX_indexsearch s2 1 priority ptr lenB tagB 0 none with
            | none => none
            | some (s3, r3) =>
              match DEX_indexsearch s3 2 priority ptr lenA tagA lenB (some tagB) with
              | none => none
              | some (s4, r4) =>
                some (s4, Function.update (Function.update tips1 1 r3) 2 r4,
                      DEX_tipmask r4 2 (DEX_tipmask r3 1 (DEX_tipmask r2 1 mask1)))
          else some (s2, Function.update tips1 1 r2, DEX_tipmask r2 1 mask1)
      else if lenB ≠ 0 then
        match DEX_indexsearch s1 1 priority ptr lenB tagB 0 none with
        | none => none
        | some (s2, r2) => some (s2, Function.update tips1 1 r2, DEX_tipmask r2 1 mask1)
      else some (s1, tips1, mask1)

/-- The scan `for (j=0; j<KOMODO_DEX_MAXINDEX; j++) if (index[j].tip == ptr)`
of `DEX_unlinkindices`: the array after the scan and the increment of `n`. -/
def DEX_unlink_tiploop (ptr prev : Nat) : Nat → Nat → (Nat → DEX_index) → (Nat → DEX_index) × Int
  | 0, _, index => (index, 0)
  | n + 1, j, index =>
    if (index j).tip = ptr then (Function.update index j { index j with tip := prev }, 1)
    else DEX_unlink_tiploop ptr prev n (j + 1) index

/-- One pass of the loop body of `DEX_unlinkindices`, for the axis `ind`. -/
def DEX_unlinkindices_step (s : DEXState) (ptr ind : Nat) (n : Int) : Option (DEXState × Int) :=
  match s.heap ptr with
  | none => none
  | some b =>
    let prev := b.prevs ind
    let next := b.nexts ind
    match (if next ≠ 0 then
             match s.heap next with
             | none => none
             | some nb =>
               let s1 := heapSet s next { nb with prevs := Function.update nb.prevs ind prev }
               match s1.heap ptr with
               | none => none
               | some b1 =>
                 some (heapSet s1 ptr { b1 with nexts := Function.update b1.nexts ind 0 }, n + 1)
           else some (s, n)) with
    | none => none
    | some (s2, n2) =>
      let r := DEX_unlink_tiploop ptr prev KOMODO_DEX_MAXINDEX 0 (DEX_axis s2 ind)
      let s3 := DEX_setaxis s2 ind r.1
      match s3.heap ptr with
      | none => none
      | some b3 =>
        some (heapSet s3 ptr { b3 with prevs := Function.update b3.prevs ind 0 }, n2 + r.2)

/-- The function `DEX_unlinkindices`: the three passes `ind = 0, 1, 2`. -/
def DEX_unlinkindices (s : DEXState) (ptr : Nat) : Option (DEXState × Int) :=
  match DEX_unlinkindices_step s ptr 0 0 with
  | none => none
  | some (s1, n1) =>
    match DEX_unlinkindices_step s1 ptr 1 n1 with
    | none => none
    | some (s2, n2) => DEX_unlinkindices_step s2 ptr 2 n2

/-! ## Ingress -/

/-- The proof-of-work admission test on `hash.ulongs[1]`. -/
def DEX_txpow (hash : bits256) : Bool :=
  decide ((hash.ulongs1 % 2 ^ 64) &&& KOMODO_DEX_TXPOWMASK = 0x777 &&& KOMODO_DEX_TXPOWMASK)

/-- The blob `komodo_DEXadd` builds in the zeroed allocation. -/
def DEX_newblob (now : Nat) (hash : bits256) (msg : Nat → Nat) (len offset : Nat) :
    DEX_datablob :=
  { hash := hash
    prevs := fun _ => 0
    nexts := fun _ => 0
    peermask := 0
    recvtime := now
    datalen := len
    numsent := 0
    offset := (offset + KOMODO_DEX_ROUTESIZE) % 256
    data := (memBytes msg len).set 0
      (if msg 0 % 256 ≠ 0xff then (msg 0 % 256 + 255) % 256 else msg 0 % 256) }

/-- The argument `len-KOMODO_DEX_ROUTESIZE` that `komodo_DEXadd` hands to
`komodo_DEX_extract`, as the length test `len < sizeof(amountA)+sizeof(amountB)+3`
of that function sees it: the `int32_t` difference is converted to `size_t`,
so a negative difference (`len < KOMODO_DEX_ROUTESIZE`) is a value of at least
`2^64 - 6` and passes the test. -/
def komodo_DEXadd_hdrlen (len : Nat) : Nat :=
  if len < KOMODO_DEX_ROUTESIZE then 2 ^ 64 - (KOMODO_DEX_ROUTESIZE - len)
  else len - KOMODO_DEX_ROUTESIZE

/-- The function `komodo_DEXadd`.  `newptr` is the pointer `calloc` returns
(`0` when the allocation fails).  The result is the new state and the returned
value.  With `len == 0` the blob has no data bytes and the statement
`ptr->data[0] = ...` writes behind them: a fault. -/
def komodo_DEXadd (s : DEXState) (openind : Int) (now modval : Nat) (hash : bits256)
    (shorthash : Nat) (msg : Nat → Nat) (len : Nat) (newptr : Nat) : Option (DEXState × Int) :=
  if DEX_txpow hash = false then some (s, -1)
  else
    let priority := komodo_DEX_priority hash.ulongs1
    let f := if openind < 0 ∨ openind ≥ (KOMODO_DEX_HASHSIZE : Int)
             then komodo_DEXfind s modval shorthash else (-1, openind)
    if f.1 ≥ 0 then some (s, f.1)
    else
      let openind1 := f.2
      if openind1 < 0 ∨ s.Hashtables modval openind1.toNat ≠ 0
          ∨ s.Datablobs modval openind1.toNat ≠ 0 then some (s, -1)
      else
        let ind := openind1.toNat
        match komodo_DEX_extract (bufAt msg KOMODO_DEX_ROUTESIZE) (komodo_DEXadd_hdrlen len) with
        | none => none
        | some none => some (s, -1)
        | some (some x) =>
          if newptr = 0 then some (s, -1)
          else if len = 0 then none
          else
            let s1 : DEXState :=
              { s with heap := Function.update s.heap newptr
                         (some (DEX_newblob now hash msg len x.offset)),
                       Datablobs := set2 s.Datablobs modval ind newptr,
                       Hashtables := set2 s.Hashtables modval ind shorthash,
                       DEX_totaladd := (s.DEX_totaladd + 1) % U32 }
            match DEX_updatetips s1 priority newptr x.lenA
                (x.tagA ++ List.replicate (KOMODO_DEX_TAGSIZE + 1 - x.tagA.length) 0) x.lenB
                (x.tagB ++ List.replicate (KOMODO_DEX_TAGSIZE + 1 - x.tagB.length) 0)
                x.destpub33 x.plen with
            | none => none
            | some r => some (r.1, (ind : Int))

/-! ## Purge -/

/-- The timestamp `iguana_rwnum(0,&msg[2],sizeof(t),&t)` of a stored frame. -/
def DEX_blobtime (b : DEX_datablob) : Nat :=
  iguana_rwnum_dec (fun j => b.data.getD (j + 2) 0) 4

/-- The loop of `komodo_DEXpurge` over the cells of bucket `modval`; first
argument: iterations left, second: `i`, last: `n`.  A non-zero short hash over
a null blob pointer reaches `ptr->datalen` and faults. -/
def komodo_DEXpurge_loop (cutoff modval : Nat) :
    Nat → Nat → DEXState → Int → Option (DEXState × Int)
  | 0, _, s, n => some (s, n)
  | k + 1, i, s, n =>
    if s.Hashtables modval i ≠ 0 then
      let ptr := s.Datablobs modval i
      if ptr ≠ 0 then
        match s.heap ptr with
        | none => none
        | some b =>
          if DEX_blobtime b ≠ cutoff then komodo_DEXpurge_loop cutoff modval k (i + 1) s n
          else
            match DEX_unlinkindices s ptr with
            | none => none
            | some r =>
              let s1 := r.1
              komodo_DEXpurge_loop cutoff modval k (i + 1)
                { s1 with Hashtables := set2 s1.Hashtables modval i 0,
                          Datablobs := set2 s1.Datablobs modval i 0,
                          heap := Function.update s1.heap ptr none } (n + 1)
      else none
    else komodo_DEXpurge_loop cutoff modval k (i + 1) s n

/-- The function `komodo_DEXpurge`.  The statistics line divides by
`cutoff - lastcutoff`; a zero divisor is a fault. -/
def komodo_DEXpurge (s : DEXState) (cutoff : Nat) : Option (DEXState × Int) :=
  let s0 : DEXState :=
    if cutoff % SECONDS_IN_DAY = SECONDS_IN_DAY - 1 then { s with DEX_peermaps := fun _ _ => 0 }
    else s
  let modval := cutoff % KOMODO_DEX_PURGETIME
  match komodo_DEXpurge_loop cutoff modval KOMODO_DEX_HASHSIZE 0 s0 0 with
  | none => none
  | some (s1, n) =>
    if n ≠ 0 ∨ modval % 60 = 0 then
      if wrap32 ((cutoff : Int) - (s1.lastcutoff : Int)) = 0 then none
      else some ({ s1 with lastcutoff := cutoff }, n)
    else some (s1, n)

/-! ## Frames sent -/

/-- The function `komodo_DEXgenget`: the 14 bytes of a G frame. -/
def komodo_DEXgenget (timestamp shorthash : Nat) (modval : Int) : List Nat :=
  [0, 71] ++ iguana_rwnum_enc 4 timestamp ++ iguana_rwnum_enc 4 shorthash
    ++ iguana_rwnum_enc 4 (modval % 4294967296).toNat

/-- The function `komodo_DEXgenping`: the bytes of a P frame advertising
`recents[0..n-1]`. -/
def komodo_DEXgenping (timestamp : Nat) (modval : Int) (recents : List Nat) (n : Nat) : List Nat :=
  [0, 80] ++ iguana_rwnum_enc 4 timestamp ++ iguana_rwnum_enc 2 n
    ++ iguana_rwnum_enc 4 (modval % 4294967296).toNat
    ++ ((recents.take n).map (iguana_rwnum_enc 4)).flatten

/-- The function `komodo_DEXpacketsend`.  Its parameter `peerpos` is a
`uint8_t`, so the caller's 16-bit slot is reduced modulo 256. -/
def komodo_DEXpacketsend (s : DEXState) (peer : Int) (peerpos ptr resp0 : Nat) :
    Option (DEXState × Int) :=
  let peerpos8 := peerpos % 256
  match s.heap ptr with
  | none => none
  | some b =>
    if b.datalen = 0 then none
    else
      let s1 := heapSet s ptr { b with peermask := SETBIT b.peermask peerpos8 }
      let packet := (b.data.take b.datalen).set 0 (resp0 % 256)
      some ({ s1 with outbox := s1.outbox ++ [(peer, packet)],
                      DEX_totalsent := (s1.DEX_totalsent + 1) % U32 }, (b.datalen : Int))

/-- The scan loop of `komodo_DEXmodval` over the cells of bucket `modval`;
first argument: iterations left, second: `i`, last: the short hashes collected
in `recents`. -/
def komodo_DEXmodval_loop (now modval : Nat) (peer : Int) (peerpos : Nat) :
    Nat → Nat → DEXState → List Nat → Option (DEXState × List Nat)
  | 0, _, s, recents => some (s, recents)
  | k + 1, i, s, recents =>
    if s.Hashtables modval i ≠ 0 ∧ s.Datablobs modval i ≠ 0 then
      let ptr := s.Datablobs modval i
      match s.heap ptr with
      | none => none
      | some b =>
        let relay := b.data.getD 0 0
        let t := DEX_blobtime b
        if now < (t + KOMODO_DEX_MAXLAG) % U32 then
          if GETBIT b.peermask peerpos = false then
            let recents1 := recents ++ [s.Hashtables modval i]
            if b.numsent < KOMODO_DEX_MAXFANOUT
                ∧ s.DEX_Numpending < ((KOMODO_DEX_HASHSIZE / 8 : Nat) : Int) then
              if 0 ≤ relay ∧ relay ≤ KOMODO_DEX_RELAYDEPTH
                  ∧ now < (t + KOMODO_DEX_LOCALHEARTBEAT) % U32 then
                match komodo_DEXpacketsend s peer peerpos ptr (b.data.getD 0 0) with
                | none => none
                | some r =>
                  match r.1.heap ptr with
                  | none => none
                  | some b1 =>
                    komodo_DEXmodval_loop now modval peer peerpos k (i + 1)
                      (heapSet r.1 ptr { b1 with numsent := (b1.numsent + 1) % 256 }) recents1
              else komodo_DEXmodval_loop now modval peer peerpos k (i + 1) s recents1
            else komodo_DEXmodval_loop now modval peer peerpos k (i + 1) s recents1
          else komodo_DEXmodval_loop now modval peer peerpos k (i + 1) s recents
        else komodo_DEXmodval_loop now modval peer peerpos k (i + 1) s recents
    else komodo_DEXmodval_loop now modval peer peerpos k (i + 1) s recents

/-- The function `komodo_DEXmodval`. -/
def komodo_DEXmodval (s : DEXState) (now : Nat) (modval : Int) (peer : Int) :
    Option (DEXState × Int) :=
  if modval < 0 ∨ modval ≥ (KOMODO_DEX_PURGETIME : Int) then some (s, -1)
  else
    let r := komodo_DEXpeerpos s now peer
    if r.2 = 0xffff then some (r.1, -1)
    else
      match komodo_DEXmodval_loop now modval.toNat peer r.2 KOMODO_DEX_HASHSIZE 0 r.1 [] with
      | none => none
      | some (s1, recents) =>
        let n := recents.length
        if n > 0 then
          some ({ s1 with outbox := s1.outbox ++ [(peer, komodo_DEXgenping now modval recents n)] },
                (n : Int))
        else some (s1, (n : Int))

/-! ## Poll -/

/-- The statement `DEX_Numpending *= 0.995`: the product is formed in double
precision and converted back to `int32_t` by truncation.  For every 32-bit
value the rounded product truncates to the same integer as the exact product
`n * 995 / 1000`. -/
def DEX_decay (n : Int) : Int := Int.tdiv (n * 995) 1000

/-- The loop `for (; purgetime<ptime; purgetime++) komodo_DEXpurge(purgetime);`
of `komodo_DEXpoll`; first argument: iterations left. -/
def komodo_DEXpoll_purgeloop (ptime : Nat) : Nat → DEXState → Option DEXState
  | 0, s => some s
  | k + 1, s =>
    if s.purgetime < ptime then
      match komodo_DEXpurge s s.purgetime with
      | none => none
      | some r => komodo_DEXpoll_purgeloop ptime k { r.1 with purgetime := (r.1.purgetime + 1) % U32 }
    else some s

/-- The loop `for (i=0; i<KOMODO_DEX_MAXLAG/3; i++)` of `komodo_DEXpoll`;
first argument: iterations left, second: `i`. -/
def komodo_DEXpoll_scanloop (now : Nat) (pto : Int) : Nat → Nat → DEXState → Option DEXState
  | 0, _, s => some s
  | k + 1, i, s =>
    let modval := wrap32 ((now : Int) + 1 - (i : Int)) % KOMODO_DEX_PURGETIME
    match komodo_DEXmodval s now (modval : Int) pto with
    | none => none
    | some r =>
      komodo_DEXpoll_scanloop now pto k (i + 1)
        (if r.2 > 0 then { r.1 with dexlastping := Function.update r.1.dexlastping pto now }
         else r.1)

/-- The first half of `komodo_DEXpoll`: the catch-up of `purgetime` and the
decay of `DEX_Numpending`. -/
def komodo_DEXpoll_purgephase (s : DEXState) (now : Nat) : Option DEXState :=
  let ptime := wrap32 ((now : Int) - (KOMODO_DEX_PURGETIME : Nat) + (KOMODO_DEX_MAXLAG : Nat))
  if ptime > s.purgetime then
    match (if s.purgetime = 0 then some { s with purgetime := ptime }
           else komodo_DEXpoll_purgeloop ptime (ptime - s.purgetime) s) with
    | none => none
    | some s1 => some { s1 with DEX_Numpending := DEX_decay s1.DEX_Numpending }
  else some s

/-- The second half of `komodo_DEXpoll`: the push scan for the peer `pto`. -/
def komodo_DEXpoll_scanphase (s2 : DEXState) (now : Nat) (pto : Int) : Option DEXState :=
  if (now = s2.Got_Recent_Quote ∧ now > s2.dexlastping pto)
      ∨ now ≥ (s2.dexlastping pto + KOMODO_DEX_LOCALHEARTBEAT) % U32 then
    komodo_DEXpoll_scanloop now pto (KOMODO_DEX_MAXLAG / 3) 0 s2
  else some s2

/-- The function `komodo_DEXpoll`; `now` is the value of `time(NULL)`, `pto`
the id of the peer polled. -/
def komodo_DEXpoll (s : DEXState) (now : Nat) (pto : Int) : Option DEXState :=
  match komodo_DEXpoll_purgephase s now with
  | none => none
  | some s2 => komodo_DEXpoll_scanphase s2 now pto

/-! ## Receive dispatch -/

/-- The branch `funcid == 'Q'` of `komodo_DEXprocess`.  After a failed
`komodo_DEXadd` the code reads `Datablobs[modval][ind]` with `ind == -1`; a
subscript outside `0 .. KOMODO_DEX_HASHSIZE-1` is a fault. -/
def komodo_DEXprocess_Q (vcalc_sha256 : List Nat → bits256) (s : DEXState) (now : Nat)
    (peerpos : Nat) (relay t modval : Nat) (msg : Nat → Nat) (len : Nat) (newptr : Nat) :
    Option (DEXState × Int) :=
  let hash := komodo_DEXquotehash vcalc_sha256 msg len
  let h := hash.uints0
  let s1 : DEXState := { s with DEX_totalrecv := (s.DEX_totalrecv + 1) % U32 }
  if DEX_txpow hash = false then some (s1, 0)
  else if relay ≤ KOMODO_DEX_RELAYDEPTH ∨ relay = 0xff then
    let f := komodo_DEXfind s1 modval h
    match (if f.1 < 0 then
             match komodo_DEXadd s1 f.2 now modval hash h msg len newptr with
             | none => none
             | some (s2, ind) =>
               if ind ≥ 0 then
                 let r := komodo_DEXfind32 s2 PENDINGS_SIZE h 1
                 let s3 : DEXState :=
                   if r.2 ≥ 0 then
                     (if r.1.DEX_Numpending > 0
                      then { r.1 with DEX_Numpending := r.1.DEX_Numpending - 1 } else r.1)
                   else r.1
                 some ({ s3 with Got_Recent_Quote := now,
                                 DEX_totallag := if now > t then s3.DEX_totallag + ((now - t : Nat) : Int)
                                                 else s3.DEX_totallag }, ind)
               else some (s2, ind)
           else some ({ s1 with DEX_duplicate := (s1.DEX_duplicate + 1) % U32 }, f.1)) with
    | none => none
    | some (s6, ind) =>
      if ind < 0 ∨ ind ≥ (KOMODO_DEX_HASHSIZE : Int) then none
      else
        let ptr := s6.Datablobs modval ind.toNat
        if ptr ≠ 0 then
          match s6.heap ptr with
          | none => none
          | some b => some (heapSet s6 ptr { b with peermask := SETBIT b.peermask peerpos }, 0)
        else some (s6, 0)
  else some (s1, 0)

/-- The loop `for (flag=i=0; i<n; i++)` of the branch `funcid == 'P'`; first
argument: iterations left, second: `offset`. -/
def komodo_DEXprocess_Ploop (now : Nat) (pfrom : Int) (msg : Nat → Nat) (modval : Nat) :
    Nat → Nat → DEXState → DEXState
  | 0, _, s => s
  | k + 1, offset, s =>
    if s.DEX_Numpending > (KOMODO_DEX_HASHSIZE : Int) then s
    else
      let h := iguana_rwnum_dec (bufAt msg offset) 4
      if (komodo_DEXfind s modval h).1 ≥ 0 then
        komodo_DEXprocess_Ploop now pfrom msg modval k (offset + 4) s
      else
        let r := komodo_DEXfind32 s PENDINGS_SIZE h 0
        if r.2 < 0 then
          let s2 := (komodo_DEXadd32 r.1 PENDINGS_SIZE h).1
          komodo_DEXprocess_Ploop now pfrom msg modval k (offset + 4)
            { s2 with DEX_Numpending := s2.DEX_Numpending + 1,
                      outbox := s2.outbox ++ [(pfrom, komodo_DEXgenget now h (modval : Int))] }
        else komodo_DEXprocess_Ploop now pfrom msg modval k (offset + 4) r.1

/-- The branch `funcid == 'P'` of `komodo_DEXprocess`. -/
def komodo_DEXprocess_P (s : DEXState) (now : Nat) (pfrom : Int) (msg : Nat → Nat) (len : Nat) :
    Option (DEXState × Int) :=
  if len ≥ 12 then
    let n := iguana_rwnum_dec (bufAt msg KOMODO_DEX_ROUTESIZE) 2
    let modval := toInt32 (iguana_rwnum_dec (bufAt msg (KOMODO_DEX_ROUTESIZE + 2)) 4)
    let offset := KOMODO_DEX_ROUTESIZE + 2 + 4
    if offset + n * 4 = len ∧ modval ≥ 0 ∧ modval < (KOMODO_DEX_PURGETIME : Int) then
      some (komodo_DEXprocess_Ploop now pfrom msg modval.toNat n offset s, 0)
    else some (s, 0)
  else some (s, 0)

/-- The branch `funcid == 'G'` of `komodo_DEXprocess`. -/
def komodo_DEXprocess_G (s : DEXState) (pfrom : Int) (peerpos : Nat) (msg : Nat → Nat) :
    Option (DEXState × Int) :=
  let h := iguana_rwnum_dec (bufAt msg KOMODO_DEX_ROUTESIZE) 4
  let modval := toInt32 (iguana_rwnum_dec (bufAt msg (KOMODO_DEX_ROUTESIZE + 4)) 4)
  if modval ≥ 0 ∧ modval < (KOMODO_DEX_PURGETIME : Int) then
    let f := komodo_DEXfind s modval.toNat h
    if f.1 ≥ 0 ∧ s.Datablobs modval.toNat f.1.toNat ≠ 0 then
      let ptr := s.Datablobs modval.toNat f.1.toNat
      match s.heap ptr with
      | none => none
      | some b =>
        if GETBIT b.peermask peerpos = false then komodo_DEXpacketsend s pfrom peerpos ptr 0
        else some (s, 0)
    else some (s, 0)
  else some (s, 0)

/-- The dispatch on `funcid` of `komodo_DEXprocess`, reached by a frame that
passed the timestamp tests. -/
def komodo_DEXprocess_dispatch (vcalc_sha256 : List Nat → bits256) (s : DEXState) (now : Nat)
    (pfrom : Int) (peerpos : Nat) (relay funcid t modval : Nat) (msg : Nat → Nat) (len : Nat)
    (newptr : Nat) : Option (DEXState × Int) :=
  if funcid = 81 then komodo_DEXprocess_Q vcalc_sha256 s now peerpos relay t modval msg len newptr
  else if funcid = 80 then komodo_DEXprocess_P s now pfrom msg len
  else if funcid = 71 then komodo_DEXprocess_G s pfrom peerpos msg
  else some (s, 0)

/-- The function `komodo_DEXprocess`; `pfrom` is the id of the sending peer,
`newptr` the pointer a `calloc` inside `komodo_DEXadd` returns. -/
def komodo_DEXprocess (vcalc_sha256 : List Nat → bits256) (s : DEXState) (now : Nat)
    (pfrom : Int) (msg : Nat → Nat) (len : Nat) (newptr : Nat) : Option (DEXState × Int) :=
  let r := komodo_DEXpeerpos s now pfrom
  let peerpos := r.2
  if len ≥ KOMODO_DEX_ROUTESIZE ∧ peerpos ≠ 0xffff then
    let relay := msg 0 % 256
    let funcid := msg 1 % 256
    let t := iguana_rwnum_dec (bufAt msg 2) 4
    let modval := t % KOMODO_DEX_PURGETIME
    let lag0 := toInt32 (wrap32 ((now : Int) - (t : Int)))
    let lag := if lag0 < 0 then 0 else lag0
    if t > (now + KOMODO_DEX_LOCALHEARTBEAT) % U32 then some (r.1, 0)
    else if lag > (KOMODO_DEX_MAXLAG : Int) then
      some ({ r.1 with DEX_maxlag := (r.1.DEX_maxlag + 1) % U32 }, 0)
    else komodo_DEXprocess_dispatch vcalc_sha256 r.1 now pfrom peerpos relay funcid t modval
           msg len newptr
  else some (r.1, 0)

/-! ## Quotes sent -/

/-- A byte list as a buffer; a read past its end gives 0. -/
def bufOf (l : List Nat) : Nat → Nat := fun i => l.getD i 0

/-- The quote header that `komodo_DEXbroadcast` writes into `quote[]`, from
`len = iguana_rwnum(1,&quote[len],sizeof(amountA),&amountA)` to the write of
`tagB`: the two amounts, the destpub byte with the 33 bytes of `destpub` when
`is_hexstr(destpub33,0) == 66` (`hasdest`), then each tag as its length byte
and its characters.  `tagA` and `tagB` hold the characters of the C strings. -/
def komodo_DEXbroadcast_hdr (amountA amountB : Nat) (hasdest : Bool) (destpub : Nat → Nat)
    (tagA tagB : List Nat) : List Nat :=
  iguana_rwnum_enc 8 amountA ++ (iguana_rwnum_enc 8 amountB
    ++ ((if hasdest then [33] ++ memBytes destpub 33 else [0])
    ++ ((if tagA.length > 0 then [tagA.length % 256] ++ tagA.map (fun c => c % 256) else [0])
    ++ (if tagB.length > 0 then [tagB.length % 256] ++ tagB.map (fun c => c % 256) else [0]))))

/-- The bytes that `komodo_DEXgenquote` writes behind the header: the `datalen`
bytes the loop `quote[len++] = data[i]` copies, or none when `data` is null
(the test `data != 0` skips the loop and `len` is not advanced). -/
def komodo_DEXgenquote_data (data : Option (Nat → Nat)) (datalen : Nat) : List Nat :=
  match data with
  | some d => memBytes d datalen
  | none => []

/-- The bytes `quote[0 .. len-1]` that `komodo_DEXgenquote` assembles, with the
nonce `nonce` written in the last four: `[KOMODO_DEX_RELAYDEPTH]['Q'][timestamp]
[hdr][data][nonce]`.  With a null `data` the nonce follows the header. -/
def komodo_DEXgenquote_frame (timestamp : Nat) (hdr : Nat → Nat) (hdrlen : Nat)
    (data : Option (Nat → Nat)) (datalen : Nat) (nonce : Nat) : List Nat :=
  [KOMODO_DEX_RELAYDEPTH, 81] ++ (iguana_rwnum_enc 4 timestamp ++ (memBytes hdr hdrlen
    ++ (komodo_DEXgenquote_data data datalen
    ++ iguana_rwnum_enc 4 nonce)))

/-- One call of an entry point of the store.  `newptr` stands for the result
of `calloc`: null or a pointer that is not allocated. -/
inductive Step (vcalc_sha256 : List Nat → bits256) : DEXState → DEXState → Prop
  | process (s s1 : DEXState) (now : Nat) (pfrom : Int) (msg : Nat → Nat) (len newptr : Nat)
      (ret : Int) (hnow : now < U32) (hfresh : newptr = 0 ∨ s.heap newptr = none)
      (h : komodo_DEXprocess vcalc_sha256 s now pfrom msg len newptr = some (s1, ret)) :
      Step vcalc_sha256 s s1
  | add (s s1 : DEXState) (openind : Int) (now modval : Nat) (hash : bits256) (shorthash : Nat)
      (msg : Nat → Nat) (len newptr : Nat) (ret : Int) (hnow : now < U32)
      (hmod : modval < KOMODO_DEX_PURGETIME) (hfresh : newptr = 0 ∨ s.heap newptr = none)
      (h : komodo_DEXadd s openind now modval hash shorthash msg len newptr = some (s1, ret)) :
      Step vcalc_sha256 s s1
  | poll (s s1 : DEXState) (now : Nat) (pto : Int) (hnow : now < U32)
      (h : komodo_DEXpoll s now pto = some s1) : Step vcalc_sha256 s s1
  | purge (s s1 : DEXState) (cutoff : Nat) (ret : Int) (hcut : cutoff < U32)
      (h : komodo_DEXpurge s cutoff = some (s1, ret)) : Step vcalc_sha256 s s1

/-- The states reachable from the empty store by calls of
`komodo_DEXprocess`, `komodo_DEXadd` (as `komodo_DEXbroadcast` calls it),
`komodo_DEXpoll` and `komodo_DEXpurge`. -/
inductive Reachable (vcalc_sha256 : List Nat → bits256) : DEXState → Prop
  | init : Reachable vcalc_sha256 DEXState.empty
  | step (s s1 : DEXState) (hs : Reachable vcalc_sha256 s) (h : Step vcalc_sha256 s s1) :
      Reachable vcalc_sha256 s1

/-! ## Predicates used in the statements -/

/-- A blob with its list links erased. -/
def DEX_datablob.nolinks (b : DEX_datablob) : DEX_datablob :=
  { b with prevs := fun _ => 0, nexts := fun _ => 0 }

/-- A state with the heap and the three index arrays erased. -/
def DEXState.noindex (s : DEXState) : DEXState :=
  { s with heap := fun _ => none, DEX_destpubs := fun _ => DEX_index.zero,
           DEX_tagAs := fun _ => DEX_index.zero, DEX_tagABs := fun _ => DEX_index.zero }

/-- The state `s1` differs from `s` at most in the index arrays and in the
`prevs`/`nexts` links of the allocated blobs; the same pointers are allocated. -/
def IndexFrame (s s1 : DEXState) : Prop :=
  s1.noindex = s.noindex
  ∧ ∀ p, (s1.heap p).map DEX_datablob.nolinks = (s.heap p).map DEX_datablob.nolinks

/-- The properties of a stored blob that the invariants C2 and C8 speak of:
its hash passes the admission test and it was forwarded at most
`KOMODO_DEX_MAXFANOUT` times. -/
def GoodBlob (b : DEX_datablob) : Prop :=
  DEX_txpow b.hash = true ∧ b.numsent ≤ KOMODO_DEX_MAXFANOUT

/-- Every allocated blob is a `GoodBlob`. -/
def HeapGood (s : DEXState) : Prop := ∀ p b, s.heap p = some b → GoodBlob b

/-- Cell `i` of bucket `modval` holds a blob stamped `cutoff`: the short hash
is non-zero and the blob behind the pointer carries the timestamp `cutoff`. -/
def DEX_purgeable (s : DEXState) (cutoff modval i : Nat) : Bool :=
  decide (s.Hashtables modval i ≠ 0)
    && (match s.heap (s.Datablobs modval i) with
        | some b => decide (DEX_blobtime b = cutoff)
        | none => false)

/-- The number of cells `i, i+1, .., i+k-1` of bucket `modval` that hold a
blob stamped `cutoff`. -/
def DEX_purgecount (s : DEXState) (cutoff modval : Nat) : Nat → Nat → Nat
  | 0, _ => 0
  | k + 1, i =>
    (if DEX_purgeable s cutoff modval i then 1 else 0) + DEX_purgecount s cutoff modval k (i + 1)

/-- Bucket `modval` can be purged from cell `i` on without a fault: every
non-zero cell `j >= i` of `Hashtables[modval]` has an allocated blob behind a
non-null pointer that is stored in no cell `i .. j-1`, and if the blob is
stamped `cutoff`, its `nexts` pointer on every axis is null or points to an
allocated blob that is stored in no cell `i .. j-1`. -/
def PurgeSafe (s : DEXState) (cutoff modval i : Nat) : Prop :=
  ∀ j, i ≤ j → j < KOMODO_DEX_HASHSIZE → s.Hashtables modval j ≠ 0 →
    s.Datablobs modval j ≠ 0
    ∧ ∃ b, s.heap (s.Datablobs modval j) = some b
      ∧ (∀ j1, i ≤ j1 → j1 < j → s.Hashtables modval j1 ≠ 0 →
            s.Datablobs modval j1 ≠ s.Datablobs modval j)
      ∧ (DEX_blobtime b = cutoff → ∀ ind, ind < KOMODO_DEX_MAXINDICES →
            b.nexts ind = 0
            ∨ ((∃ nb, s.heap (b.nexts ind) = some nb)
               ∧ ∀ j1, i ≤ j1 → j1 < j → s.Hashtables modval j1 ≠ 0 →
                   s.Datablobs modval j1 ≠ b.nexts ind))

/-- What the purge loop, started at cell `i` with `k` iterations left and the
counter at `n`, has done when it returns `r`: the counter grew by the number of
cells holding a blob stamped `cutoff`; each such cell is cleared and its blob
freed; every other cell of the bucket is as before; nothing was allocated and
`lastcutoff` is as before. -/
def PurgePost (s : DEXState) (cutoff modval k i : Nat) (n : Int) (r : DEXState × Int) : Prop :=
  r.2 = n + (DEX_purgecount s cutoff modval k i : Nat)
  ∧ (∀ j, i ≤ j → j < KOMODO_DEX_HASHSIZE →
      (DEX_purgeable s cutoff modval j = true →
        r.1.Hashtables modval j = 0 ∧ r.1.Datablobs modval j = 0
        ∧ r.1.heap (s.Datablobs modval j) = none)
      ∧ (DEX_purgeable s cutoff modval j = false →
        r.1.Hashtables modval j = s.Hashtables modval j
        ∧ r.1.Datablobs modval j = s.Datablobs modval j))
  ∧ (∀ j, j < i → r.1.Hashtables modval j = s.Hashtables modval j
                  ∧ r.1.Datablobs modval j = s.Datablobs modval j)
  ∧ (∀ p, s.heap p = none → r.1.heap p = none)
  ∧ r.1.lastcutoff = s.lastcutoff

/-- The blob records a non-zero length and holds that many bytes. -/
def LenBlob (b : DEX_datablob) : Prop := b.datalen ≠ 0 ∧ b.data.length = b.datalen

/-- Every allocated blob is a `LenBlob`. -/
def HeapLen (s : DEXState) : Prop := ∀ p b, s.heap p = some b → LenBlob b

/-- The pointers stored in the cells of `Datablobs` are allocated, and no
pointer is stored in two cells. -/
def StoreInj (s : DEXState) : Prop :=
  (∀ m i, s.Datablobs m i ≠ 0 → s.heap (s.Datablobs m i) ≠ none)
  ∧ (∀ m i m1 i1, s.Datablobs m i ≠ 0 → s.Datablobs m i = s.Datablobs m1 i1 →
      m = m1 ∧ i = i1)

/-! ## Concrete inputs used in the examples below -/

/-- A hash function for the examples: every frame hashes to the 256-bit value
whose `ulongs[0]` is `h0` and whose `ulongs[1]` is `0x777`. -/
def exampleSha (h0 : Nat) : List Nat → bits256 := fun _ => ⟨h0, 0x777, 0, 0⟩

/-- A 25-byte Q frame for the examples: relay byte `relay`, timestamp `t`, an
all-zero quote header (no amounts, no destpub, no tags), no payload, zero
nonce. -/
def exampleFrame (relay t : Nat) : Nat → Nat :=
  fun i => ([relay, 81] ++ iguana_rwnum_enc 4 t).getD i 0

/-- The store after peer 7 delivered `exampleFrame 10 1000` at time 1000 to
the empty store, the allocation returning pointer 1. -/
def exampleStored : DEXState :=
  match komodo_DEXprocess (exampleSha 5) DEXState.empty 1000 7 (exampleFrame 10 1000) 25 1 with
  | some r => r.1
  | none => DEXState.empty

/-- The blob of `exampleStored`: slot 5 of bucket 1000, marked present for
peer slot 1. -/
def exampleBlob : DEX_datablob :=
  { DEX_newblob 1000 (exampleSha 5 []) (exampleFrame 10 1000) 25 19 with peermask := 2 }

/-- The store `exampleStored` at a moment when 255 other peers (ids 1001 to
1255) hold the slots 1 to 255 of every epoch row, so that the next peer to
register gets slot 256. -/
def exampleCrowded : DEXState :=
  { exampleStored with
    DEX_peermaps := fun _ i => if 1 ≤ i ∧ i ≤ 255 then (i : Int) + 1000 else 0 }

/-- The 14-byte G frame of time 1000 asking for short hash 5 of bucket 1000. -/
def exampleGet : Nat → Nat :=
  fun i => (komodo_DEXgenget 1000 5 1000).getD i 0

/-- A hash function for the examples with several frames: `ulongs[0]` is one
more than the sum of the hashed bytes, `ulongs[1]` is `0x777`. -/
def exampleShaSum : List Nat → bits256 := fun l => ⟨1 + l.sum, 0x777, 0, 0⟩

/-- The bytes of a Q frame without amounts, destpub and payload: relay byte
10, timestamp `t`, tags `tagA` and `tagB`, zero nonce. -/
def exampleQuoteBytes (t : Nat) (tagA tagB : List Nat) : List Nat :=
  [10, 81] ++ iguana_rwnum_enc 4 t ++ iguana_rwnum_enc 8 0 ++ iguana_rwnum_enc 8 0 ++ [0]
    ++ [tagA.length] ++ tagA ++ [tagB.length] ++ tagB ++ [0, 0, 0, 0]

/-- The frame `exampleQuoteBytes t tagA tagB` as an input buffer. -/
def exampleQuote (t : Nat) (tagA tagB : List Nat) : Nat → Nat :=
  fun i => (exampleQuoteBytes t tagA tagB).getD i 0

/-- The state after peer 7 delivered, to the empty store, the quote
`(t, tagA, tagB)` at time `t`, the allocation returning `newptr`; `s` itself
when the delivery faults. -/
def exampleDeliver (s : DEXState) (t : Nat) (tagA tagB : List Nat) (newptr : Nat) : DEXState :=
  match komodo_DEXprocess exampleShaSum s t 7 (exampleQuote t tagA tagB)
      (exampleQuoteBytes t tagA tagB).length newptr with
  | some r => r.1
  | none => s

/-- The store holding one quote with `tagA = "a"`, stamped 1000: blob 1 in
cell 415 of bucket 1000, tip of the single-tag index `"a"`. -/
def exampleTagged : DEXState := exampleDeliver DEXState.empty 1000 [97] [] 1

/-- The iteration of the purge loop of `komodo_DEXpurge(1000)` on cell 415 of
`exampleTagged`, the only non-empty cell of bucket 1000. -/
def examplePurgeStep : DEXState × Int :=
  match komodo_DEXpurge_loop 1000 1000 1 415 exampleTagged 0 with
  | some r => r
  | none => (DEXState.empty, 0)

/-- The store `exampleTagged` after `komodo_DEXpurge(1000)`: the quote is
gone, the index `"a"` keeps its key with a null tip. -/
def examplePurged : DEXState := { examplePurgeStep.1 with lastcutoff := 1000 }

/-- The store `exampleTagged` after a second quote with `tagA = "a"`, stamped
1001, was delivered: blob 1 in bucket 1000, blob 2 in bucket 1001. -/
def exampleTwoBuckets : DEXState := exampleDeliver exampleTagged 1001 [97] [] 2

/-- The iteration of the purge loop of `komodo_DEXpurge(1000)` on cell 415 of
`exampleTwoBuckets`, the only non-empty cell of bucket 1000. -/
def exampleTwoBucketsStep : DEXState × Int :=
  match komodo_DEXpurge_loop 1000 1000 1 415 exampleTwoBuckets 0 with
  | some r => r
  | none => (DEXState.empty, 0)

/-- The store `exampleTwoBuckets` after `komodo_DEXpurge(1000)`. -/
def exampleTwoBucketsPurged : DEXState := { exampleTwoBucketsStep.1 with lastcutoff := 1000 }

/-- The 20-byte P frame of time 1000 advertising the short hashes 5 and 9 of
bucket 1000. -/
def examplePing : Nat → Nat :=
  fun i => (komodo_DEXgenping 1000 1000 [5, 9] 2).getD i 0

/-- A quote header of 19 bytes whose destpub length byte is 33: zero amounts,
byte 16 is 33, bytes 17 and 18 are zero; `b` is the byte found at index 20,
behind the end of the 19-byte buffer. -/
def exampleShortHeader (b : Nat) : Nat → Nat :=
  fun i => if i = 16 then 33 else if i = 20 then b else 0

/-- A 25-byte Q frame: relay byte 10, timestamp 1000, and the 19-byte header
`exampleShortHeader 0`. -/
def exampleShortDestFrame : Nat → Nat :=
  fun i => if i < 6 then exampleFrame 10 1000 i else exampleShortHeader 0 (i - 6)

/-- The result of `komodo_DEXadd` storing `exampleFrame 10 1000` in the empty
store, the allocation returning pointer 1. -/
def exampleAdded : DEXState × Int :=
  match komodo_DEXadd DEXState.empty (-1) 1000 1000 (exampleSha 5 []) 5 (exampleFrame 10 1000)
      25 1 with
  | some r => r
  | none => (DEXState.empty, -1)

/-- The blob of `exampleAdded`. -/
def exampleAddedBlob : DEX_datablob :=
  match exampleAdded.1.heap 1 with
  | some b => b
  | none => exampleBlob

/-- The state after peer 7 delivered the quote `(t, tagA, tagB)` at time `now`,
the allocation returning `newptr`; `s` itself when the delivery faults. -/
def exampleDeliverAt (s : DEXState) (now t : Nat) (tagA tagB : List Nat) (newptr : Nat) :
    DEXState :=
  match komodo_DEXprocess exampleShaSum s now 7 (exampleQuote t tagA tagB)
      (exampleQuoteBytes t tagA tagB).length newptr with
  | some r => r.1
  | none => s

/-- Two quotes with `tagA = "a"` delivered at time 1001: first the one stamped
1001 (blob 1, bucket 1001), then the one stamped 1000 (blob 2, bucket 1000).
Blob 2 is the tip of the index `"a"` and blob 1 its predecessor. -/
def exampleOutOfOrder : DEXState :=
  exampleDeliverAt (exampleDeliverAt DEXState.empty 1001 1001 [97] [] 1) 1001 1000 [97] [] 2

/-- The iteration of the purge loop of `komodo_DEXpurge(1000)` on cell 415 of
`exampleOutOfOrder`, the only non-empty cell of bucket 1000. -/
def exampleOutOfOrderStep : DEXState × Int :=
  match komodo_DEXpurge_loop 1000 1000 1 415 exampleOutOfOrder 0 with
  | some r => r
  | none => (DEXState.empty, 0)

/-- The store `exampleOutOfOrder` after `komodo_DEXpurge(1000)`: blob 2 is
freed. -/
def exampleOutOfOrderPurged : DEXState := { exampleOutOfOrderStep.1 with lastcutoff := 1000 }

/-- The index entry `x` has the blob `ptr` at its tip and carries the key
`keybuf`: its `len` is the length of the key and its `key` starts with the key
bytes. -/
def DEX_tipof (x : DEX_index) (ptr : Nat) (keybuf : List Nat) : Prop :=
  x.tip = ptr ∧ x.len = keybuf.length ∧ x.key.take keybuf.length = keybuf

/-- The bytes of a Q frame without amounts and payload: relay byte 10,
timestamp `t`, a 33-byte destpub of bytes `2`, tags `tagA` and `tagB`, zero
nonce. -/
def exampleDestQuoteBytes (t : Nat) (tagA tagB : List Nat) : List Nat :=
  [10, 81] ++ iguana_rwnum_enc 4 t ++ iguana_rwnum_enc 8 0 ++ iguana_rwnum_enc 8 0 ++ [33]
    ++ List.replicate 33 2 ++ [tagA.length] ++ tagA ++ [tagB.length] ++ tagB ++ [0, 0, 0, 0]

/-- The store after peer 7 delivered, to the empty store at time 1000, the
quote stamped 1000 with a destpub, `tagA = "a"` and `tagB = "b"`, the
allocation returning pointer 1. -/
def exampleThreeAxes : DEXState :=
  match komodo_DEXprocess exampleShaSum DEXState.empty 1000 7
      (fun i => (exampleDestQuoteBytes 1000 [97] [98]).getD i 0)
      (exampleDestQuoteBytes 1000 [97] [98]).length 1 with
  | some r => r.1
  | none => DEXState.empty

/-- The result of `DEX_updatetips` for the blob pointer 1 with a destpub of
bytes `2`, `tagA = "a"` and `tagB = "b"` on the empty index arrays. -/
def exampleTips : DEXState × (Nat → Option (Nat × Nat)) × Nat :=
  match DEX_updatetips DEXState.empty 0 1 1 [97] 1 [98] (List.replicate 33 2) 33 with
  | some r => r
  | none => (DEXState.empty, fun _ => none, 0)


/-- The catch-up loop in the words of the specification,
`while purge_time < limit: purge(purge_time++)`, unrolled over the list of the
cutoffs it visits: `komodo_DEXpurge` is called for each cutoff of the list in
order, and `purgetime` is the cutoff plus one after each call. -/
def DEX_catchup : List Nat → DEXState → Option DEXState
  | [], s => some s
  | c :: cs, s =>
    match komodo_DEXpurge s c with
    | none => none
    | some r => DEX_catchup cs { r.1 with purgetime := c + 1 }

/-- The store `exampleStored` (one quote stamped 1000, received at 1000, so
`Got_Recent_Quote` is 1000) at a moment when every peer was last pinged at
1000. -/
def exampleBurst : DEXState := { exampleStored with dexlastping := fun _ => 1000 }

/-- The state `exampleBurst` after the first half of `komodo_DEXpoll` at time
1000: `purgetime` was 0 and is set to `1000 - 3600 + 70` as `uint32_t`. -/
def exampleBurstPolled : DEXState :=
  { exampleBurst with purgetime := 4294964766,
                      DEX_Numpending := DEX_decay exampleBurst.DEX_Numpending }

/-- The empty store with `purgetime` 6469 at a moment when every peer was last
pinged at 10000. -/
def exampleCatchup : DEXState :=
  { DEXState.empty with purgetime := 6469, dexlastping := fun _ => 10000 }

/-- The value `ptime = now - KOMODO_DEX_PURGETIME + KOMODO_DEX_MAXLAG` of
`komodo_DEXpoll`, a `uint32_t`. -/
def komodo_DEXpoll_ptime (now : Nat) : Nat :=
  wrap32 ((now : Int) - (KOMODO_DEX_PURGETIME : Nat) + (KOMODO_DEX_MAXLAG : Nat))

/-- The state `exampleCatchup` after `komodo_DEXpoll` at time 10000. -/
def exampleCatchupPolled : DEXState :=
  { exampleCatchup with purgetime := 6470, DEX_Numpending := DEX_decay 0 }

/-- The condition under which the push scan forwards the blob `b` to the
peer holding slot `peerpos`, in the words of the specification with the relay
range starting at 0: the peer is not marked present, the blob is within
`MAX_LAG`, it was sent fewer than `FANOUT` times, fewer than `HASH_CAPACITY/8`
requests are pending, the stored relay byte is at most `RELAY_DEPTH`, and the
blob is fresh; the sums are `uint32_t`. -/
def DEX_forwardable (s : DEXState) (now peerpos : Nat) (b : DEX_datablob) : Prop :=
  GETBIT b.peermask peerpos = false
  ∧ now < (DEX_blobtime b + KOMODO_DEX_MAXLAG) % U32
  ∧ b.numsent < KOMODO_DEX_MAXFANOUT
  ∧ s.DEX_Numpending < ((KOMODO_DEX_HASHSIZE / 8 : Nat) : Int)
  ∧ b.data.getD 0 0 ≤ KOMODO_DEX_RELAYDEPTH
  ∧ now < (DEX_blobtime b + KOMODO_DEX_LOCALHEARTBEAT) % U32

/-- The state after the blob `b` stored at `ptr` was forwarded to `peer`, in
the words of the specification: the stored frame is handed to `PushMessage`,
the peer is marked present on the blob, `numsent` and `DEX_totalsent` are
incremented. -/
def DEX_forwarded (s : DEXState) (peer : Int) (peerpos ptr : Nat) (b : DEX_datablob) :
    DEXState :=
  heapSet { s with outbox := s.outbox ++ [(peer, b.data.take b.datalen)],
                   DEX_totalsent := (s.DEX_totalsent + 1) % U32 } ptr
    { b with peermask := SETBIT b.peermask (peerpos % 256), numsent := b.numsent + 1 }

/-- The store after peer 7 delivered `exampleFrame 1 1000` (relay byte 1) at
time 1000 to the empty store, the allocation returning pointer 1: the stored
relay byte is 0. -/
def exampleRelayZero : DEXState :=
  match komodo_DEXprocess (exampleSha 5) DEXState.empty 1000 7 (exampleFrame 1 1000) 25 1 with
  | some r => r.1
  | none => DEXState.empty

/-- The iteration of the scan loop of `komodo_DEXmodval(1000, 1000, peer 8)` on
cell 5 of `exampleRelayZero`, the only non-empty cell of bucket 1000; peer 8
holds slot 2. -/
def exampleRelayZeroStep : DEXState × List Nat :=
  match komodo_DEXmodval_loop 1000 1000 8 2 1 5 (komodo_DEXpeerpos exampleRelayZero 1000 8).1 []
  with
  | some r => r
  | none => (DEXState.empty, [])

/-- The state `exampleRelayZero` after `komodo_DEXmodval(1000, 1000, peer 8)`. -/
def exampleRelayZeroScanned : DEXState :=
  { exampleRelayZeroStep.1 with
    outbox := exampleRelayZeroStep.1.outbox ++ [(8, komodo_DEXgenping 1000 1000 [5] 1)] }

/-- The first 6 bytes of the G frame `exampleGet` (relay byte, funcid, timestamp
1000) followed by zero bytes. -/
def exampleGetShort : Nat → Nat := fun i => if i < 6 then exampleGet i else 0

/-- The store after peer 7 delivered, at time 1000 to the empty store, the
frame `exampleFrame 10 1000` whose hash has `uints[0] == 0` (hash function
`exampleSha 0`), the allocation returning pointer 1. -/
def exampleZeroHash : DEXState :=
  match komodo_DEXprocess (exampleSha 0) DEXState.empty 1000 7 (exampleFrame 10 1000) 25 1 with
  | some r => r.1
  | none => DEXState.empty

/-- The bound of C34 on the counter of pending requests:
`0 <= DEX_Numpending <= KOMODO_DEX_HASHSIZE + 1`. -/
def DEX_NumBound (s : DEXState) : Prop :=
  0 ≤ s.DEX_Numpending ∧ s.DEX_Numpending ≤ ((KOMODO_DEX_HASHSIZE + 1 : Nat) : Int)

/-! ## The list walk of the query surface -/

/-- The walk `ptr = index->tip; while ( ptr != 0 ) { ..; ptr = ptr->prevs[ind]; }`
of `komodo_DEXlist`, as the list of pointers it visits; first argument: the
number of iterations allowed.  `none` when the walk dereferences a pointer that
is not allocated or does not end within the allowed iterations. -/
def DEX_listwalk (s : DEXState) (ind : Nat) : Nat → Nat → Option (List Nat)
  | 0, ptr => if ptr = 0 then some [] else none
  | k + 1, ptr =>
    if ptr = 0 then some []
    else
      match s.heap ptr with
      | none => none
      | some b => (DEX_listwalk s ind k (b.prevs ind)).map (fun l => ptr :: l)

/-! # Verified properties -/

/-! ## The admission test -/

theorem txpow_false_iff (hash : bits256) :
    DEX_txpow hash = false ↔ (hash.ulongs1 % 2 ^ 64) &&& 0xFFF ≠ 0x777 := by
  have h2 : KOMODO_DEX_TXPOWMASK = 0xFFF := by decide
  have h1 : (0x777 : Nat) &&& 0xFFF = 0x777 := by decide
  unfold DEX_txpow
  rw [h2, h1]
  simp only [decide_eq_false_iff_not, ne_eq]

theorem txpow_true_iff (hash : bits256) :
    DEX_txpow hash = true ↔ (hash.ulongs1 % 2 ^ 64) &&& 0xFFF = 0x777 := by
  have h2 : KOMODO_DEX_TXPOWMASK = 0xFFF := by decide
  have h1 : (0x777 : Nat) &&& 0xFFF = 0x777 := by decide
  unfold DEX_txpow
  rw [h2, h1]
  simp only [decide_eq_true_eq]

/-! ## Frame lemmas for the index operations -/

theorem IndexFrame.refl (s : DEXState) : IndexFrame s s := ⟨rfl, fun _ => rfl⟩

theorem IndexFrame.trans {s s1 s2 : DEXState} (h1 : IndexFrame s s1) (h2 : IndexFrame s1 s2) :
    IndexFrame s s2 :=
  ⟨h2.1.trans h1.1, fun p => (h2.2 p).trans (h1.2 p)⟩

theorem IndexFrame_heapSet (s : DEXState) (p : Nat) (b b1 : DEX_datablob)
    (h : s.heap p = some b) (hb : b1.nolinks = b.nolinks) : IndexFrame s (heapSet s p b1) := by
  refine ⟨rfl, fun q => ?_⟩
  by_cases hq : q = p
  · subst hq
    simp only [heapSet, Function.update_same, h, Option.map_some', hb]
  · simp only [heapSet, Function.update_noteq hq]

theorem IndexFrame_setaxis (s : DEXState) (which : Nat) (arr : Nat → DEX_index) :
    IndexFrame s (DEX_setaxis s which arr) := by
  unfold DEX_setaxis
  split_ifs <;> exact ⟨rfl, fun _ => rfl⟩

theorem IndexFrame_setindex (s : DEXState) (which i : Nat) (x : DEX_index) :
    IndexFrame s (DEX_setindex s which i x) :=
  IndexFrame_setaxis s which _

theorem indexappend_frame (s : DEXState) (ind which i ptr : Nat)
    (r : DEXState × Option (Nat × Nat))
    (h : komodo_DEX_indexappend s ind which i ptr = some r) : IndexFrame s r.1 := by
  unfold komodo_DEX_indexappend at h
  simp only at h
  split at h
  · cases h
    exact IndexFrame.refl s
  · split at h
    · cases h
    · rename_i b hb
      split at h
      · cases h
      · rename_i tb htb
        cases h
        refine IndexFrame.trans ?_ (IndexFrame_setindex _ _ _ _)
        refine IndexFrame.trans ?_ (IndexFrame_heapSet _ _ tb _ htb rfl)
        exact IndexFrame_heapSet s ptr b _ hb rfl

theorem indexcreate_frame (s : DEXState) (which i : Nat) (keybuf : List Nat) (keylen ptr : Nat) :
    IndexFrame s (komodo_DEX_indexcreate s which i keybuf keylen ptr).1 := by
  unfold komodo_DEX_indexcreate
  simp only
  split
  · exact IndexFrame.refl s
  · exact IndexFrame_setindex _ _ _ _

theorem indexsearch_frame (s : DEXState) (ind priority ptr : Nat) (lenA : Int) (key : List Nat)
    (lenB : Int) (tagB : Option (List Nat)) (r : DEXState × Option (Nat × Nat))
    (h : DEX_indexsearch s ind priority ptr lenA key lenB tagB = some r) : IndexFrame s r.1 := by
  unfold DEX_indexsearch at h
  split at h
  · cases h
  · simp only at h
    split at h
    · split at h
      · exact indexappend_frame _ _ _ _ _ _ h
      · cases h
        exact IndexFrame.refl s
    · split at h
      · cases h
        exact IndexFrame.refl s
      · split at h
        · cases h
          exact IndexFrame.refl s
        · cases h
          exact indexcreate_frame _ _ _ _ _ _

theorem updatetips_frame (s : DEXState) (priority ptr : Nat) (lenA : Int) (tagA : List Nat)
    (lenB : Int) (tagB : List Nat) (destpub : List Nat) (plen : Int)
    (r : DEXState × (Nat → Option (Nat × Nat)) × Nat)
    (h : DEX_updatetips s priority ptr lenA tagA lenB tagB destpub plen = some r) :
    IndexFrame s r.1 := by
  unfold DEX_updatetips at h
  simp only at h
  split at h
  · cases h
    exact IndexFrame.refl s
  · split at h
    · cases h
    · rename_i s1 tips1 mask1 h1
      have f1 : IndexFrame s s1 := by
        split at h1
        · cases h0 : DEX_indexsearch s 0 priority ptr plen destpub 0 none with
          | none => simp [h0] at h1
          | some r0 =>
            simp only [h0, Option.map_some', Option.some.injEq, Prod.mk.injEq] at h1
            rw [← h1.1]
            exact indexsearch_frame _ _ _ _ _ _ _ _ _ h0
        · cases h1
          exact IndexFrame.refl s
      split at h
      · split at h
        · cases h
        · rename_i s2 r2 h2
          have f2 := indexsearch_frame _ _ _ _ _ _ _ _ _ h2
          split at h
          · split at h
            · cases h
            · rename_i s3 r3 h3
              have f3 := indexsearch_frame _ _ _ _ _ _ _ _ _ h3
              split at h
              · cases h
              · rename_i s4 r4 h4
                have f4 := indexsearch_frame _ _ _ _ _ _ _ _ _ h4
                cases h
                exact ((f1.trans f2).trans f3).trans f4
          · cases h
            exact f1.trans f2
      · split at h
        · split at h
          · cases h
          · rename_i s2 r2 h2
            have f2 := indexsearch_frame _ _ _ _ _ _ _ _ _ h2
            cases h
            exact f1.trans f2
        · cases h
          exact f1

theorem unlinkstep_frame (s : DEXState) (ptr ind : Nat) (n : Int) (r : DEXState × Int)
    (h : DEX_unlinkindices_step s ptr ind n = some r) : IndexFrame s r.1 := by
  unfold DEX_unlinkindices_step at h
  split at h
  · cases h
  · rename_i b hb
    simp only at h
    split at h
    · cases h
    · rename_i s2 n2 h2
      have f2 : IndexFrame s s2 := by
        split at h2
        · split at h2
          · cases h2
          · rename_i nb hnb
            split at h2
            · cases h2
            · rename_i b1 hb1
              cases h2
              refine IndexFrame.trans ?_ (IndexFrame_heapSet _ _ b1 _ hb1 rfl)
              exact IndexFrame_heapSet s _ nb _ hnb rfl
        · cases h2
          exact IndexFrame.refl s
      split at h
      · cases h
      · rename_i b3 hb3
        cases h
        refine IndexFrame.trans ?_ (IndexFrame_heapSet _ _ b3 _ hb3 rfl)
        exact f2.trans (IndexFrame_setaxis _ _ _)

theorem unlinkindices_frame (s : DEXState) (ptr : Nat) (r : DEXState × Int)
    (h : DEX_unlinkindices s ptr = some r) : IndexFrame s r.1 := by
  unfold DEX_unlinkindices at h
  split at h
  · cases h
  · rename_i s1 n1 h1
    split at h
    · cases h
    · rename_i s2 n2 h2
      exact ((unlinkstep_frame _ _ _ _ _ h1).trans (unlinkstep_frame _ _ _ _ _ h2)).trans
        (unlinkstep_frame _ _ _ _ _ h)

/-! ## Every allocated blob passed the admission test and was sent at most three times -/

theorem HeapGood_of_heap_eq {s s1 : DEXState} (h : s1.heap = s.heap) (hg : HeapGood s) :
    HeapGood s1 := by
  intro p b hb
  rw [h] at hb
  exact hg p b hb

theorem HeapGood_of_frame {s s1 : DEXState} (h : IndexFrame s s1) (hg : HeapGood s) :
    HeapGood s1 := by
  intro p b1 hb1
  have hp := h.2 p
  rw [hb1] at hp
  cases hb : s.heap p with
  | none => rw [hb] at hp; cases hp
  | some b =>
    rw [hb] at hp
    simp only [Option.map_some', Option.some.injEq] at hp
    have h1 : b1.nolinks.hash = b.nolinks.hash := congrArg DEX_datablob.hash hp
    have h2 : b1.nolinks.numsent = b.nolinks.numsent := congrArg DEX_datablob.numsent hp
    simp only [DEX_datablob.nolinks] at h1 h2
    have := hg p b hb
    unfold GoodBlob at *
    rw [h1, h2]
    exact this

theorem HeapGood_update {s s1 : DEXState} (p : Nat) (b : DEX_datablob)
    (h : s1.heap = Function.update s.heap p (some b)) (hb : GoodBlob b) (hg : HeapGood s) :
    HeapGood s1 := by
  intro q b1 hb1
  rw [h] at hb1
  by_cases hq : q = p
  · subst hq
    rw [Function.update_same] at hb1
    cases hb1
    exact hb
  · rw [Function.update_noteq hq] at hb1
    exact hg q b1 hb1

theorem HeapGood_free {s s1 : DEXState} (p : Nat)
    (h : s1.heap = Function.update s.heap p none) (hg : HeapGood s) : HeapGood s1 := by
  intro q b1 hb1
  rw [h] at hb1
  by_cases hq : q = p
  · subst hq
    rw [Function.update_same] at hb1
    cases hb1
  · rw [Function.update_noteq hq] at hb1
    exact hg q b1 hb1

theorem add_good (s : DEXState) (openind : Int) (now modval : Nat) (hash : bits256)
    (shorthash : Nat) (msg : Nat → Nat) (len newptr : Nat) (r : DEXState × Int)
    (h : komodo_DEXadd s openind now modval hash shorthash msg len newptr = some r)
    (hg : HeapGood s) : HeapGood r.1 := by
  unfold komodo_DEXadd at h
  simp only at h
  generalize (if openind < 0 ∨ openind ≥ ((KOMODO_DEX_HASHSIZE : Nat) : Int)
    then komodo_DEXfind s modval shorthash else (-1, openind)) = f at h
  split at h
  · cases h; exact hg
  · rename_i hpow
    split at h
    · cases h; exact hg
    · split at h
      · cases h; exact hg
      · split at h
        · cases h
        · cases h; exact hg
        · rename_i x hx
          split at h
          · cases h; exact hg
          · split at h
            · cases h
            · rename_i hl0
              split at h
              · cases h
              · rename_i r1 h1
                cases h
                refine HeapGood_of_frame (updatetips_frame _ _ _ _ _ _ _ _ _ _ h1) ?_
                refine HeapGood_update newptr _ rfl ?_ hg
                exact ⟨by simpa using hpow, Nat.zero_le _⟩

theorem purge_loop_good (cutoff modval : Nat) (k : Nat) :
    ∀ (i : Nat) (s : DEXState) (n : Int) (r : DEXState × Int),
      komodo_DEXpurge_loop cutoff modval k i s n = some r → HeapGood s → HeapGood r.1 := by
  induction k with
  | zero =>
    intro i s n r h hg
    simp only [komodo_DEXpurge_loop] at h
    cases h
    exact hg
  | succ k ih =>
    intro i s n r h hg
    simp only [komodo_DEXpurge_loop] at h
    split at h
    · split at h
      · split at h
        · cases h
        · split at h
          · exact ih _ _ _ _ h hg
          · split at h
            · cases h
            · rename_i r1 h1
              refine ih _ _ _ _ h ?_
              exact HeapGood_free _ rfl (HeapGood_of_frame (unlinkindices_frame _ _ _ h1) hg)
      · cases h
    · exact ih _ _ _ _ h hg

theorem purge_good (s : DEXState) (cutoff : Nat) (r : DEXState × Int)
    (h : komodo_DEXpurge s cutoff = some r) (hg : HeapGood s) : HeapGood r.1 := by
  unfold komodo_DEXpurge at h
  simp only at h
  split at h
  · cases h
  · rename_i s1 n h1
    have g1 : HeapGood s1 := by
      refine purge_loop_good _ _ _ _ _ _ (s1, n) h1 ?_
      split
      · exact hg
      · exact hg
    split at h
    · split at h
      · cases h
      · cases h; exact g1
    · cases h; exact g1

theorem packetsend_heap (s : DEXState) (peer : Int) (peerpos ptr resp0 : Nat)
    (r : DEXState × Int) (h : komodo_DEXpacketsend s peer peerpos ptr resp0 = some r) :
    ∃ b, s.heap ptr = some b
      ∧ r.1.heap = Function.update s.heap ptr
          (some { b with peermask := SETBIT b.peermask (peerpos % 256) }) := by
  unfold komodo_DEXpacketsend at h
  simp only at h
  split at h
  · cases h
  · rename_i b hb
    split at h
    · cases h
    · cases h
      exact ⟨b, hb, rfl⟩

theorem modval_loop_good (now modval : Nat) (peer : Int) (peerpos : Nat) (k : Nat) :
    ∀ (i : Nat) (s : DEXState) (recents : List Nat) (r : DEXState × List Nat),
      komodo_DEXmodval_loop now modval peer peerpos k i s recents = some r →
        HeapGood s → HeapGood r.1 := by
  induction k with
  | zero =>
    intro i s recents r h hg
    simp only [komodo_DEXmodval_loop] at h
    cases h
    exact hg
  | succ k ih =>
    intro i s recents r h hg
    simp only [komodo_DEXmodval_loop] at h
    split at h
    · split at h
      · cases h
      · rename_i b hb
        split at h
        · split at h
          · split at h
            · rename_i hsent
              split at h
              · split at h
                · cases h
                · rename_i r1 h1
                  split at h
                  · cases h
                  · rename_i b1 hb1
                    refine ih _ _ _ _ h ?_
                    obtain ⟨b0, hb0, hheap⟩ := packetsend_heap _ _ _ _ _ _ h1
                    rw [hb] at hb0
                    cases hb0
                    have hgb : GoodBlob b := hg _ b hb
                    have g1 : HeapGood r1.1 := HeapGood_update _ _ hheap hgb hg
                    rw [hheap, Function.update_same] at hb1
                    cases hb1
                    refine HeapGood_update _ _ rfl ?_ g1
                    refine ⟨hgb.1, ?_⟩
                    have h3 : b.numsent < 3 := hsent.1
                    show (b.numsent + 1) % 256 ≤ 3
                    omega
              · exact ih _ _ _ _ h hg
            · exact ih _ _ _ _ h hg
          · exact ih _ _ _ _ h hg
        · exact ih _ _ _ _ h hg
    · exact ih _ _ _ _ h hg

theorem modval_good (s : DEXState) (now : Nat) (modval : Int) (peer : Int) (r : DEXState × Int)
    (h : komodo_DEXmodval s now modval peer = some r) (hg : HeapGood s) : HeapGood r.1 := by
  unfold komodo_DEXmodval at h
  simp only at h
  split at h
  · cases h; exact hg
  · split at h
    · cases h; exact hg
    · split at h
      · cases h
      · rename_i s1 recents h1
        have g1 : HeapGood s1 := modval_loop_good _ _ _ _ _ _ _ _ (s1, recents) h1 hg
        split at h
        · cases h; exact g1
        · cases h; exact g1

theorem poll_purgeloop_good (ptime : Nat) (k : Nat) :
    ∀ (s s1 : DEXState), komodo_DEXpoll_purgeloop ptime k s = some s1 →
      HeapGood s → HeapGood s1 := by
  induction k with
  | zero =>
    intro s s1 h hg
    simp only [komodo_DEXpoll_purgeloop] at h
    cases h
    exact hg
  | succ k ih =>
    intro s s1 h hg
    simp only [komodo_DEXpoll_purgeloop] at h
    split at h
    · split at h
      · cases h
      · rename_i r hr
        exact ih _ _ h (purge_good _ _ _ hr hg)
    · cases h
      exact hg

theorem poll_scanloop_good (now : Nat) (pto : Int) (k : Nat) :
    ∀ (i : Nat) (s s1 : DEXState), komodo_DEXpoll_scanloop now pto k i s = some s1 →
      HeapGood s → HeapGood s1 := by
  induction k with
  | zero =>
    intro i s s1 h hg
    simp only [komodo_DEXpoll_scanloop] at h
    cases h
    exact hg
  | succ k ih =>
    intro i s s1 h hg
    simp only [komodo_DEXpoll_scanloop] at h
    split at h
    · cases h
    · rename_i r hr
      refine ih _ _ _ h ?_
      have g := modval_good _ _ _ _ _ hr hg
      split
      · exact g
      · exact g

theorem poll_purgephase_good (s : DEXState) (now : Nat) (s1 : DEXState)
    (h : komodo_DEXpoll_purgephase s now = some s1) (hg : HeapGood s) : HeapGood s1 := by
  unfold komodo_DEXpoll_purgephase at h
  simp only at h
  by_cases hc : wrap32 ((now : Int) - (KOMODO_DEX_PURGETIME : Nat) + (KOMODO_DEX_MAXLAG : Nat))
      > s.purgetime
  · rw [if_pos hc] at h
    by_cases h0 : s.purgetime = 0
    · rw [if_pos h0] at h
      cases h
      exact hg
    · rw [if_neg h0] at h
      cases hl : komodo_DEXpoll_purgeloop
          (wrap32 ((now : Int) - (KOMODO_DEX_PURGETIME : Nat) + (KOMODO_DEX_MAXLAG : Nat)))
          (wrap32 ((now : Int) - (KOMODO_DEX_PURGETIME : Nat) + (KOMODO_DEX_MAXLAG : Nat))
            - s.purgetime) s with
      | none =>
        rw [hl] at h
        cases h
      | some s3 =>
        rw [hl] at h
        cases h
        exact HeapGood_of_heap_eq rfl (poll_purgeloop_good _ _ s s3 hl hg)
  · rw [if_neg hc] at h
    cases h
    exact hg

theorem poll_scanphase_good (s : DEXState) (now : Nat) (pto : Int) (s1 : DEXState)
    (h : komodo_DEXpoll_scanphase s now pto = some s1) (hg : HeapGood s) : HeapGood s1 := by
  unfold komodo_DEXpoll_scanphase at h
  by_cases hc : (now = s.Got_Recent_Quote ∧ now > s.dexlastping pto)
      ∨ now ≥ (s.dexlastping pto + KOMODO_DEX_LOCALHEARTBEAT) % U32
  · rw [if_pos hc] at h
    exact poll_scanloop_good _ _ _ _ _ _ h hg
  · rw [if_neg hc] at h
    cases h
    exact hg

theorem poll_good (s : DEXState) (now : Nat) (pto : Int) (s1 : DEXState)
    (h : komodo_DEXpoll s now pto = some s1) (hg : HeapGood s) : HeapGood s1 := by
  unfold komodo_DEXpoll at h
  cases hp : komodo_DEXpoll_purgephase s now with
  | none =>
    rw [hp] at h
    cases h
  | some s2 =>
    rw [hp] at h
    exact poll_scanphase_good _ _ _ _ h (poll_purgephase_good _ _ _ hp hg)

theorem Ploop_heap (now : Nat) (pfrom : Int) (msg : Nat → Nat) (modval : Nat) (k : Nat) :
    ∀ (offset : Nat) (s : DEXState),
      (komodo_DEXprocess_Ploop now pfrom msg modval k offset s).heap = s.heap := by
  induction k with
  | zero => intro offset s; rfl
  | succ k ih =>
    intro offset s
    simp only [komodo_DEXprocess_Ploop]
    split
    · rfl
    · split
      · exact ih _ _
      · split
        · rw [ih]
          simp only [komodo_DEXadd32, komodo_DEXfind32]
          split
          · split <;> rfl
          · split <;> rfl
        · rw [ih]
          simp only [komodo_DEXfind32]
          split
          · split <;> rfl
          · split <;> rfl

theorem find32_heap (s : DEXState) (hashsize shorthash : Nat) (clearflag : Int) :
    (komodo_DEXfind32 s hashsize shorthash clearflag).1.heap = s.heap := by
  simp only [komodo_DEXfind32]
  split
  · split <;> rfl
  · split <;> rfl

theorem process_Q_good (vcalc_sha256 : List Nat → bits256) (s : DEXState) (now : Nat)
    (peerpos : Nat) (relay t modval : Nat) (msg : Nat → Nat) (len newptr : Nat)
    (r : DEXState × Int)
    (h : komodo_DEXprocess_Q vcalc_sha256 s now peerpos relay t modval msg len newptr = some r)
    (hg : HeapGood s) : HeapGood r.1 := by
  unfold komodo_DEXprocess_Q at h
  simp only at h
  split at h
  · cases h; exact hg
  · split at h
    · split at h
      · cases h
      · rename_i s6 ind h6
        have g6 : HeapGood s6 := by
          split at h6
          · split at h6
            · cases h6
            · rename_i s2 ind2 h2
              have g2 : HeapGood s2 := add_good _ _ _ _ _ _ _ _ _ (s2, ind2) h2 hg
              split at h6
              · cases h6
                refine HeapGood_of_heap_eq ?_ g2
                show _ = s2.heap
                split
                · split
                  · exact find32_heap _ _ _ _
                  · exact find32_heap _ _ _ _
                · exact find32_heap _ _ _ _
              · cases h6
                exact g2
          · cases h6
            exact hg
        split at h
        · cases h
        · split at h
          · split at h
            · cases h
            · rename_i b hb
              cases h
              exact HeapGood_update _ _ rfl (g6 _ b hb) g6
          · cases h
            exact g6
    · cases h; exact hg

theorem process_P_good (s : DEXState) (now : Nat) (pfrom : Int) (msg : Nat → Nat) (len : Nat)
    (r : DEXState × Int) (h : komodo_DEXprocess_P s now pfrom msg len = some r)
    (hg : HeapGood s) : HeapGood r.1 := by
  unfold komodo_DEXprocess_P at h
  simp only at h
  split at h
  · split at h
    · cases h
      exact HeapGood_of_heap_eq (Ploop_heap _ _ _ _ _ _ _) hg
    · cases h; exact hg
  · cases h; exact hg

theorem process_G_good (s : DEXState) (pfrom : Int) (peerpos : Nat) (msg : Nat → Nat)
    (r : DEXState × Int) (h : komodo_DEXprocess_G s pfrom peerpos msg = some r)
    (hg : HeapGood s) : HeapGood r.1 := by
  unfold komodo_DEXprocess_G at h
  simp only at h
  split at h
  · split at h
    · split at h
      · cases h
      · rename_i b hb
        split at h
        · obtain ⟨b0, hb0, hheap⟩ := packetsend_heap _ _ _ _ _ _ h
          exact HeapGood_update _ _ hheap (hg _ b0 hb0) hg
        · cases h; exact hg
    · cases h; exact hg
  · cases h; exact hg

theorem dispatch_good (vcalc_sha256 : List Nat → bits256) (s : DEXState) (now : Nat)
    (pfrom : Int) (peerpos : Nat) (relay funcid t modval : Nat) (msg : Nat → Nat)
    (len newptr : Nat) (r : DEXState × Int)
    (h : komodo_DEXprocess_dispatch vcalc_sha256 s now pfrom peerpos relay funcid t modval
          msg len newptr = some r)
    (hg : HeapGood s) : HeapGood r.1 := by
  unfold komodo_DEXprocess_dispatch at h
  split at h
  · exact process_Q_good _ _ _ _ _ _ _ _ _ _ _ h hg
  · split at h
    · exact process_P_good _ _ _ _ _ _ h hg
    · split at h
      · exact process_G_good _ _ _ _ _ h hg
      · cases h; exact hg

theorem process_good (vcalc_sha256 : List Nat → bits256) (s : DEXState) (now : Nat)
    (pfrom : Int) (msg : Nat → Nat) (len newptr : Nat) (r : DEXState × Int)
    (h : komodo_DEXprocess vcalc_sha256 s now pfrom msg len newptr = some r)
    (hg : HeapGood s) : HeapGood r.1 := by
  have g0 : HeapGood (komodo_DEXpeerpos s now pfrom).1 := hg
  unfold komodo_DEXprocess at h
  simp only at h
  by_cases hguard : len ≥ KOMODO_DEX_ROUTESIZE ∧ (komodo_DEXpeerpos s now pfrom).2 ≠ 0xffff
  · rw [if_pos hguard] at h
    by_cases hfut : iguana_rwnum_dec (bufAt msg 2) 4 > (now + KOMODO_DEX_LOCALHEARTBEAT) % U32
    · rw [if_pos hfut] at h
      cases h; exact g0
    · rw [if_neg hfut] at h
      by_cases hlag : (if toInt32 (wrap32 ((now : Int) - (iguana_rwnum_dec (bufAt msg 2) 4 : Nat))) < 0
          then 0 else toInt32 (wrap32 ((now : Int) - (iguana_rwnum_dec (bufAt msg 2) 4 : Nat))))
          > ((KOMODO_DEX_MAXLAG : Nat) : Int)
      · rw [if_pos hlag] at h
        cases h; exact g0
      · rw [if_neg hlag] at h
        exact dispatch_good _ _ _ _ _ _ _ _ _ _ _ _ _ h g0
  · rw [if_neg hguard] at h
    cases h; exact g0

theorem step_good (vcalc_sha256 : List Nat → bits256) (s s1 : DEXState)
    (h : Step vcalc_sha256 s s1) (hg : HeapGood s) : HeapGood s1 := by
  cases h with
  | process now pfrom msg len newptr ret hnow hfresh h => exact process_good _ _ _ _ _ _ _ _ h hg
  | add openind now modval hash shorthash msg len newptr ret hnow hmod hfresh h =>
    exact add_good _ _ _ _ _ _ _ _ _ _ h hg
  | poll now pto hnow h => exact poll_good _ _ _ _ h hg
  | purge cutoff ret hcut h => exact purge_good _ _ _ h hg

theorem reachable_good (vcalc_sha256 : List Nat → bits256) (s : DEXState)
    (h : Reachable vcalc_sha256 s) : HeapGood s := by
  induction h with
  | init =>
    intro p b hb
    cases hb
  | step s s1 _ hstep ih => exact step_good _ _ _ hstep ih

theorem exampleStored_reachable : Reachable (exampleSha 5) exampleStored :=
  Reachable.step _ _ Reachable.init
    (Step.process _ _ 1000 7 (exampleFrame 10 1000) 25 1 0 (by decide) (Or.inr rfl) rfl)

theorem exampleStored_blob : exampleStored.heap (exampleStored.Datablobs 1000 5) = some exampleBlob :=
  rfl

/-- C2: in every state reachable from the empty store by `komodo_DEXprocess`,
`komodo_DEXadd` (the store step of `komodo_DEXbroadcast`), `komodo_DEXpoll`
and `komodo_DEXpurge`, every blob held in `Datablobs` has a hash with
`hash.ulongs[1] & 0xFFF == 0x777 & 0xFFF`. -/
theorem C2_stored_blobs_pass_pow (vcalc_sha256 : List Nat → bits256) (s : DEXState)
    (hr : Reachable vcalc_sha256 s) (m i : Nat) (b : DEX_datablob)
    (hne : s.Datablobs m i ≠ 0) (hb : s.heap (s.Datablobs m i) = some b) :
    (b.hash.ulongs1 % 2 ^ 64) &&& 0xFFF = 0x777 &&& 0xFFF := by
  have h := (reachable_good vcalc_sha256 s hr _ b hb).1
  rw [txpow_true_iff] at h
  rw [h]
  decide

/-- Witness of C2: the blob of `exampleStored`. -/
theorem C2_stored_blobs_pass_pow_witness :
    (exampleBlob.hash.ulongs1 % 2 ^ 64) &&& 0xFFF = 0x777 &&& 0xFFF :=
  C2_stored_blobs_pass_pow (exampleSha 5) exampleStored exampleStored_reachable 1000 5
    exampleBlob (by decide) exampleStored_blob

/-- C8: in every reachable state every stored blob has
`numsent <= KOMODO_DEX_MAXFANOUT` (3); a blob is created with `numsent = 0`. -/
theorem C8_numsent_le_fanout (vcalc_sha256 : List Nat → bits256) (s : DEXState)
    (hr : Reachable vcalc_sha256 s) (m i : Nat) (b : DEX_datablob)
    (hne : s.Datablobs m i ≠ 0) (hb : s.heap (s.Datablobs m i) = some b) :
    b.numsent ≤ KOMODO_DEX_MAXFANOUT
    ∧ ∀ (now : Nat) (hash : bits256) (msg : Nat → Nat) (len offset : Nat),
        (DEX_newblob now hash msg len offset).numsent = 0 :=
  ⟨(reachable_good vcalc_sha256 s hr _ b hb).2, fun _ _ _ _ _ => rfl⟩

/-- Witness of C8: the blob of `exampleStored`. -/
theorem C8_numsent_le_fanout_witness :
    exampleBlob.numsent ≤ KOMODO_DEX_MAXFANOUT
    ∧ ∀ (now : Nat) (hash : bits256) (msg : Nat → Nat) (len offset : Nat),
        (DEX_newblob now hash msg len offset).numsent = 0 :=
  C8_numsent_le_fanout (exampleSha 5) exampleStored exampleStored_reachable 1000 5
    exampleBlob (by decide) exampleStored_blob

/-! ## Peer slots -/

theorem peerpos_loop_spec (peerid : Int) (n : Nat) :
    ∀ (i : Nat) (pm : Nat → Int),
      ((komodo_DEXpeerpos_loop peerid n i pm).2 = 0xffff
        ∧ (komodo_DEXpeerpos_loop peerid n i pm).1 = pm
        ∧ ∀ j, i ≤ j → j < i + n → pm j ≠ 0 ∧ pm j ≠ peerid)
      ∨ (i ≤ (komodo_DEXpeerpos_loop peerid n i pm).2
        ∧ (komodo_DEXpeerpos_loop peerid n i pm).2 < i + n
        ∧ (pm (komodo_DEXpeerpos_loop peerid n i pm).2 = 0
            ∨ pm (komodo_DEXpeerpos_loop peerid n i pm).2 = peerid)
        ∧ (∀ j, i ≤ j → j < (komodo_DEXpeerpos_loop peerid n i pm).2 → pm j ≠ 0 ∧ pm j ≠ peerid)
        ∧ (komodo_DEXpeerpos_loop peerid n i pm).1
            = Function.update pm (komodo_DEXpeerpos_loop peerid n i pm).2 peerid) := by
  induction n with
  | zero =>
    intro i pm
    left
    refine ⟨rfl, rfl, ?_⟩
    intro j h1 h2
    omega
  | succ n ih =>
    intro i pm
    by_cases h0 : pm i = 0
    · have heq : komodo_DEXpeerpos_loop peerid (n + 1) i pm = (Function.update pm i peerid, i) := by
        rw [komodo_DEXpeerpos_loop, if_pos h0]
      right
      rw [heq]
      refine ⟨le_refl _, by omega, Or.inl h0, ?_, rfl⟩
      intro j h1 h2
      exact absurd h2 (by simp only; omega)
    · by_cases hp : pm i = peerid
      · have heq : komodo_DEXpeerpos_loop peerid (n + 1) i pm = (pm, i) := by
          rw [komodo_DEXpeerpos_loop, if_neg h0, if_pos hp]
        right
        rw [heq]
        refine ⟨le_refl _, by omega, Or.inr hp, ?_, ?_⟩
        · intro j h1 h2
          exact absurd h2 (by simp only; omega)
        · show pm = Function.update pm i peerid
          rw [← hp, Function.update_eq_self]
      · have heq : komodo_DEXpeerpos_loop peerid (n + 1) i pm
            = komodo_DEXpeerpos_loop peerid n (i + 1) pm := by
          rw [komodo_DEXpeerpos_loop, if_neg h0, if_neg hp]
        rw [heq]
        rcases ih (i + 1) pm with ⟨a, b, c⟩ | ⟨a, b, c, d, e⟩
        · left
          refine ⟨a, b, ?_⟩
          intro j h1 h2
          by_cases hj : j = i
          · subst hj
            exact ⟨h0, hp⟩
          · exact c j (by omega) (by omega)
        · right
          refine ⟨by omega, by omega, c, ?_, e⟩
          intro j h1 h2
          by_cases hj : j = i
          · subst hj
            exact ⟨h0, hp⟩
          · exact d j (by omega) h2

theorem peerpos_loop_idem (peerid : Int) (n : Nat) :
    ∀ (i : Nat) (pm : Nat → Int),
      komodo_DEXpeerpos_loop peerid n i (komodo_DEXpeerpos_loop peerid n i pm).1
        = komodo_DEXpeerpos_loop peerid n i pm := by
  induction n with
  | zero => intro i pm; rfl
  | succ n ih =>
    intro i pm
    by_cases h0 : pm i = 0
    · have heq : komodo_DEXpeerpos_loop peerid (n + 1) i pm = (Function.update pm i peerid, i) := by
        rw [komodo_DEXpeerpos_loop, if_pos h0]
      rw [heq]
      show komodo_DEXpeerpos_loop peerid (n + 1) i (Function.update pm i peerid) = _
      by_cases hid : peerid = 0
      · rw [komodo_DEXpeerpos_loop, if_pos (by rw [Function.update_same]; exact hid),
          Function.update_idem]
      · rw [komodo_DEXpeerpos_loop, if_neg (by rw [Function.update_same]; exact hid),
          if_pos (by rw [Function.update_same])]
    · by_cases hp : pm i = peerid
      · have heq : komodo_DEXpeerpos_loop peerid (n + 1) i pm = (pm, i) := by
          rw [komodo_DEXpeerpos_loop, if_neg h0, if_pos hp]
        rw [heq]
        exact heq
      · have hkeep : (komodo_DEXpeerpos_loop peerid n (i + 1) pm).1 i = pm i := by
          rcases peerpos_loop_spec peerid n (i + 1) pm with ⟨_, b, _⟩ | ⟨a, _, _, _, e⟩
          · rw [b]
          · rw [e, Function.update_noteq]
            omega
        have step : komodo_DEXpeerpos_loop peerid (n + 1) i pm
            = komodo_DEXpeerpos_loop peerid n (i + 1) pm := by
          simp [komodo_DEXpeerpos_loop, h0, hp]
        rw [step]
        have step2 : komodo_DEXpeerpos_loop peerid (n + 1) i
              (komodo_DEXpeerpos_loop peerid n (i + 1) pm).1
            = komodo_DEXpeerpos_loop peerid n (i + 1)
                (komodo_DEXpeerpos_loop peerid n (i + 1) pm).1 := by
          simp [komodo_DEXpeerpos_loop, hkeep, h0, hp]
        rw [step2, ih]

/-- C6: `komodo_DEXpeerpos` is idempotent within an epoch: called for the same
peer id at two timestamps of the same epoch row, it returns the same index both
times and the second call leaves the state, the peer map included, as the first
call left it. -/
theorem C6_peerpos_idempotent (s : DEXState) (peerid : Int) (t1 t2 : Nat)
    (hep : (t1 % SECONDS_IN_DAY) / KOMODO_DEX_PEERPERIOD
         = (t2 % SECONDS_IN_DAY) / KOMODO_DEX_PEERPERIOD) :
    (komodo_DEXpeerpos (komodo_DEXpeerpos s t1 peerid).1 t2 peerid).2
        = (komodo_DEXpeerpos s t1 peerid).2
      ∧ (komodo_DEXpeerpos (komodo_DEXpeerpos s t1 peerid).1 t2 peerid).1
        = (komodo_DEXpeerpos s t1 peerid).1 := by
  simp only [komodo_DEXpeerpos, ← hep, Function.update_same, peerpos_loop_idem,
    Function.update_idem, and_self]

/-- Witness of C6 at the empty store: peer 7 at the times 1000 and 1100. -/
theorem C6_peerpos_idempotent_witness :
    (komodo_DEXpeerpos (komodo_DEXpeerpos DEXState.empty 1000 7).1 1100 7).2
        = (komodo_DEXpeerpos DEXState.empty 1000 7).2
      ∧ (komodo_DEXpeerpos (komodo_DEXpeerpos DEXState.empty 1000 7).1 1100 7).1
        = (komodo_DEXpeerpos DEXState.empty 1000 7).1 :=
  C6_peerpos_idempotent DEXState.empty 7 1000 1100 (by decide)

/-- C7: `komodo_DEXpeerpos` works on the row `(timestamp mod 86400) / 300`,
which is below 288; it never returns 0; it returns 0xFFFF exactly when every
entry 1..1023 of the row is non-empty and differs from the peer id, and then
changes nothing; otherwise it returns the smallest index in 1..1023 whose entry
is empty or equals the peer id, that entry holds the peer id afterwards, and no
other entry of the peer map and no other part of the state is modified. -/
theorem C7_peerpos_first_fit (s : DEXState) (timestamp : Nat) (peerid : Int) :
    (timestamp % SECONDS_IN_DAY) / KOMODO_DEX_PEERPERIOD < KOMODO_DEX_PEEREPOCHS
    ∧ (komodo_DEXpeerpos s timestamp peerid).2 ≠ 0
    ∧ ((komodo_DEXpeerpos s timestamp peerid).2 = 0xffff ↔
        ∀ j, 1 ≤ j → j ≤ 1023 →
          s.DEX_peermaps ((timestamp % SECONDS_IN_DAY) / KOMODO_DEX_PEERPERIOD) j ≠ 0
          ∧ s.DEX_peermaps ((timestamp % SECONDS_IN_DAY) / KOMODO_DEX_PEERPERIOD) j ≠ peerid)
    ∧ ((komodo_DEXpeerpos s timestamp peerid).2 = 0xffff →
        (komodo_DEXpeerpos s timestamp peerid).1 = s)
    ∧ ((komodo_DEXpeerpos s timestamp peerid).2 ≠ 0xffff →
        1 ≤ (komodo_DEXpeerpos s timestamp peerid).2
        ∧ (komodo_DEXpeerpos s timestamp peerid).2 ≤ 1023
        ∧ (s.DEX_peermaps ((timestamp % SECONDS_IN_DAY) / KOMODO_DEX_PEERPERIOD)
              (komodo_DEXpeerpos s timestamp peerid).2 = 0
            ∨ s.DEX_peermaps ((timestamp % SECONDS_IN_DAY) / KOMODO_DEX_PEERPERIOD)
              (komodo_DEXpeerpos s timestamp peerid).2 = peerid)
        ∧ (∀ j, 1 ≤ j → j < (komodo_DEXpeerpos s timestamp peerid).2 →
            s.DEX_peermaps ((timestamp % SECONDS_IN_DAY) / KOMODO_DEX_PEERPERIOD) j ≠ 0
            ∧ s.DEX_peermaps ((timestamp % SECONDS_IN_DAY) / KOMODO_DEX_PEERPERIOD) j ≠ peerid)
        ∧ (komodo_DEXpeerpos s timestamp peerid).1
            = { s with DEX_peermaps := (set2 s.DEX_peermaps
                  ((timestamp % SECONDS_IN_DAY) / KOMODO_DEX_PEERPERIOD)
                  (komodo_DEXpeerpos s timestamp peerid).2 peerid) }) := by
  have hrow : (timestamp % SECONDS_IN_DAY) / KOMODO_DEX_PEERPERIOD < KOMODO_DEX_PEEREPOCHS := by
    simp only [SECONDS_IN_DAY, KOMODO_DEX_PEERPERIOD, KOMODO_DEX_PEEREPOCHS]
    omega
  refine ⟨hrow, ?_⟩
  simp only [komodo_DEXpeerpos, set2]
  generalize (timestamp % SECONDS_IN_DAY) / KOMODO_DEX_PEERPERIOD = row
  have hn : KOMODO_DEX_MAXPEERID - 1 = 1023 := by decide
  rw [hn]
  rcases peerpos_loop_spec peerid 1023 1 (s.DEX_peermaps row) with ⟨a, b, c⟩ | ⟨a, b, c, d, e⟩
  · refine ⟨by rw [a]; decide, ?_, ?_, ?_⟩
    · constructor
      · intro _ j h1 h2
        exact c j h1 (by omega)
      · intro _
        exact a
    · intro _
      rw [b, Function.update_eq_self]
    · intro h
      exact absurd a h
  · have hne : (komodo_DEXpeerpos_loop peerid 1023 1 (s.DEX_peermaps row)).2 ≠ 0xffff := by omega
    refine ⟨by omega, ?_, ?_, ?_⟩
    · constructor
      · intro h
        exact absurd h hne
      · intro h
        exfalso
        have := h _ a (by omega)
        rcases c with c | c
        · exact this.1 c
        · exact this.2 c
    · intro h
      exact absurd h hne
    · intro _
      refine ⟨a, by omega, c, d, ?_⟩
      rw [e]

/-! ## Proof-of-work admission -/

/-- C1: a Q frame whose hash fails the admission test is processed without
fault and stores nothing: `Hashtables`, `Datablobs`, the allocated blobs, the
three index arrays, `Pendings`, `DEX_Numpending` and `DEX_totaladd` are
unchanged; and `komodo_DEXadd` called with such a hash returns -1 and leaves
the whole state unchanged. -/
theorem C1_pow_rejection (vcalc_sha256 : List Nat → bits256) (s : DEXState) (now : Nat)
    (pfrom : Int) (msg : Nat → Nat) (len newptr : Nat)
    (hQ : msg 1 % 256 = 81)
    (hpow : ((komodo_DEXquotehash vcalc_sha256 msg len).ulongs1 % 2 ^ 64) &&& 0xFFF ≠ 0x777) :
    (∃ s1 ret, komodo_DEXprocess vcalc_sha256 s now pfrom msg len newptr = some (s1, ret)
      ∧ s1.Hashtables = s.Hashtables ∧ s1.Datablobs = s.Datablobs ∧ s1.heap = s.heap
      ∧ s1.DEX_destpubs = s.DEX_destpubs ∧ s1.DEX_tagAs = s.DEX_tagAs
      ∧ s1.DEX_tagABs = s.DEX_tagABs ∧ s1.Pendings = s.Pendings
      ∧ s1.DEX_Numpending = s.DEX_Numpending ∧ s1.DEX_totaladd = s.DEX_totaladd)
    ∧ (∀ (s0 : DEXState) (openind : Int) (now0 modval shorthash : Nat),
        komodo_DEXadd s0 openind now0 modval (komodo_DEXquotehash vcalc_sha256 msg len)
          shorthash msg len newptr = some (s0, -1)) := by
  have hp := (txpow_false_iff _).2 hpow
  constructor
  · simp only [komodo_DEXprocess, komodo_DEXprocess_dispatch, komodo_DEXprocess_Q, hQ, hp,
      if_true, komodo_DEXpeerpos]
    split_ifs <;> exact ⟨_, _, rfl, rfl, rfl, rfl, rfl, rfl, rfl, rfl, rfl, rfl⟩
  · intro s0 openind now0 modval shorthash
    simp only [komodo_DEXadd, hp, if_true]

/-- Witness of C1: a 25-byte Q frame at the empty store, with a hash function
that maps every frame to the zero hash. -/
theorem C1_pow_rejection_witness :
    (∃ s1 ret, komodo_DEXprocess (fun _ => ⟨0, 0, 0, 0⟩) DEXState.empty 1000 7
        (fun i => if i = 1 then 81 else 0) 25 1 = some (s1, ret)
      ∧ s1.Hashtables = DEXState.empty.Hashtables ∧ s1.Datablobs = DEXState.empty.Datablobs
      ∧ s1.heap = DEXState.empty.heap
      ∧ s1.DEX_destpubs = DEXState.empty.DEX_destpubs ∧ s1.DEX_tagAs = DEXState.empty.DEX_tagAs
      ∧ s1.DEX_tagABs = DEXState.empty.DEX_tagABs ∧ s1.Pendings = DEXState.empty.Pendings
      ∧ s1.DEX_Numpending = DEXState.empty.DEX_Numpending
      ∧ s1.DEX_totaladd = DEXState.empty.DEX_totaladd)
    ∧ (∀ (s0 : DEXState) (openind : Int) (now0 modval shorthash : Nat),
        komodo_DEXadd s0 openind now0 modval
          (komodo_DEXquotehash (fun _ => ⟨0, 0, 0, 0⟩) (fun i => if i = 1 then 81 else 0) 25)
          shorthash (fun i => if i = 1 then 81 else 0) 25 1 = some (s0, -1)) :=
  C1_pow_rejection (fun _ => ⟨0, 0, 0, 0⟩) DEXState.empty 1000 7
    (fun i => if i = 1 then 81 else 0) 25 1 (by decide) (by decide)

/-! ## Admission window -/

theorem rwnum_dec4_lt (msg : Nat → Nat) : iguana_rwnum_dec msg 4 < U32 := by
  simp only [iguana_rwnum_dec, U32]
  omega

theorem toInt32_sub (now t : Nat)
    (hgap : (now : Int) - (t : Int) < 2147483648) (hf : (t : Int) ≤ (now : Int) + 1) :
    toInt32 (wrap32 ((now : Int) - (t : Int))) = (now : Int) - (t : Int) := by
  unfold toInt32 wrap32
  simp only [U32] at *
  split_ifs <;> omega

/-- The admission test where the 32-bit arithmetic does not wrap: for a local
time `now < 2^32 - 1` and a frame timestamp `t` with `now - t < 2^31`, a frame
of at least 6 bytes from a peer holding a slot is handed to the dispatch on
`funcid` exactly when `t <= now + 1` and `now - t <= 70` as integers; otherwise
it is dropped, changing nothing but the counter `DEX_maxlag` (incremented for a
stale frame). -/
theorem process_admission_window (vcalc_sha256 : List Nat → bits256) (s : DEXState) (now : Nat)
    (pfrom : Int) (msg : Nat → Nat) (len newptr : Nat)
    (hlen : len ≥ KOMODO_DEX_ROUTESIZE)
    (hslot : (komodo_DEXpeerpos s now pfrom).2 ≠ 0xffff)
    (hnow : now + 1 < U32)
    (hgap : (now : Int) - (iguana_rwnum_dec (bufAt msg 2) 4 : Nat) < 2147483648) :
    ((((iguana_rwnum_dec (bufAt msg 2) 4 : Nat) : Int) ≤ (now : Int) + 1
        ∧ (now : Int) - (iguana_rwnum_dec (bufAt msg 2) 4 : Nat) ≤ 70) →
      komodo_DEXprocess vcalc_sha256 s now pfrom msg len newptr
        = komodo_DEXprocess_dispatch vcalc_sha256 (komodo_DEXpeerpos s now pfrom).1 now pfrom
            (komodo_DEXpeerpos s now pfrom).2 (msg 0 % 256) (msg 1 % 256)
            (iguana_rwnum_dec (bufAt msg 2) 4)
            (iguana_rwnum_dec (bufAt msg 2) 4 % KOMODO_DEX_PURGETIME) msg len newptr)
    ∧ (((now : Int) + 1 < (iguana_rwnum_dec (bufAt msg 2) 4 : Nat)) →
      komodo_DEXprocess vcalc_sha256 s now pfrom msg len newptr
        = some ((komodo_DEXpeerpos s now pfrom).1, 0))
    ∧ ((70 < (now : Int) - (iguana_rwnum_dec (bufAt msg 2) 4 : Nat)) →
      komodo_DEXprocess vcalc_sha256 s now pfrom msg len newptr
        = some ({ (komodo_DEXpeerpos s now pfrom).1 with
                    DEX_maxlag := (((komodo_DEXpeerpos s now pfrom).1).DEX_maxlag + 1) % U32 }, 0)) := by
  have ht := rwnum_dec4_lt (bufAt msg 2)
  have hg : len ≥ KOMODO_DEX_ROUTESIZE ∧ (komodo_DEXpeerpos s now pfrom).2 ≠ 0xffff := ⟨hlen, hslot⟩
  have hmod : (now + KOMODO_DEX_LOCALHEARTBEAT) % U32 = now + 1 := Nat.mod_eq_of_lt hnow
  have hlagc : ((KOMODO_DEX_MAXLAG : Nat) : Int) = 70 := by decide
  simp only [komodo_DEXprocess, hg, and_self, if_true, hmod, hlagc]
  generalize iguana_rwnum_dec (bufAt msg 2) 4 = t at *
  clear hmod hg
  refine ⟨?_, ?_, ?_⟩
  · rintro ⟨h1, h2⟩
    rw [if_neg (show ¬ t > now + 1 by omega), toInt32_sub now t hgap h1,
      if_neg (show ¬ (if (now : Int) - (t : Int) < 0 then 0 else (now : Int) - (t : Int)) > 70 by
        split_ifs <;> omega)]
    exact if_pos ⟨trivial, hslot⟩
  · intro h1
    rw [if_pos (show t > now + 1 by omega)]
    exact if_pos ⟨trivial, hslot⟩
  · intro h1
    rw [if_neg (show ¬ t > now + 1 by omega), toInt32_sub now t hgap (by omega),
      if_pos (show (if (now : Int) - (t : Int) < 0 then 0 else (now : Int) - (t : Int)) > 70 by
        split_ifs <;> omega)]
    exact if_pos ⟨trivial, hslot⟩

/-- The admission test at the empty store and `now = 1000`, for a frame
stamped `930 = now - 70` from peer 7. -/
theorem process_admission_window_example :
    ((((iguana_rwnum_dec (bufAt (exampleFrame 10 930) 2) 4 : Nat) : Int) ≤ (1000 : Int) + 1
        ∧ (1000 : Int) - (iguana_rwnum_dec (bufAt (exampleFrame 10 930) 2) 4 : Nat) ≤ 70) →
      komodo_DEXprocess (exampleSha 5) DEXState.empty 1000 7 (exampleFrame 10 930) 25 1
        = komodo_DEXprocess_dispatch (exampleSha 5) (komodo_DEXpeerpos DEXState.empty 1000 7).1
            1000 7 (komodo_DEXpeerpos DEXState.empty 1000 7).2 (exampleFrame 10 930 0 % 256)
            (exampleFrame 10 930 1 % 256) (iguana_rwnum_dec (bufAt (exampleFrame 10 930) 2) 4)
            (iguana_rwnum_dec (bufAt (exampleFrame 10 930) 2) 4 % KOMODO_DEX_PURGETIME)
            (exampleFrame 10 930) 25 1)
    ∧ (((1000 : Int) + 1 < (iguana_rwnum_dec (bufAt (exampleFrame 10 930) 2) 4 : Nat)) →
      komodo_DEXprocess (exampleSha 5) DEXState.empty 1000 7 (exampleFrame 10 930) 25 1
        = some ((komodo_DEXpeerpos DEXState.empty 1000 7).1, 0))
    ∧ ((70 < (1000 : Int) - (iguana_rwnum_dec (bufAt (exampleFrame 10 930) 2) 4 : Nat)) →
      komodo_DEXprocess (exampleSha 5) DEXState.empty 1000 7 (exampleFrame 10 930) 25 1
        = some ({ (komodo_DEXpeerpos DEXState.empty 1000 7).1 with
                    DEX_maxlag := (((komodo_DEXpeerpos DEXState.empty 1000 7).1).DEX_maxlag + 1)
                      % U32 }, 0)) :=
  process_admission_window (exampleSha 5) DEXState.empty 1000 7 (exampleFrame 10 930) 25 1
    (by decide) (by decide) (by decide) (by decide)

/-- C5 at a failing input: at `now = 2^31` a Q frame stamped `t = 0`, which is
`2^31` seconds old, is not dropped.  The difference `now - t = 2^31` does not
fit the `int32_t lag`: it is negative there, is clamped to 0 and passes the test
`lag > KOMODO_DEX_MAXLAG`.  The frame is dispatched and stored (slot 5 of
bucket 0 holds the new blob, `DEX_totaladd` is 1 and `DEX_maxlag` stays 0). -/
theorem C5_stale_frame_accepted :
    iguana_rwnum_dec (bufAt (exampleFrame 10 0) 2) 4 = 0
    ∧ toInt32 (wrap32 ((2147483648 : Int) - (0 : Int))) = -2147483648
    ∧ ¬ ((2147483648 : Int) - (iguana_rwnum_dec (bufAt (exampleFrame 10 0) 2) 4 : Nat) ≤ 70)
    ∧ (komodo_DEXprocess (exampleSha 5) DEXState.empty 2147483648 7 (exampleFrame 10 0) 25 1).map
        (fun r => (r.1.Hashtables 0 5, r.1.Datablobs 0 5, r.1.DEX_totaladd, r.1.DEX_maxlag))
      = some (5, 1, 1, 0) := by
  refine ⟨?_, ?_, ?_, ?_⟩ <;> decide

/-! ## Ingress of a novel quote -/

/-- C3 at a failing input: a Q frame whose hash has `uints[0] == 0` (short
hash 0) and passes the admission test is accepted as novel by the empty store
(`komodo_DEXadd` returns slot 0: the blob pointer 1 is in `Datablobs[1000][0]`
and `DEX_totaladd` is 1), yet afterwards `komodo_DEXfind(1000, 0)` returns -1
with `openind == 0` instead of the slot: the short hash written to
`Hashtables[1000][0]` is the empty-cell value 0. -/
theorem C3_shorthash_zero_not_found :
    (komodo_DEXprocess (exampleSha 0) DEXState.empty 1000 7 (exampleFrame 10 1000) 25 1).map
        (fun r => (r.1.Datablobs 1000 0, r.1.Hashtables 1000 0, r.1.DEX_totaladd,
                   komodo_DEXfind r.1 1000 0))
      = some (1, 0, 1, (-1, 0)) := by
  decide

/-! ## At most one copy per peer -/

/-- C9 at a failing input: peer 7 holds slot 256; it sends the same G request
twice and the stored blob is emitted to it twice.  `komodo_DEXpacketsend`
takes the slot as `uint8_t` and marks bit `256 mod 256 = 0`, so bit 256 of the
peermask is still clear after both sends. -/
theorem C9_slot256_sent_twice :
    (komodo_DEXpeerpos exampleCrowded 1000 7).2 = 256
    ∧ ((komodo_DEXprocess (exampleSha 5) exampleCrowded 1000 7 exampleGet 14 0).bind
        (fun r => komodo_DEXprocess (exampleSha 5) r.1 1000 7 exampleGet 14 0)).map
        (fun r => (r.1.outbox.map Prod.fst, r.1.outbox.map (fun x => x.2.take 6),
                   (r.1.heap 1).map (fun b => (GETBIT b.peermask 256, GETBIT b.peermask 0))))
      = some ([7, 7], [[0, 81, 232, 3, 0, 0], [0, 81, 232, 3, 0, 0]], some (false, true)) := by
  constructor
  · decide
  · decide

/-! ## Purge -/

theorem setaxis_heap (s : DEXState) (which : Nat) (arr : Nat → DEX_index) :
    (DEX_setaxis s which arr).heap = s.heap := by
  unfold DEX_setaxis
  split_ifs <;> rfl

theorem frame_live {s s1 : DEXState} (h : IndexFrame s s1) (p : Nat) (b : DEX_datablob)
    (hb : s.heap p = some b) : ∃ b1, s1.heap p = some b1 ∧ b1.nolinks = b.nolinks := by
  have hp := h.2 p
  rw [hb] at hp
  cases h1 : s1.heap p with
  | none => rw [h1] at hp; cases hp
  | some b1 =>
    rw [h1] at hp
    simp only [Option.map_some', Option.some.injEq] at hp
    exact ⟨b1, rfl, hp⟩

theorem frame_dead {s s1 : DEXState} (h : IndexFrame s s1) (p : Nat)
    (hb : s.heap p = none) : s1.heap p = none := by
  have hp := h.2 p
  rw [hb] at hp
  cases h1 : s1.heap p with
  | none => rfl
  | some b1 => rw [h1] at hp; cases hp

theorem heapSet_heap_same (s : DEXState) (p : Nat) (b : DEX_datablob) :
    (heapSet s p b).heap p = some b := by
  simp only [heapSet, Function.update_same]

theorem heapSet_heap_ne (s : DEXState) (p : Nat) (b : DEX_datablob) (q : Nat) (h : q ≠ p) :
    (heapSet s p b).heap q = s.heap q := by
  simp only [heapSet, Function.update_noteq h]

theorem unlinkstep_ok (s : DEXState) (ptr ind : Nat) (n : Int) (b : DEX_datablob)
    (hb : s.heap ptr = some b)
    (hn : b.nexts ind = 0 ∨ ∃ nb, s.heap (b.nexts ind) = some nb) :
    ∃ r, DEX_unlinkindices_step s ptr ind n = some r
      ∧ (∃ b1, r.1.heap ptr = some b1 ∧ ∀ j, j ≠ ind → b1.nexts j = b.nexts j)
      ∧ (∀ q, q ≠ ptr →
          (r.1.heap q).map DEX_datablob.nexts = (s.heap q).map DEX_datablob.nexts) := by
  unfold DEX_unlinkindices_step
  simp only [hb]
  by_cases h0 : b.nexts ind = 0
  · rw [if_neg (not_not.mpr h0)]
    simp only [setaxis_heap, hb]
    refine ⟨_, rfl, ⟨_, heapSet_heap_same _ _ _, fun j _ => rfl⟩, ?_⟩
    intro q hq
    rw [heapSet_heap_ne _ _ _ _ hq, setaxis_heap]
  · rcases hn with hn | ⟨nb, hnb⟩
    · exact absurd hn h0
    · rw [if_pos h0]
      simp only [hnb]
      by_cases hself : b.nexts ind = ptr
      · have hnbb : nb = b := by
          rw [hself, hb] at hnb
          exact (Option.some.inj hnb).symm
        subst hnbb
        simp only [hself, heapSet_heap_same, setaxis_heap]
        refine ⟨_, rfl, ⟨_, heapSet_heap_same _ _ _, ?_⟩, ?_⟩
        · intro j hj
          simp only [Function.update_noteq hj]
        · intro q hq
          rw [heapSet_heap_ne _ _ _ _ hq, setaxis_heap, heapSet_heap_ne _ _ _ _ hq,
            heapSet_heap_ne _ _ _ _ hq]
      · have hne : ptr ≠ b.nexts ind := fun h => hself h.symm
        simp only [heapSet_heap_ne _ _ _ _ hne, hb, heapSet_heap_same, setaxis_heap]
        refine ⟨_, rfl, ⟨_, heapSet_heap_same _ _ _, ?_⟩, ?_⟩
        · intro j hj
          simp only [Function.update_noteq hj]
        · intro q hq
          rw [heapSet_heap_ne _ _ _ _ hq, setaxis_heap, heapSet_heap_ne _ _ _ _ hq]
          by_cases hqn : q = b.nexts ind
          · subst hqn
            rw [heapSet_heap_same, hnb]
            rfl
          · rw [heapSet_heap_ne _ _ _ _ hqn]

/-! ## Priority -/

theorem priority_loop_spec (n : Nat) :
    ∀ (i y : Nat),
      (komodo_DEX_priority_loop n i y = i + n ∧ ∀ d, d < n → y.testBit d = false)
      ∨ (∃ d, d < n ∧ komodo_DEX_priority_loop n i y = i + d ∧ y.testBit d = true
          ∧ ∀ e, e < d → y.testBit e = false) := by
  induction n with
  | zero =>
    intro i y
    left
    exact ⟨rfl, fun d hd => absurd hd (Nat.not_lt_zero d)⟩
  | succ n ih =>
    intro i y
    by_cases h0 : y &&& 1 ≠ 0
    · right
      refine ⟨0, Nat.succ_pos n, ?_, ?_, fun e he => absurd he (Nat.not_lt_zero e)⟩
      · rw [komodo_DEX_priority_loop, if_pos h0]
        rfl
      · rw [Nat.and_one_is_mod] at h0
        rw [Nat.testBit_zero]
        simp only [decide_eq_true_eq]
        omega
    · have hbit0 : y.testBit 0 = false := by
        rw [Nat.and_one_is_mod] at h0
        rw [Nat.testBit_zero]
        simp only [decide_eq_false_iff_not]
        omega
      have hstep : komodo_DEX_priority_loop (n + 1) i y
          = komodo_DEX_priority_loop n (i + 1) (y >>> 1) := by
        rw [komodo_DEX_priority_loop, if_neg h0]
      rw [hstep]
      rcases ih (i + 1) (y >>> 1) with ⟨a, b⟩ | ⟨d, hd, a, b, c⟩
      · left
        refine ⟨by omega, ?_⟩
        intro d hd
        cases d with
        | zero => exact hbit0
        | succ d =>
          have := b d (by omega)
          rw [Nat.testBit_shiftRight] at this
          rw [Nat.add_comm]
          exact this
      · right
        refine ⟨d + 1, by omega, by omega, ?_, ?_⟩
        · rw [Nat.testBit_shiftRight] at b
          rw [Nat.add_comm]
          exact b
        · intro e he
          cases e with
          | zero => exact hbit0
          | succ e =>
            have := c e (by omega)
            rw [Nat.testBit_shiftRight] at this
            rw [Nat.add_comm]
            exact this

/-- C17: for every 64-bit `h` (a larger number is first reduced modulo 2^64),
`komodo_DEX_priority(h)` is at most 64; it is 64 when `h >> 12` is zero, and
otherwise it is the position of the lowest set bit of `h >> 12`, that is the
number of consecutive zero bits counted from bit 0 upward. -/
theorem C17_priority_trailing_zeros (h : Nat) :
    komodo_DEX_priority h ≤ 64
    ∧ ((h % 2 ^ 64) >>> 12 = 0 → komodo_DEX_priority h = 64)
    ∧ ((h % 2 ^ 64) >>> 12 ≠ 0 →
        ((h % 2 ^ 64) >>> 12).testBit (komodo_DEX_priority h) = true
        ∧ ∀ i, i < komodo_DEX_priority h → ((h % 2 ^ 64) >>> 12).testBit i = false) := by
  unfold komodo_DEX_priority
  have hT : KOMODO_DEX_TXPOWBITS = 12 := rfl
  rw [hT]
  have hx52 : (h % 2 ^ 64) >>> 12 < 2 ^ 52 := by
    rw [Nat.shiftRight_eq_div_pow]
    have := Nat.mod_lt h (show 2 ^ 64 > 0 by decide)
    omega
  generalize (h % 2 ^ 64) >>> 12 = x at hx52
  rcases priority_loop_spec 64 0 x with ⟨a, b⟩ | ⟨d, hd, a, b, c⟩
  · refine ⟨by omega, fun _ => by omega, ?_⟩
    intro hx
    exfalso
    obtain ⟨i, hi⟩ := Nat.ne_zero_implies_bit_true hx
    have hge := Nat.testBit_implies_ge hi
    have hi52 : i < 52 := by
      by_contra hcon
      have : 2 ^ 52 ≤ 2 ^ i := Nat.pow_le_pow_right (by decide) (by omega)
      omega
    rw [b i (by omega)] at hi
    cases hi
  · refine ⟨by omega, ?_, ?_⟩
    · intro hx
      rw [hx, Nat.zero_testBit] at b
      cases b
    · intro _
      rw [a, Nat.zero_add]
      exact ⟨b, c⟩

/-! ## Secondary indices at concrete inputs -/

/-- C13 at a failing input: two quotes with `tagA = "a"` are stored and none
is purged; the walk from the tip of the single-tag index `"a"` visits both
blobs (pointers 2 and 1) and ends in null, but the index's `count` is 1:
`komodo_DEX_indexcreate` leaves `count` at 0 for the first blob. -/
theorem C13_count_off_by_one :
    ((exampleDeliver (exampleDeliver DEXState.empty 1000 [97] [] 1) 1001 [97] [] 2).DEX_tagAs 0).tip
      = 2
    ∧ ((exampleDeliver (exampleDeliver DEXState.empty 1000 [97] [] 1) 1001 [97] [] 2).DEX_tagAs
        0).key.take 2 = [1, 97]
    ∧ DEX_listwalk (exampleDeliver (exampleDeliver DEXState.empty 1000 [97] [] 1) 1001 [97] [] 2)
        1 10 2 = some [2, 1]
    ∧ ((exampleDeliver (exampleDeliver DEXState.empty 1000 [97] [] 1) 1001 [97] [] 2).DEX_tagAs
        0).count = 1 := by
  refine ⟨?_, ?_, ?_, ?_⟩ <;> decide

/-- C12 at a failing input: the quotes `(tagA "a")`, `(tagA "b")` and
`(tagA "a", tagB "b")` are stored in this order as blobs 1, 2, 3.
`DEX_updatetips` appends blob 3 on axis 1 first to the index `"a"` and then to
the index `"b"`, overwriting `prevs[1]`: the walk from the tip of the index
`"a"` (entry 0 of `DEX_tagAs`) visits blob 3 and then blob 2, whose tagA is
`"b"`, and never reaches blob 1, whose tagA is `"a"`. -/
theorem C12_axis_list_broken :
    ((exampleDeliver (exampleDeliver (exampleDeliver DEXState.empty 1000 [97] [] 1)
        1001 [98] [] 2) 1002 [97] [98] 3).DEX_tagAs 0).key.take 2 = [1, 97]
    ∧ ((exampleDeliver (exampleDeliver (exampleDeliver DEXState.empty 1000 [97] [] 1)
        1001 [98] [] 2) 1002 [97] [98] 3).DEX_tagAs 0).tip = 3
    ∧ DEX_listwalk (exampleDeliver (exampleDeliver (exampleDeliver DEXState.empty 1000 [97] [] 1)
        1001 [98] [] 2) 1002 [97] [98] 3) 1 10 3 = some [3, 2]
    ∧ ((exampleDeliver (exampleDeliver (exampleDeliver DEXState.empty 1000 [97] [] 1)
        1001 [98] [] 2) 1002 [97] [98] 3).heap 1).map (fun b => b.data.drop 22)
        = some [0, 1, 97, 0, 0, 0, 0, 0]
    ∧ ((exampleDeliver (exampleDeliver (exampleDeliver DEXState.empty 1000 [97] [] 1)
        1001 [98] [] 2) 1002 [97] [98] 3).heap 2).map (fun b => b.data.drop 22)
        = some [0, 1, 98, 0, 0, 0, 0, 0] := by
  refine ⟨?_, ?_, ?_, ?_, ?_⟩ <;> decide

/-! ## Quote header decoding at a concrete input -/

/-- C15 at a failing input: a 19-byte quote header whose tagA length byte is
200.  As `int8_t` the length is -56, which passes `lenA <= KOMODO_DEX_TAGSIZE`;
`komodo_DEX_extract` does not return -1 but calls `memcpy` with that length:
the model reports the fault. -/
theorem C15_length_byte_200_faults :
    toInt8 200 = -56
    ∧ komodo_DEX_extract (fun i => if i = 17 then 200 else 0) 19 = none := by
  constructor
  · decide
  · rfl

/-! ## Evaluating the purge loop -/

theorem purge_loop_append (cutoff modval : Nat) (a : Nat) :
    ∀ (b i : Nat) (s : DEXState) (n : Int),
      komodo_DEXpurge_loop cutoff modval (a + b) i s n
        = (komodo_DEXpurge_loop cutoff modval a i s n).bind
            (fun r => komodo_DEXpurge_loop cutoff modval b (i + a) r.1 r.2) := by
  induction a with
  | zero =>
    intro b i s n
    rw [Nat.zero_add]
    rfl
  | succ a ih =>
    intro b i s n
    have e : a + 1 + b = (a + b) + 1 := by omega
    have e2 : ∀ x : Nat, x + (a + 1) = x + 1 + a := by intro x; omega
    rw [e]
    simp only [komodo_DEXpurge_loop, ih, e2]
    split
    · split
      · split
        · rfl
        · split
          · rfl
          · split
            · rfl
            · rfl
      · rfl
    · rfl

theorem purge_loop_zeros (cutoff modval : Nat) (k : Nat) :
    ∀ (i : Nat) (s : DEXState) (n : Int),
      (∀ j, i ≤ j → j < i + k → s.Hashtables modval j = 0) →
      komodo_DEXpurge_loop cutoff modval k i s n = some (s, n) := by
  induction k with
  | zero => intro i s n _; rfl
  | succ k ih =>
    intro i s n h
    have h0 : s.Hashtables modval i = 0 := h i (le_refl _) (by omega)
    rw [komodo_DEXpurge_loop, if_neg (not_not.mpr h0)]
    exact ih (i + 1) s n (fun j h1 h2 => h j (by omega) (by omega))

theorem purge_loop_eval (cutoff modval c : Nat) (s : DEXState) (r : DEXState × Int)
    (hc : c < KOMODO_DEX_HASHSIZE)
    (hpre : ∀ j, j < c → s.Hashtables modval j = 0)
    (hstep : komodo_DEXpurge_loop cutoff modval 1 c s 0 = some r)
    (hpost : ∀ j, c < j → j < KOMODO_DEX_HASHSIZE → r.1.Hashtables modval j = 0) :
    komodo_DEXpurge_loop cutoff modval KOMODO_DEX_HASHSIZE 0 s 0 = some r := by
  have e : KOMODO_DEX_HASHSIZE = c + (1 + (KOMODO_DEX_HASHSIZE - 1 - c)) := by omega
  rw [e, purge_loop_append,
    purge_loop_zeros cutoff modval c 0 s 0 (fun j _ h2 => hpre j (by omega))]
  simp only [Option.some_bind]
  rw [purge_loop_append, Nat.zero_add, hstep]
  simp only [Option.some_bind]
  exact purge_loop_zeros cutoff modval _ _ r.1 r.2
    (fun j h1 h2 => hpost j (by omega) (by omega))

theorem examplePurged_eq : komodo_DEXpurge exampleTagged 1000 = some (examplePurged, 1) := by
  have e0 : exampleTagged.Hashtables 1000 = Function.update (fun _ => 0) 415 415 := rfl
  have e1 : examplePurgeStep.1.Hashtables 1000
      = Function.update (Function.update (fun _ => 0) 415 415) 415 0 := rfl
  have hl : komodo_DEXpurge_loop 1000 1000 KOMODO_DEX_HASHSIZE 0 exampleTagged 0
      = some examplePurgeStep := by
    refine purge_loop_eval 1000 1000 415 exampleTagged examplePurgeStep (by decide) ?_ rfl ?_
    · intro j hj
      rw [e0, Function.update_noteq (by omega)]
    · intro j hj _
      rw [e1, Function.update_noteq (by omega), Function.update_noteq (by omega)]
  unfold komodo_DEXpurge
  rw [if_neg (by decide)]
  have hm : 1000 % KOMODO_DEX_PURGETIME = 1000 := by decide
  simp only [hm, hl]
  rfl

theorem exampleTagged_reachable : Reachable exampleShaSum exampleTagged :=
  Reachable.step _ _ Reachable.init
    (Step.process _ _ 1000 7 (exampleQuote 1000 [97] []) (exampleQuoteBytes 1000 [97] []).length
      1 0 (by decide) (Or.inr rfl) rfl)

theorem examplePurged_reachable : Reachable exampleShaSum examplePurged :=
  Reachable.step _ _ exampleTagged_reachable
    (Step.purge _ _ 1000 1 (by decide) examplePurged_eq)

/-- C14 at a failing input: `examplePurged` is reached by storing one quote
with `tagA = "a"` and purging it.  Entry 0 of `DEX_tagAs` keeps the key `"a"`
(`len = 2`) with a null tip and entry 1 is unused, so one of the 64 slots is
taken.  `DEX_indexsearch` called for the key `"b"` (or `"a"`) with the non-null
blob pointer 2 returns null: the loop stops at the null tip of entry 0 and
`komodo_DEX_indexcreate` refuses the entry because its `len` is not 0.  A
second quote with `tagA = "a"` is stored (blob 2) but the index tip stays
null. -/
theorem C14_emptied_index_returns_null :
    (examplePurged.DEX_tagAs 0).tip = 0
    ∧ (examplePurged.DEX_tagAs 0).len = 2
    ∧ (examplePurged.DEX_tagAs 1).len = 0
    ∧ (DEX_indexsearch examplePurged 1 0 2 1 [98] 0 none).map Prod.snd = some none
    ∧ (DEX_indexsearch examplePurged 1 0 2 1 [97] 0 none).map Prod.snd = some none
    ∧ ((exampleDeliver examplePurged 5000 [97] [] 2).heap 2).isSome = true
    ∧ ((exampleDeliver examplePurged 5000 [97] [] 2).DEX_tagAs 0).tip = 0 := by
  refine ⟨?_, ?_, ?_, ?_, ?_, ?_, ?_⟩ <;> decide

theorem exampleStored_purge4600 :
    komodo_DEXpurge exampleStored 4600 = some (exampleStored, 0) := by
  have e0 : exampleStored.Hashtables 1000 = Function.update (fun _ => 0) 5 5 := rfl
  have hl : komodo_DEXpurge_loop 4600 1000 KOMODO_DEX_HASHSIZE 0 exampleStored 0
      = some (exampleStored, 0) := by
    refine purge_loop_eval 4600 1000 5 exampleStored (exampleStored, 0) (by decide) ?_ rfl ?_
    · intro j hj
      rw [e0, Function.update_noteq (by omega)]
    · intro j hj _
      show exampleStored.Hashtables 1000 j = 0
      rw [e0, Function.update_noteq (by omega)]
  unfold komodo_DEXpurge
  rw [if_neg (by decide)]
  have hm : 4600 % KOMODO_DEX_PURGETIME = 1000 := by decide
  simp only [hm, hl]
  rfl

/-- C10 fails as stated: `exampleStored` holds in bucket 1000 a blob stamped
1000; `komodo_DEXpurge(4600)` works on bucket `4600 mod 3600 = 1000`, finds the
timestamp different from the cutoff and leaves everything in place: the call
returns 0 with the state unchanged, cell 5 of `Hashtables[1000]` is still
non-zero and cell 5 of `Datablobs[1000]` still holds the blob pointer. -/
theorem C10_counterexample :
    komodo_DEXpurge exampleStored 4600 = some (exampleStored, 0)
    ∧ exampleStored.Hashtables (4600 % KOMODO_DEX_PURGETIME) 5 = 5
    ∧ exampleStored.Datablobs (4600 % KOMODO_DEX_PURGETIME) 5 = 1
    ∧ exampleStored.heap 1 = some exampleBlob :=
  ⟨exampleStored_purge4600, by decide, by decide, rfl⟩

/-! ## Purge of a well-formed bucket -/

theorem unlinkindices_ok (s : DEXState) (ptr : Nat) (b : DEX_datablob)
    (hb : s.heap ptr = some b)
    (hn : ∀ ind, ind < KOMODO_DEX_MAXINDICES →
        b.nexts ind = 0 ∨ ∃ nb, s.heap (b.nexts ind) = some nb) :
    ∃ r, DEX_unlinkindices s ptr = some r
      ∧ (∀ q, q ≠ ptr →
          (r.1.heap q).map DEX_datablob.nexts = (s.heap q).map DEX_datablob.nexts) := by
  obtain ⟨r0, h0, ⟨b1, hb1, hk1⟩, f0⟩ := unlinkstep_ok s ptr 0 0 b hb (hn 0 (by decide))
  have F0 := unlinkstep_frame _ _ _ _ _ h0
  have hn1 : b1.nexts 1 = 0 ∨ ∃ nb, r0.1.heap (b1.nexts 1) = some nb := by
    rw [hk1 1 (by decide)]
    rcases hn 1 (by decide) with h | ⟨nb, h⟩
    · exact Or.inl h
    · obtain ⟨nb1, hnb1, _⟩ := frame_live F0 _ nb h
      exact Or.inr ⟨nb1, hnb1⟩
  obtain ⟨r1, h1, ⟨b2, hb2, hk2⟩, f1⟩ := unlinkstep_ok r0.1 ptr 1 r0.2 b1 hb1 hn1
  have F1 := unlinkstep_frame _ _ _ _ _ h1
  have hn2 : b2.nexts 2 = 0 ∨ ∃ nb, r1.1.heap (b2.nexts 2) = some nb := by
    rw [hk2 2 (by decide), hk1 2 (by decide)]
    rcases hn 2 (by decide) with h | ⟨nb, h⟩
    · exact Or.inl h
    · obtain ⟨nb1, hnb1, _⟩ := frame_live (F0.trans F1) _ nb h
      exact Or.inr ⟨nb1, hnb1⟩
  obtain ⟨r2, h2, _, f2⟩ := unlinkstep_ok r1.1 ptr 2 r1.2 b2 hb2 hn2
  refine ⟨r2, ?_, ?_⟩
  · unfold DEX_unlinkindices
    rw [h0]
    simp only
    rw [h1]
    simp only
    exact h2
  · intro q hq
    rw [f2 q hq, f1 q hq, f0 q hq]

theorem purgeable_true_iff (s : DEXState) (cutoff modval i : Nat) :
    DEX_purgeable s cutoff modval i = true ↔
      s.Hashtables modval i ≠ 0
      ∧ ∃ b, s.heap (s.Datablobs modval i) = some b ∧ DEX_blobtime b = cutoff := by
  unfold DEX_purgeable
  cases h : s.heap (s.Datablobs modval i) with
  | none => simp
  | some b => simp

theorem purgecount_congr (s s1 : DEXState) (cutoff modval : Nat) (k : Nat) :
    ∀ i, (∀ j, i ≤ j → j < i + k →
            DEX_purgeable s1 cutoff modval j = DEX_purgeable s cutoff modval j) →
      DEX_purgecount s1 cutoff modval k i = DEX_purgecount s cutoff modval k i := by
  induction k with
  | zero => intro i _; rfl
  | succ k ih =>
    intro i h
    simp only [DEX_purgecount]
    rw [h i (le_refl _) (by omega), ih (i + 1) (fun j h1 h2 => h j (by omega) (by omega))]

theorem PurgeSafe_succ (s : DEXState) (cutoff modval i : Nat)
    (h : PurgeSafe s cutoff modval i) : PurgeSafe s cutoff modval (i + 1) := by
  intro j hij hj hH
  obtain ⟨h1, b, hb, hd, hx⟩ := h j (by omega) hj hH
  refine ⟨h1, b, hb, fun j1 a1 a2 a3 => hd j1 (by omega) a2 a3, ?_⟩
  intro ht ind hind
  rcases hx ht ind hind with h0 | ⟨hl, hne⟩
  · exact Or.inl h0
  · exact Or.inr ⟨hl, fun j1 a1 a2 a3 => hne j1 (by omega) a2 a3⟩

theorem set2_same {α : Type} (tbl : Nat → Nat → α) (m i : Nat) (v : α) :
    set2 tbl m i v m i = v := by
  simp only [set2, Function.update_same]

theorem set2_ne {α : Type} (tbl : Nat → Nat → α) (m i : Nat) (v : α) (j : Nat) (h : j ≠ i) :
    set2 tbl m i v m j = tbl m j := by
  simp only [set2, Function.update_same, Function.update_noteq h]

theorem set2_row_ne {α : Type} (tbl : Nat → Nat → α) (m i : Nat) (v : α) (m1 : Nat)
    (h : m1 ≠ m) : set2 tbl m i v m1 = tbl m1 := by
  simp only [set2, Function.update_noteq h]

theorem purgepost_skip (s : DEXState) (cutoff modval k i : Nat) (n : Int) (r : DEXState × Int)
    (hnp : DEX_purgeable s cutoff modval i = false)
    (h : PurgePost s cutoff modval k (i + 1) n r) : PurgePost s cutoff modval (k + 1) i n r := by
  obtain ⟨hcnt, hcells, hbelow, hnone, hlc⟩ := h
  refine ⟨?_, ?_, ?_, hnone, hlc⟩
  · rw [hcnt]
    simp only [DEX_purgecount, hnp, Bool.false_eq_true, if_false, Nat.zero_add]
  · intro j hj1 hj2
    by_cases hji : j = i
    · subst hji
      refine ⟨fun ht => ?_, fun _ => hbelow j (by omega)⟩
      rw [hnp] at ht
      cases ht
    · exact hcells j (by omega) hj2
  · intro j hj
    exact hbelow j (by omega)

theorem frame_Hashtables {s s1 : DEXState} (h : IndexFrame s s1) :
    s1.Hashtables = s.Hashtables := by
  have e : s1.noindex.Hashtables = s.noindex.Hashtables := congrArg DEXState.Hashtables h.1
  exact e

theorem frame_Datablobs {s s1 : DEXState} (h : IndexFrame s s1) :
    s1.Datablobs = s.Datablobs := by
  have e : s1.noindex.Datablobs = s.noindex.Datablobs := congrArg DEXState.Datablobs h.1
  exact e

theorem frame_lastcutoff {s s1 : DEXState} (h : IndexFrame s s1) :
    s1.lastcutoff = s.lastcutoff := by
  have e : s1.noindex.lastcutoff = s.noindex.lastcutoff := congrArg DEXState.lastcutoff h.1
  exact e

theorem purge_free_safe (s s1 s2 : DEXState) (cutoff modval i : Nat)
    (hF : IndexFrame s s1)
    (hnx : ∀ q, q ≠ s.Datablobs modval i →
        (s1.heap q).map DEX_datablob.nexts = (s.heap q).map DEX_datablob.nexts)
    (hH2 : s2.Hashtables = set2 s1.Hashtables modval i 0)
    (hD2 : s2.Datablobs = set2 s1.Datablobs modval i 0)
    (hh2 : s2.heap = Function.update s1.heap (s.Datablobs modval i) none)
    (hH : s.Hashtables modval i ≠ 0)
    (hsafe : PurgeSafe s cutoff modval i) :
    PurgeSafe s2 cutoff modval (i + 1)
    ∧ ∀ j, i < j → j < KOMODO_DEX_HASHSIZE →
        DEX_purgeable s2 cutoff modval j = DEX_purgeable s cutoff modval j := by
  have hHs : s1.Hashtables = s.Hashtables := frame_Hashtables hF
  have hDs : s1.Datablobs = s.Datablobs := frame_Datablobs hF
  have cellH : ∀ j, j ≠ i → s2.Hashtables modval j = s.Hashtables modval j := by
    intro j hj
    rw [hH2, set2_ne _ _ _ _ _ hj, hHs]
  have cellD : ∀ j, j ≠ i → s2.Datablobs modval j = s.Datablobs modval j := by
    intro j hj
    rw [hD2, set2_ne _ _ _ _ _ hj, hDs]
  have live : ∀ q b, q ≠ s.Datablobs modval i → s.heap q = some b →
      ∃ b1, s2.heap q = some b1 ∧ b1.nolinks = b.nolinks ∧ b1.nexts = b.nexts := by
    intro q b hq hb
    obtain ⟨b1, hb1, hnl⟩ := frame_live hF q b hb
    refine ⟨b1, ?_, hnl, ?_⟩
    · rw [hh2, Function.update_noteq hq, hb1]
    · have := hnx q hq
      rw [hb1, hb] at this
      exact Option.some.inj this
  have key : ∀ j, i < j → j < KOMODO_DEX_HASHSIZE → s.Hashtables modval j ≠ 0 →
      ∃ b b1, s.heap (s.Datablobs modval j) = some b
        ∧ s2.heap (s.Datablobs modval j) = some b1
        ∧ DEX_blobtime b1 = DEX_blobtime b ∧ b1.nexts = b.nexts := by
    intro j hij hj hHj
    obtain ⟨_, b, hb, hd, _⟩ := hsafe j (by omega) hj hHj
    have hne : s.Datablobs modval j ≠ s.Datablobs modval i :=
      fun e => hd i (le_refl _) hij hH e.symm
    obtain ⟨b1, hb1, hnl, hnn⟩ := live _ b hne hb
    refine ⟨b, b1, hb, hb1, ?_, hnn⟩
    have hdata : b1.nolinks.data = b.nolinks.data := congrArg DEX_datablob.data hnl
    unfold DEX_blobtime
    simp only [DEX_datablob.nolinks] at hdata
    rw [hdata]
  constructor
  · intro j hij hj hHj
    have hji : j ≠ i := by omega
    rw [cellH j hji] at hHj
    obtain ⟨hD, b0, hb0, hd, hx⟩ := hsafe j (by omega) hj hHj
    obtain ⟨b, b1, hb, hb1, hbt, hnn⟩ := key j (by omega) hj hHj
    rw [hb0] at hb
    cases hb
    rw [cellD j hji]
    refine ⟨hD, b1, hb1, ?_, ?_⟩
    · intro j1 a1 a2 a3
      have hj1 : j1 ≠ i := by omega
      rw [cellH j1 hj1] at a3
      rw [cellD j1 hj1]
      exact hd j1 (by omega) a2 a3
    · intro ht ind hind
      rw [hbt] at ht
      rw [hnn]
      rcases hx ht ind hind with h0 | ⟨⟨nb, hnb⟩, hne⟩
      · exact Or.inl h0
      · right
        have hni : b0.nexts ind ≠ s.Datablobs modval i :=
          fun e => hne i (le_refl _) (by omega) hH e.symm
        obtain ⟨nb1, hnb1, _, _⟩ := live _ nb hni hnb
        refine ⟨⟨nb1, hnb1⟩, ?_⟩
        intro j1 a1 a2 a3
        have hj1 : j1 ≠ i := by omega
        rw [cellH j1 hj1] at a3
        rw [cellD j1 hj1]
        exact hne j1 (by omega) a2 a3
  · intro j hij hj
    have hji : j ≠ i := by omega
    by_cases hHj : s.Hashtables modval j = 0
    · unfold DEX_purgeable
      rw [cellH j hji, hHj]
      simp only [ne_eq, not_true_eq_false, decide_False, Bool.false_and]
    · obtain ⟨b, b1, hb, hb1, hbt, _⟩ := key j hij hj hHj
      unfold DEX_purgeable
      rw [cellH j hji, cellD j hji, hb, hb1]
      simp only [hbt]

theorem purge_loop_ok (cutoff modval : Nat) (k : Nat) :
    ∀ (i : Nat) (s : DEXState) (n : Int),
      i + k = KOMODO_DEX_HASHSIZE → PurgeSafe s cutoff modval i →
      ∃ r, komodo_DEXpurge_loop cutoff modval k i s n = some r
        ∧ PurgePost s cutoff modval k i n r := by
  induction k with
  | zero =>
    intro i s n hik _
    refine ⟨(s, n), rfl, ?_, ?_, fun j _ => ⟨rfl, rfl⟩, fun p hp => hp, rfl⟩
    · simp only [DEX_purgecount, Nat.cast_zero, add_zero]
    · intro j h1 h2
      omega
  | succ k ih =>
    intro i s n hik hsafe
    by_cases hH : s.Hashtables modval i = 0
    · have hloop : komodo_DEXpurge_loop cutoff modval (k + 1) i s n
          = komodo_DEXpurge_loop cutoff modval k (i + 1) s n := by
        rw [komodo_DEXpurge_loop, if_neg (not_not.mpr hH)]
      have hnp : DEX_purgeable s cutoff modval i = false := by
        unfold DEX_purgeable
        rw [hH]
        simp only [ne_eq, not_true_eq_false, decide_False, Bool.false_and]
      obtain ⟨r, hr, hpost⟩ := ih (i + 1) s n (by omega) (PurgeSafe_succ _ _ _ _ hsafe)
      exact ⟨r, hloop.trans hr, purgepost_skip _ _ _ _ _ _ _ hnp hpost⟩
    · obtain ⟨hD, b, hb, hdist, hx⟩ := hsafe i (le_refl _) (by omega) hH
      by_cases ht : DEX_blobtime b = cutoff
      · have hnn : ∀ ind, ind < KOMODO_DEX_MAXINDICES →
            b.nexts ind = 0 ∨ ∃ nb, s.heap (b.nexts ind) = some nb := by
          intro ind hind
          rcases hx ht ind hind with h0 | ⟨hl, _⟩
          · exact Or.inl h0
          · exact Or.inr hl
        obtain ⟨r1, hr1, hnx⟩ := unlinkindices_ok s _ b hb hnn
        have hF := unlinkindices_frame _ _ _ hr1
        have hloop : komodo_DEXpurge_loop cutoff modval (k + 1) i s n
            = komodo_DEXpurge_loop cutoff modval k (i + 1)
                { r1.1 with Hashtables := set2 r1.1.Hashtables modval i 0,
                            Datablobs := set2 r1.1.Datablobs modval i 0,
                            heap := Function.update r1.1.heap (s.Datablobs modval i) none }
                (n + 1) := by
          rw [komodo_DEXpurge_loop, if_pos hH]
          simp only
          rw [if_pos hD]
          simp only [hb]
          rw [if_neg (not_not.mpr ht)]
          simp only [hr1]
        obtain ⟨hsafe2, hpe⟩ := purge_free_safe s r1.1
          { r1.1 with Hashtables := set2 r1.1.Hashtables modval i 0,
                      Datablobs := set2 r1.1.Datablobs modval i 0,
                      heap := Function.update r1.1.heap (s.Datablobs modval i) none }
          cutoff modval i hF hnx rfl rfl rfl hH hsafe
        obtain ⟨r, hr, hcnt, hcells, hbelow, hnone, hlc⟩ := ih (i + 1) _ (n + 1) (by omega) hsafe2
        have hpt : DEX_purgeable s cutoff modval i = true :=
          (purgeable_true_iff _ _ _ _).2 ⟨hH, b, hb, ht⟩
        refine ⟨r, hloop.trans hr, ?_, ?_, ?_, ?_, ?_⟩
        · have hcg := purgecount_congr s
              { r1.1 with Hashtables := set2 r1.1.Hashtables modval i 0,
                          Datablobs := set2 r1.1.Datablobs modval i 0,
                          heap := Function.update r1.1.heap (s.Datablobs modval i) none }
              cutoff modval k (i + 1)
              (fun j h1 h2 => hpe j (by omega) (by omega))
          rw [hcnt, hcg]
          simp only [DEX_purgecount, hpt, if_true]
          push_cast
          omega
        · intro j hj1 hj2
          by_cases hji : j = i
          · subst hji
            refine ⟨fun _ => ?_, fun hf => ?_⟩
            · have hb2 := hbelow j (by omega)
              refine ⟨?_, ?_, ?_⟩
              · rw [hb2.1]
                exact set2_same _ _ _ _
              · rw [hb2.2]
                exact set2_same _ _ _ _
              · exact hnone _ (by simp only [Function.update_same])
            · rw [hpt] at hf
              cases hf
          · have hc := hcells j (by omega) hj2
            have e1 : ∀ x, (set2 r1.1.Hashtables modval i x) modval j = s.Hashtables modval j := by
              intro x
              rw [set2_ne _ _ _ _ _ hji, frame_Hashtables hF]
            have e2 : ∀ x, (set2 r1.1.Datablobs modval i x) modval j = s.Datablobs modval j := by
              intro x
              rw [set2_ne _ _ _ _ _ hji, frame_Datablobs hF]
            rw [hpe j (by omega) hj2] at hc
            simp only [e1, e2] at hc
            exact hc
        · intro j hj
          have hji : j ≠ i := by omega
          have hb2 := hbelow j (by omega)
          constructor
          · rw [hb2.1]
            show (set2 r1.1.Hashtables modval i 0) modval j = _
            rw [set2_ne _ _ _ _ _ hji, frame_Hashtables hF]
          · rw [hb2.2]
            show (set2 r1.1.Datablobs modval i 0) modval j = _
            rw [set2_ne _ _ _ _ _ hji, frame_Datablobs hF]
        · intro p hp
          apply hnone
          show Function.update r1.1.heap (s.Datablobs modval i) none p = none
          by_cases hpp : p = s.Datablobs modval i
          · rw [hpp, Function.update_same]
          · rw [Function.update_noteq hpp]
            exact frame_dead hF p hp
        · rw [hlc]
          show r1.1.lastcutoff = s.lastcutoff
          exact frame_lastcutoff hF
      · have hloop : komodo_DEXpurge_loop cutoff modval (k + 1) i s n
            = komodo_DEXpurge_loop cutoff modval k (i + 1) s n := by
          rw [komodo_DEXpurge_loop, if_pos hH]
          simp only
          rw [if_pos hD]
          simp only [hb]
          rw [if_pos ht]
        have hnp : DEX_purgeable s cutoff modval i = false := by
          unfold DEX_purgeable
          rw [hb]
          simp only [ht, decide_False, Bool.and_false]
        obtain ⟨r, hr, hpost⟩ := ih (i + 1) s n (by omega) (PurgeSafe_succ _ _ _ _ hsafe)
        exact ⟨r, hloop.trans hr, purgepost_skip _ _ _ _ _ _ _ hnp hpost⟩

theorem exampleTagged_safe : PurgeSafe exampleTagged 1000 (1000 % KOMODO_DEX_PURGETIME) 0 := by
  have hm : 1000 % KOMODO_DEX_PURGETIME = 1000 := by decide
  rw [hm]
  have e0 : exampleTagged.Hashtables 1000 = Function.update (fun _ => 0) 415 415 := rfl
  have hnx : ∀ ind, ind < KOMODO_DEX_MAXINDICES →
      (exampleTagged.heap 1).map (fun b => b.nexts ind) = some 0 := by decide
  intro j _ hj hH
  have hj415 : j = 415 := by
    by_contra hne
    apply hH
    rw [e0, Function.update_noteq hne]
  subst hj415
  have hD : exampleTagged.Datablobs 1000 415 = 1 := rfl
  rw [hD]
  refine ⟨by decide, ?_⟩
  cases hb : exampleTagged.heap 1 with
  | none =>
    have h0 := hnx 0 (by decide)
    rw [hb] at h0
    cases h0
  | some b =>
    refine ⟨b, rfl, ?_, ?_⟩
    · intro j1 _ hj1 hH1
      exfalso
      apply hH1
      rw [e0, Function.update_noteq (by omega)]
    · intro _ ind hind
      have h0 := hnx ind hind
      rw [hb] at h0
      simp only [Option.map_some', Option.some.injEq] at h0
      exact Or.inl h0

/-- C10, amended: when bucket `m = cutoff mod 3600` is well formed
(`PurgeSafe`: every cell with a non-zero short hash has a non-null pointer to an
allocated blob that is stored in no earlier non-zero cell of the bucket, and
each of the three `nexts` links of a blob stamped `cutoff` is null or points to
an allocated blob that is stored in no earlier non-zero cell of the bucket) and
`cutoff - lastcutoff` is non-zero as a `uint32_t`, `komodo_DEXpurge(cutoff)`
returns; every non-zero cell of bucket `m` whose blob is stamped exactly
`cutoff` is zero in `Hashtables[m]`, null in `Datablobs[m]` and its blob is
freed; every other cell of the bucket is unchanged; the return value is the
number of cells cleared. -/
theorem C10_purge_clears_stamped_cells (s : DEXState) (cutoff : Nat)
    (hsafe : PurgeSafe s cutoff (cutoff % KOMODO_DEX_PURGETIME) 0)
    (hlc : wrap32 ((cutoff : Int) - (s.lastcutoff : Int)) ≠ 0) :
    ∃ r, komodo_DEXpurge s cutoff = some r
      ∧ r.2 = (DEX_purgecount s cutoff (cutoff % KOMODO_DEX_PURGETIME) KOMODO_DEX_HASHSIZE 0 : Nat)
      ∧ ∀ j, j < KOMODO_DEX_HASHSIZE →
          (DEX_purgeable s cutoff (cutoff % KOMODO_DEX_PURGETIME) j = true →
            r.1.Hashtables (cutoff % KOMODO_DEX_PURGETIME) j = 0
            ∧ r.1.Datablobs (cutoff % KOMODO_DEX_PURGETIME) j = 0
            ∧ r.1.heap (s.Datablobs (cutoff % KOMODO_DEX_PURGETIME) j) = none)
          ∧ (DEX_purgeable s cutoff (cutoff % KOMODO_DEX_PURGETIME) j = false →
            r.1.Hashtables (cutoff % KOMODO_DEX_PURGETIME) j
              = s.Hashtables (cutoff % KOMODO_DEX_PURGETIME) j
            ∧ r.1.Datablobs (cutoff % KOMODO_DEX_PURGETIME) j
              = s.Datablobs (cutoff % KOMODO_DEX_PURGETIME) j) := by
  have key : ∀ s0 : DEXState, s0.Hashtables = s.Hashtables → s0.Datablobs = s.Datablobs →
      s0.heap = s.heap → s0.lastcutoff = s.lastcutoff →
      ∃ r, (match komodo_DEXpurge_loop cutoff (cutoff % KOMODO_DEX_PURGETIME)
                KOMODO_DEX_HASHSIZE 0 s0 0 with
            | none => none
            | some (s1, n) =>
              if n ≠ 0 ∨ (cutoff % KOMODO_DEX_PURGETIME) % 60 = 0 then
                if wrap32 ((cutoff : Int) - (s1.lastcutoff : Int)) = 0 then none
                else some ({ s1 with lastcutoff := cutoff }, n)
              else some (s1, n)) = some r
      ∧ r.2 = (DEX_purgecount s cutoff (cutoff % KOMODO_DEX_PURGETIME) KOMODO_DEX_HASHSIZE 0 : Nat)
      ∧ ∀ j, j < KOMODO_DEX_HASHSIZE →
          (DEX_purgeable s cutoff (cutoff % KOMODO_DEX_PURGETIME) j = true →
            r.1.Hashtables (cutoff % KOMODO_DEX_PURGETIME) j = 0
            ∧ r.1.Datablobs (cutoff % KOMODO_DEX_PURGETIME) j = 0
            ∧ r.1.heap (s.Datablobs (cutoff % KOMODO_DEX_PURGETIME) j) = none)
          ∧ (DEX_purgeable s cutoff (cutoff % KOMODO_DEX_PURGETIME) j = false →
            r.1.Hashtables (cutoff % KOMODO_DEX_PURGETIME) j
              = s.Hashtables (cutoff % KOMODO_DEX_PURGETIME) j
            ∧ r.1.Datablobs (cutoff % KOMODO_DEX_PURGETIME) j
              = s.Datablobs (cutoff % KOMODO_DEX_PURGETIME) j) := by
    intro s0 eH eD eh el
    have hsafe0 : PurgeSafe s0 cutoff (cutoff % KOMODO_DEX_PURGETIME) 0 := by
      unfold PurgeSafe
      rw [eH, eD, eh]
      exact hsafe
    have hpe : ∀ j, DEX_purgeable s0 cutoff (cutoff % KOMODO_DEX_PURGETIME) j
        = DEX_purgeable s cutoff (cutoff % KOMODO_DEX_PURGETIME) j := by
      intro j
      unfold DEX_purgeable
      rw [eH, eD, eh]
    obtain ⟨r, hr, hcnt, hcells, _, _, hl⟩ :=
      purge_loop_ok cutoff (cutoff % KOMODO_DEX_PURGETIME) KOMODO_DEX_HASHSIZE 0 s0 0
        (by omega) hsafe0
    rw [purgecount_congr s s0 cutoff _ _ 0 (fun j _ _ => hpe j)] at hcnt
    have hcells1 : ∀ j, j < KOMODO_DEX_HASHSIZE →
          (DEX_purgeable s cutoff (cutoff % KOMODO_DEX_PURGETIME) j = true →
            r.1.Hashtables (cutoff % KOMODO_DEX_PURGETIME) j = 0
            ∧ r.1.Datablobs (cutoff % KOMODO_DEX_PURGETIME) j = 0
            ∧ r.1.heap (s.Datablobs (cutoff % KOMODO_DEX_PURGETIME) j) = none)
          ∧ (DEX_purgeable s cutoff (cutoff % KOMODO_DEX_PURGETIME) j = false →
            r.1.Hashtables (cutoff % KOMODO_DEX_PURGETIME) j
              = s.Hashtables (cutoff % KOMODO_DEX_PURGETIME) j
            ∧ r.1.Datablobs (cutoff % KOMODO_DEX_PURGETIME) j
              = s.Datablobs (cutoff % KOMODO_DEX_PURGETIME) j) := by
      intro j hj
      have h := hcells j (Nat.zero_le _) hj
      rw [hpe j, eH, eD] at h
      exact h
    have hw : ¬ wrap32 ((cutoff : Int) - (r.1.lastcutoff : Int)) = 0 := by
      rw [hl, el]
      exact hlc
    rw [hr]
    obtain ⟨s1, n⟩ := r
    simp only at hw hcnt hcells1 ⊢
    by_cases hc : n ≠ 0 ∨ (cutoff % KOMODO_DEX_PURGETIME) % 60 = 0
    · rw [if_pos hc, if_neg hw]
      exact ⟨_, rfl, by simpa using hcnt, hcells1⟩
    · rw [if_neg hc]
      exact ⟨_, rfl, by simpa using hcnt, hcells1⟩
  unfold komodo_DEXpurge
  by_cases hd : cutoff % SECONDS_IN_DAY = SECONDS_IN_DAY - 1
  · simp only [if_pos hd]
    exact key _ rfl rfl rfl rfl
  · simp only [if_neg hd]
    exact key _ rfl rfl rfl rfl

/-- Witness of C10: `komodo_DEXpurge(1000)` on `exampleTagged`, whose bucket 1000
holds one blob stamped 1000. -/
theorem C10_purge_clears_stamped_cells_witness :
    PurgeSafe exampleTagged 1000 (1000 % KOMODO_DEX_PURGETIME) 0
    ∧ wrap32 ((1000 : Int) - (exampleTagged.lastcutoff : Int)) ≠ 0
    ∧ ∃ r, komodo_DEXpurge exampleTagged 1000 = some r
      ∧ r.2 = (DEX_purgecount exampleTagged 1000 (1000 % KOMODO_DEX_PURGETIME)
                KOMODO_DEX_HASHSIZE 0 : Nat)
      ∧ ∀ j, j < KOMODO_DEX_HASHSIZE →
          (DEX_purgeable exampleTagged 1000 (1000 % KOMODO_DEX_PURGETIME) j = true →
            r.1.Hashtables (1000 % KOMODO_DEX_PURGETIME) j = 0
            ∧ r.1.Datablobs (1000 % KOMODO_DEX_PURGETIME) j = 0
            ∧ r.1.heap (exampleTagged.Datablobs (1000 % KOMODO_DEX_PURGETIME) j) = none)
          ∧ (DEX_purgeable exampleTagged 1000 (1000 % KOMODO_DEX_PURGETIME) j = false →
            r.1.Hashtables (1000 % KOMODO_DEX_PURGETIME) j
              = exampleTagged.Hashtables (1000 % KOMODO_DEX_PURGETIME) j
            ∧ r.1.Datablobs (1000 % KOMODO_DEX_PURGETIME) j
              = exampleTagged.Datablobs (1000 % KOMODO_DEX_PURGETIME) j) :=
  ⟨exampleTagged_safe, by decide,
    C10_purge_clears_stamped_cells exampleTagged 1000 exampleTagged_safe (by decide)⟩

/-! ## The pointers stored in the cells are allocated and pairwise distinct -/

theorem StoreInj_mono {s s1 : DEXState} (hD : s1.Datablobs = s.Datablobs)
    (hh : ∀ p, s.heap p ≠ none → s1.heap p ≠ none) (hg : StoreInj s) : StoreInj s1 := by
  refine ⟨fun m i h => ?_, fun m i m1 i1 h he => ?_⟩
  · rw [hD] at h ⊢
    exact hh _ (hg.1 m i h)
  · rw [hD] at h he
    exact hg.2 m i m1 i1 h he

theorem StoreInj_of_heap_eq {s s1 : DEXState} (h : s1.heap = s.heap)
    (hD : s1.Datablobs = s.Datablobs) (hg : StoreInj s) : StoreInj s1 :=
  StoreInj_mono hD (fun p hp => by rw [h]; exact hp) hg

theorem StoreInj_of_frame {s s1 : DEXState} (h : IndexFrame s s1) (hg : StoreInj s) :
    StoreInj s1 := by
  refine StoreInj_mono (frame_Datablobs h) (fun p hp => ?_) hg
  cases hb : s.heap p with
  | none => exact absurd hb hp
  | some b =>
    obtain ⟨b1, hb1, _⟩ := frame_live h p b hb
    rw [hb1]
    exact Option.some_ne_none _

theorem StoreInj_update {s s1 : DEXState} (p : Nat) (b : DEX_datablob)
    (h : s1.heap = Function.update s.heap p (some b)) (hD : s1.Datablobs = s.Datablobs)
    (hg : StoreInj s) : StoreInj s1 := by
  refine StoreInj_mono hD (fun q hq => ?_) hg
  rw [h]
  by_cases hqp : q = p
  · rw [hqp, Function.update_same]
    exact Option.some_ne_none _
  · rw [Function.update_noteq hqp]
    exact hq

theorem set2_apply {α : Type} (tbl : Nat → Nat → α) (m i : Nat) (v : α) (m1 i1 : Nat) :
    set2 tbl m i v m1 i1 = if m1 = m ∧ i1 = i then v else tbl m1 i1 := by
  by_cases hm : m1 = m
  · subst hm
    by_cases hi : i1 = i
    · subst hi
      rw [set2_same, if_pos ⟨rfl, rfl⟩]
    · rw [set2_ne _ _ _ _ _ hi, if_neg (fun h => hi h.2)]
  · rw [set2_row_ne _ _ _ _ _ hm, if_neg (fun h => hm h.1)]

theorem StoreInj_free {s s1 : DEXState} (m i p : Nat) (hp : s.Datablobs m i = p)
    (h : s1.heap = Function.update s.heap p none)
    (hD : s1.Datablobs = set2 s.Datablobs m i 0) (hg : StoreInj s) : StoreInj s1 := by
  have key : ∀ m1 i1, s1.Datablobs m1 i1 ≠ 0 →
      s1.Datablobs m1 i1 = s.Datablobs m1 i1 ∧ ¬ (m1 = m ∧ i1 = i) := by
    intro m1 i1 h1
    rw [hD, set2_apply] at h1 ⊢
    by_cases hc : m1 = m ∧ i1 = i
    · rw [if_pos hc] at h1
      exact absurd rfl h1
    · rw [if_neg hc]
      exact ⟨rfl, hc⟩
  refine ⟨fun m1 i1 h1 => ?_, fun m1 i1 m2 i2 h1 he => ?_⟩
  · obtain ⟨e1, hne⟩ := key m1 i1 h1
    rw [e1] at h1 ⊢
    rw [h, Function.update_noteq]
    · exact hg.1 m1 i1 h1
    · intro hq
      rw [← hp] at hq
      exact hne (hg.2 m1 i1 m i h1 hq)
  · obtain ⟨e1, _⟩ := key m1 i1 h1
    obtain ⟨e2, _⟩ := key m2 i2 (by rw [← he]; exact h1)
    rw [e1] at h1
    rw [e1, e2] at he
    exact hg.2 m1 i1 m2 i2 h1 he

theorem StoreInj_add {s s1 : DEXState} (m i newptr : Nat) (b : DEX_datablob)
    (h : s1.heap = Function.update s.heap newptr (some b))
    (hD : s1.Datablobs = set2 s.Datablobs m i newptr)
    (hfresh : s.heap newptr = none) (hne : newptr ≠ 0) (hg : StoreInj s) : StoreInj s1 := by
  have old : ∀ m1 i1, s.Datablobs m1 i1 ≠ 0 → s.Datablobs m1 i1 ≠ newptr := by
    intro m1 i1 h1 he
    apply hg.1 m1 i1 h1
    rw [he]
    exact hfresh
  refine ⟨fun m1 i1 h1 => ?_, fun m1 i1 m2 i2 h1 he => ?_⟩
  · rw [hD, set2_apply] at h1 ⊢
    rw [h]
    by_cases hc : m1 = m ∧ i1 = i
    · rw [if_pos hc, Function.update_same]
      exact Option.some_ne_none _
    · rw [if_neg hc] at h1 ⊢
      rw [Function.update_noteq (old m1 i1 h1)]
      exact hg.1 m1 i1 h1
  · rw [hD, set2_apply, set2_apply] at he
    rw [hD, set2_apply] at h1
    by_cases hc1 : m1 = m ∧ i1 = i
    · by_cases hc2 : m2 = m ∧ i2 = i
      · exact ⟨hc1.1.trans hc2.1.symm, hc1.2.trans hc2.2.symm⟩
      · rw [if_pos hc1, if_neg hc2] at he
        exact absurd he.symm (old m2 i2 (by rw [← he]; exact hne))
    · rw [if_neg hc1] at h1 he
      by_cases hc2 : m2 = m ∧ i2 = i
      · rw [if_pos hc2] at he
        exact absurd he (old m1 i1 h1)
      · rw [if_neg hc2] at he
        exact hg.2 m1 i1 m2 i2 h1 he

theorem packetsend_Datablobs (s : DEXState) (peer : Int) (peerpos ptr resp0 : Nat)
    (r : DEXState × Int) (h : komodo_DEXpacketsend s peer peerpos ptr resp0 = some r) :
    r.1.Datablobs = s.Datablobs := by
  unfold komodo_DEXpacketsend at h
  simp only at h
  split at h
  · cases h
  · split at h
    · cases h
    · cases h
      rfl

theorem find32_Datablobs (s : DEXState) (hashsize shorthash : Nat) (clearflag : Int) :
    (komodo_DEXfind32 s hashsize shorthash clearflag).1.Datablobs = s.Datablobs := by
  simp only [komodo_DEXfind32]
  split
  · split <;> rfl
  · split <;> rfl

theorem Ploop_Datablobs (now : Nat) (pfrom : Int) (msg : Nat → Nat) (modval : Nat) (k : Nat) :
    ∀ (offset : Nat) (s : DEXState),
      (komodo_DEXprocess_Ploop now pfrom msg modval k offset s).Datablobs = s.Datablobs := by
  induction k with
  | zero => intro offset s; rfl
  | succ k ih =>
    intro offset s
    simp only [komodo_DEXprocess_Ploop]
    split
    · rfl
    · split
      · exact ih _ _
      · split
        · rw [ih]
          simp only [komodo_DEXadd32, komodo_DEXfind32]
          split
          · split <;> rfl
          · split <;> rfl
        · rw [ih]
          simp only [komodo_DEXfind32]
          split
          · split <;> rfl
          · split <;> rfl

theorem add_inj (s : DEXState) (openind : Int) (now modval : Nat) (hash : bits256)
    (shorthash : Nat) (msg : Nat → Nat) (len newptr : Nat) (r : DEXState × Int)
    (h : komodo_DEXadd s openind now modval hash shorthash msg len newptr = some r)
    (hfresh : newptr = 0 ∨ s.heap newptr = none)
    (hg : StoreInj s) : StoreInj r.1 := by
  unfold komodo_DEXadd at h
  simp only at h
  generalize (if openind < 0 ∨ openind ≥ ((KOMODO_DEX_HASHSIZE : Nat) : Int)
    then komodo_DEXfind s modval shorthash else (-1, openind)) = f at h
  split at h
  · cases h; exact hg
  · rename_i hpow
    split at h
    · cases h; exact hg
    · split at h
      · cases h; exact hg
      · split at h
        · cases h
        · cases h; exact hg
        · rename_i x hx
          split at h
          · cases h; exact hg
          · rename_i hne
            split at h
            · cases h
            · split at h
              · cases h
              · rename_i r1 h1
                cases h
                refine StoreInj_of_frame (updatetips_frame _ _ _ _ _ _ _ _ _ _ h1) ?_
                rcases hfresh with h0 | hfr
                · exact absurd h0 hne
                · exact StoreInj_add modval _ newptr _ rfl rfl hfr hne hg

theorem purge_loop_inj (cutoff modval : Nat) (k : Nat) :
    ∀ (i : Nat) (s : DEXState) (n : Int) (r : DEXState × Int),
      komodo_DEXpurge_loop cutoff modval k i s n = some r → StoreInj s → StoreInj r.1 := by
  induction k with
  | zero =>
    intro i s n r h hg
    simp only [komodo_DEXpurge_loop] at h
    cases h
    exact hg
  | succ k ih =>
    intro i s n r h hg
    simp only [komodo_DEXpurge_loop] at h
    split at h
    · split at h
      · split at h
        · cases h
        · split at h
          · exact ih _ _ _ _ h hg
          · split at h
            · cases h
            · rename_i r1 h1
              refine ih _ _ _ _ h ?_
              have hF := unlinkindices_frame _ _ _ h1
              exact StoreInj_free modval i _
                (congrFun (congrFun (frame_Datablobs hF) modval) i) rfl rfl
                (StoreInj_of_frame hF hg)
      · cases h
    · exact ih _ _ _ _ h hg

theorem purge_inj (s : DEXState) (cutoff : Nat) (r : DEXState × Int)
    (h : komodo_DEXpurge s cutoff = some r) (hg : StoreInj s) : StoreInj r.1 := by
  unfold komodo_DEXpurge at h
  simp only at h
  split at h
  · cases h
  · rename_i s1 n h1
    have g1 : StoreInj s1 := by
      refine purge_loop_inj _ _ _ _ _ _ (s1, n) h1 ?_
      split
      · exact hg
      · exact hg
    split at h
    · split at h
      · cases h
      · cases h; exact g1
    · cases h; exact g1

theorem modval_loop_inj (now modval : Nat) (peer : Int) (peerpos : Nat) (k : Nat) :
    ∀ (i : Nat) (s : DEXState) (recents : List Nat) (r : DEXState × List Nat),
      komodo_DEXmodval_loop now modval peer peerpos k i s recents = some r →
        StoreInj s → StoreInj r.1 := by
  induction k with
  | zero =>
    intro i s recents r h hg
    simp only [komodo_DEXmodval_loop] at h
    cases h
    exact hg
  | succ k ih =>
    intro i s recents r h hg
    simp only [komodo_DEXmodval_loop] at h
    split at h
    · split at h
      · cases h
      · rename_i b hb
        split at h
        · split at h
          · split at h
            · rename_i hsent
              split at h
              · split at h
                · cases h
                · rename_i r1 h1
                  split at h
                  · cases h
                  · rename_i b1 hb1
                    refine ih _ _ _ _ h ?_
                    obtain ⟨b0, hb0, hheap⟩ := packetsend_heap _ _ _ _ _ _ h1
                    have g1 : StoreInj r1.1 :=
                      StoreInj_update _ _ hheap (packetsend_Datablobs _ _ _ _ _ _ h1) hg
                    exact StoreInj_update _ _ rfl rfl g1
              · exact ih _ _ _ _ h hg
            · exact ih _ _ _ _ h hg
          · exact ih _ _ _ _ h hg
        · exact ih _ _ _ _ h hg
    · exact ih _ _ _ _ h hg

theorem modval_inj (s : DEXState) (now : Nat) (modval : Int) (peer : Int) (r : DEXState × Int)
    (h : komodo_DEXmodval s now modval peer = some r) (hg : StoreInj s) : StoreInj r.1 := by
  unfold komodo_DEXmodval at h
  simp only at h
  split at h
  · cases h; exact hg
  · split at h
    · cases h; exact hg
    · split at h
      · cases h
      · rename_i s1 recents h1
        have g1 : StoreInj s1 := modval_loop_inj _ _ _ _ _ _ _ _ (s1, recents) h1 hg
        split at h
        · cases h; exact g1
        · cases h; exact g1

theorem poll_purgeloop_inj (ptime : Nat) (k : Nat) :
    ∀ (s s1 : DEXState), komodo_DEXpoll_purgeloop ptime k s = some s1 →
      StoreInj s → StoreInj s1 := by
  induction k with
  | zero =>
    intro s s1 h hg
    simp only [komodo_DEXpoll_purgeloop] at h
    cases h
    exact hg
  | succ k ih =>
    intro s s1 h hg
    simp only [komodo_DEXpoll_purgeloop] at h
    split at h
    · split at h
      · cases h
      · rename_i r hr
        exact ih _ _ h (purge_inj _ _ _ hr hg)
    · cases h
      exact hg

theorem poll_scanloop_inj (now : Nat) (pto : Int) (k : Nat) :
    ∀ (i : Nat) (s s1 : DEXState), komodo_DEXpoll_scanloop now pto k i s = some s1 →
      StoreInj s → StoreInj s1 := by
  induction k with
  | zero =>
    intro i s s1 h hg
    simp only [komodo_DEXpoll_scanloop] at h
    cases h
    exact hg
  | succ k ih =>
    intro i s s1 h hg
    simp only [komodo_DEXpoll_scanloop] at h
    split at h
    · cases h
    · rename_i r hr
      refine ih _ _ _ h ?_
      have g := modval_inj _ _ _ _ _ hr hg
      split
      · exact g
      · exact g

theorem poll_purgephase_inj (s : DEXState) (now : Nat) (s1 : DEXState)
    (h : komodo_DEXpoll_purgephase s now = some s1) (hg : StoreInj s) : StoreInj s1 := by
  unfold komodo_DEXpoll_purgephase at h
  simp only at h
  by_cases hc : wrap32 ((now : Int) - (KOMODO_DEX_PURGETIME : Nat) + (KOMODO_DEX_MAXLAG : Nat))
      > s.purgetime
  · rw [if_pos hc] at h
    by_cases h0 : s.purgetime = 0
    · rw [if_pos h0] at h
      cases h
      exact hg
    · rw [if_neg h0] at h
      cases hl : komodo_DEXpoll_purgeloop
          (wrap32 ((now : Int) - (KOMODO_DEX_PURGETIME : Nat) + (KOMODO_DEX_MAXLAG : Nat)))
          (wrap32 ((now : Int) - (KOMODO_DEX_PURGETIME : Nat) + (KOMODO_DEX_MAXLAG : Nat))
            - s.purgetime) s with
      | none =>
        rw [hl] at h
        cases h
      | some s3 =>
        rw [hl] at h
        cases h
        exact StoreInj_of_heap_eq rfl rfl (poll_purgeloop_inj _ _ s s3 hl hg)
  · rw [if_neg hc] at h
    cases h
    exact hg

theorem poll_scanphase_inj (s : DEXState) (now : Nat) (pto : Int) (s1 : DEXState)
    (h : komodo_DEXpoll_scanphase s now pto = some s1) (hg : StoreInj s) : StoreInj s1 := by
  unfold komodo_DEXpoll_scanphase at h
  by_cases hc : (now = s.Got_Recent_Quote ∧ now > s.dexlastping pto)
      ∨ now ≥ (s.dexlastping pto + KOMODO_DEX_LOCALHEARTBEAT) % U32
  · rw [if_pos hc] at h
    exact poll_scanloop_inj _ _ _ _ _ _ h hg
  · rw [if_neg hc] at h
    cases h
    exact hg

theorem poll_inj (s : DEXState) (now : Nat) (pto : Int) (s1 : DEXState)
    (h : komodo_DEXpoll s now pto = some s1) (hg : StoreInj s) : StoreInj s1 := by
  unfold komodo_DEXpoll at h
  cases hp : komodo_DEXpoll_purgephase s now with
  | none =>
    rw [hp] at h
    cases h
  | some s2 =>
    rw [hp] at h
    exact poll_scanphase_inj _ _ _ _ h (poll_purgephase_inj _ _ _ hp hg)

theorem process_Q_inj (vcalc_sha256 : List Nat → bits256) (s : DEXState) (now : Nat)
    (peerpos : Nat) (relay t modval : Nat) (msg : Nat → Nat) (len newptr : Nat)
    (r : DEXState × Int)
    (h : komodo_DEXprocess_Q vcalc_sha256 s now peerpos relay t modval msg len newptr = some r)
    (hfresh : newptr = 0 ∨ s.heap newptr = none)
    (hg : StoreInj s) : StoreInj r.1 := by
  unfold komodo_DEXprocess_Q at h
  simp only at h
  split at h
  · cases h; exact hg
  · split at h
    · split at h
      · cases h
      · rename_i s6 ind h6
        have g6 : StoreInj s6 := by
          split at h6
          · split at h6
            · cases h6
            · rename_i s2 ind2 h2
              have g2 : StoreInj s2 := add_inj _ _ _ _ _ _ _ _ _ (s2, ind2) h2 hfresh hg
              split at h6
              · cases h6
                refine StoreInj_of_heap_eq ?_ ?_ g2
                · show _ = s2.heap
                  split
                  · split
                    · exact find32_heap _ _ _ _
                    · exact find32_heap _ _ _ _
                  · exact find32_heap _ _ _ _
                · show _ = s2.Datablobs
                  split
                  · split
                    · exact find32_Datablobs _ _ _ _
                    · exact find32_Datablobs _ _ _ _
                  · exact find32_Datablobs _ _ _ _
              · cases h6
                exact g2
          · cases h6
            exact hg
        split at h
        · cases h
        · split at h
          · split at h
            · cases h
            · rename_i b hb
              cases h
              exact StoreInj_update _ _ rfl rfl g6
          · cases h
            exact g6
    · cases h; exact hg

theorem process_P_inj (s : DEXState) (now : Nat) (pfrom : Int) (msg : Nat → Nat) (len : Nat)
    (r : DEXState × Int) (h : komodo_DEXprocess_P s now pfrom msg len = some r)
    (hg : StoreInj s) : StoreInj r.1 := by
  unfold komodo_DEXprocess_P at h
  simp only at h
  split at h
  · split at h
    · cases h
      exact StoreInj_of_heap_eq (Ploop_heap _ _ _ _ _ _ _) (Ploop_Datablobs _ _ _ _ _ _ _) hg
    · cases h; exact hg
  · cases h; exact hg

theorem process_G_inj (s : DEXState) (pfrom : Int) (peerpos : Nat) (msg : Nat → Nat)
    (r : DEXState × Int) (h : komodo_DEXprocess_G s pfrom peerpos msg = some r)
    (hg : StoreInj s) : StoreInj r.1 := by
  unfold komodo_DEXprocess_G at h
  simp only at h
  split at h
  · split at h
    · split at h
      · cases h
      · rename_i b hb
        split at h
        · obtain ⟨b0, hb0, hheap⟩ := packetsend_heap _ _ _ _ _ _ h
          exact StoreInj_update _ _ hheap (packetsend_Datablobs _ _ _ _ _ _ h) hg
        · cases h; exact hg
    · cases h; exact hg
  · cases h; exact hg

theorem dispatch_inj (vcalc_sha256 : List Nat → bits256) (s : DEXState) (now : Nat)
    (pfrom : Int) (peerpos : Nat) (relay funcid t modval : Nat) (msg : Nat → Nat)
    (len newptr : Nat) (r : DEXState × Int)
    (h : komodo_DEXprocess_dispatch vcalc_sha256 s now pfrom peerpos relay funcid t modval
          msg len newptr = some r)
    (hfresh : newptr = 0 ∨ s.heap newptr = none)
    (hg : StoreInj s) : StoreInj r.1 := by
  unfold komodo_DEXprocess_dispatch at h
  split at h
  · exact process_Q_inj _ _ _ _ _ _ _ _ _ _ _ h hfresh hg
  · split at h
    · exact process_P_inj _ _ _ _ _ _ h hg
    · split at h
      · exact process_G_inj _ _ _ _ _ h hg
      · cases h; exact hg

theorem process_inj (vcalc_sha256 : List Nat → bits256) (s : DEXState) (now : Nat)
    (pfrom : Int) (msg : Nat → Nat) (len newptr : Nat) (r : DEXState × Int)
    (h : komodo_DEXprocess vcalc_sha256 s now pfrom msg len newptr = some r)
    (hfresh : newptr = 0 ∨ s.heap newptr = none)
    (hg : StoreInj s) : StoreInj r.1 := by
  have g0 : StoreInj (komodo_DEXpeerpos s now pfrom).1 := hg
  unfold komodo_DEXprocess at h
  simp only at h
  by_cases hguard : len ≥ KOMODO_DEX_ROUTESIZE ∧ (komodo_DEXpeerpos s now pfrom).2 ≠ 0xffff
  · rw [if_pos hguard] at h
    by_cases hfut : iguana_rwnum_dec (bufAt msg 2) 4 > (now + KOMODO_DEX_LOCALHEARTBEAT) % U32
    · rw [if_pos hfut] at h
      cases h; exact g0
    · rw [if_neg hfut] at h
      by_cases hlag : (if toInt32 (wrap32 ((now : Int) - (iguana_rwnum_dec (bufAt msg 2) 4 : Nat))) < 0
          then 0 else toInt32 (wrap32 ((now : Int) - (iguana_rwnum_dec (bufAt msg 2) 4 : Nat))))
          > ((KOMODO_DEX_MAXLAG : Nat) : Int)
      · rw [if_pos hlag] at h
        cases h; exact g0
      · rw [if_neg hlag] at h
        exact dispatch_inj _ _ _ _ _ _ _ _ _ _ _ _ _ h hfresh g0
  · rw [if_neg hguard] at h
    cases h; exact g0

theorem step_inj (vcalc_sha256 : List Nat → bits256) (s s1 : DEXState)
    (h : Step vcalc_sha256 s s1) (hg : StoreInj s) : StoreInj s1 := by
  cases h with
  | process now pfrom msg len newptr ret hnow hfresh h => exact process_inj _ _ _ _ _ _ _ _ h hfresh hg
  | add openind now modval hash shorthash msg len newptr ret hnow hmod hfresh h =>
    exact add_inj _ _ _ _ _ _ _ _ _ _ h hfresh hg
  | poll now pto hnow h => exact poll_inj _ _ _ _ h hg
  | purge cutoff ret hcut h => exact purge_inj _ _ _ h hg

theorem reachable_inj (vcalc_sha256 : List Nat → bits256) (s : DEXState)
    (h : Reachable vcalc_sha256 s) : StoreInj s := by
  induction h with
  | init => exact ⟨fun m i h => absurd rfl h, fun m i m1 i1 h _ => absurd rfl h⟩
  | step s s1 _ hstep ih => exact step_inj _ _ _ hstep ih

/-! ## Purge leaves the other buckets alone -/

theorem purge_loop_frame (cutoff modval : Nat) (k : Nat) :
    ∀ (i : Nat) (s : DEXState) (n : Int) (r : DEXState × Int),
      komodo_DEXpurge_loop cutoff modval k i s n = some r →
        (∀ j, j ≠ modval → r.1.Hashtables j = s.Hashtables j ∧ r.1.Datablobs j = s.Datablobs j)
        ∧ (∀ p, p ≠ 0 → (∀ i1, s.Datablobs modval i1 ≠ p) →
            (r.1.heap p).map DEX_datablob.nolinks = (s.heap p).map DEX_datablob.nolinks) := by
  induction k with
  | zero =>
    intro i s n r h
    simp only [komodo_DEXpurge_loop] at h
    cases h
    exact ⟨fun j _ => ⟨rfl, rfl⟩, fun p _ _ => rfl⟩
  | succ k ih =>
    intro i s n r h
    simp only [komodo_DEXpurge_loop] at h
    split at h
    · split at h
      · split at h
        · cases h
        · split at h
          · exact ih _ _ _ _ h
          · split at h
            · cases h
            · rename_i r1 h1
              have hF := unlinkindices_frame _ _ _ h1
              obtain ⟨hA, hB⟩ := ih _ _ _ _ h
              refine ⟨fun j hj => ?_, fun p hp0 hp => ?_⟩
              · obtain ⟨a1, a2⟩ := hA j hj
                rw [a1, a2]
                constructor
                · show set2 r1.1.Hashtables modval i 0 j = _
                  rw [set2_row_ne _ _ _ _ _ hj, frame_Hashtables hF]
                · show set2 r1.1.Datablobs modval i 0 j = _
                  rw [set2_row_ne _ _ _ _ _ hj, frame_Datablobs hF]
              · have h2 := hB p hp0 (by
                  intro i1
                  show set2 r1.1.Datablobs modval i 0 modval i1 ≠ p
                  rw [set2_apply, frame_Datablobs hF]
                  split
                  · exact fun e => hp0 e.symm
                  · exact hp i1)
                rw [h2]
                show Option.map DEX_datablob.nolinks
                  (Function.update r1.1.heap (s.Datablobs modval i) none p) = _
                rw [Function.update_noteq (fun e => hp i e.symm)]
                exact hF.2 p
      · cases h
    · exact ih _ _ _ _ h

theorem purge_frame (s : DEXState) (cutoff : Nat) (r : DEXState × Int)
    (h : komodo_DEXpurge s cutoff = some r) :
    (∀ j, j ≠ cutoff % KOMODO_DEX_PURGETIME →
        r.1.Hashtables j = s.Hashtables j ∧ r.1.Datablobs j = s.Datablobs j)
    ∧ (∀ p, p ≠ 0 → (∀ i1, s.Datablobs (cutoff % KOMODO_DEX_PURGETIME) i1 ≠ p) →
        (r.1.heap p).map DEX_datablob.nolinks = (s.heap p).map DEX_datablob.nolinks) := by
  unfold komodo_DEXpurge at h
  simp only at h
  split at h
  · cases h
  · rename_i s1 n h1
    have g1 : (∀ j, j ≠ cutoff % KOMODO_DEX_PURGETIME →
          s1.Hashtables j = s.Hashtables j ∧ s1.Datablobs j = s.Datablobs j)
        ∧ (∀ p, p ≠ 0 → (∀ i1, s.Datablobs (cutoff % KOMODO_DEX_PURGETIME) i1 ≠ p) →
          (s1.heap p).map DEX_datablob.nolinks = (s.heap p).map DEX_datablob.nolinks) := by
      have g := purge_loop_frame _ _ _ _ _ _ (s1, n) h1
      split at g
      · exact g
      · exact g
    split at h
    · split at h
      · cases h
      · cases h; exact g1
    · cases h; exact g1

/-- The frame of a purge that returns: in every reachable state, when
`komodo_DEXpurge(cutoff)` returns, every bucket `j` other than `cutoff mod 3600`
has the same `Hashtables[j]` and the same `Datablobs[j]` as before, and every
blob stored in bucket `j` is still allocated with the same contents apart from
its list links (frame data, hash, recvtime, numsent, peermask). -/
theorem purge_other_buckets (vcalc_sha256 : List Nat → bits256) (s : DEXState)
    (hs : Reachable vcalc_sha256 s) (cutoff : Nat) (r : DEXState × Int)
    (h : komodo_DEXpurge s cutoff = some r) (j : Nat)
    (hj : j ≠ cutoff % KOMODO_DEX_PURGETIME) :
    r.1.Hashtables j = s.Hashtables j ∧ r.1.Datablobs j = s.Datablobs j
    ∧ ∀ i, s.Datablobs j i ≠ 0 →
        (r.1.heap (s.Datablobs j i)).map DEX_datablob.nolinks
          = (s.heap (s.Datablobs j i)).map DEX_datablob.nolinks := by
  obtain ⟨hA, hB⟩ := purge_frame s cutoff r h
  refine ⟨(hA j hj).1, (hA j hj).2, fun i hi => hB _ hi (fun i1 he => ?_)⟩
  exact hj ((reachable_inj vcalc_sha256 s hs).2 j i _ i1 hi he.symm).1

theorem exampleTwoBuckets_reachable : Reachable exampleShaSum exampleTwoBuckets :=
  Reachable.step _ _ exampleTagged_reachable
    (Step.process _ _ 1001 7 (exampleQuote 1001 [97] []) (exampleQuoteBytes 1001 [97] []).length
      2 0 (by decide) (Or.inr rfl) rfl)

theorem exampleTwoBuckets_purge :
    komodo_DEXpurge exampleTwoBuckets 1000 = some (exampleTwoBucketsPurged, 1) := by
  have e0 : exampleTwoBuckets.Hashtables 1000 = Function.update (fun _ => 0) 415 415 := rfl
  have e1 : exampleTwoBucketsStep.1.Hashtables 1000
      = Function.update (Function.update (fun _ => 0) 415 415) 415 0 := rfl
  have hl : komodo_DEXpurge_loop 1000 1000 KOMODO_DEX_HASHSIZE 0 exampleTwoBuckets 0
      = some exampleTwoBucketsStep := by
    refine purge_loop_eval 1000 1000 415 exampleTwoBuckets exampleTwoBucketsStep (by decide)
      ?_ rfl ?_
    · intro j hj
      rw [e0, Function.update_noteq (by omega)]
    · intro j hj _
      rw [e1, Function.update_noteq (by omega), Function.update_noteq (by omega)]
  unfold komodo_DEXpurge
  rw [if_neg (by decide)]
  have hm : 1000 % KOMODO_DEX_PURGETIME = 1000 := by decide
  simp only [hm, hl]
  rfl

/-- The purge `komodo_DEXpurge(1000)` on `exampleTwoBuckets` leaves bucket 1001,
which holds blob 2 in cell 416, alone. -/
theorem purge_other_buckets_example :
    Reachable exampleShaSum exampleTwoBuckets
    ∧ komodo_DEXpurge exampleTwoBuckets 1000 = some (exampleTwoBucketsPurged, 1)
    ∧ 1001 ≠ 1000 % KOMODO_DEX_PURGETIME
    ∧ exampleTwoBuckets.Datablobs 1001 416 = 2
    ∧ (exampleTwoBucketsPurged.Hashtables 1001 = exampleTwoBuckets.Hashtables 1001
      ∧ exampleTwoBucketsPurged.Datablobs 1001 = exampleTwoBuckets.Datablobs 1001
      ∧ ∀ i, exampleTwoBuckets.Datablobs 1001 i ≠ 0 →
          (exampleTwoBucketsPurged.heap (exampleTwoBuckets.Datablobs 1001 i)).map
              DEX_datablob.nolinks
            = (exampleTwoBuckets.heap (exampleTwoBuckets.Datablobs 1001 i)).map
              DEX_datablob.nolinks) :=
  ⟨exampleTwoBuckets_reachable, exampleTwoBuckets_purge, by decide, by decide,
    purge_other_buckets exampleShaSum exampleTwoBuckets
      exampleTwoBuckets_reachable 1000 (exampleTwoBucketsPurged, 1) exampleTwoBuckets_purge
      1001 (by decide)⟩

/-! ## The same quote delivered twice -/

theorem process_admitted (vcalc_sha256 : List Nat → bits256) (s : DEXState) (now : Nat)
    (pfrom : Int) (msg : Nat → Nat) (len newptr : Nat)
    (hlen : len ≥ KOMODO_DEX_ROUTESIZE)
    (hslot : (komodo_DEXpeerpos s now pfrom).2 ≠ 0xffff)
    (hnow : now + 1 < U32)
    (h1 : ((iguana_rwnum_dec (bufAt msg 2) 4 : Nat) : Int) ≤ (now : Int) + 1)
    (h2 : (now : Int) - (iguana_rwnum_dec (bufAt msg 2) 4 : Nat) ≤ 70) :
    komodo_DEXprocess vcalc_sha256 s now pfrom msg len newptr
      = komodo_DEXprocess_dispatch vcalc_sha256 (komodo_DEXpeerpos s now pfrom).1 now pfrom
          (komodo_DEXpeerpos s now pfrom).2 (msg 0 % 256) (msg 1 % 256)
          (iguana_rwnum_dec (bufAt msg 2) 4)
          (iguana_rwnum_dec (bufAt msg 2) 4 % KOMODO_DEX_PURGETIME) msg len newptr := by
  have ht := rwnum_dec4_lt (bufAt msg 2)
  have hg : len ≥ KOMODO_DEX_ROUTESIZE ∧ (komodo_DEXpeerpos s now pfrom).2 ≠ 0xffff := ⟨hlen, hslot⟩
  have hmod : (now + KOMODO_DEX_LOCALHEARTBEAT) % U32 = now + 1 := Nat.mod_eq_of_lt hnow
  have hlagc : ((KOMODO_DEX_MAXLAG : Nat) : Int) = 70 := by decide
  simp only [komodo_DEXprocess, hg, and_self, if_true, hmod, hlagc]
  generalize iguana_rwnum_dec (bufAt msg 2) 4 = t at *
  clear hmod hg
  rw [if_neg (show ¬ t > now + 1 by omega), toInt32_sub now t (by omega) h1,
    if_neg (show ¬ (if (now : Int) - (t : Int) < 0 then 0 else (now : Int) - (t : Int)) > 70 by
      split_ifs <;> omega)]
  exact if_pos ⟨trivial, hslot⟩

theorem HeapLen_of_heap_eq {s s1 : DEXState} (h : s1.heap = s.heap) (hg : HeapLen s) :
    HeapLen s1 := by
  intro p b hb
  rw [h] at hb
  exact hg p b hb

theorem HeapLen_of_frame {s s1 : DEXState} (h : IndexFrame s s1) (hg : HeapLen s) :
    HeapLen s1 := by
  intro p b1 hb1
  have hp := h.2 p
  rw [hb1] at hp
  cases hb : s.heap p with
  | none => rw [hb] at hp; cases hp
  | some b =>
    rw [hb] at hp
    simp only [Option.map_some', Option.some.injEq] at hp
    have h1 : b1.nolinks.datalen = b.nolinks.datalen := congrArg DEX_datablob.datalen hp
    have h2 : b1.nolinks.data = b.nolinks.data := congrArg DEX_datablob.data hp
    simp only [DEX_datablob.nolinks] at h1 h2
    have := hg p b hb
    unfold LenBlob at *
    rw [h1, h2]
    exact this

theorem HeapLen_update {s s1 : DEXState} (p : Nat) (b : DEX_datablob)
    (h : s1.heap = Function.update s.heap p (some b)) (hb : LenBlob b) (hg : HeapLen s) :
    HeapLen s1 := by
  intro q b1 hb1
  rw [h] at hb1
  by_cases hq : q = p
  · subst hq
    rw [Function.update_same] at hb1
    cases hb1
    exact hb
  · rw [Function.update_noteq hq] at hb1
    exact hg q b1 hb1

theorem HeapLen_free {s s1 : DEXState} (p : Nat)
    (h : s1.heap = Function.update s.heap p none) (hg : HeapLen s) : HeapLen s1 := by
  intro q b1 hb1
  rw [h] at hb1
  by_cases hq : q = p
  · subst hq
    rw [Function.update_same] at hb1
    cases hb1
  · rw [Function.update_noteq hq] at hb1
    exact hg q b1 hb1

theorem add_len (s : DEXState) (openind : Int) (now modval : Nat) (hash : bits256)
    (shorthash : Nat) (msg : Nat → Nat) (len newptr : Nat) (r : DEXState × Int)
    (h : komodo_DEXadd s openind now modval hash shorthash msg len newptr = some r)
    (hg : HeapLen s) : HeapLen r.1 := by
  unfold komodo_DEXadd at h
  simp only at h
  generalize (if openind < 0 ∨ openind ≥ ((KOMODO_DEX_HASHSIZE : Nat) : Int)
    then komodo_DEXfind s modval shorthash else (-1, openind)) = f at h
  split at h
  · cases h; exact hg
  · rename_i hpow
    split at h
    · cases h; exact hg
    · split at h
      · cases h; exact hg
      · split at h
        · cases h
        · cases h; exact hg
        · rename_i x hx
          split at h
          · cases h; exact hg
          · split at h
            · cases h
            · rename_i hl0
              split at h
              · cases h
              · rename_i r1 h1
                cases h
                refine HeapLen_of_frame (updatetips_frame _ _ _ _ _ _ _ _ _ _ h1) ?_
                refine HeapLen_update newptr _ rfl ?_ hg
                constructor
                · show len ≠ 0
                  exact hl0
                · show ((memBytes msg len).set 0 _).length = len
                  simp only [List.length_set, memBytes, List.length_map, List.length_range]

theorem purge_loop_len (cutoff modval : Nat) (k : Nat) :
    ∀ (i : Nat) (s : DEXState) (n : Int) (r : DEXState × Int),
      komodo_DEXpurge_loop cutoff modval k i s n = some r → HeapLen s → HeapLen r.1 := by
  induction k with
  | zero =>
    intro i s n r h hg
    simp only [komodo_DEXpurge_loop] at h
    cases h
    exact hg
  | succ k ih =>
    intro i s n r h hg
    simp only [komodo_DEXpurge_loop] at h
    split at h
    · split at h
      · split at h
        · cases h
        · split at h
          · exact ih _ _ _ _ h hg
          · split at h
            · cases h
            · rename_i r1 h1
              refine ih _ _ _ _ h ?_
              exact HeapLen_free _ rfl (HeapLen_of_frame (unlinkindices_frame _ _ _ h1) hg)
      · cases h
    · exact ih _ _ _ _ h hg

theorem purge_len (s : DEXState) (cutoff : Nat) (r : DEXState × Int)
    (h : komodo_DEXpurge s cutoff = some r) (hg : HeapLen s) : HeapLen r.1 := by
  unfold komodo_DEXpurge at h
  simp only at h
  split at h
  · cases h
  · rename_i s1 n h1
    have g1 : HeapLen s1 := by
      refine purge_loop_len _ _ _ _ _ _ (s1, n) h1 ?_
      split
      · exact hg
      · exact hg
    split at h
    · split at h
      · cases h
      · cases h; exact g1
    · cases h; exact g1

theorem modval_loop_len (now modval : Nat) (peer : Int) (peerpos : Nat) (k : Nat) :
    ∀ (i : Nat) (s : DEXState) (recents : List Nat) (r : DEXState × List Nat),
      komodo_DEXmodval_loop now modval peer peerpos k i s recents = some r →
        HeapLen s → HeapLen r.1 := by
  induction k with
  | zero =>
    intro i s recents r h hg
    simp only [komodo_DEXmodval_loop] at h
    cases h
    exact hg
  | succ k ih =>
    intro i s recents r h hg
    simp only [komodo_DEXmodval_loop] at h
    split at h
    · split at h
      · cases h
      · rename_i b hb
        split at h
        · split at h
          · split at h
            · rename_i hsent
              split at h
              · split at h
                · cases h
                · rename_i r1 h1
                  split at h
                  · cases h
                  · rename_i b1 hb1
                    refine ih _ _ _ _ h ?_
                    obtain ⟨b0, hb0, hheap⟩ := packetsend_heap _ _ _ _ _ _ h1
                    rw [hb] at hb0
                    cases hb0
                    have hgb : LenBlob b := hg _ b hb
                    have g1 : HeapLen r1.1 := HeapLen_update _ _ hheap hgb hg
                    rw [hheap, Function.update_same] at hb1
                    cases hb1
                    exact HeapLen_update _ _ rfl hgb g1
              · exact ih _ _ _ _ h hg
            · exact ih _ _ _ _ h hg
          · exact ih _ _ _ _ h hg
        · exact ih _ _ _ _ h hg
    · exact ih _ _ _ _ h hg

theorem modval_len (s : DEXState) (now : Nat) (modval : Int) (peer : Int) (r : DEXState × Int)
    (h : komodo_DEXmodval s now modval peer = some r) (hg : HeapLen s) : HeapLen r.1 := by
  unfold komodo_DEXmodval at h
  simp only at h
  split at h
  · cases h; exact hg
  · split at h
    · cases h; exact hg
    · split at h
      · cases h
      · rename_i s1 recents h1
        have g1 : HeapLen s1 := modval_loop_len _ _ _ _ _ _ _ _ (s1, recents) h1 hg
        split at h
        · cases h; exact g1
        · cases h; exact g1

theorem poll_purgeloop_len (ptime : Nat) (k : Nat) :
    ∀ (s s1 : DEXState), komodo_DEXpoll_purgeloop ptime k s = some s1 →
      HeapLen s → HeapLen s1 := by
  induction k with
  | zero =>
    intro s s1 h hg
    simp only [komodo_DEXpoll_purgeloop] at h
    cases h
    exact hg
  | succ k ih =>
    intro s s1 h hg
    simp only [komodo_DEXpoll_purgeloop] at h
    split at h
    · split at h
      · cases h
      · rename_i r hr
        exact ih _ _ h (purge_len _ _ _ hr hg)
    · cases h
      exact hg

theorem poll_scanloop_len (now : Nat) (pto : Int) (k : Nat) :
    ∀ (i : Nat) (s s1 : DEXState), komodo_DEXpoll_scanloop now pto k i s = some s1 →
      HeapLen s → HeapLen s1 := by
  induction k with
  | zero =>
    intro i s s1 h hg
    simp only [komodo_DEXpoll_scanloop] at h
    cases h
    exact hg
  | succ k ih =>
    intro i s s1 h hg
    simp only [komodo_DEXpoll_scanloop] at h
    split at h
    · cases h
    · rename_i r hr
      refine ih _ _ _ h ?_
      have g := modval_len _ _ _ _ _ hr hg
      split
      · exact g
      · exact g

theorem poll_purgephase_len (s : DEXState) (now : Nat) (s1 : DEXState)
    (h : komodo_DEXpoll_purgephase s now = some s1) (hg : HeapLen s) : HeapLen s1 := by
  unfold komodo_DEXpoll_purgephase at h
  simp only at h
  by_cases hc : wrap32 ((now : Int) - (KOMODO_DEX_PURGETIME : Nat) + (KOMODO_DEX_MAXLAG : Nat))
      > s.purgetime
  · rw [if_pos hc] at h
    by_cases h0 : s.purgetime = 0
    · rw [if_pos h0] at h
      cases h
      exact hg
    · rw [if_neg h0] at h
      cases hl : komodo_DEXpoll_purgeloop
          (wrap32 ((now : Int) - (KOMODO_DEX_PURGETIME : Nat) + (KOMODO_DEX_MAXLAG : Nat)))
          (wrap32 ((now : Int) - (KOMODO_DEX_PURGETIME : Nat) + (KOMODO_DEX_MAXLAG : Nat))
            - s.purgetime) s with
      | none =>
        rw [hl] at h
        cases h
      | some s3 =>
        rw [hl] at h
        cases h
        exact HeapLen_of_heap_eq rfl (poll_purgeloop_len _ _ s s3 hl hg)
  · rw [if_neg hc] at h
    cases h
    exact hg

theorem poll_scanphase_len (s : DEXState) (now : Nat) (pto : Int) (s1 : DEXState)
    (h : komodo_DEXpoll_scanphase s now pto = some s1) (hg : HeapLen s) : HeapLen s1 := by
  unfold komodo_DEXpoll_scanphase at h
  by_cases hc : (now = s.Got_Recent_Quote ∧ now > s.dexlastping pto)
      ∨ now ≥ (s.dexlastping pto + KOMODO_DEX_LOCALHEARTBEAT) % U32
  · rw [if_pos hc] at h
    exact poll_scanloop_len _ _ _ _ _ _ h hg
  · rw [if_neg hc] at h
    cases h
    exact hg

theorem poll_len (s : DEXState) (now : Nat) (pto : Int) (s1 : DEXState)
    (h : komodo_DEXpoll s now pto = some s1) (hg : HeapLen s) : HeapLen s1 := by
  unfold komodo_DEXpoll at h
  cases hp : komodo_DEXpoll_purgephase s now with
  | none =>
    rw [hp] at h
    cases h
  | some s2 =>
    rw [hp] at h
    exact poll_scanphase_len _ _ _ _ h (poll_purgephase_len _ _ _ hp hg)

theorem process_Q_len (vcalc_sha256 : List Nat → bits256) (s : DEXState) (now : Nat)
    (peerpos : Nat) (relay t modval : Nat) (msg : Nat → Nat) (len newptr : Nat)
    (r : DEXState × Int)
    (h : komodo_DEXprocess_Q vcalc_sha256 s now peerpos relay t modval msg len newptr = some r)
    (hg : HeapLen s) : HeapLen r.1 := by
  unfold komodo_DEXprocess_Q at h
  simp only at h
  split at h
  · cases h; exact hg
  · split at h
    · split at h
      · cases h
      · rename_i s6 ind h6
        have g6 : HeapLen s6 := by
          split at h6
          · split at h6
            · cases h6
            · rename_i s2 ind2 h2
              have g2 : HeapLen s2 := add_len _ _ _ _ _ _ _ _ _ (s2, ind2) h2 hg
              split at h6
              · cases h6
                refine HeapLen_of_heap_eq ?_ g2
                show _ = s2.heap
                split
                · split
                  · exact find32_heap _ _ _ _
                  · exact find32_heap _ _ _ _
                · exact find32_heap _ _ _ _
              · cases h6
                exact g2
          · cases h6
            exact hg
        split at h
        · cases h
        · split at h
          · split at h
            · cases h
            · rename_i b hb
              cases h
              exact HeapLen_update _ _ rfl (g6 _ b hb) g6
          · cases h
            exact g6
    · cases h; exact hg

theorem process_P_len (s : DEXState) (now : Nat) (pfrom : Int) (msg : Nat → Nat) (len : Nat)
    (r : DEXState × Int) (h : komodo_DEXprocess_P s now pfrom msg len = some r)
    (hg : HeapLen s) : HeapLen r.1 := by
  unfold komodo_DEXprocess_P at h
  simp only at h
  split at h
  · split at h
    · cases h
      exact HeapLen_of_heap_eq (Ploop_heap _ _ _ _ _ _ _) hg
    · cases h; exact hg
  · cases h; exact hg

theorem process_G_len (s : DEXState) (pfrom : Int) (peerpos : Nat) (msg : Nat → Nat)
    (r : DEXState × Int) (h : komodo_DEXprocess_G s pfrom peerpos msg = some r)
    (hg : HeapLen s) : HeapLen r.1 := by
  unfold komodo_DEXprocess_G at h
  simp only at h
  split at h
  · split at h
    · split at h
      · cases h
      · rename_i b hb
        split at h
        · obtain ⟨b0, hb0, hheap⟩ := packetsend_heap _ _ _ _ _ _ h
          exact HeapLen_update _ _ hheap (hg _ b0 hb0) hg
        · cases h; exact hg
    · cases h; exact hg
  · cases h; exact hg

theorem dispatch_len (vcalc_sha256 : List Nat → bits256) (s : DEXState) (now : Nat)
    (pfrom : Int) (peerpos : Nat) (relay funcid t modval : Nat) (msg : Nat → Nat)
    (len newptr : Nat) (r : DEXState × Int)
    (h : komodo_DEXprocess_dispatch vcalc_sha256 s now pfrom peerpos relay funcid t modval
          msg len newptr = some r)
    (hg : HeapLen s) : HeapLen r.1 := by
  unfold komodo_DEXprocess_dispatch at h
  split at h
  · exact process_Q_len _ _ _ _ _ _ _ _ _ _ _ h hg
  · split at h
    · exact process_P_len _ _ _ _ _ _ h hg
    · split at h
      · exact process_G_len _ _ _ _ _ h hg
      · cases h; exact hg

theorem process_len (vcalc_sha256 : List Nat → bits256) (s : DEXState) (now : Nat)
    (pfrom : Int) (msg : Nat → Nat) (len newptr : Nat) (r : DEXState × Int)
    (h : komodo_DEXprocess vcalc_sha256 s now pfrom msg len newptr = some r)
    (hg : HeapLen s) : HeapLen r.1 := by
  have g0 : HeapLen (komodo_DEXpeerpos s now pfrom).1 := hg
  unfold komodo_DEXprocess at h
  simp only at h
  by_cases hguard : len ≥ KOMODO_DEX_ROUTESIZE ∧ (komodo_DEXpeerpos s now pfrom).2 ≠ 0xffff
  · rw [if_pos hguard] at h
    by_cases hfut : iguana_rwnum_dec (bufAt msg 2) 4 > (now + KOMODO_DEX_LOCALHEARTBEAT) % U32
    · rw [if_pos hfut] at h
      cases h; exact g0
    · rw [if_neg hfut] at h
      by_cases hlag : (if toInt32 (wrap32 ((now : Int) - (iguana_rwnum_dec (bufAt msg 2) 4 : Nat))) < 0
          then 0 else toInt32 (wrap32 ((now : Int) - (iguana_rwnum_dec (bufAt msg 2) 4 : Nat))))
          > ((KOMODO_DEX_MAXLAG : Nat) : Int)
      · rw [if_pos hlag] at h
        cases h; exact g0
      · rw [if_neg hlag] at h
        exact dispatch_len _ _ _ _ _ _ _ _ _ _ _ _ _ h g0
  · rw [if_neg hguard] at h
    cases h; exact g0

theorem step_len (vcalc_sha256 : List Nat → bits256) (s s1 : DEXState)
    (h : Step vcalc_sha256 s s1) (hg : HeapLen s) : HeapLen s1 := by
  cases h with
  | process now pfrom msg len newptr ret hnow hfresh h => exact process_len _ _ _ _ _ _ _ _ h hg
  | add openind now modval hash shorthash msg len newptr ret hnow hmod hfresh h =>
    exact add_len _ _ _ _ _ _ _ _ _ _ h hg
  | poll now pto hnow h => exact poll_len _ _ _ _ h hg
  | purge cutoff ret hcut h => exact purge_len _ _ _ h hg

theorem reachable_len (vcalc_sha256 : List Nat → bits256) (s : DEXState)
    (h : Reachable vcalc_sha256 s) : HeapLen s := by
  induction h with
  | init =>
    intro p b hb
    cases hb
  | step s s1 _ hstep ih => exact step_len _ _ _ hstep ih

/-! ## The G path -/

theorem process_G_spec (s : DEXState) (pfrom : Int) (peerpos : Nat) (msg : Nat → Nat)
    (h modval : Nat)
    (hlen : HeapLen s) (hinj : StoreInj s)
    (hh : iguana_rwnum_dec (bufAt msg KOMODO_DEX_ROUTESIZE) 4 = h)
    (hm : toInt32 (iguana_rwnum_dec (bufAt msg (KOMODO_DEX_ROUTESIZE + 4)) 4) = (modval : Int))
    (hmr : modval < KOMODO_DEX_PURGETIME) :
    ∃ r, komodo_DEXprocess_G s pfrom peerpos msg = some r
      ∧ r.1.Hashtables = s.Hashtables ∧ r.1.Datablobs = s.Datablobs
      ∧ r.1.DEX_tagABs = s.DEX_tagABs ∧ r.1.DEX_tagAs = s.DEX_tagAs
      ∧ r.1.DEX_destpubs = s.DEX_destpubs
      ∧ (∀ b, (komodo_DEXfind s modval h).1 ≥ 0 →
            s.Datablobs modval (komodo_DEXfind s modval h).1.toNat ≠ 0 →
            s.heap (s.Datablobs modval (komodo_DEXfind s modval h).1.toNat) = some b →
            GETBIT b.peermask peerpos = false →
            r.1.outbox = s.outbox ++ [(pfrom, (b.data.take b.datalen).set 0 0)]
            ∧ r.2 = (b.datalen : Int) ∧ b.datalen ≠ 0 ∧ b.data.length = b.datalen)
      ∧ (¬ ((komodo_DEXfind s modval h).1 ≥ 0
            ∧ s.Datablobs modval (komodo_DEXfind s modval h).1.toNat ≠ 0
            ∧ ∃ b, s.heap (s.Datablobs modval (komodo_DEXfind s modval h).1.toNat) = some b
                ∧ GETBIT b.peermask peerpos = false) →
          r.1.outbox = s.outbox ∧ r.2 = 0) := by
  unfold komodo_DEXprocess_G
  simp only [hh, hm, Int.toNat_ofNat]
  rw [if_pos ⟨Int.ofNat_nonneg _, by exact_mod_cast hmr⟩]
  by_cases hfound : (komodo_DEXfind s modval h).1 ≥ 0
      ∧ s.Datablobs modval (komodo_DEXfind s modval h).1.toNat ≠ 0
  · rw [if_pos hfound]
    cases hb : s.heap (s.Datablobs modval (komodo_DEXfind s modval h).1.toNat) with
    | none => exact absurd hb (hinj.1 _ _ hfound.2)
    | some b =>
      have hl := hlen _ b hb
      simp only
      by_cases hbit : GETBIT b.peermask peerpos = false
      · rw [if_pos hbit]
        unfold komodo_DEXpacketsend
        simp only [hb]
        rw [if_neg hl.1]
        refine ⟨_, rfl, rfl, rfl, rfl, rfl, rfl, ?_, ?_⟩
        · intro b1 _ _ hb1 _
          cases hb1
          exact ⟨rfl, rfl, hl.1, hl.2⟩
        · intro hn
          exact absurd ⟨hfound.1, hfound.2, b, rfl, hbit⟩ hn
      · rw [if_neg hbit]
        refine ⟨_, rfl, rfl, rfl, rfl, rfl, rfl, ?_, ?_⟩
        · intro b1 _ _ hb1 hbit1
          cases hb1
          exact absurd hbit1 hbit
        · intro _
          exact ⟨rfl, rfl⟩
  · rw [if_neg hfound]
    refine ⟨_, rfl, rfl, rfl, rfl, rfl, rfl, ?_, ?_⟩
    · intro b1 h1 h2 _ _
      exact absurd ⟨h1, h2⟩ hfound
    · intro _
      exact ⟨rfl, rfl⟩

/-- C19: in a reachable store, a G frame carrying `(h, modval)` with
`0 <= modval < 3600`, of at least 14 bytes, delivered inside the admission window by
a peer holding slot `slot`, makes `komodo_DEXprocess` return; `Hashtables`, `Datablobs` and the
three index arrays are unchanged.  When `komodo_DEXfind(modval, h)` finds a cell
with a non-null blob whose peer-mask bit `slot` is clear, exactly one packet is
appended to the messages sent, addressed to the sender and equal to the stored
frame with byte 0 replaced by 0, and the stored length (non-zero) is returned; in
every other case nothing is sent and 0 is returned. -/
theorem C19_get_path (vcalc_sha256 : List Nat → bits256) (s : DEXState) (now : Nat)
    (pfrom : Int) (msg : Nat → Nat) (len newptr : Nat) (h modval : Nat)
    (hs : Reachable vcalc_sha256 s)
    (hlen : len ≥ KOMODO_DEX_ROUTESIZE + 8)
    (hslot : (komodo_DEXpeerpos s now pfrom).2 ≠ 0xffff)
    (hnow : now + 1 < U32)
    (hwin : ((iguana_rwnum_dec (bufAt msg 2) 4 : Nat) : Int) ≤ (now : Int) + 1
      ∧ (now : Int) - (iguana_rwnum_dec (bufAt msg 2) 4 : Nat) ≤ 70)
    (hG : msg 1 % 256 = 71)
    (hh : iguana_rwnum_dec (bufAt msg KOMODO_DEX_ROUTESIZE) 4 = h)
    (hm : toInt32 (iguana_rwnum_dec (bufAt msg (KOMODO_DEX_ROUTESIZE + 4)) 4) = (modval : Int))
    (hmr : modval < KOMODO_DEX_PURGETIME) :
    ∃ r, komodo_DEXprocess vcalc_sha256 s now pfrom msg len newptr = some r
      ∧ r.1.Hashtables = s.Hashtables ∧ r.1.Datablobs = s.Datablobs
      ∧ r.1.DEX_tagABs = s.DEX_tagABs ∧ r.1.DEX_tagAs = s.DEX_tagAs
      ∧ r.1.DEX_destpubs = s.DEX_destpubs
      ∧ (∀ b, (komodo_DEXfind s modval h).1 ≥ 0 →
            s.Datablobs modval (komodo_DEXfind s modval h).1.toNat ≠ 0 →
            s.heap (s.Datablobs modval (komodo_DEXfind s modval h).1.toNat) = some b →
            GETBIT b.peermask (komodo_DEXpeerpos s now pfrom).2 = false →
            r.1.outbox = s.outbox ++ [(pfrom, (b.data.take b.datalen).set 0 0)]
            ∧ r.2 = (b.datalen : Int) ∧ b.datalen ≠ 0 ∧ b.data.length = b.datalen)
      ∧ (¬ ((komodo_DEXfind s modval h).1 ≥ 0
            ∧ s.Datablobs modval (komodo_DEXfind s modval h).1.toNat ≠ 0
            ∧ ∃ b, s.heap (s.Datablobs modval (komodo_DEXfind s modval h).1.toNat) = some b
                ∧ GETBIT b.peermask (komodo_DEXpeerpos s now pfrom).2 = false) →
          r.1.outbox = s.outbox ∧ r.2 = 0) := by
  have hl : HeapLen (komodo_DEXpeerpos s now pfrom).1 := reachable_len vcalc_sha256 s hs
  have hi : StoreInj (komodo_DEXpeerpos s now pfrom).1 := reachable_inj vcalc_sha256 s hs
  rw [process_admitted _ _ _ _ _ _ _ (Nat.le_trans (Nat.le_add_right _ _) hlen) hslot hnow
    hwin.1 hwin.2]
  unfold komodo_DEXprocess_dispatch
  rw [if_neg (show ¬ msg 1 % 256 = 81 by omega), if_neg (show ¬ msg 1 % 256 = 80 by omega),
    if_pos hG]
  exact process_G_spec (komodo_DEXpeerpos s now pfrom).1 pfrom (komodo_DEXpeerpos s now pfrom).2
    msg h modval hl hi hh hm hmr

/-- Witness of C19: peer 9 asks `exampleStored` for short hash 5 of bucket 1000,
which is stored in cell 5 with the bit of slot 2 clear. -/
theorem C19_get_path_witness :
    Reachable (exampleSha 5) exampleStored
    ∧ (komodo_DEXpeerpos exampleStored 1000 9).2 ≠ 0xffff
    ∧ exampleGet 1 % 256 = 71
    ∧ iguana_rwnum_dec (bufAt exampleGet KOMODO_DEX_ROUTESIZE) 4 = 5
    ∧ toInt32 (iguana_rwnum_dec (bufAt exampleGet (KOMODO_DEX_ROUTESIZE + 4)) 4) = ((1000 : Nat) : Int)
    ∧ (komodo_DEXfind exampleStored 1000 5).1 = 5
    ∧ exampleStored.Datablobs 1000 5 = 1
    ∧ (exampleStored.heap 1).map (fun b => GETBIT b.peermask 2) = some false
    ∧ ∃ r, komodo_DEXprocess (exampleSha 5) exampleStored 1000 9 exampleGet 14 0 = some r
      ∧ r.1.Hashtables = exampleStored.Hashtables ∧ r.1.Datablobs = exampleStored.Datablobs
      ∧ r.1.DEX_tagABs = exampleStored.DEX_tagABs ∧ r.1.DEX_tagAs = exampleStored.DEX_tagAs
      ∧ r.1.DEX_destpubs = exampleStored.DEX_destpubs
      ∧ (∀ b, (komodo_DEXfind exampleStored 1000 5).1 ≥ 0 →
            exampleStored.Datablobs 1000 (komodo_DEXfind exampleStored 1000 5).1.toNat ≠ 0 →
            exampleStored.heap (exampleStored.Datablobs 1000 (komodo_DEXfind exampleStored 1000 5).1.toNat) = some b →
            GETBIT b.peermask (komodo_DEXpeerpos exampleStored 1000 9).2 = false →
            r.1.outbox = exampleStored.outbox ++ [(9, (b.data.take b.datalen).set 0 0)]
            ∧ r.2 = (b.datalen : Int) ∧ b.datalen ≠ 0 ∧ b.data.length = b.datalen)
      ∧ (¬ ((komodo_DEXfind exampleStored 1000 5).1 ≥ 0
            ∧ exampleStored.Datablobs 1000 (komodo_DEXfind exampleStored 1000 5).1.toNat ≠ 0
            ∧ ∃ b, exampleStored.heap (exampleStored.Datablobs 1000 (komodo_DEXfind exampleStored 1000 5).1.toNat) = some b
                ∧ GETBIT b.peermask (komodo_DEXpeerpos exampleStored 1000 9).2 = false) →
          r.1.outbox = exampleStored.outbox ∧ r.2 = 0) :=
  ⟨exampleStored_reachable, by decide, by decide, by decide, by decide, by decide, by decide,
    by decide,
    C19_get_path (exampleSha 5) exampleStored 1000 9 exampleGet 14 0 5 1000
      exampleStored_reachable (by decide) (by decide) (by decide) (by decide) (by decide)
      (by decide) (by decide) (by decide)⟩

/-! ## The P path -/

theorem Ploop_Hashtables (now : Nat) (pfrom : Int) (msg : Nat → Nat) (modval : Nat) (k : Nat) :
    ∀ (offset : Nat) (s : DEXState),
      (komodo_DEXprocess_Ploop now pfrom msg modval k offset s).Hashtables = s.Hashtables := by
  induction k with
  | zero => intro offset s; rfl
  | succ k ih =>
    intro offset s
    simp only [komodo_DEXprocess_Ploop]
    split
    · rfl
    · split
      · exact ih _ _
      · split
        · rw [ih]
          simp only [komodo_DEXadd32, komodo_DEXfind32]
          split
          · split <;> rfl
          · split <;> rfl
        · rw [ih]
          simp only [komodo_DEXfind32]
          split
          · split <;> rfl
          · split <;> rfl

theorem Ploop_DEX_tagABs (now : Nat) (pfrom : Int) (msg : Nat → Nat) (modval : Nat) (k : Nat) :
    ∀ (offset : Nat) (s : DEXState),
      (komodo_DEXprocess_Ploop now pfrom msg modval k offset s).DEX_tagABs = s.DEX_tagABs := by
  induction k with
  | zero => intro offset s; rfl
  | succ k ih =>
    intro offset s
    simp only [komodo_DEXprocess_Ploop]
    split
    · rfl
    · split
      · exact ih _ _
      · split
        · rw [ih]
          simp only [komodo_DEXadd32, komodo_DEXfind32]
          split
          · split <;> rfl
          · split <;> rfl
        · rw [ih]
          simp only [komodo_DEXfind32]
          split
          · split <;> rfl
          · split <;> rfl

theorem Ploop_DEX_tagAs (now : Nat) (pfrom : Int) (msg : Nat → Nat) (modval : Nat) (k : Nat) :
    ∀ (offset : Nat) (s : DEXState),
      (komodo_DEXprocess_Ploop now pfrom msg modval k offset s).DEX_tagAs = s.DEX_tagAs := by
  induction k with
  | zero => intro offset s; rfl
  | succ k ih =>
    intro offset s
    simp only [komodo_DEXprocess_Ploop]
    split
    · rfl
    · split
      · exact ih _ _
      · split
        · rw [ih]
          simp only [komodo_DEXadd32, komodo_DEXfind32]
          split
          · split <;> rfl
          · split <;> rfl
        · rw [ih]
          simp only [komodo_DEXfind32]
          split
          · split <;> rfl
          · split <;> rfl

theorem Ploop_DEX_destpubs (now : Nat) (pfrom : Int) (msg : Nat → Nat) (modval : Nat) (k : Nat) :
    ∀ (offset : Nat) (s : DEXState),
      (komodo_DEXprocess_Ploop now pfrom msg modval k offset s).DEX_destpubs = s.DEX_destpubs := by
  induction k with
  | zero => intro offset s; rfl
  | succ k ih =>
    intro offset s
    simp only [komodo_DEXprocess_Ploop]
    split
    · rfl
    · split
      · exact ih _ _
      · split
        · rw [ih]
          simp only [komodo_DEXadd32, komodo_DEXfind32]
          split
          · split <;> rfl
          · split <;> rfl
        · rw [ih]
          simp only [komodo_DEXfind32]
          split
          · split <;> rfl
          · split <;> rfl

theorem find32_outbox (s : DEXState) (hashsize shorthash : Nat) (clearflag : Int) :
    (komodo_DEXfind32 s hashsize shorthash clearflag).1.outbox = s.outbox
    ∧ (komodo_DEXfind32 s hashsize shorthash clearflag).1.DEX_Numpending = s.DEX_Numpending := by
  simp only [komodo_DEXfind32]
  split
  · split <;> exact ⟨rfl, rfl⟩
  · split <;> exact ⟨rfl, rfl⟩

theorem Ploop_succ_right (now : Nat) (pfrom : Int) (msg : Nat → Nat) (modval : Nat) (k : Nat) :
    ∀ (offset : Nat) (s : DEXState),
      komodo_DEXprocess_Ploop now pfrom msg modval (k + 1) offset s
        = komodo_DEXprocess_Ploop now pfrom msg modval 1 (offset + 4 * k)
            (komodo_DEXprocess_Ploop now pfrom msg modval k offset s) := by
  induction k with
  | zero => intro offset s; rfl
  | succ k ih =>
    intro offset s
    have e4 : offset + 4 * (k + 1) = offset + 4 + 4 * k := by omega
    rw [e4]
    by_cases hbrk : s.DEX_Numpending > ((KOMODO_DEX_HASHSIZE : Nat) : Int)
    · have e1 : ∀ j off, komodo_DEXprocess_Ploop now pfrom msg modval (j + 1) off s = s := by
        intro j off
        rw [komodo_DEXprocess_Ploop, if_pos hbrk]
      rw [e1, e1, e1]
    · by_cases hfound : (komodo_DEXfind s modval (iguana_rwnum_dec (bufAt msg offset) 4)).1 ≥ 0
      · have e1 : ∀ j, komodo_DEXprocess_Ploop now pfrom msg modval (j + 1) offset s
            = komodo_DEXprocess_Ploop now pfrom msg modval j (offset + 4) s := by
          intro j
          rw [komodo_DEXprocess_Ploop, if_neg hbrk]
          simp only
          rw [if_pos hfound]
        rw [e1 (k + 1), e1 k]
        exact ih _ _
      · by_cases hpend : (komodo_DEXfind32 s PENDINGS_SIZE
            (iguana_rwnum_dec (bufAt msg offset) 4) 0).2 < 0
        · have e1 : ∀ j, komodo_DEXprocess_Ploop now pfrom msg modval (j + 1) offset s
              = komodo_DEXprocess_Ploop now pfrom msg modval j (offset + 4)
                  { (komodo_DEXadd32 (komodo_DEXfind32 s PENDINGS_SIZE
                      (iguana_rwnum_dec (bufAt msg offset) 4) 0).1 PENDINGS_SIZE
                      (iguana_rwnum_dec (bufAt msg offset) 4)).1 with
                    DEX_Numpending := (komodo_DEXadd32 (komodo_DEXfind32 s PENDINGS_SIZE
                      (iguana_rwnum_dec (bufAt msg offset) 4) 0).1 PENDINGS_SIZE
                      (iguana_rwnum_dec (bufAt msg offset) 4)).1.DEX_Numpending + 1,
                    outbox := (komodo_DEXadd32 (komodo_DEXfind32 s PENDINGS_SIZE
                      (iguana_rwnum_dec (bufAt msg offset) 4) 0).1 PENDINGS_SIZE
                      (iguana_rwnum_dec (bufAt msg offset) 4)).1.outbox
                      ++ [(pfrom, komodo_DEXgenget now (iguana_rwnum_dec (bufAt msg offset) 4)
                            (modval : Int))] } := by
            intro j
            rw [komodo_DEXprocess_Ploop, if_neg hbrk]
            simp only
            rw [if_neg hfound, if_pos hpend]
          rw [e1 (k + 1), e1 k]
          exact ih _ _
        · have e1 : ∀ j, komodo_DEXprocess_Ploop now pfrom msg modval (j + 1) offset s
              = komodo_DEXprocess_Ploop now pfrom msg modval j (offset + 4)
                  (komodo_DEXfind32 s PENDINGS_SIZE
                    (iguana_rwnum_dec (bufAt msg offset) 4) 0).1 := by
            intro j
            rw [komodo_DEXprocess_Ploop, if_neg hbrk]
            simp only
            rw [if_neg hfound, if_neg hpend]
          rw [e1 (k + 1), e1 k]
          exact ih _ _

theorem Ploop_count (now : Nat) (pfrom : Int) (msg : Nat → Nat) (modval : Nat) (k : Nat) :
    ∀ (offset : Nat) (s : DEXState),
      ∃ m : Nat, m ≤ k
        ∧ (komodo_DEXprocess_Ploop now pfrom msg modval k offset s).DEX_Numpending
            = s.DEX_Numpending + (m : Int)
        ∧ (komodo_DEXprocess_Ploop now pfrom msg modval k offset s).outbox.length
            = s.outbox.length + m := by
  induction k with
  | zero => intro offset s; exact ⟨0, le_refl _, by simp [komodo_DEXprocess_Ploop], rfl⟩
  | succ k ih =>
    intro offset s
    simp only [komodo_DEXprocess_Ploop]
    split
    · exact ⟨0, Nat.zero_le _, by simp, rfl⟩
    · split
      · obtain ⟨m, hm, h1, h2⟩ := ih (offset + 4) s
        exact ⟨m, by omega, h1, h2⟩
      · split
        · obtain ⟨m, hm, h1, h2⟩ := ih (offset + 4)
            { (komodo_DEXadd32 (komodo_DEXfind32 s PENDINGS_SIZE
                  (iguana_rwnum_dec (bufAt msg offset) 4) 0).1 PENDINGS_SIZE
                  (iguana_rwnum_dec (bufAt msg offset) 4)).1 with
              DEX_Numpending := (komodo_DEXadd32 (komodo_DEXfind32 s PENDINGS_SIZE
                  (iguana_rwnum_dec (bufAt msg offset) 4) 0).1 PENDINGS_SIZE
                  (iguana_rwnum_dec (bufAt msg offset) 4)).1.DEX_Numpending + 1,
              outbox := (komodo_DEXadd32 (komodo_DEXfind32 s PENDINGS_SIZE
                  (iguana_rwnum_dec (bufAt msg offset) 4) 0).1 PENDINGS_SIZE
                  (iguana_rwnum_dec (bufAt msg offset) 4)).1.outbox
                ++ [(pfrom, komodo_DEXgenget now (iguana_rwnum_dec (bufAt msg offset) 4)
                      (modval : Int))] }
          have f := find32_outbox s PENDINGS_SIZE (iguana_rwnum_dec (bufAt msg offset) 4) 0
          refine ⟨m + 1, by omega, ?_, ?_⟩
          · rw [h1]
            show (komodo_DEXfind32 s PENDINGS_SIZE _ 0).1.DEX_Numpending + 1 + (m : Int) = _
            rw [f.2]
            push_cast
            omega
          · rw [h2]
            show ((komodo_DEXfind32 s PENDINGS_SIZE _ 0).1.outbox ++ [_]).length + m = _
            rw [f.1, List.length_append, List.length_singleton]
            omega
        · obtain ⟨m, hm, h1, h2⟩ := ih (offset + 4)
            (komodo_DEXfind32 s PENDINGS_SIZE (iguana_rwnum_dec (bufAt msg offset) 4) 0).1
          have f := find32_outbox s PENDINGS_SIZE (iguana_rwnum_dec (bufAt msg offset) 4) 0
          refine ⟨m, by omega, ?_, ?_⟩
          · rw [h1, f.2]
          · rw [h2, f.1]

theorem find32_neg_iff (s : DEXState) (hashsize shorthash : Nat) (clearflag : Int) :
    (komodo_DEXfind32 s hashsize shorthash clearflag).2 < 0
      ↔ s.Pendings (shorthash % hashsize) ≠ shorthash := by
  simp only [komodo_DEXfind32]
  by_cases hp : s.Pendings (shorthash % hashsize) = shorthash
  · rw [if_pos hp]
    constructor
    · intro hlt
      exfalso
      split at hlt
      · exact absurd hlt (not_lt.mpr (Int.ofNat_nonneg _))
      · exact absurd hlt (not_lt.mpr (Int.ofNat_nonneg _))
    · intro hne
      exact absurd hp hne
  · rw [if_neg hp]
    constructor
    · intro _
      exact hp
    · intro _
      split
      · show (-1 : Int) < 0
        decide
      · show (-1 : Int) < 0
        decide

theorem Ploop_one (now : Nat) (pfrom : Int) (msg : Nat → Nat) (modval offset : Nat)
    (s : DEXState) :
    ((s.DEX_Numpending ≤ ((KOMODO_DEX_HASHSIZE : Nat) : Int)
        ∧ (komodo_DEXfind s modval (iguana_rwnum_dec (bufAt msg offset) 4)).1 < 0
        ∧ s.Pendings ((iguana_rwnum_dec (bufAt msg offset) 4) % PENDINGS_SIZE) ≠ (iguana_rwnum_dec (bufAt msg offset) 4)) →
        (komodo_DEXprocess_Ploop now pfrom msg modval 1 offset s).outbox = s.outbox ++ [(pfrom, komodo_DEXgenget now (iguana_rwnum_dec (bufAt msg offset) 4) (modval : Int))]
        ∧ (komodo_DEXprocess_Ploop now pfrom msg modval 1 offset s).DEX_Numpending = s.DEX_Numpending + 1
        ∧ (komodo_DEXprocess_Ploop now pfrom msg modval 1 offset s).Pendings ((iguana_rwnum_dec (bufAt msg offset) 4) % PENDINGS_SIZE) = (iguana_rwnum_dec (bufAt msg offset) 4))
    ∧ (¬ (s.DEX_Numpending ≤ ((KOMODO_DEX_HASHSIZE : Nat) : Int)
        ∧ (komodo_DEXfind s modval (iguana_rwnum_dec (bufAt msg offset) 4)).1 < 0
        ∧ s.Pendings ((iguana_rwnum_dec (bufAt msg offset) 4) % PENDINGS_SIZE) ≠ (iguana_rwnum_dec (bufAt msg offset) 4)) →
        (komodo_DEXprocess_Ploop now pfrom msg modval 1 offset s).outbox = s.outbox ∧ (komodo_DEXprocess_Ploop now pfrom msg modval 1 offset s).DEX_Numpending = s.DEX_Numpending) := by
  have f := find32_outbox s PENDINGS_SIZE (iguana_rwnum_dec (bufAt msg offset) 4) 0
  have fi := find32_neg_iff s PENDINGS_SIZE (iguana_rwnum_dec (bufAt msg offset) 4) 0
  by_cases hbrk : s.DEX_Numpending > ((KOMODO_DEX_HASHSIZE : Nat) : Int)
  · have e1 : komodo_DEXprocess_Ploop now pfrom msg modval 1 offset s = s := by
      rw [komodo_DEXprocess_Ploop, if_pos hbrk]
    rw [e1]
    exact ⟨fun hc => absurd hc.1 (not_le.mpr hbrk), fun _ => ⟨rfl, rfl⟩⟩
  · by_cases hfound : (komodo_DEXfind s modval (iguana_rwnum_dec (bufAt msg offset) 4)).1 ≥ 0
    · have e1 : komodo_DEXprocess_Ploop now pfrom msg modval 1 offset s = s := by
        rw [komodo_DEXprocess_Ploop, if_neg hbrk]
        simp only
        rw [if_pos hfound]
        rfl
      rw [e1]
      exact ⟨fun hc => absurd hc.2.1 (not_lt.mpr hfound), fun _ => ⟨rfl, rfl⟩⟩
    · by_cases hpend : (komodo_DEXfind32 s PENDINGS_SIZE
          (iguana_rwnum_dec (bufAt msg offset) 4) 0).2 < 0
      · have e1 : komodo_DEXprocess_Ploop now pfrom msg modval 1 offset s
            = { (komodo_DEXadd32 (komodo_DEXfind32 s PENDINGS_SIZE
                  (iguana_rwnum_dec (bufAt msg offset) 4) 0).1 PENDINGS_SIZE
                  (iguana_rwnum_dec (bufAt msg offset) 4)).1 with
                DEX_Numpending := (komodo_DEXadd32 (komodo_DEXfind32 s PENDINGS_SIZE
                  (iguana_rwnum_dec (bufAt msg offset) 4) 0).1 PENDINGS_SIZE
                  (iguana_rwnum_dec (bufAt msg offset) 4)).1.DEX_Numpending + 1,
                outbox := (komodo_DEXadd32 (komodo_DEXfind32 s PENDINGS_SIZE
                  (iguana_rwnum_dec (bufAt msg offset) 4) 0).1 PENDINGS_SIZE
                  (iguana_rwnum_dec (bufAt msg offset) 4)).1.outbox
                  ++ [(pfrom, komodo_DEXgenget now (iguana_rwnum_dec (bufAt msg offset) 4)
                        (modval : Int))] } := by
          rw [komodo_DEXprocess_Ploop, if_neg hbrk]
          simp only
          rw [if_neg hfound, if_pos hpend]
          rfl
        rw [e1]
        refine ⟨fun _ => ⟨?_, ?_, ?_⟩, fun hn => ?_⟩
        · show (komodo_DEXfind32 s PENDINGS_SIZE _ 0).1.outbox ++ [_] = _
          rw [f.1]
        · show (komodo_DEXfind32 s PENDINGS_SIZE _ 0).1.DEX_Numpending + 1 = _
          rw [f.2]
        · show Function.update _ _ _ _ = _
          exact Function.update_same _ _ _
        · exact absurd ⟨not_lt.mp hbrk, not_le.mp hfound, fi.1 hpend⟩ hn
      · have e1 : komodo_DEXprocess_Ploop now pfrom msg modval 1 offset s
            = (komodo_DEXfind32 s PENDINGS_SIZE
                (iguana_rwnum_dec (bufAt msg offset) 4) 0).1 := by
          rw [komodo_DEXprocess_Ploop, if_neg hbrk]
          simp only
          rw [if_neg hfound, if_neg hpend]
          rfl
        rw [e1]
        exact ⟨fun hc => absurd (fi.2 hc.2.2) hpend, fun _ => ⟨f.1, f.2⟩⟩

/-- C20: the branch `funcid == 'P'` of `komodo_DEXprocess` on a well-formed
ping `(n, modval, h_1..h_n)`, that is `len = 12 + 4n` and `0 <= modval < 3600`:
it returns 0 after the loop over the `n` advertised hashes.  At the step of
`h_(i+1)`, a `G(h, modval)` to the sender is appended to the messages sent
exactly when `DEX_Numpending` is at most `KOMODO_DEX_HASHSIZE`, `h` is not stored
in bucket `modval` and `h` is not in its cell of `Pendings`; the step then
records `h` in `Pendings` and adds 1 to `DEX_Numpending`; otherwise the step
sends nothing and leaves `DEX_Numpending` alone.  The number of frames sent
equals the increase of `DEX_Numpending` and is at most `n`; `Hashtables`,
`Datablobs`, the blobs and the index arrays are unchanged; a ping with `n = 0`
returns with the state unchanged. -/
theorem C20_ping_path (s : DEXState) (now : Nat) (pfrom : Int) (msg : Nat → Nat)
    (len n modval : Nat)
    (hn : iguana_rwnum_dec (bufAt msg KOMODO_DEX_ROUTESIZE) 2 = n)
    (hm : toInt32 (iguana_rwnum_dec (bufAt msg (KOMODO_DEX_ROUTESIZE + 2)) 4) = (modval : Int))
    (hmr : modval < KOMODO_DEX_PURGETIME)
    (hlen : len = 12 + n * 4) :
    komodo_DEXprocess_P s now pfrom msg len = some (komodo_DEXprocess_Ploop now pfrom msg modval n 12 s, 0)
    ∧ (∀ i, i < n →
      (((komodo_DEXprocess_Ploop now pfrom msg modval i 12 s).DEX_Numpending ≤ ((KOMODO_DEX_HASHSIZE : Nat) : Int)
          ∧ (komodo_DEXfind (komodo_DEXprocess_Ploop now pfrom msg modval i 12 s) modval (iguana_rwnum_dec (bufAt msg (12 + 4 * i)) 4)).1 < 0
          ∧ (komodo_DEXprocess_Ploop now pfrom msg modval i 12 s).Pendings ((iguana_rwnum_dec (bufAt msg (12 + 4 * i)) 4) % PENDINGS_SIZE) ≠ (iguana_rwnum_dec (bufAt msg (12 + 4 * i)) 4)) →
          (komodo_DEXprocess_Ploop now pfrom msg modval (i + 1) 12 s).outbox = (komodo_DEXprocess_Ploop now pfrom msg modval i 12 s).outbox ++ [(pfrom, komodo_DEXgenget now (iguana_rwnum_dec (bufAt msg (12 + 4 * i)) 4) (modval : Int))]
          ∧ (komodo_DEXprocess_Ploop now pfrom msg modval (i + 1) 12 s).DEX_Numpending = (komodo_DEXprocess_Ploop now pfrom msg modval i 12 s).DEX_Numpending + 1
          ∧ (komodo_DEXprocess_Ploop now pfrom msg modval (i + 1) 12 s).Pendings ((iguana_rwnum_dec (bufAt msg (12 + 4 * i)) 4) % PENDINGS_SIZE) = (iguana_rwnum_dec (bufAt msg (12 + 4 * i)) 4))
      ∧ (¬ ((komodo_DEXprocess_Ploop now pfrom msg modval i 12 s).DEX_Numpending ≤ ((KOMODO_DEX_HASHSIZE : Nat) : Int)
          ∧ (komodo_DEXfind (komodo_DEXprocess_Ploop now pfrom msg modval i 12 s) modval (iguana_rwnum_dec (bufAt msg (12 + 4 * i)) 4)).1 < 0
          ∧ (komodo_DEXprocess_Ploop now pfrom msg modval i 12 s).Pendings ((iguana_rwnum_dec (bufAt msg (12 + 4 * i)) 4) % PENDINGS_SIZE) ≠ (iguana_rwnum_dec (bufAt msg (12 + 4 * i)) 4)) →
          (komodo_DEXprocess_Ploop now pfrom msg modval (i + 1) 12 s).outbox = (komodo_DEXprocess_Ploop now pfrom msg modval i 12 s).outbox ∧ (komodo_DEXprocess_Ploop now pfrom msg modval (i + 1) 12 s).DEX_Numpending = (komodo_DEXprocess_Ploop now pfrom msg modval i 12 s).DEX_Numpending))
    ∧ (∃ m : Nat, m ≤ n
        ∧ (komodo_DEXprocess_Ploop now pfrom msg modval n 12 s).DEX_Numpending = s.DEX_Numpending + (m : Int)
        ∧ (komodo_DEXprocess_Ploop now pfrom msg modval n 12 s).outbox.length = s.outbox.length + m)
    ∧ (komodo_DEXprocess_Ploop now pfrom msg modval n 12 s).Hashtables = s.Hashtables
    ∧ (komodo_DEXprocess_Ploop now pfrom msg modval n 12 s).Datablobs = s.Datablobs
    ∧ (komodo_DEXprocess_Ploop now pfrom msg modval n 12 s).heap = s.heap
    ∧ (komodo_DEXprocess_Ploop now pfrom msg modval n 12 s).DEX_tagABs = s.DEX_tagABs
    ∧ (komodo_DEXprocess_Ploop now pfrom msg modval n 12 s).DEX_tagAs = s.DEX_tagAs
    ∧ (komodo_DEXprocess_Ploop now pfrom msg modval n 12 s).DEX_destpubs = s.DEX_destpubs
    ∧ (n = 0 → komodo_DEXprocess_P s now pfrom msg len = some (s, 0)) := by
  have hP : komodo_DEXprocess_P s now pfrom msg len
      = some (komodo_DEXprocess_Ploop now pfrom msg modval n 12 s, 0) := by
    unfold komodo_DEXprocess_P
    simp only [hn, hm, Int.toNat_ofNat]
    rw [if_pos (show len ≥ 12 by omega),
      if_pos ⟨show 6 + 2 + 4 + n * 4 = len by omega, Int.ofNat_nonneg _, by exact_mod_cast hmr⟩]
  refine ⟨hP, ?_, Ploop_count _ _ _ _ _ _ _, Ploop_Hashtables _ _ _ _ _ _ _,
    Ploop_Datablobs _ _ _ _ _ _ _, Ploop_heap _ _ _ _ _ _ _, Ploop_DEX_tagABs _ _ _ _ _ _ _,
    Ploop_DEX_tagAs _ _ _ _ _ _ _, Ploop_DEX_destpubs _ _ _ _ _ _ _, ?_⟩
  · intro i _
    rw [Ploop_succ_right]
    exact Ploop_one now pfrom msg modval (12 + 4 * i) _
  · intro h0
    rw [hP, h0]
    rfl

/-- Witness of C20: peer 7 advertises the short hashes 5 and 9 of bucket 1000 to
`exampleStored`; 5 is stored, 9 is asked for. -/
theorem C20_ping_path_witness :
    iguana_rwnum_dec (bufAt examplePing KOMODO_DEX_ROUTESIZE) 2 = 2
    ∧ toInt32 (iguana_rwnum_dec (bufAt examplePing (KOMODO_DEX_ROUTESIZE + 2)) 4) = ((1000 : Nat) : Int)
    ∧ (komodo_DEXprocess_P exampleStored 1000 7 examplePing 20).map
        (fun r => (r.1.DEX_Numpending, r.1.outbox, r.2))
        = some (1, [(7, komodo_DEXgenget 1000 9 1000)], 0)
    ∧ komodo_DEXprocess_P exampleStored 1000 7 examplePing 20 = some (komodo_DEXprocess_Ploop 1000 7 examplePing 1000 2 12 exampleStored, 0)
    ∧ (∀ i, i < 2 →
      (((komodo_DEXprocess_Ploop 1000 7 examplePing 1000 i 12 exampleStored).DEX_Numpending ≤ ((KOMODO_DEX_HASHSIZE : Nat) : Int)
          ∧ (komodo_DEXfind (komodo_DEXprocess_Ploop 1000 7 examplePing 1000 i 12 exampleStored) 1000 (iguana_rwnum_dec (bufAt examplePing (12 + 4 * i)) 4)).1 < 0
          ∧ (komodo_DEXprocess_Ploop 1000 7 examplePing 1000 i 12 exampleStored).Pendings ((iguana_rwnum_dec (bufAt examplePing (12 + 4 * i)) 4) % PENDINGS_SIZE) ≠ (iguana_rwnum_dec (bufAt examplePing (12 + 4 * i)) 4)) →
          (komodo_DEXprocess_Ploop 1000 7 examplePing 1000 (i + 1) 12 exampleStored).outbox = (komodo_DEXprocess_Ploop 1000 7 examplePing 1000 i 12 exampleStored).outbox ++ [(7, komodo_DEXgenget 1000 (iguana_rwnum_dec (bufAt examplePing (12 + 4 * i)) 4) (1000 : Int))]
          ∧ (komodo_DEXprocess_Ploop 1000 7 examplePing 1000 (i + 1) 12 exampleStored).DEX_Numpending = (komodo_DEXprocess_Ploop 1000 7 examplePing 1000 i 12 exampleStored).DEX_Numpending + 1
          ∧ (komodo_DEXprocess_Ploop 1000 7 examplePing 1000 (i + 1) 12 exampleStored).Pendings ((iguana_rwnum_dec (bufAt examplePing (12 + 4 * i)) 4) % PENDINGS_SIZE) = (iguana_rwnum_dec (bufAt examplePing (12 + 4 * i)) 4))
      ∧ (¬ ((komodo_DEXprocess_Ploop 1000 7 examplePing 1000 i 12 exampleStored).DEX_Numpending ≤ ((KOMODO_DEX_HASHSIZE : Nat) : Int)
          ∧ (komodo_DEXfind (komodo_DEXprocess_Ploop 1000 7 examplePing 1000 i 12 exampleStored) 1000 (iguana_rwnum_dec (bufAt examplePing (12 + 4 * i)) 4)).1 < 0
          ∧ (komodo_DEXprocess_Ploop 1000 7 examplePing 1000 i 12 exampleStored).Pendings ((iguana_rwnum_dec (bufAt examplePing (12 + 4 * i)) 4) % PENDINGS_SIZE) ≠ (iguana_rwnum_dec (bufAt examplePing (12 + 4 * i)) 4)) →
          (komodo_DEXprocess_Ploop 1000 7 examplePing 1000 (i + 1) 12 exampleStored).outbox = (komodo_DEXprocess_Ploop 1000 7 examplePing 1000 i 12 exampleStored).outbox ∧ (komodo_DEXprocess_Ploop 1000 7 examplePing 1000 (i + 1) 12 exampleStored).DEX_Numpending = (komodo_DEXprocess_Ploop 1000 7 examplePing 1000 i 12 exampleStored).DEX_Numpending))
    ∧ (∃ m : Nat, m ≤ 2
        ∧ (komodo_DEXprocess_Ploop 1000 7 examplePing 1000 2 12 exampleStored).DEX_Numpending = exampleStored.DEX_Numpending + (m : Int)
        ∧ (komodo_DEXprocess_Ploop 1000 7 examplePing 1000 2 12 exampleStored).outbox.length = exampleStored.outbox.length + m)
    ∧ (komodo_DEXprocess_Ploop 1000 7 examplePing 1000 2 12 exampleStored).Hashtables = exampleStored.Hashtables
    ∧ (komodo_DEXprocess_Ploop 1000 7 examplePing 1000 2 12 exampleStored).Datablobs = exampleStored.Datablobs
    ∧ (komodo_DEXprocess_Ploop 1000 7 examplePing 1000 2 12 exampleStored).heap = exampleStored.heap
    ∧ (komodo_DEXprocess_Ploop 1000 7 examplePing 1000 2 12 exampleStored).DEX_tagABs = exampleStored.DEX_tagABs
    ∧ (komodo_DEXprocess_Ploop 1000 7 examplePing 1000 2 12 exampleStored).DEX_tagAs = exampleStored.DEX_tagAs
    ∧ (komodo_DEXprocess_Ploop 1000 7 examplePing 1000 2 12 exampleStored).DEX_destpubs = exampleStored.DEX_destpubs
    ∧ (2 = 0 → komodo_DEXprocess_P exampleStored 1000 7 examplePing 20 = some (exampleStored, 0)) :=
  ⟨by decide, by decide, by decide,
    C20_ping_path exampleStored 1000 7 examplePing 20 2 1000 (by decide) (by decide) (by decide)
      (by decide)⟩

/-! ## Quote round trip -/

theorem rwnum_enc_length (n : Nat) : ∀ x, (iguana_rwnum_enc n x).length = n := by
  induction n with
  | zero => intro x; rfl
  | succ n ih => intro x; simp only [iguana_rwnum_enc, List.length_cons, ih]

theorem memBytes_length (msg : Nat → Nat) (n : Nat) : (memBytes msg n).length = n := by
  simp only [memBytes, List.length_map, List.length_range]

theorem bufOf_append_right (l r : List Nat) (k : Nat) (hk : l.length = k) :
    bufAt (bufOf (l ++ r)) k = bufOf r := by
  funext i
  simp only [bufAt, bufOf]
  rw [List.getD_append_right _ _ _ _ (by omega)]
  congr 1
  omega

theorem bufAt_bufAt (msg : Nat → Nat) (a b : Nat) : bufAt (bufAt msg a) b = bufAt msg (a + b) := by
  funext i
  simp only [bufAt, Nat.add_assoc]

theorem bufAt_zero_apply (msg : Nat → Nat) (k : Nat) : msg k = bufAt msg k 0 := by
  simp only [bufAt, Nat.add_zero]

theorem rwnum_dec_enc (n : Nat) : ∀ (x : Nat) (r : List Nat),
    iguana_rwnum_dec (bufOf (iguana_rwnum_enc n x ++ r)) n = x % 256 ^ n := by
  induction n with
  | zero =>
    intro x r
    simp only [iguana_rwnum_dec, pow_zero, Nat.mod_one]
  | succ n ih =>
    intro x r
    have e1 : bufAt (bufOf (iguana_rwnum_enc (n + 1) x ++ r)) 1
        = bufOf (iguana_rwnum_enc n (x / 256) ++ r) := by
      have := bufOf_append_right [x % 256] (iguana_rwnum_enc n (x / 256) ++ r) 1 rfl
      exact this
    rw [iguana_rwnum_dec, e1, ih]
    have e0 : bufOf (iguana_rwnum_enc (n + 1) x ++ r) 0 = x % 256 := rfl
    rw [e0, Nat.mod_mod, pow_succ, Nat.mul_comm (256 ^ n) 256, Nat.mod_mul]

theorem memBytes_bufOf (l r : List Nat) (hl : ∀ x ∈ l, x < 256) :
    memBytes (bufOf (l ++ r)) l.length = l := by
  apply List.ext_getElem
  · rw [memBytes_length]
  · intro i h1 h2
    simp only [memBytes, List.getElem_map, List.getElem_range, bufOf]
    rw [List.getD_append _ _ _ _ h2, List.getD_eq_getElem _ _ h2]
    exact Nat.mod_eq_of_lt (hl _ (List.getElem_mem _))

theorem toInt8_small (b : Nat) (hb : b < 128) : toInt8 b = (b : Int) := by
  unfold toInt8
  have e : b % 256 = b := Nat.mod_eq_of_lt (by omega)
  rw [e, if_pos hb]

theorem extract_layout (msg : Nat → Nat) (len : Nat) (amountA amountB : Nat) (hasdest : Bool)
    (dest : List Nat) (tagA tagB : List Nat)
    (hlen : ¬ len < 8 + 8 + 3)
    (hA : iguana_rwnum_dec msg 8 = amountA)
    (hB : iguana_rwnum_dec (bufAt msg 8) 8 = amountB)
    (hp : msg 16 = if hasdest then 33 else 0)
    (hd : hasdest = true → memBytes (bufAt msg 17) 33 = dest)
    (hlA : tagA.length ≤ 15) (hlB : tagB.length ≤ 15)
    (hla : msg (if hasdest then 17 + 33 else 17) = tagA.length)
    (htA : memBytes (bufAt msg ((if hasdest then 17 + 33 else 17) + 1)) tagA.length = tagA)
    (hlb : msg ((if hasdest then 17 + 33 else 17) + 1 + tagA.length) = tagB.length)
    (htB : memBytes (bufAt msg ((if hasdest then 17 + 33 else 17) + 1 + tagA.length + 1))
            tagB.length = tagB) :
    komodo_DEX_extract msg len
      = some (some { amountA := amountA, amountB := amountB,
                     lenA := (tagA.length : Int), tagA := tagA,
                     lenB := (tagB.length : Int), tagB := tagB,
                     destpub33 := if hasdest then dest else List.replicate 33 0,
                     plen := if hasdest then 33 else 0,
                     offset := (if hasdest then 17 + 33 else 17) + 1 + tagA.length + 1
                                 + tagB.length }) := by
  have tA : toInt8 tagA.length = (tagA.length : Int) := toInt8_small _ (by omega)
  have tB : toInt8 tagB.length = (tagB.length : Int) := toInt8_small _ (by omega)
  have cA : ¬ ((tagA.length : Int) ≠ 0 ∧ ¬ (tagA.length : Int) ≤ ((KOMODO_DEX_TAGSIZE : Nat) : Int)) := by
    simp only [KOMODO_DEX_TAGSIZE]
    omega
  have cB : ¬ ((tagB.length : Int) ≠ 0 ∧ ¬ (tagB.length : Int) ≤ ((KOMODO_DEX_TAGSIZE : Nat) : Int)) := by
    simp only [KOMODO_DEX_TAGSIZE]
    omega
  have nA : ¬ (tagA.length : Int) < 0 := by omega
  have nB : ¬ (tagB.length : Int) < 0 := by omega
  unfold komodo_DEX_extract
  rw [if_neg hlen]
  cases hasdest with
  | false =>
    simp only [Bool.false_eq_true, if_false] at hp hla htA hlb htB ⊢
    have p0 : toInt8 (msg 16) = 0 := by rw [hp]; rfl
    simp only [p0, ne_eq, not_true_eq_false, false_and, if_false, hla, tA, cA, nA,
      Int.toNat_ofNat, hlb, tB, cB, nB, htA, htB, hA, hB]
  | true =>
    simp only [if_true, Nat.reduceAdd] at hp hla htA hlb htB ⊢
    have p0 : toInt8 (msg 16) = 33 := by rw [hp]; rfl
    have hd1 := hd rfl
    have n33 : ¬ ((33 : Int) = 0) := by decide
    simp only [p0, ne_eq, n33, not_false_eq_true, not_true_eq_false, and_false, if_false,
      if_true, Nat.reduceAdd]
    simp only [ne_eq, hla, tA, cA, nA, if_false, Int.toNat_ofNat, hlb, tB, cB, nB, htA, htB,
      hA, hB, hd1]

theorem rwnum_enc_lt (n : Nat) : ∀ x, ∀ b ∈ iguana_rwnum_enc n x, b < 256 := by
  induction n with
  | zero =>
    intro x b hb
    simp only [iguana_rwnum_enc, List.not_mem_nil] at hb
  | succ n ih =>
    intro x b hb
    simp only [iguana_rwnum_enc, List.mem_cons] at hb
    rcases hb with h | h
    · rw [h]
      exact Nat.mod_lt _ (by decide)
    · exact ih _ _ h

theorem memBytes_lt (msg : Nat → Nat) (n : Nat) : ∀ b ∈ memBytes msg n, b < 256 := by
  intro b hb
  simp only [memBytes, List.mem_map] at hb
  obtain ⟨i, _, hi⟩ := hb
  rw [← hi]
  exact Nat.mod_lt _ (by decide)

theorem tagsec_eq (tag : List Nat) (hl : tag.length ≤ 15) (hc : ∀ c ∈ tag, c < 256) :
    (if tag.length > 0 then [tag.length % 256] ++ tag.map (fun c => c % 256) else [0])
      = tag.length :: tag := by
  have hm : tag.map (fun c => c % 256) = tag := by
    conv_rhs => rw [← List.map_id tag]
    apply List.map_congr_left
    intro c hcm
    exact Nat.mod_eq_of_lt (hc c hcm)
  by_cases h0 : tag.length > 0
  · rw [if_pos h0, hm, Nat.mod_eq_of_lt (by omega)]
    rfl
  · rw [if_neg h0]
    have : tag = [] := List.length_eq_zero.mp (by omega)
    rw [this]
    rfl

theorem tags_read (msg : Nat → Nat) (o1 : Nat) (tagA tagB rest : List Nat)
    (hcA : ∀ c ∈ tagA, c < 256) (hcB : ∀ c ∈ tagB, c < 256)
    (hb : bufAt msg o1 = bufOf (tagA.length :: (tagA ++ (tagB.length :: (tagB ++ rest))))) :
    msg o1 = tagA.length
    ∧ memBytes (bufAt msg (o1 + 1)) tagA.length = tagA
    ∧ msg (o1 + 1 + tagA.length) = tagB.length
    ∧ memBytes (bufAt msg (o1 + 1 + tagA.length + 1)) tagB.length = tagB
    ∧ bufAt msg (o1 + 1 + tagA.length + 1 + tagB.length) = bufOf rest := by
  have b1 : bufAt msg (o1 + 1) = bufOf (tagA ++ (tagB.length :: (tagB ++ rest))) := by
    rw [← bufAt_bufAt, hb]
    exact bufOf_append_right [tagA.length] _ 1 rfl
  have b2 : bufAt msg (o1 + 1 + tagA.length) = bufOf (tagB.length :: (tagB ++ rest)) := by
    rw [← bufAt_bufAt, b1]
    exact bufOf_append_right tagA _ _ rfl
  have b3 : bufAt msg (o1 + 1 + tagA.length + 1) = bufOf (tagB ++ rest) := by
    rw [← bufAt_bufAt, b2]
    exact bufOf_append_right [tagB.length] _ 1 rfl
  have b4 : bufAt msg (o1 + 1 + tagA.length + 1 + tagB.length) = bufOf rest := by
    rw [← bufAt_bufAt, b3]
    exact bufOf_append_right tagB _ _ rfl
  refine ⟨?_, ?_, ?_, ?_, b4⟩
  · rw [bufAt_zero_apply msg o1, hb]
    rfl
  · rw [b1]
    exact memBytes_bufOf tagA _ hcA
  · rw [bufAt_zero_apply msg (o1 + 1 + tagA.length), b2]
    rfl
  · rw [b3]
    exact memBytes_bufOf tagB _ hcB

theorem broadcast_hdr_eq (amountA amountB : Nat) (hasdest : Bool) (destpub : Nat → Nat)
    (tagA tagB : List Nat) (hlA : tagA.length ≤ 15) (hlB : tagB.length ≤ 15)
    (hcA : ∀ c ∈ tagA, c < 256) (hcB : ∀ c ∈ tagB, c < 256) :
    komodo_DEXbroadcast_hdr amountA amountB hasdest destpub tagA tagB
      = iguana_rwnum_enc 8 amountA ++ (iguana_rwnum_enc 8 amountB
          ++ ((if hasdest then 33 :: memBytes destpub 33 else [0])
          ++ (tagA.length :: (tagA ++ (tagB.length :: tagB))))) := by
  unfold komodo_DEXbroadcast_hdr
  rw [tagsec_eq tagA hlA hcA, tagsec_eq tagB hlB hcB]
  rfl

theorem broadcast_hdr_lt (amountA amountB : Nat) (hasdest : Bool) (destpub : Nat → Nat)
    (tagA tagB : List Nat) (hlA : tagA.length ≤ 15) (hlB : tagB.length ≤ 15)
    (hcA : ∀ c ∈ tagA, c < 256) (hcB : ∀ c ∈ tagB, c < 256) :
    ∀ b ∈ komodo_DEXbroadcast_hdr amountA amountB hasdest destpub tagA tagB, b < 256 := by
  rw [broadcast_hdr_eq _ _ _ _ _ _ hlA hlB hcA hcB]
  intro b hb
  simp only [List.mem_append, List.mem_cons] at hb
  rcases hb with h | h | h | h | h | h | h
  · exact rwnum_enc_lt _ _ _ h
  · exact rwnum_enc_lt _ _ _ h
  · cases hasdest with
    | false =>
      simp only [Bool.false_eq_true, if_false, List.mem_singleton] at h
      omega
    | true =>
      simp only [if_true, List.mem_cons] at h
      rcases h with h | h
      · omega
      · exact memBytes_lt _ _ _ h
  · omega
  · exact hcA _ h
  · omega
  · exact hcB _ h

theorem broadcast_hdr_length (amountA amountB : Nat) (hasdest : Bool) (destpub : Nat → Nat)
    (tagA tagB : List Nat) (hlA : tagA.length ≤ 15) (hlB : tagB.length ≤ 15)
    (hcA : ∀ c ∈ tagA, c < 256) (hcB : ∀ c ∈ tagB, c < 256) :
    (komodo_DEXbroadcast_hdr amountA amountB hasdest destpub tagA tagB).length
      = (if hasdest then 17 + 33 else 17) + 1 + tagA.length + 1 + tagB.length := by
  rw [broadcast_hdr_eq _ _ _ _ _ _ hlA hlB hcA hcB]
  cases hasdest with
  | false =>
    simp only [Bool.false_eq_true, if_false, List.length_append, List.length_cons,
      rwnum_enc_length, List.length_nil]
    omega
  | true =>
    simp only [if_true, List.length_append, List.length_cons, rwnum_enc_length,
      memBytes_length]
    omega

theorem genquote_data_lt (data : Option (Nat → Nat)) (datalen : Nat) :
    ∀ b ∈ komodo_DEXgenquote_data data datalen, b < 256 := by
  cases data with
  | none =>
    intro b hb
    cases hb
  | some d => exact memBytes_lt _ _

theorem genquote_data_length (data : Option (Nat → Nat)) (datalen : Nat) :
    (komodo_DEXgenquote_data data datalen).length = if data.isSome then datalen else 0 := by
  cases data with
  | none => rfl
  | some d => exact memBytes_length _ _

theorem genquote_frame_reads (timestamp : Nat) (hdr : List Nat) (data : Option (Nat → Nat))
    (datalen nonce : Nat) (ht : timestamp < U32) (hlt : ∀ b ∈ hdr, b < 256) :
    (komodo_DEXgenquote_frame timestamp (bufOf hdr) hdr.length data datalen nonce).length
        = 10 + hdr.length + (if data.isSome then datalen else 0)
    ∧ iguana_rwnum_dec
        (bufAt (bufOf (komodo_DEXgenquote_frame timestamp (bufOf hdr) hdr.length data datalen
          nonce)) 2) 4 = timestamp
    ∧ bufAt (bufOf (komodo_DEXgenquote_frame timestamp (bufOf hdr) hdr.length data datalen
          nonce)) KOMODO_DEX_ROUTESIZE
        = bufOf (hdr ++ (komodo_DEXgenquote_data data datalen ++ iguana_rwnum_enc 4 nonce))
    ∧ (komodo_DEXgenquote_frame timestamp (bufOf hdr) hdr.length data datalen nonce).drop
          (KOMODO_DEX_ROUTESIZE + hdr.length)
        = komodo_DEXgenquote_data data datalen ++ iguana_rwnum_enc 4 nonce := by
  have hm : memBytes (bufOf hdr) hdr.length = hdr := by
    have := memBytes_bufOf hdr [] hlt
    rwa [List.append_nil] at this
  have hpl := genquote_data_length data datalen
  unfold komodo_DEXgenquote_frame
  rw [hm]
  generalize komodo_DEXgenquote_data data datalen = pay at hpl ⊢
  have b2 : bufAt (bufOf ([KOMODO_DEX_RELAYDEPTH, 81] ++ (iguana_rwnum_enc 4 timestamp
      ++ (hdr ++ (pay ++ iguana_rwnum_enc 4 nonce))))) 2
      = bufOf (iguana_rwnum_enc 4 timestamp ++ (hdr ++ (pay ++ iguana_rwnum_enc 4 nonce))) :=
    bufOf_append_right _ _ 2 rfl
  have b6 : bufAt (bufOf ([KOMODO_DEX_RELAYDEPTH, 81] ++ (iguana_rwnum_enc 4 timestamp
      ++ (hdr ++ (pay ++ iguana_rwnum_enc 4 nonce))))) KOMODO_DEX_ROUTESIZE
      = bufOf (hdr ++ (pay ++ iguana_rwnum_enc 4 nonce)) := by
    have e : KOMODO_DEX_ROUTESIZE = 2 + 4 := rfl
    rw [e, ← bufAt_bufAt, b2]
    exact bufOf_append_right _ _ 4 (rwnum_enc_length 4 timestamp)
  refine ⟨?_, ?_, b6, ?_⟩
  · simp only [List.length_append, List.length_cons, List.length_nil, rwnum_enc_length, hpl]
    omega
  · rw [b2, rwnum_dec_enc]
    exact Nat.mod_eq_of_lt ht
  · have e : ([KOMODO_DEX_RELAYDEPTH, 81] ++ (iguana_rwnum_enc 4 timestamp
        ++ (hdr ++ (pay ++ iguana_rwnum_enc 4 nonce))))
        = (([KOMODO_DEX_RELAYDEPTH, 81] ++ iguana_rwnum_enc 4 timestamp) ++ hdr)
          ++ (pay ++ iguana_rwnum_enc 4 nonce) := by
      simp only [List.append_assoc]
    rw [e]
    exact List.drop_left' (by
      simp only [List.length_append, List.length_cons, List.length_nil, rwnum_enc_length])

theorem drop_getD (l : List Nat) (k i : Nat) : (l.drop k).getD i 0 = l.getD (k + i) 0 := by
  simp only [List.getD_eq_getElem?_getD, List.getElem?_drop]

theorem memBytes_getD (msg : Nat → Nat) (n : Nat) (r : List Nat) (i : Nat) (h : i < n) :
    (memBytes msg n ++ r).getD i 0 = msg i % 256 := by
  have hl : i < (memBytes msg n).length := by rw [memBytes_length]; exact h
  rw [List.getD_append _ _ _ _ hl, List.getD_eq_getElem _ _ hl]
  simp only [memBytes, List.getElem_map, List.getElem_range]

theorem genquote_frame_payload (timestamp : Nat) (hdr : List Nat) (d : Nat → Nat)
    (datalen nonce : Nat) (ht : timestamp < U32) (hlt : ∀ b ∈ hdr, b < 256) (i : Nat)
    (hi : i < datalen) :
    (komodo_DEXgenquote_frame timestamp (bufOf hdr) hdr.length (some d) datalen nonce).getD
        (KOMODO_DEX_ROUTESIZE + hdr.length + i) 0 = d i % 256 := by
  obtain ⟨_, _, _, r4⟩ := genquote_frame_reads timestamp hdr (some d) datalen nonce ht hlt
  rw [← drop_getD, r4]
  exact memBytes_getD d datalen _ i hi

/-- C16: for a timestamp below 2^32, amounts below 2^64, an optional 33-byte
destpub, tags of fewer than 16 bytes and any payload, the frame that
`komodo_DEXgenquote` assembles from the header written by `komodo_DEXbroadcast`
decodes to the values it was built from: bytes 2..5 give the timestamp;
`komodo_DEX_extract` on the bytes after the 6-byte routing header returns the
amounts, the destpub with its length byte, the two tags with their lengths and
an offset equal to the header length; the bytes from that offset on are the
`datalen` bytes of the payload `data` (byte `i` of the payload is `data[i]`)
followed by the 4 nonce bytes, and with a null `data` the 4 nonce bytes
alone. -/
theorem C16_quote_round_trip (timestamp amountA amountB : Nat) (hasdest : Bool)
    (destpub : Nat → Nat) (tagA tagB : List Nat) (data : Option (Nat → Nat))
    (datalen nonce : Nat)
    (ht : timestamp < U32) (hA : amountA < 2 ^ 64) (hB : amountB < 2 ^ 64)
    (hlA : tagA.length < KOMODO_DEX_TAGSIZE) (hlB : tagB.length < KOMODO_DEX_TAGSIZE)
    (hcA : ∀ c ∈ tagA, c < 256) (hcB : ∀ c ∈ tagB, c < 256) :
    (komodo_DEXgenquote_frame timestamp (bufOf (komodo_DEXbroadcast_hdr amountA amountB hasdest destpub tagA tagB)) (komodo_DEXbroadcast_hdr amountA amountB hasdest destpub tagA tagB).length data datalen nonce).length = 10 + (komodo_DEXbroadcast_hdr amountA amountB hasdest destpub tagA tagB).length + (if data.isSome then datalen else 0)
    ∧ iguana_rwnum_dec (bufAt (bufOf (komodo_DEXgenquote_frame timestamp (bufOf (komodo_DEXbroadcast_hdr amountA amountB hasdest destpub tagA tagB)) (komodo_DEXbroadcast_hdr amountA amountB hasdest destpub tagA tagB).length data datalen nonce)) 2) 4 = timestamp
    ∧ komodo_DEX_extract (bufAt (bufOf (komodo_DEXgenquote_frame timestamp (bufOf (komodo_DEXbroadcast_hdr amountA amountB hasdest destpub tagA tagB)) (komodo_DEXbroadcast_hdr amountA amountB hasdest destpub tagA tagB).length data datalen nonce)) KOMODO_DEX_ROUTESIZE) ((komodo_DEXgenquote_frame timestamp (bufOf (komodo_DEXbroadcast_hdr amountA amountB hasdest destpub tagA tagB)) (komodo_DEXbroadcast_hdr amountA amountB hasdest destpub tagA tagB).length data datalen nonce).length - KOMODO_DEX_ROUTESIZE)
        = some (some { amountA := amountA, amountB := amountB,
                       lenA := (tagA.length : Int), tagA := tagA,
                       lenB := (tagB.length : Int), tagB := tagB,
                       destpub33 := if hasdest then memBytes destpub 33 else List.replicate 33 0,
                       plen := if hasdest then 33 else 0,
                       offset := (komodo_DEXbroadcast_hdr amountA amountB hasdest destpub tagA tagB).length })
    ∧ (∀ d, data = some d →
        (komodo_DEXgenquote_frame timestamp (bufOf (komodo_DEXbroadcast_hdr amountA amountB hasdest destpub tagA tagB)) (komodo_DEXbroadcast_hdr amountA amountB hasdest destpub tagA tagB).length data datalen nonce).drop (KOMODO_DEX_ROUTESIZE + (komodo_DEXbroadcast_hdr amountA amountB hasdest destpub tagA tagB).length)
          = memBytes d datalen ++ iguana_rwnum_enc 4 nonce)
    ∧ (∀ d, data = some d → ∀ i, i < datalen →
        (komodo_DEXgenquote_frame timestamp (bufOf (komodo_DEXbroadcast_hdr amountA amountB hasdest destpub tagA tagB)) (komodo_DEXbroadcast_hdr amountA amountB hasdest destpub tagA tagB).length data datalen nonce).getD (KOMODO_DEX_ROUTESIZE + (komodo_DEXbroadcast_hdr amountA amountB hasdest destpub tagA tagB).length + i) 0
          = d i % 256)
    ∧ (data = none →
        (komodo_DEXgenquote_frame timestamp (bufOf (komodo_DEXbroadcast_hdr amountA amountB hasdest destpub tagA tagB)) (komodo_DEXbroadcast_hdr amountA amountB hasdest destpub tagA tagB).length data datalen nonce).drop (KOMODO_DEX_ROUTESIZE + (komodo_DEXbroadcast_hdr amountA amountB hasdest destpub tagA tagB).length)
          = iguana_rwnum_enc 4 nonce) := by
  have hlA1 : tagA.length ≤ 15 := by
    simp only [KOMODO_DEX_TAGSIZE] at hlA
    omega
  have hlB1 : tagB.length ≤ 15 := by
    simp only [KOMODO_DEX_TAGSIZE] at hlB
    omega
  have hlt := broadcast_hdr_lt amountA amountB hasdest destpub tagA tagB hlA1 hlB1 hcA hcB
  have hlen := broadcast_hdr_length amountA amountB hasdest destpub tagA tagB hlA1 hlB1 hcA hcB
  have hnf := broadcast_hdr_eq amountA amountB hasdest destpub tagA tagB hlA1 hlB1 hcA hcB
  obtain ⟨r1, r2, r3, r4⟩ := genquote_frame_reads timestamp
    (komodo_DEXbroadcast_hdr amountA amountB hasdest destpub tagA tagB) data datalen nonce ht hlt
  refine ⟨r1, r2, ?_, ?_, ?_, ?_⟩
  rotate_left
  · intro d hd
    rw [r4, hd]
    rfl
  · intro d hd i hi
    subst hd
    exact genquote_frame_payload timestamp
      (komodo_DEXbroadcast_hdr amountA amountB hasdest destpub tagA tagB) d datalen nonce ht hlt
      i hi
  · intro hd
    rw [r4, hd]
    rfl
  obtain ⟨tail, r3t⟩ : ∃ tail, bufAt (bufOf (komodo_DEXgenquote_frame timestamp
      (bufOf (komodo_DEXbroadcast_hdr amountA amountB hasdest destpub tagA tagB))
      (komodo_DEXbroadcast_hdr amountA amountB hasdest destpub tagA tagB).length data datalen
      nonce)) KOMODO_DEX_ROUTESIZE
      = bufOf (komodo_DEXbroadcast_hdr amountA amountB hasdest destpub tagA tagB ++ tail) :=
    ⟨_, r3⟩
  rw [r3t, r1, hlen, hnf]
  have hassoc : (iguana_rwnum_enc 8 amountA ++ (iguana_rwnum_enc 8 amountB
        ++ ((if hasdest then 33 :: memBytes destpub 33 else [0])
        ++ (tagA.length :: (tagA ++ (tagB.length :: tagB)))))) ++ tail
      = iguana_rwnum_enc 8 amountA ++ (iguana_rwnum_enc 8 amountB
        ++ ((if hasdest then 33 :: memBytes destpub 33 else [0])
        ++ (tagA.length :: (tagA ++ (tagB.length :: (tagB ++ tail)))))) := by
    simp only [List.append_assoc, List.cons_append]
  rw [hassoc]
  obtain ⟨M, hM⟩ : ∃ M, M = bufOf (iguana_rwnum_enc 8 amountA ++ (iguana_rwnum_enc 8 amountB
        ++ ((if hasdest then 33 :: memBytes destpub 33 else [0])
        ++ (tagA.length :: (tagA ++ (tagB.length :: (tagB ++ tail))))))) := ⟨_, rfl⟩
  rw [← hM]
  have h64 : (256 : Nat) ^ 8 = 2 ^ 64 := by norm_num
  have fA : iguana_rwnum_dec M 8 = amountA := by
    rw [hM, rwnum_dec_enc, h64]
    exact Nat.mod_eq_of_lt hA
  have m8 : bufAt M 8 = bufOf (iguana_rwnum_enc 8 amountB
        ++ ((if hasdest then 33 :: memBytes destpub 33 else [0])
        ++ (tagA.length :: (tagA ++ (tagB.length :: (tagB ++ tail)))))) := by
    rw [hM]
    exact bufOf_append_right _ _ 8 (rwnum_enc_length 8 amountA)
  have fB : iguana_rwnum_dec (bufAt M 8) 8 = amountB := by
    rw [m8, rwnum_dec_enc, h64]
    exact Nat.mod_eq_of_lt hB
  have m16 : bufAt M 16 = bufOf ((if hasdest then 33 :: memBytes destpub 33 else [0])
        ++ (tagA.length :: (tagA ++ (tagB.length :: (tagB ++ tail))))) := by
    have e : (16 : Nat) = 8 + 8 := rfl
    rw [e, ← bufAt_bufAt, m8]
    exact bufOf_append_right _ _ 8 (rwnum_enc_length 8 amountB)
  have fp : M 16 = if hasdest then 33 else 0 := by
    rw [bufAt_zero_apply M 16, m16]
    cases hasdest <;> rfl
  have fd : hasdest = true → memBytes (bufAt M 17) 33 = memBytes destpub 33 := by
    intro hd
    have e : (17 : Nat) = 16 + 1 := rfl
    rw [e, ← bufAt_bufAt, m16, hd, if_pos rfl]
    have e1 : bufAt (bufOf (33 :: memBytes destpub 33
          ++ (tagA.length :: (tagA ++ (tagB.length :: (tagB ++ tail)))))) 1
        = bufOf (memBytes destpub 33
          ++ (tagA.length :: (tagA ++ (tagB.length :: (tagB ++ tail))))) :=
      bufOf_append_right [33] _ 1 rfl
    rw [e1]
    have := memBytes_bufOf (memBytes destpub 33)
      (tagA.length :: (tagA ++ (tagB.length :: (tagB ++ tail)))) (memBytes_lt _ _)
    rwa [memBytes_length] at this
  have mo : bufAt M (if hasdest then 17 + 33 else 17)
      = bufOf (tagA.length :: (tagA ++ (tagB.length :: (tagB ++ tail)))) := by
    cases hasdest with
    | false =>
      simp only [Bool.false_eq_true, if_false] at m16 ⊢
      have e : (17 : Nat) = 16 + 1 := rfl
      rw [e, ← bufAt_bufAt, m16]
      exact bufOf_append_right [0] _ 1 rfl
    | true =>
      simp only [if_true] at m16 ⊢
      have e : (17 + 33 : Nat) = 16 + 34 := rfl
      rw [e, ← bufAt_bufAt, m16]
      exact bufOf_append_right (33 :: memBytes destpub 33) _ 34
        (by simp only [List.length_cons, memBytes_length])
  obtain ⟨t1, t2, t3, t4, _⟩ := tags_read M _ tagA tagB tail hcA hcB mo
  refine extract_layout M _ amountA amountB hasdest (memBytes destpub 33) tagA tagB ?_
    fA fB fp fd hlA1 hlB1 t1 t2 t3 t4
  have e6 : KOMODO_DEX_ROUTESIZE = 6 := rfl
  rw [e6]
  split_ifs <;> omega

/-- Witness of C16: timestamp 1000, amounts 5 and 7, a destpub, the tags `"a"`
and `"bc"`, a 3-byte payload and nonce 0. -/
theorem C16_quote_round_trip_witness :
    (1000 < U32 ∧ 5 < 2 ^ 64 ∧ 7 < 2 ^ 64
      ∧ ([97] : List Nat).length < KOMODO_DEX_TAGSIZE
      ∧ ([98, 99] : List Nat).length < KOMODO_DEX_TAGSIZE)
    ∧ (komodo_DEXgenquote_frame 1000 (bufOf (komodo_DEXbroadcast_hdr 5 7 true (fun i => i + 2) [97] [98, 99])) (komodo_DEXbroadcast_hdr 5 7 true (fun i => i + 2) [97] [98, 99]).length (some (fun i => i + 1)) 3 0).length = 10 + (komodo_DEXbroadcast_hdr 5 7 true (fun i => i + 2) [97] [98, 99]).length + (if (some (fun i : Nat => i + 1)).isSome then 3 else 0)
    ∧ iguana_rwnum_dec (bufAt (bufOf (komodo_DEXgenquote_frame 1000 (bufOf (komodo_DEXbroadcast_hdr 5 7 true (fun i => i + 2) [97] [98, 99])) (komodo_DEXbroadcast_hdr 5 7 true (fun i => i + 2) [97] [98, 99]).length (some (fun i => i + 1)) 3 0)) 2) 4 = 1000
    ∧ komodo_DEX_extract (bufAt (bufOf (komodo_DEXgenquote_frame 1000 (bufOf (komodo_DEXbroadcast_hdr 5 7 true (fun i => i + 2) [97] [98, 99])) (komodo_DEXbroadcast_hdr 5 7 true (fun i => i + 2) [97] [98, 99]).length (some (fun i => i + 1)) 3 0)) KOMODO_DEX_ROUTESIZE) ((komodo_DEXgenquote_frame 1000 (bufOf (komodo_DEXbroadcast_hdr 5 7 true (fun i => i + 2) [97] [98, 99])) (komodo_DEXbroadcast_hdr 5 7 true (fun i => i + 2) [97] [98, 99]).length (some (fun i => i + 1)) 3 0).length - KOMODO_DEX_ROUTESIZE)
        = some (some { amountA := 5, amountB := 7,
                       lenA := (([97] : List Nat).length : Int), tagA := [97],
                       lenB := (([98, 99] : List Nat).length : Int), tagB := [98, 99],
                       destpub33 := if true then memBytes (fun i => i + 2) 33 else List.replicate 33 0,
                       plen := if true then 33 else 0,
                       offset := (komodo_DEXbroadcast_hdr 5 7 true (fun i => i + 2) [97] [98, 99]).length })
    ∧ (∀ d, some (fun i : Nat => i + 1) = some d →
        (komodo_DEXgenquote_frame 1000 (bufOf (komodo_DEXbroadcast_hdr 5 7 true (fun i => i + 2) [97] [98, 99])) (komodo_DEXbroadcast_hdr 5 7 true (fun i => i + 2) [97] [98, 99]).length (some (fun i => i + 1)) 3 0).drop (KOMODO_DEX_ROUTESIZE + (komodo_DEXbroadcast_hdr 5 7 true (fun i => i + 2) [97] [98, 99]).length)
          = memBytes d 3 ++ iguana_rwnum_enc 4 0)
    ∧ (∀ d, some (fun i : Nat => i + 1) = some d → ∀ i, i < 3 →
        (komodo_DEXgenquote_frame 1000 (bufOf (komodo_DEXbroadcast_hdr 5 7 true (fun i => i + 2) [97] [98, 99])) (komodo_DEXbroadcast_hdr 5 7 true (fun i => i + 2) [97] [98, 99]).length (some (fun i => i + 1)) 3 0).getD (KOMODO_DEX_ROUTESIZE + (komodo_DEXbroadcast_hdr 5 7 true (fun i => i + 2) [97] [98, 99]).length + i) 0
          = d i % 256)
    ∧ (some (fun i : Nat => i + 1) = none →
        (komodo_DEXgenquote_frame 1000 (bufOf (komodo_DEXbroadcast_hdr 5 7 true (fun i => i + 2) [97] [98, 99])) (komodo_DEXbroadcast_hdr 5 7 true (fun i => i + 2) [97] [98, 99]).length (some (fun i => i + 1)) 3 0).drop (KOMODO_DEX_ROUTESIZE + (komodo_DEXbroadcast_hdr 5 7 true (fun i => i + 2) [97] [98, 99]).length)
          = iguana_rwnum_enc 4 0) :=
  ⟨by decide,
    C16_quote_round_trip 1000 5 7 true (fun i => i + 2) [97] [98, 99] (some (fun i => i + 1)) 3 0
      (by decide) (by decide) (by decide) (by decide) (by decide) (by decide) (by decide)⟩

/-! ## Grinding -/

theorem find_loop_spec (table : Nat → Nat) (h : Nat) (n : Nat) :
    ∀ start, start < KOMODO_DEX_HASHSIZE →
      (∃ k, k < n
        ∧ komodo_DEXfind_loop table h n start
            = ((((start + k) % KOMODO_DEX_HASHSIZE : Nat) : Int), -1)
        ∧ table ((start + k) % KOMODO_DEX_HASHSIZE) = h
        ∧ ∀ j, j < k → table ((start + j) % KOMODO_DEX_HASHSIZE) ≠ 0
            ∧ table ((start + j) % KOMODO_DEX_HASHSIZE) ≠ h)
      ∨ (∃ k, k < n
        ∧ komodo_DEXfind_loop table h n start
            = (-1, (((start + k) % KOMODO_DEX_HASHSIZE : Nat) : Int))
        ∧ table ((start + k) % KOMODO_DEX_HASHSIZE) = 0
        ∧ ∀ j, j < k → table ((start + j) % KOMODO_DEX_HASHSIZE) ≠ 0
            ∧ table ((start + j) % KOMODO_DEX_HASHSIZE) ≠ h)
      ∨ (komodo_DEXfind_loop table h n start = (-1, -1)
        ∧ ∀ j, j < n → table ((start + j) % KOMODO_DEX_HASHSIZE) ≠ 0
            ∧ table ((start + j) % KOMODO_DEX_HASHSIZE) ≠ h) := by
  induction n with
  | zero =>
    intro start _
    right
    right
    exact ⟨rfl, fun j hj => absurd hj (Nat.not_lt_zero j)⟩
  | succ n ih =>
    intro start hs
    have e0 : (start + 0) % KOMODO_DEX_HASHSIZE = start := by
      rw [Nat.add_zero]
      exact Nat.mod_eq_of_lt hs
    by_cases c0 : table start = 0
    · right
      left
      refine ⟨0, Nat.succ_pos n, ?_, ?_, fun j hj => absurd hj (Nat.not_lt_zero j)⟩
      · rw [komodo_DEXfind_loop, if_pos c0, e0]
      · rw [e0]
        exact c0
    · by_cases ch : table start = h
      · left
        refine ⟨0, Nat.succ_pos n, ?_, ?_, fun j hj => absurd hj (Nat.not_lt_zero j)⟩
        · rw [komodo_DEXfind_loop, if_neg c0, if_pos ch, e0]
        · rw [e0]
          exact ch
      · have hnext : (if start + 1 ≥ KOMODO_DEX_HASHSIZE then 0 else start + 1)
            = (start + 1) % KOMODO_DEX_HASHSIZE := by
          split
          · have : start + 1 = KOMODO_DEX_HASHSIZE := by omega
            rw [this, Nat.mod_self]
          · rw [Nat.mod_eq_of_lt (by omega)]
        have hstep : komodo_DEXfind_loop table h (n + 1) start
            = komodo_DEXfind_loop table h n ((start + 1) % KOMODO_DEX_HASHSIZE) := by
          rw [komodo_DEXfind_loop, if_neg c0, if_neg ch, hnext]
        have hpos : ∀ k, ((start + 1) % KOMODO_DEX_HASHSIZE + k) % KOMODO_DEX_HASHSIZE
            = (start + (k + 1)) % KOMODO_DEX_HASHSIZE := by
          intro k
          rw [Nat.mod_add_mod]
          congr 1
          omega
        have hprev : ∀ k, (∀ j, j < k →
              table (((start + 1) % KOMODO_DEX_HASHSIZE + j) % KOMODO_DEX_HASHSIZE) ≠ 0
              ∧ table (((start + 1) % KOMODO_DEX_HASHSIZE + j) % KOMODO_DEX_HASHSIZE) ≠ h) →
            ∀ j, j < k + 1 → table ((start + j) % KOMODO_DEX_HASHSIZE) ≠ 0
              ∧ table ((start + j) % KOMODO_DEX_HASHSIZE) ≠ h := by
          intro k hk j hj
          cases j with
          | zero =>
            rw [e0]
            exact ⟨c0, ch⟩
          | succ j =>
            have := hk j (by omega)
            rw [hpos] at this
            exact this
        rw [hstep]
        rcases ih ((start + 1) % KOMODO_DEX_HASHSIZE) (Nat.mod_lt _ (by decide)) with
          ⟨k, hk, e, ht, hb⟩ | ⟨k, hk, e, ht, hb⟩ | ⟨e, hb⟩
        · left
          refine ⟨k + 1, by omega, ?_, ?_, hprev k hb⟩
          · rw [e, hpos]
          · rw [← hpos]
            exact ht
        · right
          left
          refine ⟨k + 1, by omega, ?_, ?_, hprev k hb⟩
          · rw [e, hpos]
          · rw [← hpos]
            exact ht
        · right
          right
          exact ⟨e, hprev n hb⟩

theorem probe_surj (start i : Nat) (hs : start < KOMODO_DEX_HASHSIZE)
    (hi : i < KOMODO_DEX_HASHSIZE) :
    ∃ j, j < KOMODO_DEX_HASHSIZE ∧ (start + j) % KOMODO_DEX_HASHSIZE = i := by
  by_cases h : start ≤ i
  · exact ⟨i - start, by omega, by rw [Nat.mod_eq_of_lt (by omega)]; omega⟩
  · refine ⟨i + KOMODO_DEX_HASHSIZE - start, by omega, ?_⟩
    have e : start + (i + KOMODO_DEX_HASHSIZE - start) = i + KOMODO_DEX_HASHSIZE := by omega
    rw [e, Nat.add_mod_right, Nat.mod_eq_of_lt hi]

/-- C21: `komodo_DEXfind(modval, h)` probes the cells
`(h mod 16384 + k) mod 16384`, `k = 0, 1, ..`, of `Hashtables[modval]`, at most
16384 of them.  When it returns `ind >= 0`, the cell `ind` holds `h` and every
cell probed before it is neither empty nor equal to `h`.  When it returns -1
with `openind >= 0`, the cell `openind` is empty and every cell probed before it
is neither empty nor equal to `h`.  When it returns -1 with `openind == -1`, no
cell of the bucket is empty or equal to `h`.  The returned value and `openind`
are in `-1 .. 16383`; the function has no effect on the state. -/
theorem C21_find_probe (s : DEXState) (modval h : Nat) :
    ((komodo_DEXfind s modval h).1 ≥ 0 →
      ∃ k, k < 16384
        ∧ (komodo_DEXfind s modval h).1 = (((h % 16384 + k) % 16384 : Nat) : Int)
        ∧ (komodo_DEXfind s modval h).2 = -1
        ∧ s.Hashtables modval (komodo_DEXfind s modval h).1.toNat = h
        ∧ ∀ j, j < k → s.Hashtables modval ((h % 16384 + j) % 16384) ≠ 0
            ∧ s.Hashtables modval ((h % 16384 + j) % 16384) ≠ h)
    ∧ ((komodo_DEXfind s modval h).1 < 0 → (komodo_DEXfind s modval h).2 ≥ 0 →
      ∃ k, k < 16384
        ∧ (komodo_DEXfind s modval h).2 = (((h % 16384 + k) % 16384 : Nat) : Int)
        ∧ s.Hashtables modval (komodo_DEXfind s modval h).2.toNat = 0
        ∧ ∀ j, j < k → s.Hashtables modval ((h % 16384 + j) % 16384) ≠ 0
            ∧ s.Hashtables modval ((h % 16384 + j) % 16384) ≠ h)
    ∧ ((komodo_DEXfind s modval h).1 < 0 → (komodo_DEXfind s modval h).2 < 0 →
      ∀ i, i < 16384 → s.Hashtables modval i ≠ 0 ∧ s.Hashtables modval i ≠ h)
    ∧ -1 ≤ (komodo_DEXfind s modval h).1 ∧ (komodo_DEXfind s modval h).1 < 16384
    ∧ -1 ≤ (komodo_DEXfind s modval h).2 ∧ (komodo_DEXfind s modval h).2 < 16384 := by
  have hN : KOMODO_DEX_HASHSIZE = 16384 := rfl
  have hmask : h &&& KOMODO_DEX_HASHMASK = h % 16384 :=
    Nat.and_pow_two_sub_one_eq_mod h 14
  have hs : h % 16384 < KOMODO_DEX_HASHSIZE := Nat.mod_lt _ (by decide)
  unfold komodo_DEXfind
  rw [hmask]
  have key := find_loop_spec (s.Hashtables modval) h KOMODO_DEX_HASHSIZE (h % 16384) hs
  rw [hN] at key
  rcases key with ⟨k, hk, e, ht, hb⟩ | ⟨k, hk, e, ht, hb⟩ | ⟨e, hb⟩
  · have hlt : (h % 16384 + k) % 16384 < 16384 := Nat.mod_lt _ (by decide)
    rw [hN, e]
    refine ⟨fun _ => ⟨k, hk, rfl, rfl, ?_, hb⟩, fun hc => ?_, fun hc => ?_, ?_, ?_, ?_, ?_⟩
    · simp only [Int.toNat_ofNat]
      exact ht
    · exact absurd hc (not_lt.mpr (Int.ofNat_nonneg _))
    · exact absurd hc (not_lt.mpr (Int.ofNat_nonneg _))
    · show (-1 : Int) ≤ (((h % 16384 + k) % 16384 : Nat) : Int)
      omega
    · show (((h % 16384 + k) % 16384 : Nat) : Int) < 16384
      omega
    · show (-1 : Int) ≤ -1
      decide
    · show (-1 : Int) < 16384
      decide
  · have hlt : (h % 16384 + k) % 16384 < 16384 := Nat.mod_lt _ (by decide)
    rw [hN, e]
    refine ⟨fun hc => ?_, fun _ _ => ⟨k, hk, rfl, ?_, hb⟩, fun _ hc => ?_, ?_, ?_, ?_, ?_⟩
    · exact absurd hc (show ¬ ((-1 : Int) ≥ 0) by decide)
    · simp only [Int.toNat_ofNat]
      exact ht
    · exact absurd hc (not_lt.mpr (Int.ofNat_nonneg _))
    · show (-1 : Int) ≤ -1
      decide
    · show (-1 : Int) < 16384
      decide
    · show (-1 : Int) ≤ (((h % 16384 + k) % 16384 : Nat) : Int)
      omega
    · show (((h % 16384 + k) % 16384 : Nat) : Int) < 16384
      omega
  · rw [hN, e]
    refine ⟨fun hc => ?_, fun _ hc => ?_, fun _ _ i hi => ?_, ?_, ?_, ?_, ?_⟩
    · exact absurd hc (by decide)
    · exact absurd hc (by decide)
    · obtain ⟨j, hj, ej⟩ := probe_surj (h % 16384) i hs (by rw [hN]; exact hi)
      rw [hN] at hj ej
      have := hb j hj
      rw [ej] at this
      exact this
    · show (-1 : Int) ≤ -1
      decide
    · show (-1 : Int) < 16384
      decide
    · show (-1 : Int) ≤ -1
      decide
    · show (-1 : Int) < 16384
      decide

/-! ## Control frames -/

theorem toInt32_small (x : Nat) (hx : x < 2147483648) : toInt32 x = (x : Int) := by
  unfold toInt32
  have e : x % U32 = x := Nat.mod_eq_of_lt (by simp only [U32]; omega)
  rw [e, if_pos hx]

theorem hashes_read (hs : List Nat) (hlt : ∀ x ∈ hs, x < U32) :
    ∀ (rest : List Nat) (i : Nat), i < hs.length →
      iguana_rwnum_dec (bufAt (bufOf ((hs.map (iguana_rwnum_enc 4)).flatten ++ rest)) (4 * i)) 4
        = hs.getD i 0 := by
  induction hs with
  | nil =>
    intro rest i hi
    exact absurd hi (Nat.not_lt_zero i)
  | cons h t ih =>
    intro rest i hi
    have e : ((h :: t).map (iguana_rwnum_enc 4)).flatten ++ rest
        = iguana_rwnum_enc 4 h ++ ((t.map (iguana_rwnum_enc 4)).flatten ++ rest) := by
      simp only [List.map_cons, List.flatten_cons, List.append_assoc]
    rw [e]
    cases i with
    | zero =>
      have e0 : bufAt (bufOf (iguana_rwnum_enc 4 h
          ++ ((t.map (iguana_rwnum_enc 4)).flatten ++ rest))) (4 * 0)
          = bufOf (iguana_rwnum_enc 4 h ++ ((t.map (iguana_rwnum_enc 4)).flatten ++ rest)) := by
        funext j
        simp only [bufAt, Nat.mul_zero, Nat.zero_add]
      rw [e0, rwnum_dec_enc]
      have := hlt h (List.mem_cons_self _ _)
      simp only [U32] at this
      simp only [List.getD_cons_zero]
      exact Nat.mod_eq_of_lt (by norm_num; omega)
    | succ i =>
      have e4 : 4 * (i + 1) = 4 + 4 * i := by omega
      rw [e4, ← bufAt_bufAt, bufOf_append_right _ _ 4 (rwnum_enc_length 4 h)]
      simp only [List.getD_cons_succ]
      exact ih (fun x hx => hlt x (List.mem_cons_of_mem _ hx)) rest i
        (by simp only [List.length_cons] at hi; omega)

theorem hashes_length (hs : List Nat) :
    ((hs.map (iguana_rwnum_enc 4)).flatten).length = 4 * hs.length := by
  induction hs with
  | nil => rfl
  | cons h t ih =>
    simp only [List.map_cons, List.flatten_cons, List.length_append, rwnum_enc_length, ih,
      List.length_cons]
    omega

theorem genping_layout (timestamp : Nat) (modval : Int) (recents : List Nat) (n : Nat) :
    komodo_DEXgenping timestamp modval recents n
      = [0, 80] ++ (iguana_rwnum_enc 4 timestamp ++ (iguana_rwnum_enc 2 n
          ++ (iguana_rwnum_enc 4 (modval % 4294967296).toNat
          ++ (((recents.take n).map (iguana_rwnum_enc 4)).flatten ++ [])))) := by
  unfold komodo_DEXgenping
  simp only [List.append_assoc, List.append_nil]

/-- C28: for `n <= 16384` hashes below 2^32, `modval` in 0..3599 and a
timestamp below 2^32, the frame of `komodo_DEXgenping` has `12 + 4n` bytes,
starts with `[0]['P'][timestamp]`, and the branch `funcid == 'P'` of
`komodo_DEXprocess` accepts it (its length test holds) and reads back the same
`n`, `modval` and, at the offsets `12 + 4i`, the same hashes in order; the frame
of `komodo_DEXgenget` has 14 bytes, starts with `[0]['G'][timestamp]`, and the
branch `funcid == 'G'` reads back the same `shorthash` and `modval`. -/
theorem C28_control_round_trip (s : DEXState) (now : Nat) (pfrom : Int)
    (timestamp modval : Nat) (recents : List Nat) (n shorthash : Nat)
    (ht : timestamp < U32) (hn : n ≤ 16384) (hrec : n ≤ recents.length)
    (hm : modval < KOMODO_DEX_PURGETIME) (hh : ∀ x ∈ recents, x < U32)
    (hsh : shorthash < U32) :
    ((komodo_DEXgenping timestamp (modval : Int) recents n).length = 12 + 4 * n
      ∧ (komodo_DEXgenping timestamp (modval : Int) recents n).take 2 = [0, 80]
      ∧ iguana_rwnum_dec (bufAt (bufOf (komodo_DEXgenping timestamp (modval : Int) recents n)) 2) 4
          = timestamp
      ∧ iguana_rwnum_dec (bufAt (bufOf (komodo_DEXgenping timestamp (modval : Int) recents n))
          KOMODO_DEX_ROUTESIZE) 2 = n
      ∧ toInt32 (iguana_rwnum_dec (bufAt (bufOf (komodo_DEXgenping timestamp (modval : Int)
          recents n)) (KOMODO_DEX_ROUTESIZE + 2)) 4) = (modval : Int)
      ∧ (∀ i, i < n →
          iguana_rwnum_dec (bufAt (bufOf (komodo_DEXgenping timestamp (modval : Int) recents n))
            (12 + 4 * i)) 4 = recents.getD i 0)
      ∧ komodo_DEXprocess_P s now pfrom
          (bufOf (komodo_DEXgenping timestamp (modval : Int) recents n))
          (komodo_DEXgenping timestamp (modval : Int) recents n).length
          = some (komodo_DEXprocess_Ploop now pfrom
              (bufOf (komodo_DEXgenping timestamp (modval : Int) recents n)) modval n 12 s, 0))
    ∧ ((komodo_DEXgenget timestamp shorthash (modval : Int)).length = 14
      ∧ (komodo_DEXgenget timestamp shorthash (modval : Int)).take 2 = [0, 71]
      ∧ iguana_rwnum_dec (bufAt (bufOf (komodo_DEXgenget timestamp shorthash (modval : Int))) 2) 4
          = timestamp
      ∧ iguana_rwnum_dec (bufAt (bufOf (komodo_DEXgenget timestamp shorthash (modval : Int)))
          KOMODO_DEX_ROUTESIZE) 4 = shorthash
      ∧ toInt32 (iguana_rwnum_dec (bufAt (bufOf (komodo_DEXgenget timestamp shorthash
          (modval : Int))) (KOMODO_DEX_ROUTESIZE + 4)) 4) = (modval : Int)) := by
  have hm1 : modval < 3600 := hm
  have hU : U32 = 4294967296 := rfl
  have h4 : (256 : Nat) ^ 4 = 4294967296 := by norm_num
  have h2 : (256 : Nat) ^ 2 = 65536 := by norm_num
  have hmv : ((modval : Int) % 4294967296).toNat = modval := by omega
  have hlenT : (recents.take n).length = n := by
    rw [List.length_take]
    omega
  have hget : ∀ i, i < n → (recents.take n).getD i 0 = recents.getD i 0 := by
    intro i hi
    rw [List.getD_eq_getElem _ _ (by omega), List.getD_eq_getElem _ _ (by omega),
      List.getElem_take]
  have hltT : ∀ x ∈ recents.take n, x < U32 := fun x hx => hh x (List.mem_of_mem_take hx)
  constructor
  · rw [genping_layout, hmv]
    generalize hH : ((recents.take n).map (iguana_rwnum_enc 4)).flatten ++ [] = H
    have hHl : H.length = 4 * n := by
      rw [← hH, List.append_nil, hashes_length, hlenT]
    have b2 := bufOf_append_right [0, 80] (iguana_rwnum_enc 4 timestamp
      ++ (iguana_rwnum_enc 2 n ++ (iguana_rwnum_enc 4 modval ++ H))) 2 rfl
    have b6 : bufAt (bufOf ([0, 80] ++ (iguana_rwnum_enc 4 timestamp
        ++ (iguana_rwnum_enc 2 n ++ (iguana_rwnum_enc 4 modval ++ H))))) 6
        = bufOf (iguana_rwnum_enc 2 n ++ (iguana_rwnum_enc 4 modval ++ H)) := by
      have e : (6 : Nat) = 2 + 4 := rfl
      rw [e, ← bufAt_bufAt, b2]
      exact bufOf_append_right _ _ 4 (rwnum_enc_length 4 timestamp)
    have b8 : bufAt (bufOf ([0, 80] ++ (iguana_rwnum_enc 4 timestamp
        ++ (iguana_rwnum_enc 2 n ++ (iguana_rwnum_enc 4 modval ++ H))))) 8
        = bufOf (iguana_rwnum_enc 4 modval ++ H) := by
      have e : (8 : Nat) = 6 + 2 := rfl
      rw [e, ← bufAt_bufAt, b6]
      exact bufOf_append_right _ _ 2 (rwnum_enc_length 2 n)
    have b12 : bufAt (bufOf ([0, 80] ++ (iguana_rwnum_enc 4 timestamp
        ++ (iguana_rwnum_enc 2 n ++ (iguana_rwnum_enc 4 modval ++ H))))) 12 = bufOf H := by
      have e : (12 : Nat) = 8 + 4 := rfl
      rw [e, ← bufAt_bufAt, b8]
      exact bufOf_append_right _ _ 4 (rwnum_enc_length 4 modval)
    have fl : ([0, 80] ++ (iguana_rwnum_enc 4 timestamp
        ++ (iguana_rwnum_enc 2 n ++ (iguana_rwnum_enc 4 modval ++ H)))).length = 12 + 4 * n := by
      simp only [List.length_append, List.length_cons, List.length_nil, rwnum_enc_length, hHl]
      omega
    have fn : iguana_rwnum_dec (bufAt (bufOf ([0, 80] ++ (iguana_rwnum_enc 4 timestamp
        ++ (iguana_rwnum_enc 2 n ++ (iguana_rwnum_enc 4 modval ++ H))))) KOMODO_DEX_ROUTESIZE) 2
        = n := by
      show iguana_rwnum_dec (bufAt _ 6) 2 = n
      rw [b6, rwnum_dec_enc, h2]
      exact Nat.mod_eq_of_lt (by omega)
    have fm : toInt32 (iguana_rwnum_dec (bufAt (bufOf ([0, 80] ++ (iguana_rwnum_enc 4 timestamp
        ++ (iguana_rwnum_enc 2 n ++ (iguana_rwnum_enc 4 modval ++ H)))))
        (KOMODO_DEX_ROUTESIZE + 2)) 4) = (modval : Int) := by
      show toInt32 (iguana_rwnum_dec (bufAt _ 8) 4) = _
      rw [b8, rwnum_dec_enc, h4, Nat.mod_eq_of_lt (by omega)]
      exact toInt32_small _ (by omega)
    refine ⟨fl, rfl, ?_, fn, fm, ?_, ?_⟩
    · rw [b2, rwnum_dec_enc, h4]
      exact Nat.mod_eq_of_lt (by omega)
    · intro i hi
      rw [← bufAt_bufAt, b12, ← hH, hashes_read _ hltT [] i (by omega)]
      exact hget i hi
    · unfold komodo_DEXprocess_P
      simp only [fn, fm, Int.toNat_ofNat, fl]
      rw [if_pos (show 12 + 4 * n ≥ 12 by omega),
        if_pos ⟨show 6 + 2 + 4 + n * 4 = 12 + 4 * n by omega, Int.ofNat_nonneg _,
          by exact_mod_cast hm⟩]
  · unfold komodo_DEXgenget
    rw [hmv]
    have e : [0, 71] ++ iguana_rwnum_enc 4 timestamp ++ iguana_rwnum_enc 4 shorthash
        ++ iguana_rwnum_enc 4 modval
        = [0, 71] ++ (iguana_rwnum_enc 4 timestamp ++ (iguana_rwnum_enc 4 shorthash
          ++ (iguana_rwnum_enc 4 modval ++ []))) := by
      simp only [List.append_assoc, List.append_nil]
    rw [e]
    have b2 := bufOf_append_right [0, 71] (iguana_rwnum_enc 4 timestamp
      ++ (iguana_rwnum_enc 4 shorthash ++ (iguana_rwnum_enc 4 modval ++ []))) 2 rfl
    have b6 : bufAt (bufOf ([0, 71] ++ (iguana_rwnum_enc 4 timestamp
        ++ (iguana_rwnum_enc 4 shorthash ++ (iguana_rwnum_enc 4 modval ++ []))))) 6
        = bufOf (iguana_rwnum_enc 4 shorthash ++ (iguana_rwnum_enc 4 modval ++ [])) := by
      have e : (6 : Nat) = 2 + 4 := rfl
      rw [e, ← bufAt_bufAt, b2]
      exact bufOf_append_right _ _ 4 (rwnum_enc_length 4 timestamp)
    have b10 : bufAt (bufOf ([0, 71] ++ (iguana_rwnum_enc 4 timestamp
        ++ (iguana_rwnum_enc 4 shorthash ++ (iguana_rwnum_enc 4 modval ++ []))))) 10
        = bufOf (iguana_rwnum_enc 4 modval ++ []) := by
      have e : (10 : Nat) = 6 + 4 := rfl
      rw [e, ← bufAt_bufAt, b6]
      exact bufOf_append_right _ _ 4 (rwnum_enc_length 4 shorthash)
    refine ⟨?_, rfl, ?_, ?_, ?_⟩
    · simp only [List.length_append, List.length_cons, List.length_nil, rwnum_enc_length]
    · rw [b2, rwnum_dec_enc, h4]
      exact Nat.mod_eq_of_lt (by omega)
    · show iguana_rwnum_dec (bufAt _ 6) 4 = _
      rw [b6, rwnum_dec_enc, h4]
      exact Nat.mod_eq_of_lt (by omega)
    · show toInt32 (iguana_rwnum_dec (bufAt _ 10) 4) = _
      rw [b10, rwnum_dec_enc, h4, Nat.mod_eq_of_lt (by omega)]
      exact toInt32_small _ (by omega)

/-- Witness of C28: a ping of time 1000 advertising the hashes 5 and 9 of bucket
1000, and a get for hash 5 of bucket 1000. -/
theorem C28_control_round_trip_witness :
    ((1000 < U32 ∧ 2 ≤ 16384 ∧ 2 ≤ ([5, 9] : List Nat).length ∧ 1000 < KOMODO_DEX_PURGETIME
      ∧ 5 < U32)
    ∧ komodo_DEXgenping 1000 ((1000 : Nat) : Int) [5, 9] 2
        = [0, 80, 232, 3, 0, 0, 2, 0, 232, 3, 0, 0, 5, 0, 0, 0, 9, 0, 0, 0]
    ∧ komodo_DEXgenget 1000 5 ((1000 : Nat) : Int) = [0, 71, 232, 3, 0, 0, 5, 0, 0, 0, 232, 3, 0, 0])
    ∧ (
    ((komodo_DEXgenping 1000 ((1000 : Nat) : Int) [5, 9] 2).length = 12 + 4 * 2
      ∧ (komodo_DEXgenping 1000 ((1000 : Nat) : Int) [5, 9] 2).take 2 = [0, 80]
      ∧ iguana_rwnum_dec (bufAt (bufOf (komodo_DEXgenping 1000 ((1000 : Nat) : Int) [5, 9] 2)) 2) 4
          = 1000
      ∧ iguana_rwnum_dec (bufAt (bufOf (komodo_DEXgenping 1000 ((1000 : Nat) : Int) [5, 9] 2))
          KOMODO_DEX_ROUTESIZE) 2 = 2
      ∧ toInt32 (iguana_rwnum_dec (bufAt (bufOf (komodo_DEXgenping 1000 ((1000 : Nat) : Int)
          [5, 9] 2)) (KOMODO_DEX_ROUTESIZE + 2)) 4) = ((1000 : Nat) : Int)
      ∧ (∀ i, i < 2 →
          iguana_rwnum_dec (bufAt (bufOf (komodo_DEXgenping 1000 ((1000 : Nat) : Int) [5, 9] 2))
            (12 + 4 * i)) 4 = ([5, 9] : List Nat).getD i 0)
      ∧ komodo_DEXprocess_P exampleStored 1000 7
          (bufOf (komodo_DEXgenping 1000 ((1000 : Nat) : Int) [5, 9] 2))
          (komodo_DEXgenping 1000 ((1000 : Nat) : Int) [5, 9] 2).length
          = some (komodo_DEXprocess_Ploop 1000 7
              (bufOf (komodo_DEXgenping 1000 ((1000 : Nat) : Int) [5, 9] 2)) 1000 2 12 exampleStored, 0))
    ∧ ((komodo_DEXgenget 1000 5 ((1000 : Nat) : Int)).length = 14
      ∧ (komodo_DEXgenget 1000 5 ((1000 : Nat) : Int)).take 2 = [0, 71]
      ∧ iguana_rwnum_dec (bufAt (bufOf (komodo_DEXgenget 1000 5 ((1000 : Nat) : Int))) 2) 4
          = 1000
      ∧ iguana_rwnum_dec (bufAt (bufOf (komodo_DEXgenget 1000 5 ((1000 : Nat) : Int)))
          KOMODO_DEX_ROUTESIZE) 4 = 5
      ∧ toInt32 (iguana_rwnum_dec (bufAt (bufOf (komodo_DEXgenget 1000 5
          ((1000 : Nat) : Int))) (KOMODO_DEX_ROUTESIZE + 4)) 4) = ((1000 : Nat) : Int))) :=
  ⟨⟨by decide, by decide, by decide⟩,
    C28_control_round_trip exampleStored 1000 7 1000 1000 [5, 9] 2 5 (by decide) (by decide)
      (by decide) (by decide) (by decide) (by decide)⟩

/-! ## Bounds of the quote header and of the slot index -/

/-- C30 at a failing input: a 19-byte quote header with destpub length byte 33.
The only length test of `komodo_DEX_extract` is `len < 19`; the function then
copies the 33 bytes at the indices 17..49 and returns the offset 52, larger than
`len`.  Two buffers that agree on all indices below 19 and differ at index 20
give different `destpub33`: the byte at index 20 is read.  A 25-byte Q frame
with this header is stored with the payload offset 58 in a blob of 25 bytes. -/
theorem C30_extract_reads_past_len :
    (komodo_DEX_extract (exampleShortHeader 0) 19).map (Option.map (fun x => x.offset))
      = some (some 52)
    ∧ (∀ i, i < 19 → exampleShortHeader 0 i = exampleShortHeader 1 i)
    ∧ (komodo_DEX_extract (exampleShortHeader 0) 19).map
        (Option.map (fun x => x.destpub33.getD 3 0)) = some (some 0)
    ∧ (komodo_DEX_extract (exampleShortHeader 1) 19).map
        (Option.map (fun x => x.destpub33.getD 3 0)) = some (some 1)
    ∧ ((komodo_DEXprocess (exampleSha 5) DEXState.empty 1000 7 exampleShortDestFrame 25 1).bind
        (fun r => (r.1.heap 1).map (fun b => (b.datalen, b.offset)))) = some (25, 58) := by
  refine ⟨?_, ?_, ?_, ?_, ?_⟩ <;> decide

/-- C29 at a failing input: a 10-byte Q frame whose hash passes the admission
test.  `komodo_DEXfind` returns -1 (open slot 5), `komodo_DEXadd` returns -1
because the 4 bytes after the routing header are no quote header, and
`komodo_DEXprocess` goes on to read `Datablobs[modval][ind]` with `ind == -1`:
the model reports the fault. -/
theorem C29_failed_add_reads_slot_minus_one :
    komodo_DEXfind DEXState.empty 1000 5 = (-1, 5)
    ∧ (komodo_DEXadd DEXState.empty 5 1000 1000 (exampleSha 5 []) 5 (exampleFrame 10 1000) 10
        1).map Prod.snd = some (-1)
    ∧ DEX_txpow (komodo_DEXquotehash (exampleSha 5) (exampleFrame 10 1000) 10) = true
    ∧ komodo_DEXprocess (exampleSha 5) DEXState.empty 1000 7 (exampleFrame 10 1000) 10 1
        = none := by
  refine ⟨?_, ?_, ?_, Option.isNone_iff_eq_none.mp ?_⟩ <;> decide

/-! ## The stored relay byte -/

/-- C22 fails as stated: a valid Q frame received with relay byte 0 is stored
with relay byte `0xFF` (`msg[0] - 1` in `uint8_t`), although the received byte
is not `0xFF`. -/
theorem C22_counterexample :
    exampleFrame 0 1000 0 = 0
    ∧ ((komodo_DEXprocess (exampleSha 5) DEXState.empty 1000 7 (exampleFrame 0 1000) 25 1).bind
        (fun r => (r.1.heap (r.1.Datablobs 1000 5)).map (fun b => b.data.getD 0 0)))
      = some 255 := by
  constructor <;> decide

theorem newblob_data (now : Nat) (hash : bits256) (msg : Nat → Nat) (len offset : Nat)
    (hlen : 0 < len) :
    (DEX_newblob now hash msg len offset).data.length = len
    ∧ (DEX_newblob now hash msg len offset).data.getD 0 0
        = (if msg 0 % 256 ≠ 0xff then (msg 0 % 256 + 255) % 256 else msg 0 % 256)
    ∧ ∀ i, 0 < i → i < len → (DEX_newblob now hash msg len offset).data.getD i 0 = msg i % 256 := by
  have hl : (memBytes msg len).length = len := memBytes_length msg len
  refine ⟨?_, ?_, ?_⟩
  · show ((memBytes msg len).set 0 _).length = len
    rw [List.length_set, hl]
  · show ((memBytes msg len).set 0 _).getD 0 0 = _
    rw [List.getD_eq_getElem _ _ (by rw [List.length_set, hl]; exact hlen), List.getElem_set_self]
  · intro i hi0 hi
    show ((memBytes msg len).set 0 _).getD i 0 = _
    rw [List.getD_eq_getElem _ _ (by rw [List.length_set, hl]; exact hi),
      List.getElem_set_ne (by omega)]
    simp only [memBytes, List.getElem_map, List.getElem_range]

theorem add_blob (s : DEXState) (openind : Int) (now modval : Nat) (hash : bits256)
    (shorthash : Nat) (msg : Nat → Nat) (len newptr : Nat) (r : DEXState × Int)
    (h : komodo_DEXadd s openind now modval hash shorthash msg len newptr = some r)
    (hfresh : s.heap newptr = none) (b : DEX_datablob) (hb : r.1.heap newptr = some b) :
    0 ≤ r.2 ∧ r.1.Datablobs modval r.2.toNat = newptr
    ∧ r.1.Hashtables modval r.2.toNat = shorthash
    ∧ 1 ≤ len
    ∧ ∃ offset, b.nolinks = (DEX_newblob now hash msg len offset).nolinks := by
  have hcontra : s.heap newptr = some b → False := by
    intro hc
    rw [hfresh] at hc
    cases hc
  unfold komodo_DEXadd at h
  simp only at h
  generalize (if openind < 0 ∨ openind ≥ ((KOMODO_DEX_HASHSIZE : Nat) : Int)
    then komodo_DEXfind s modval shorthash else (-1, openind)) = f at h
  split at h
  · cases h; exact absurd hb hcontra
  · split at h
    · cases h; exact absurd hb hcontra
    · split at h
      · cases h; exact absurd hb hcontra
      · rename_i hguard
        have ho : 0 ≤ f.2 := by
          by_contra hc
          exact hguard (Or.inl (by omega))
        split at h
        · cases h
        · cases h; exact absurd hb hcontra
        · rename_i x hx
          split at h
          · cases h; exact absurd hb hcontra
          · split at h
            · cases h
            · rename_i hl0
              split at h
              · cases h
              · rename_i r1 h1
                cases h
                have hF := updatetips_frame _ _ _ _ _ _ _ _ _ _ h1
                refine ⟨Int.ofNat_nonneg _, ?_, ?_, ?_, x.offset, ?_⟩
                · show r1.1.Datablobs modval (Int.toNat (f.2.toNat : Int)) = newptr
                  rw [frame_Datablobs hF, Int.toNat_ofNat]
                  exact set2_same _ _ _ _
                · show r1.1.Hashtables modval (Int.toNat (f.2.toNat : Int)) = shorthash
                  rw [frame_Hashtables hF, Int.toNat_ofNat]
                  exact set2_same _ _ _ _
                · omega
                · have hp := hF.2 newptr
                  simp only at hb
                  rw [hb] at hp
                  simp only [Function.update_same, Option.map_some', Option.some.injEq] at hp
                  exact hp

/-- C22, amended: when `komodo_DEXadd` stores a frame in the fresh allocation
`newptr`, the blob is in the returned slot and holds the `len` bytes of the
received frame with byte 0 replaced: for a received relay byte `r` other than 0
and `0xFF` the stored relay byte is `r - 1`, for `r == 0xFF` it is `0xFF`, and
for `r == 0` it is `0xFF` as well (`r - 1` in `uint8_t`); every other byte of
the stored frame equals the received byte. -/
theorem C22_stored_relay_byte (s : DEXState) (openind : Int) (now modval : Nat) (hash : bits256)
    (shorthash : Nat) (msg : Nat → Nat) (len newptr : Nat) (r : DEXState × Int)
    (b : DEX_datablob)
    (h : komodo_DEXadd s openind now modval hash shorthash msg len newptr = some r)
    (hfresh : s.heap newptr = none) (hb : r.1.heap newptr = some b) :
    0 ≤ r.2 ∧ r.1.Datablobs modval r.2.toNat = newptr
    ∧ b.datalen = len ∧ b.data.length = len
    ∧ (msg 0 % 256 ≠ 0 → msg 0 % 256 ≠ 0xff → b.data.getD 0 0 = msg 0 % 256 - 1)
    ∧ (msg 0 % 256 = 0xff → b.data.getD 0 0 = 0xff)
    ∧ (msg 0 % 256 = 0 → b.data.getD 0 0 = 0xff)
    ∧ (∀ i, 0 < i → i < len → b.data.getD i 0 = msg i % 256) := by
  obtain ⟨h0, hD, _, hlen, offset, hn⟩ := add_blob _ _ _ _ _ _ _ _ _ _ h hfresh b hb
  have e1 : b.nolinks.data = (DEX_newblob now hash msg len offset).nolinks.data :=
    congrArg DEX_datablob.data hn
  have e2 : b.nolinks.datalen = (DEX_newblob now hash msg len offset).nolinks.datalen :=
    congrArg DEX_datablob.datalen hn
  have ed : b.data = (DEX_newblob now hash msg len offset).data := e1
  have el : b.datalen = len := e2
  obtain ⟨d1, d2, d3⟩ := newblob_data now hash msg len offset (by omega)
  have hr := Nat.mod_lt (msg 0) (show 256 > 0 by decide)
  rw [ed]
  refine ⟨h0, hD, el, d1, ?_, ?_, ?_, d3⟩
  · intro hr0 hrf
    rw [d2, if_pos hrf]
    omega
  · intro hrf
    rw [d2, if_neg (not_not.mpr hrf)]
    exact hrf
  · intro hr0
    rw [d2, if_pos (by rw [hr0]; decide), hr0]

theorem exampleAdded_eq :
    komodo_DEXadd DEXState.empty (-1) 1000 1000 (exampleSha 5 []) 5 (exampleFrame 10 1000) 25 1
      = some exampleAdded := rfl

theorem exampleAddedBlob_eq : exampleAdded.1.heap 1 = some exampleAddedBlob := rfl

/-- Witness of C22: `exampleFrame 10 1000` stored in the empty store; the stored
relay byte is 9. -/
theorem C22_stored_relay_byte_witness :
    (komodo_DEXadd DEXState.empty (-1) 1000 1000 (exampleSha 5 []) 5 (exampleFrame 10 1000) 25 1
        = some exampleAdded
      ∧ DEXState.empty.heap 1 = none
      ∧ exampleAdded.1.heap 1 = some exampleAddedBlob
      ∧ exampleFrame 10 1000 0 % 256 = 10
      ∧ exampleAddedBlob.data.getD 0 0 = 9)
    ∧ (
    0 ≤ exampleAdded.2 ∧ exampleAdded.1.Datablobs 1000 exampleAdded.2.toNat = 1
    ∧ exampleAddedBlob.datalen = 25 ∧ exampleAddedBlob.data.length = 25
    ∧ ((exampleFrame 10 1000) 0 % 256 ≠ 0 → (exampleFrame 10 1000) 0 % 256 ≠ 0xff → exampleAddedBlob.data.getD 0 0 = (exampleFrame 10 1000) 0 % 256 - 1)
    ∧ ((exampleFrame 10 1000) 0 % 256 = 0xff → exampleAddedBlob.data.getD 0 0 = 0xff)
    ∧ ((exampleFrame 10 1000) 0 % 256 = 0 → exampleAddedBlob.data.getD 0 0 = 0xff)
    ∧ (∀ i, 0 < i → i < 25 → exampleAddedBlob.data.getD i 0 = (exampleFrame 10 1000) i % 256)) :=
  ⟨⟨exampleAdded_eq, rfl, exampleAddedBlob_eq, by decide, by decide⟩,
    C22_stored_relay_byte DEXState.empty (-1) 1000 1000 (exampleSha 5 []) 5 (exampleFrame 10 1000)
      25 1 exampleAdded exampleAddedBlob exampleAdded_eq rfl exampleAddedBlob_eq⟩

/-! ## Unlinking -/

theorem exampleOutOfOrder_purge :
    komodo_DEXpurge exampleOutOfOrder 1000 = some (exampleOutOfOrderPurged, 1) := by
  have e0 : exampleOutOfOrder.Hashtables 1000 = Function.update (fun _ => 0) 415 415 := rfl
  have e1 : exampleOutOfOrderStep.1.Hashtables 1000
      = Function.update (Function.update (fun _ => 0) 415 415) 415 0 := rfl
  have hl : komodo_DEXpurge_loop 1000 1000 KOMODO_DEX_HASHSIZE 0 exampleOutOfOrder 0
      = some exampleOutOfOrderStep := by
    refine purge_loop_eval 1000 1000 415 exampleOutOfOrder exampleOutOfOrderStep (by decide)
      ?_ rfl ?_
    · intro j hj
      rw [e0, Function.update_noteq (by omega)]
    · intro j hj _
      rw [e1, Function.update_noteq (by omega), Function.update_noteq (by omega)]
  unfold komodo_DEXpurge
  rw [if_neg (by decide)]
  have hm : 1000 % KOMODO_DEX_PURGETIME = 1000 := by decide
  simp only [hm, hl]
  rfl

theorem purge_loop_fault (cutoff modval c : Nat) (s : DEXState)
    (hc : c < KOMODO_DEX_HASHSIZE)
    (hpre : ∀ j, j < c → s.Hashtables modval j = 0)
    (hstep : komodo_DEXpurge_loop cutoff modval 1 c s 0 = none) :
    komodo_DEXpurge_loop cutoff modval KOMODO_DEX_HASHSIZE 0 s 0 = none := by
  have e : KOMODO_DEX_HASHSIZE = c + (1 + (KOMODO_DEX_HASHSIZE - 1 - c)) := by omega
  rw [e, purge_loop_append,
    purge_loop_zeros cutoff modval c 0 s 0 (fun j _ h2 => hpre j (by omega))]
  simp only [Option.some_bind]
  rw [purge_loop_append, Nat.zero_add, hstep]
  rfl

theorem exampleOutOfOrderPurged_fault :
    komodo_DEXpurge exampleOutOfOrderPurged 1001 = none := by
  have e0 : exampleOutOfOrderPurged.Hashtables 1001 = Function.update (fun _ => 0) 416 416 := rfl
  have hl : komodo_DEXpurge_loop 1001 1001 KOMODO_DEX_HASHSIZE 0 exampleOutOfOrderPurged 0
      = none := by
    refine purge_loop_fault 1001 1001 416 exampleOutOfOrderPurged (by decide) ?_
      (Option.isNone_iff_eq_none.mp (by decide))
    intro j hj
    rw [e0, Function.update_noteq (by omega)]
  unfold komodo_DEXpurge
  rw [if_neg (by decide)]
  have hm : 1001 % KOMODO_DEX_PURGETIME = 1001 := by decide
  simp only [hm, hl]

/-- C24 at a failing input: in `exampleOutOfOrder` blob 2 (stamped 1000) was
appended after blob 1 (stamped 1001) to the index `"a"`, so `prevs[1]` of blob 2
is blob 1 and `nexts[1]` of blob 1 is blob 2.  `DEX_unlinkindices(blob 2)`
retargets the tip to blob 1 and clears the links of blob 2, but `nexts[1]` of
blob 1 still holds the pointer to blob 2.  `komodo_DEXpurge(1000)` then frees
blob 2, and `komodo_DEXpurge(1001)` follows the stale pointer of blob 1 into the
freed blob: the model reports the fault. -/
theorem C24_unlink_leaves_stale_next :
    exampleOutOfOrder.Datablobs 1001 416 = 1
    ∧ exampleOutOfOrder.Datablobs 1000 415 = 2
    ∧ (exampleOutOfOrder.DEX_tagAs 0).tip = 2
    ∧ (exampleOutOfOrder.heap 2).map (fun b => (b.prevs 1, b.nexts 1)) = some (1, 0)
    ∧ (exampleOutOfOrder.heap 1).map (fun b => (b.prevs 1, b.nexts 1)) = some (0, 2)
    ∧ (DEX_unlinkindices exampleOutOfOrder 2).map
        (fun r => ((r.1.DEX_tagAs 0).tip,
                   (r.1.heap 2).map (fun b => (b.prevs 1, b.nexts 1)),
                   (r.1.heap 1).map (fun b => (b.prevs 1, b.nexts 1))))
      = some (1, some (0, 0), some (0, 2))
    ∧ komodo_DEXpurge exampleOutOfOrder 1000 = some (exampleOutOfOrderPurged, 1)
    ∧ (exampleOutOfOrderPurged.heap 2).isNone = true
    ∧ (exampleOutOfOrderPurged.heap 1).map (fun b => b.nexts 1) = some 2
    ∧ komodo_DEXpurge exampleOutOfOrderPurged 1001 = none := by
  refine ⟨?_, ?_, ?_, ?_, ?_, ?_, exampleOutOfOrder_purge, ?_, ?_,
    exampleOutOfOrderPurged_fault⟩ <;> decide

/-! ## The indices a quote with a destpub and both tags is appended to -/

theorem axis_setindex_same (s : DEXState) (which i : Nat) (x : DEX_index) (hw : which < 3) :
    DEX_axis (DEX_setindex s which i x) which = Function.update (DEX_axis s which) i x := by
  interval_cases which <;> rfl

theorem axis_setindex_ne (s : DEXState) (which i w : Nat) (x : DEX_index) (hw : which < 3)
    (hw1 : w < 3) (hne : w ≠ which) :
    DEX_axis (DEX_setindex s which i x) w = DEX_axis s w := by
  interval_cases which <;> interval_cases w <;> first | rfl | exact absurd rfl hne

theorem indexsearch_loop_spec (index : Nat → DEX_index) (keybuf : List Nat) (n : Nat) :
    ∀ (i : Nat) (r : Bool × Nat), DEX_indexsearch_loop index keybuf n i = r →
      i ≤ r.2 ∧ r.2 ≤ i + n
      ∧ (r.1 = true → r.2 < i + n ∧ (index r.2).tip ≠ 0 ∧ (index r.2).len = keybuf.length
          ∧ (index r.2).key.take keybuf.length = keybuf)
      ∧ (r.1 = false → r.2 < i + n → (index r.2).tip = 0)
      ∧ (∀ j, i ≤ j → j < r.2 → (index j).tip ≠ 0
          ∧ ¬ ((index j).len = keybuf.length ∧ (index j).key.take keybuf.length = keybuf)) := by
  induction n with
  | zero =>
    intro i r h
    simp only [DEX_indexsearch_loop] at h
    subst h
    exact ⟨le_refl _, le_refl _, fun h => (Bool.false_ne_true h).elim,
      fun _ h => absurd h (Nat.lt_irrefl _), fun j h1 h2 => absurd (Nat.lt_of_le_of_lt h1 h2) (Nat.lt_irrefl _)⟩
  | succ n ih =>
    intro i r h
    simp only [DEX_indexsearch_loop] at h
    split at h
    · rename_i h0
      subst h
      exact ⟨le_refl _, Nat.le_add_right _ _, fun h => (Bool.false_ne_true h).elim, fun _ _ => h0,
        fun j h1 h2 => absurd (Nat.lt_of_le_of_lt h1 h2) (Nat.lt_irrefl _)⟩
    · rename_i h0
      split at h
      · rename_i h1
        subst h
        exact ⟨le_refl _, Nat.le_add_right _ _, fun _ => ⟨Nat.lt_add_of_pos_right (Nat.succ_pos _), h0, h1.1, h1.2⟩,
          fun h => (Bool.false_ne_true h.symm).elim,
          fun j h1 h2 => absurd (Nat.lt_of_le_of_lt h1 h2) (Nat.lt_irrefl _)⟩
      · rename_i h1
        obtain ⟨a, b, c, d, e⟩ := ih _ _ h
        refine ⟨by omega, by omega, fun ht => ?_, fun hf hlt => d hf (by omega), ?_⟩
        · obtain ⟨c1, c2⟩ := c ht
          exact ⟨by omega, c2⟩
        · intro j hj1 hj2
          by_cases hji : j = i
          · subst hji
            exact ⟨h0, h1⟩
          · exact e j (by omega) hj2

theorem indexsearch_touched (s : DEXState) (ind priority ptr : Nat) (lenA : Int)
    (key : List Nat) (lenB : Int) (tagB : Option (List Nat)) (which : Nat) (keybuf : List Nat)
    (s1 : DEXState) (r : Nat × Nat)
    (hk : DEX_indexsearch_key lenA key lenB tagB = some (which, keybuf)) (hw : which < 3)
    (hptr : ptr ≠ 0)
    (h : DEX_indexsearch s ind priority ptr lenA key lenB tagB = some (s1, some r)) :
    r.1 = which ∧ r.2 < KOMODO_DEX_MAXINDEX ∧ DEX_tipof (DEX_axis s1 which r.2) ptr keybuf
    ∧ (∀ j, j ≠ r.2 → DEX_axis s1 which j = DEX_axis s which j)
    ∧ (∀ w, w < 3 → w ≠ which → DEX_axis s1 w = DEX_axis s w)
    ∧ (∀ j, (DEX_axis s which j).tip ≠ 0 →
        (DEX_axis s1 which j).len = (DEX_axis s which j).len
        ∧ (DEX_axis s1 which j).key = (DEX_axis s which j).key)
    ∧ (∀ j, j < r.2 → (DEX_axis s which j).tip ≠ 0
        ∧ ¬ ((DEX_axis s which j).len = keybuf.length
              ∧ (DEX_axis s which j).key.take keybuf.length = keybuf)) := by
  unfold DEX_indexsearch at h
  rw [hk] at h
  simp only at h
  obtain ⟨a, b, c, d, e⟩ :=
    indexsearch_loop_spec (DEX_axis s which) keybuf KOMODO_DEX_MAXINDEX 0 _ rfl
  generalize DEX_indexsearch_loop (DEX_axis s which) keybuf KOMODO_DEX_MAXINDEX 0 = res at h a b c d e
  obtain ⟨found, i⟩ := res
  cases found with
  | true =>
    obtain ⟨c1, c2, c3, c4⟩ := c rfl
    simp only [if_true, if_pos hptr] at h
    unfold komodo_DEX_indexappend at h
    simp only [if_neg c2] at h
    split at h
    · cases h
    · rename_i b0 hb0
      split at h
      · cases h
      · rename_i tb htb
        simp only [Option.some.injEq, Prod.mk.injEq] at h
        obtain ⟨e1, e2⟩ := h
        subst e1
        cases e2
        refine ⟨rfl, by omega, ?_, ?_, ?_, ?_, fun j hj => e j (Nat.zero_le j) hj⟩
        · rw [axis_setindex_same _ _ _ _ hw, Function.update_same]
          exact ⟨rfl, c3, c4⟩
        · intro j hj
          rw [axis_setindex_same _ _ _ _ hw, Function.update_noteq hj]
          rfl
        · intro w hw1 hne
          rw [axis_setindex_ne _ _ _ _ _ hw hw1 hne]
          rfl
        · intro j _
          rw [axis_setindex_same _ _ _ _ hw]
          by_cases hj : j = i
          · subst hj
            rw [Function.update_same]
            exact ⟨rfl, rfl⟩
          · rw [Function.update_noteq hj]
            exact ⟨rfl, rfl⟩
  | false =>
    simp only [Bool.false_eq_true, if_false, if_neg hptr] at h
    split at h
    · cases h
    · rename_i hi
      have hlt : i < KOMODO_DEX_MAXINDEX := by omega
      have htip := d rfl (by omega)
      unfold komodo_DEX_indexcreate at h
      simp only at h
      split at h
      · cases h
      · rename_i hfree
        simp only [Option.some.injEq, Prod.mk.injEq] at h
        obtain ⟨e1, e2⟩ := h
        subst e1
        cases e2
        refine ⟨rfl, hlt, ?_, ?_, ?_, ?_, fun j hj => e j (Nat.zero_le j) hj⟩
        · rw [axis_setindex_same _ _ _ _ hw, Function.update_same]
          refine ⟨rfl, rfl, ?_⟩
          show List.take keybuf.length (keybuf ++ _) = keybuf
          rw [List.take_left']
          rfl
        · intro j hj
          rw [axis_setindex_same _ _ _ _ hw, Function.update_noteq hj]
        · intro w hw1 hne
          rw [axis_setindex_ne _ _ _ _ _ hw hw1 hne]
        · intro j hj
          rw [axis_setindex_same _ _ _ _ hw]
          by_cases hji : j = i
          · subst hji
            exact absurd htip hj
          · rw [Function.update_noteq hji]
            exact ⟨rfl, rfl⟩


theorem memTake_nat (src : List Nat) (n : Nat) (h : n ≤ src.length) :
    memTake src (n : Int) = some (src.take n) := by
  unfold memTake
  rw [if_pos ⟨Int.natCast_nonneg n, by rw [Int.toNat_natCast]; exact h⟩, Int.toNat_natCast]

theorem indexsearch_key_dest (destpub : List Nat) (h : 33 ≤ destpub.length) :
    DEX_indexsearch_key 33 destpub 0 none = some (0, 33 :: destpub.take 33) := by
  unfold DEX_indexsearch_key
  rw [if_pos rfl]
  have e := memTake_nat destpub 33 h
  simp only [Nat.cast_ofNat] at e
  rw [e]
  rfl

theorem indexsearch_key_tag (la : Nat) (tag : List Nat) (h1 : la ≤ KOMODO_DEX_TAGSIZE)
    (h2 : la ≤ tag.length) :
    DEX_indexsearch_key (la : Int) tag 0 none = some (1, la :: tag.take la) := by
  have g : la ≤ 16 := h1
  unfold DEX_indexsearch_key
  rw [if_neg (show ¬ ((la : Int) = 33) by omega), if_pos rfl,
    if_pos (show (la : Int) + 1 ≤ (KOMODO_DEX_MAXKEYSIZE : Int) by
      show (la : Int) + 1 ≤ ((34 : Nat) : Int)
      omega),
    memTake_nat tag la h2, Int.toNat_natCast]
  rfl

theorem indexsearch_key_pair (la lb : Nat) (tagA tagB : List Nat)
    (ha : 1 ≤ la ∧ la ≤ KOMODO_DEX_TAGSIZE) (hb : 1 ≤ lb ∧ lb ≤ KOMODO_DEX_TAGSIZE)
    (hA : la ≤ tagA.length) (hB : lb ≤ tagB.length) :
    DEX_indexsearch_key (la : Int) tagA (lb : Int) (some tagB)
      = some (2, (la :: tagA.take la) ++ (lb :: tagB.take lb)) := by
  have g1 : la ≤ 16 := ha.2
  have g2 : lb ≤ 16 := hb.2
  unfold DEX_indexsearch_key
  rw [if_neg (show ¬ ((la : Int) = 33) by omega), if_neg (show ¬ ((lb : Int) = 0) by omega),
    if_pos (show (la : Int) > 0 ∧ (lb : Int) > 0 ∧ some tagB ≠ none
        ∧ (la : Int) ≤ (KOMODO_DEX_TAGSIZE : Int) ∧ (lb : Int) ≤ (KOMODO_DEX_TAGSIZE : Int) by
      refine ⟨by omega, by omega, Option.some_ne_none tagB, ?_, ?_⟩
      · show (la : Int) ≤ ((16 : Nat) : Int)
        omega
      · show (lb : Int) ≤ ((16 : Nat) : Int)
        omega)]
  simp only [Option.some_bind, memTake_nat tagA la hA, memTake_nat tagB lb hB, Int.toNat_natCast]

theorem tipmask_mono (r : Option (Nat × Nat)) (ind mask j : Nat) (h : mask.testBit j = true) :
    (DEX_tipmask r ind mask).testBit j = true := by
  unfold DEX_tipmask
  split <;> simp [Nat.testBit_or, h]

theorem tipmask_none (ind mask : Nat) :
    (DEX_tipmask none ind mask).testBit (ind + 16) = true := by
  unfold DEX_tipmask
  simp [Nat.testBit_or, Nat.one_shiftLeft, Nat.testBit_two_pow_self]

theorem mask_high_clear (mask j : Nat) (h : mask < 65536) (hj : 16 ≤ j) :
    mask.testBit j = false := by
  apply Nat.testBit_lt_two_pow
  calc mask < 2 ^ 16 := h
    _ ≤ 2 ^ j := Nat.pow_le_pow_right (by decide) hj

theorem updatetips_searches (s : DEXState) (priority ptr la lb : Nat)
    (tagA tagB destpub : List Nat) (r : DEXState × (Nat → Option (Nat × Nat)) × Nat)
    (hla : 1 ≤ la) (hlb : 1 ≤ lb)
    (h : DEX_updatetips s priority ptr (la : Int) tagA (lb : Int) tagB destpub 33 = some r) :
    ∃ s1 r1 s2 r2 s3 r3 r4,
      DEX_indexsearch s 0 priority ptr 33 destpub 0 none = some (s1, r1)
      ∧ DEX_indexsearch s1 1 priority ptr (la : Int) tagA 0 none = some (s2, r2)
      ∧ DEX_indexsearch s2 1 priority ptr (lb : Int) tagB 0 none = some (s3, r3)
      ∧ DEX_indexsearch s3 2 priority ptr (la : Int) tagA (lb : Int) (some tagB) = some (r.1, r4)
      ∧ r.2.1 = Function.update (Function.update (Function.update (fun _ => none) 0 r1) 1 r3) 2 r4
      ∧ r.2.2 = DEX_tipmask r4 2 (DEX_tipmask r3 1 (DEX_tipmask r2 1 (DEX_tipmask r1 0 0))) := by
  unfold DEX_updatetips at h
  have n1 : ¬ ((la : Int) = 0 ∧ (lb : Int) = 0 ∧ (33 : Int) = 0) := by omega
  have n2 : (33 : Int) ≠ 0 := by decide
  have n3 : (la : Int) ≠ 0 := by omega
  have n4 : (lb : Int) ≠ 0 := by omega
  simp only [if_neg n1, if_pos n2, if_pos n3, if_pos n4] at h
  cases h1 : DEX_indexsearch s 0 priority ptr 33 destpub 0 none with
  | none => rw [h1] at h; cases h
  | some x1 =>
    obtain ⟨s1, r1⟩ := x1
    rw [h1] at h
    simp only [Option.map_some'] at h
    cases h2 : DEX_indexsearch s1 1 priority ptr (la : Int) tagA 0 none with
    | none => rw [h2] at h; cases h
    | some x2 =>
      obtain ⟨s2, r2⟩ := x2
      rw [h2] at h
      simp only at h
      cases h3 : DEX_indexsearch s2 1 priority ptr (lb : Int) tagB 0 none with
      | none => rw [h3] at h; cases h
      | some x3 =>
        obtain ⟨s3, r3⟩ := x3
        rw [h3] at h
        simp only at h
        cases h4 : DEX_indexsearch s3 2 priority ptr (la : Int) tagA (lb : Int) (some tagB) with
        | none => rw [h4] at h; cases h
        | some x4 =>
          obtain ⟨s4, r4⟩ := x4
          rw [h4] at h
          simp only [Option.some.injEq] at h
          subst h
          exact ⟨s1, r1, s2, r2, s3, r3, r4, rfl, h2, h3, h4, rfl, rfl⟩

/-- C25 (amended): when `DEX_updatetips` is called for a blob whose header
carries a destpub, a non-empty `tagA` and a non-empty `tagB`, and returns a
mask without an error bit, the blob is the tip of the destpub index entry with
key `[33][pubkey]`, of the single-tag index entry with key `[lenA][tagA]`, of
the single-tag index entry with key `[lenB][tagB]` (on the same axis as the
tagA index) and of the tag-pair index entry with key
`[lenA][tagA][lenB][tagB]`; every other entry of the three index arrays is
unchanged.  These are four index entries when the two single-tag keys differ
(`iA ≠ iB`), and three when they are equal: both single-tag searches then end
at one entry (`iA = iB`). -/
theorem C25_updatetips_four_indices (s : DEXState) (priority ptr la lb : Nat)
    (tagA tagB destpub : List Nat) (r : DEXState × (Nat → Option (Nat × Nat)) × Nat)
    (hptr : ptr ≠ 0)
    (hla : 1 ≤ la ∧ la ≤ KOMODO_DEX_TAGSIZE) (hlb : 1 ≤ lb ∧ lb ≤ KOMODO_DEX_TAGSIZE)
    (hA : la ≤ tagA.length) (hB : lb ≤ tagB.length) (hD : 33 ≤ destpub.length)
    (h : DEX_updatetips s priority ptr (la : Int) tagA (lb : Int) tagB destpub 33 = some r)
    (hmask : r.2.2 < 65536) :
    ∃ iD iA iB iAB,
      iD < KOMODO_DEX_MAXINDEX ∧ iA < KOMODO_DEX_MAXINDEX ∧ iB < KOMODO_DEX_MAXINDEX
      ∧ iAB < KOMODO_DEX_MAXINDEX
      ∧ DEX_tipof (r.1.DEX_destpubs iD) ptr (33 :: destpub.take 33)
      ∧ DEX_tipof (r.1.DEX_tagAs iA) ptr (la :: tagA.take la)
      ∧ DEX_tipof (r.1.DEX_tagAs iB) ptr (lb :: tagB.take lb)
      ∧ DEX_tipof (r.1.DEX_tagABs iAB) ptr ((la :: tagA.take la) ++ (lb :: tagB.take lb))
      ∧ (∀ j, j ≠ iD → r.1.DEX_destpubs j = s.DEX_destpubs j)
      ∧ (∀ j, j ≠ iA → j ≠ iB → r.1.DEX_tagAs j = s.DEX_tagAs j)
      ∧ (∀ j, j ≠ iAB → r.1.DEX_tagABs j = s.DEX_tagABs j)
      ∧ ((la :: tagA.take la) ≠ (lb :: tagB.take lb) → iA ≠ iB)
      ∧ ((la :: tagA.take la) = (lb :: tagB.take lb) → iA = iB) := by
  obtain ⟨s1, r1, s2, r2, s3, r3, r4, h1, h2, h3, h4, _, hm⟩ :=
    updatetips_searches s priority ptr la lb tagA tagB destpub r hla.1 hlb.1 h
  rw [hm] at hmask
  have c16 := mask_high_clear _ 16 hmask (by decide)
  have c17 := mask_high_clear _ 17 hmask (by decide)
  have c18 := mask_high_clear _ 18 hmask (by decide)
  have e1 : r1 ≠ none := by
    intro e
    subst e
    have := tipmask_mono r4 2 (DEX_tipmask r3 1 (DEX_tipmask r2 1 (DEX_tipmask none 0 0))) 16
      (tipmask_mono r3 1 (DEX_tipmask r2 1 (DEX_tipmask none 0 0)) 16
        (tipmask_mono r2 1 (DEX_tipmask none 0 0) 16 (tipmask_none 0 0)))
    rw [c16] at this
    cases this
  have e2 : r2 ≠ none := by
    intro e
    subst e
    have := tipmask_mono r4 2 (DEX_tipmask r3 1 (DEX_tipmask none 1 (DEX_tipmask r1 0 0))) 17
      (tipmask_mono r3 1 (DEX_tipmask none 1 (DEX_tipmask r1 0 0)) 17
        (tipmask_none 1 (DEX_tipmask r1 0 0)))
    rw [c17] at this
    cases this
  have e3 : r3 ≠ none := by
    intro e
    subst e
    have := tipmask_mono r4 2 (DEX_tipmask none 1 (DEX_tipmask r2 1 (DEX_tipmask r1 0 0))) 17
      (tipmask_none 1 (DEX_tipmask r2 1 (DEX_tipmask r1 0 0)))
    rw [c17] at this
    cases this
  have e4 : r4 ≠ none := by
    intro e
    subst e
    have := tipmask_none 2 (DEX_tipmask r3 1 (DEX_tipmask r2 1 (DEX_tipmask r1 0 0)))
    rw [c18] at this
    cases this
  obtain ⟨p1, rfl⟩ := Option.ne_none_iff_exists'.mp e1
  obtain ⟨p2, rfl⟩ := Option.ne_none_iff_exists'.mp e2
  obtain ⟨p3, rfl⟩ := Option.ne_none_iff_exists'.mp e3
  obtain ⟨p4, rfl⟩ := Option.ne_none_iff_exists'.mp e4
  obtain ⟨_, a1, a2, a3, a4, _⟩ := indexsearch_touched s 0 priority ptr 33 destpub 0 none 0 _ s1 p1
    (indexsearch_key_dest destpub hD) (by decide) hptr h1
  obtain ⟨_, b1, b2, b3, b4, _, b6⟩ := indexsearch_touched s1 1 priority ptr la tagA 0 none 1 _ s2 p2
    (indexsearch_key_tag la tagA hla.2 hA) (by decide) hptr h2
  obtain ⟨_, c1, c2, c3, c4, c5, c6⟩ := indexsearch_touched s2 1 priority ptr lb tagB 0 none 1 _ s3 p3
    (indexsearch_key_tag lb tagB hlb.2 hB) (by decide) hptr h3
  obtain ⟨_, d1, d2, d3, d4, _⟩ := indexsearch_touched s3 2 priority ptr la tagA lb (some tagB)
    2 _ r.1 p4 (indexsearch_key_pair la lb tagA tagB hla hlb hA hB) (by decide) hptr h4
  have fD4 : r.1.DEX_destpubs = s3.DEX_destpubs := d4 0 (by decide) (by decide)
  have fD3 : s3.DEX_destpubs = s2.DEX_destpubs := c4 0 (by decide) (by decide)
  have fD2 : s2.DEX_destpubs = s1.DEX_destpubs := b4 0 (by decide) (by decide)
  have fA4 : r.1.DEX_tagAs = s3.DEX_tagAs := d4 1 (by decide) (by decide)
  have fA1 : s1.DEX_tagAs = s.DEX_tagAs := a4 1 (by decide) (by decide)
  have fP3 : s3.DEX_tagABs = s2.DEX_tagABs := c4 2 (by decide) (by decide)
  have fP2 : s2.DEX_tagABs = s1.DEX_tagABs := b4 2 (by decide) (by decide)
  have fP1 : s1.DEX_tagABs = s.DEX_tagABs := a4 2 (by decide) (by decide)
  have a2x : DEX_tipof (s1.DEX_destpubs p1.2) ptr (33 :: destpub.take 33) := a2
  have a3x : ∀ j, j ≠ p1.2 → s1.DEX_destpubs j = s.DEX_destpubs j := a3
  have b2x : DEX_tipof (s2.DEX_tagAs p2.2) ptr (la :: tagA.take la) := b2
  have b3x : ∀ j, j ≠ p2.2 → s2.DEX_tagAs j = s1.DEX_tagAs j := b3
  have c2x : DEX_tipof (s3.DEX_tagAs p3.2) ptr (lb :: tagB.take lb) := c2
  have c3x : ∀ j, j ≠ p3.2 → s3.DEX_tagAs j = s2.DEX_tagAs j := c3
  have c5x : ∀ j, (s2.DEX_tagAs j).tip ≠ 0 →
      (s3.DEX_tagAs j).len = (s2.DEX_tagAs j).len ∧ (s3.DEX_tagAs j).key = (s2.DEX_tagAs j).key :=
    c5
  have d2x : DEX_tipof (r.1.DEX_tagABs p4.2) ptr ((la :: tagA.take la) ++ (lb :: tagB.take lb)) :=
    d2
  have d3x : ∀ j, j ≠ p4.2 → r.1.DEX_tagABs j = s3.DEX_tagABs j := d3
  have b6x : ∀ j, j < p2.2 → (s1.DEX_tagAs j).tip ≠ 0
      ∧ ¬ ((s1.DEX_tagAs j).len = (la :: tagA.take la).length
            ∧ (s1.DEX_tagAs j).key.take (la :: tagA.take la).length = la :: tagA.take la) := b6
  have c6x : ∀ j, j < p3.2 → (s2.DEX_tagAs j).tip ≠ 0
      ∧ ¬ ((s2.DEX_tagAs j).len = (lb :: tagB.take lb).length
            ∧ (s2.DEX_tagAs j).key.take (lb :: tagB.take lb).length = lb :: tagB.take lb) := c6
  refine ⟨p1.2, p2.2, p3.2, p4.2, a1, b1, c1, d1, ?_, ?_, ?_, d2x, ?_, ?_, ?_, ?_, ?_⟩
  · rw [fD4, fD3, fD2]
    exact a2x
  · rw [fA4]
    obtain ⟨k1, k2⟩ := c5x p2.2 (by rw [b2x.1]; exact hptr)
    refine ⟨?_, by rw [k1]; exact b2x.2.1, by rw [k2]; exact b2x.2.2⟩
    by_cases hi : p2.2 = p3.2
    · rw [hi]
      exact c2x.1
    · rw [c3x _ hi]
      exact b2x.1
  · rw [fA4]
    exact c2x
  · intro j hj
    rw [fD4, fD3, fD2]
    exact a3x j hj
  · intro j hjA hjB
    rw [fA4, c3x j hjB, b3x j hjA, fA1]
  · intro j hj
    rw [d3x j hj, fP3, fP2, fP1]
  · intro hne hi
    obtain ⟨k1, k2⟩ := c5x p2.2 (by rw [b2x.1]; exact hptr)
    apply hne
    have e1 : (s3.DEX_tagAs p2.2).len = (la :: tagA.take la).length := by rw [k1]; exact b2x.2.1
    have e2 : (lb :: tagB.take lb).length = (la :: tagA.take la).length := by
      rw [← c2x.2.1, ← hi]
      exact e1
    have e3 := c2x.2.2
    rw [← hi, k2, e2, b2x.2.2] at e3
    exact e3
  · intro heq
    rcases Nat.lt_trichotomy p2.2 p3.2 with hlt | he | hgt
    · exfalso
      apply (c6x p2.2 hlt).2
      rw [← heq]
      exact ⟨b2x.2.1, b2x.2.2⟩
    · exact he
    · exfalso
      obtain ⟨t1, t2⟩ := b6x p3.2 hgt
      have e0 : s2.DEX_tagAs p3.2 = s1.DEX_tagAs p3.2 := b3x p3.2 (by omega)
      obtain ⟨k1, k2⟩ := c5x p3.2 (by rw [e0]; exact t1)
      apply t2
      rw [heq, ← e0, ← k1, ← k2]
      exact ⟨c2x.2.1, c2x.2.2⟩

theorem exampleTips_eq :
    DEX_updatetips DEXState.empty 0 1 ((1 : Nat) : Int) [97] ((1 : Nat) : Int) [98]
      (List.replicate 33 2) 33 = some exampleTips := rfl

/-- Witness of C25: the blob pointer 1 with a destpub of bytes `2`, `tagA = "a"`
and `tagB = "b"` on the empty index arrays; the mask is 7. -/
theorem C25_updatetips_four_indices_witness :
    ((1 : Nat) ≠ 0 ∧ (1 ≤ 1 ∧ 1 ≤ KOMODO_DEX_TAGSIZE) ∧ 1 ≤ [97].length ∧ 1 ≤ [98].length
      ∧ 33 ≤ (List.replicate 33 2).length
      ∧ DEX_updatetips DEXState.empty 0 1 ((1 : Nat) : Int) [97] ((1 : Nat) : Int) [98]
          (List.replicate 33 2) 33 = some exampleTips
      ∧ exampleTips.2.2 < 65536)
    ∧ (
    ∃ iD iA iB iAB,
      iD < KOMODO_DEX_MAXINDEX ∧ iA < KOMODO_DEX_MAXINDEX ∧ iB < KOMODO_DEX_MAXINDEX
      ∧ iAB < KOMODO_DEX_MAXINDEX
      ∧ DEX_tipof (exampleTips.1.DEX_destpubs iD) 1 (33 :: (List.replicate 33 2).take 33)
      ∧ DEX_tipof (exampleTips.1.DEX_tagAs iA) 1 (1 :: [97].take 1)
      ∧ DEX_tipof (exampleTips.1.DEX_tagAs iB) 1 (1 :: [98].take 1)
      ∧ DEX_tipof (exampleTips.1.DEX_tagABs iAB) 1 ((1 :: [97].take 1) ++ (1 :: [98].take 1))
      ∧ (∀ j, j ≠ iD → exampleTips.1.DEX_destpubs j = DEXState.empty.DEX_destpubs j)
      ∧ (∀ j, j ≠ iA → j ≠ iB → exampleTips.1.DEX_tagAs j = DEXState.empty.DEX_tagAs j)
      ∧ (∀ j, j ≠ iAB → exampleTips.1.DEX_tagABs j = DEXState.empty.DEX_tagABs j)
      ∧ ((1 :: [97].take 1) ≠ (1 :: [98].take 1) → iA ≠ iB)
      ∧ ((1 :: [97].take 1) = (1 :: [98].take 1) → iA = iB)) :=
  ⟨⟨by decide, by decide, by decide, by decide, by decide, exampleTips_eq, by decide⟩,
    C25_updatetips_four_indices DEXState.empty 0 1 1 1 [97] [98] (List.replicate 33 2) exampleTips
      (by decide) (by decide) (by decide) (by decide) (by decide) (by decide) exampleTips_eq
      (by decide)⟩

/-- C25 fails as stated: after the quote with a destpub, `tagA = "a"` and
`tagB = "b"` is stored in the empty store as blob 1, the blob is the tip of four
index entries, two of them on the single-tag axis: entry 0 of `DEX_destpubs`,
entry 0 of `DEX_tagAs` (key `"a"`), entry 1 of `DEX_tagAs` (key `"b"`) and
entry 0 of `DEX_tagABs`. -/
theorem C25_counterexample :
    exampleThreeAxes.Datablobs 1000 ((1 + ((exampleDestQuoteBytes 1000 [97] [98]).drop 1).sum)
        % KOMODO_DEX_HASHSIZE) = 1
    ∧ (DEXState.empty.DEX_tagAs 0).tip = 0 ∧ (DEXState.empty.DEX_tagAs 1).tip = 0
    ∧ (exampleThreeAxes.DEX_destpubs 0).tip = 1
    ∧ (exampleThreeAxes.DEX_tagAs 0).tip = 1
    ∧ (exampleThreeAxes.DEX_tagAs 0).key.take 2 = [1, 97]
    ∧ (exampleThreeAxes.DEX_tagAs 1).tip = 1
    ∧ (exampleThreeAxes.DEX_tagAs 1).key.take 2 = [1, 98]
    ∧ (exampleThreeAxes.DEX_tagABs 0).tip = 1
    ∧ (exampleThreeAxes.DEX_tagABs 0).key.take 4 = [1, 97, 1, 98] := by
  refine ⟨?_, ?_, ?_, ?_, ?_, ?_, ?_, ?_, ?_, ?_⟩ <;> decide

/-! ## The two halves of the poll hook -/

theorem purge_loop_static (cutoff modval : Nat) (k : Nat) :
    ∀ (i : Nat) (s : DEXState) (n : Int) (r : DEXState × Int),
      komodo_DEXpurge_loop cutoff modval k i s n = some r →
        r.1.purgetime = s.purgetime ∧ r.1.Got_Recent_Quote = s.Got_Recent_Quote
        ∧ r.1.dexlastping = s.dexlastping := by
  induction k with
  | zero =>
    intro i s n r h
    simp only [komodo_DEXpurge_loop] at h
    cases h
    exact ⟨rfl, rfl, rfl⟩
  | succ k ih =>
    intro i s n r h
    simp only [komodo_DEXpurge_loop] at h
    split at h
    · split at h
      · split at h
        · cases h
        · split at h
          · exact ih _ _ _ _ h
          · split at h
            · cases h
            · rename_i r1 h1
              have hF := unlinkindices_frame _ _ _ h1
              obtain ⟨a1, a2, a3⟩ := ih _ _ _ _ h
              have f1 : r1.1.purgetime = s.purgetime := by
                have e := congrArg (fun x : DEXState => x.purgetime) hF.1
                exact e
              have f2 : r1.1.Got_Recent_Quote = s.Got_Recent_Quote := by
                have e := congrArg (fun x : DEXState => x.Got_Recent_Quote) hF.1
                exact e
              have f3 : r1.1.dexlastping = s.dexlastping := by
                have e := congrArg (fun x : DEXState => x.dexlastping) hF.1
                exact e
              exact ⟨a1.trans f1, a2.trans f2, a3.trans f3⟩
      · cases h
    · exact ih _ _ _ _ h

theorem purge_static (s : DEXState) (cutoff : Nat) (r : DEXState × Int)
    (h : komodo_DEXpurge s cutoff = some r) :
    r.1.purgetime = s.purgetime ∧ r.1.Got_Recent_Quote = s.Got_Recent_Quote
    ∧ r.1.dexlastping = s.dexlastping := by
  unfold komodo_DEXpurge at h
  simp only at h
  split at h
  · cases h
  · rename_i s1 n h1
    have g1 : s1.purgetime = s.purgetime ∧ s1.Got_Recent_Quote = s.Got_Recent_Quote
        ∧ s1.dexlastping = s.dexlastping := by
      have g := purge_loop_static _ _ _ _ _ _ (s1, n) h1
      split at g
      · exact g
      · exact g
    split at h
    · split at h
      · cases h
      · cases h; exact g1
    · cases h; exact g1

theorem poll_purgeloop_static (ptime : Nat) (k : Nat) :
    ∀ (s s1 : DEXState), komodo_DEXpoll_purgeloop ptime k s = some s1 →
      s1.Got_Recent_Quote = s.Got_Recent_Quote ∧ s1.dexlastping = s.dexlastping := by
  induction k with
  | zero =>
    intro s s1 h
    simp only [komodo_DEXpoll_purgeloop] at h
    cases h
    exact ⟨rfl, rfl⟩
  | succ k ih =>
    intro s s1 h
    simp only [komodo_DEXpoll_purgeloop] at h
    split at h
    · split at h
      · cases h
      · rename_i r hr
        obtain ⟨a1, a2⟩ := ih _ _ h
        obtain ⟨_, b1, b2⟩ := purge_static _ _ _ hr
        exact ⟨a1.trans b1, a2.trans b2⟩
    · cases h
      exact ⟨rfl, rfl⟩

theorem poll_purgephase_static (s : DEXState) (now : Nat) (s1 : DEXState)
    (h : komodo_DEXpoll_purgephase s now = some s1) :
    s1.Got_Recent_Quote = s.Got_Recent_Quote ∧ s1.dexlastping = s.dexlastping := by
  unfold komodo_DEXpoll_purgephase at h
  simp only at h
  split at h
  · split at h
    · cases h
    · rename_i s2 h2
      cases h
      split at h2
      · cases h2
        exact ⟨rfl, rfl⟩
      · exact poll_purgeloop_static _ _ s s2 h2
  · cases h
    exact ⟨rfl, rfl⟩

/-- C26 (amended): after the catch-up half of `komodo_DEXpoll` returned the
state `s2`, the push scan for peer `pto` runs exactly when
`(now == Got_Recent_Quote && now > dexlastping) || now >= dexlastping + HEARTBEAT`
holds for the values at the call (the sum is a `uint32_t`): then the result of
the poll is the result of the scan loop over the 23 buckets, and otherwise the
poll ends with `s2`.  In particular there is no scan when
`now == Got_Recent_Quote` and `dexlastping == now`. -/
theorem C26_scan_condition (s : DEXState) (now : Nat) (pto : Int) (s2 : DEXState)
    (hp : komodo_DEXpoll_purgephase s now = some s2) :
    (((now = s.Got_Recent_Quote ∧ now > s.dexlastping pto)
        ∨ now ≥ (s.dexlastping pto + KOMODO_DEX_LOCALHEARTBEAT) % U32) →
      komodo_DEXpoll s now pto
        = komodo_DEXpoll_scanloop now pto (KOMODO_DEX_MAXLAG / 3) 0 s2)
    ∧ (¬ ((now = s.Got_Recent_Quote ∧ now > s.dexlastping pto)
        ∨ now ≥ (s.dexlastping pto + KOMODO_DEX_LOCALHEARTBEAT) % U32) →
      komodo_DEXpoll s now pto = some s2)
    ∧ (now = s.Got_Recent_Quote → s.dexlastping pto = now → now + 1 < U32 →
      komodo_DEXpoll s now pto = some s2) := by
  obtain ⟨e1, e2⟩ := poll_purgephase_static s now s2 hp
  have hpoll : komodo_DEXpoll s now pto = komodo_DEXpoll_scanphase s2 now pto := by
    unfold komodo_DEXpoll
    rw [hp]
  have hyes : ((now = s.Got_Recent_Quote ∧ now > s.dexlastping pto)
        ∨ now ≥ (s.dexlastping pto + KOMODO_DEX_LOCALHEARTBEAT) % U32) →
      komodo_DEXpoll s now pto
        = komodo_DEXpoll_scanloop now pto (KOMODO_DEX_MAXLAG / 3) 0 s2 := by
    intro hc
    rw [hpoll]
    unfold komodo_DEXpoll_scanphase
    rw [e1, e2, if_pos hc]
  have hno : ¬ ((now = s.Got_Recent_Quote ∧ now > s.dexlastping pto)
        ∨ now ≥ (s.dexlastping pto + KOMODO_DEX_LOCALHEARTBEAT) % U32) →
      komodo_DEXpoll s now pto = some s2 := by
    intro hc
    rw [hpoll]
    unfold komodo_DEXpoll_scanphase
    rw [e1, e2, if_neg hc]
  refine ⟨hyes, hno, fun h1 h2 h3 => hno ?_⟩
  have hh : KOMODO_DEX_LOCALHEARTBEAT = 1 := rfl
  have hu : U32 = 4294967296 := rfl
  rw [h2, hh, hu, Nat.mod_eq_of_lt (by rw [hu] at h3; exact h3)]
  omega

theorem exampleBurst_purgephase :
    komodo_DEXpoll_purgephase exampleBurst 1000 = some exampleBurstPolled := rfl

/-- Witness of C26: `exampleBurst` polled for peer 8 at time 1000, which is
`Got_Recent_Quote` and the time of the last ping. -/
theorem C26_scan_condition_witness :
    komodo_DEXpoll_purgephase exampleBurst 1000 = some exampleBurstPolled
    ∧ ((((1000 = exampleBurst.Got_Recent_Quote ∧ 1000 > exampleBurst.dexlastping 8)
        ∨ 1000 ≥ (exampleBurst.dexlastping 8 + KOMODO_DEX_LOCALHEARTBEAT) % U32) →
      komodo_DEXpoll exampleBurst 1000 8
        = komodo_DEXpoll_scanloop 1000 8 (KOMODO_DEX_MAXLAG / 3) 0 exampleBurstPolled)
    ∧ (¬ ((1000 = exampleBurst.Got_Recent_Quote ∧ 1000 > exampleBurst.dexlastping 8)
        ∨ 1000 ≥ (exampleBurst.dexlastping 8 + KOMODO_DEX_LOCALHEARTBEAT) % U32) →
      komodo_DEXpoll exampleBurst 1000 8 = some exampleBurstPolled)
    ∧ (1000 = exampleBurst.Got_Recent_Quote → exampleBurst.dexlastping 8 = 1000 →
      1000 + 1 < U32 → komodo_DEXpoll exampleBurst 1000 8 = some exampleBurstPolled)) :=
  ⟨exampleBurst_purgephase,
    C26_scan_condition exampleBurst 1000 8 exampleBurstPolled exampleBurst_purgephase⟩

/-- C26 fails as stated: in `exampleBurst` a quote stamped 1000 has just been
stored (`Got_Recent_Quote` is 1000) and peer 8 was last pinged at 1000.
`komodo_DEXpoll` for peer 8 at time 1000 ends after its catch-up half: nothing
is sent and peer 8 gets no slot, although the scan of cell 5 of bucket 1000
would forward the quote to peer 8, whose slot would be 2. -/
theorem C26_counterexample :
    exampleBurst.Got_Recent_Quote = 1000 ∧ exampleBurst.dexlastping 8 = 1000
    ∧ exampleBurst.Hashtables 1000 5 = 5 ∧ exampleBurst.Datablobs 1000 5 = 1
    ∧ komodo_DEXpoll exampleBurst 1000 8 = some exampleBurstPolled
    ∧ exampleBurstPolled.outbox = []
    ∧ exampleBurstPolled.DEX_peermaps 3 2 = 0
    ∧ (komodo_DEXpeerpos exampleBurstPolled 1000 8).2 = 2
    ∧ (komodo_DEXmodval_loop 1000 1000 8 2 1 5 exampleBurstPolled []).map
        (fun r => (r.1.outbox, r.2))
      = some ([(8, [9, 81, 232, 3, 0, 0, 0, 0, 0, 0, 0, 0, 0, 0, 0, 0, 0, 0, 0, 0, 0, 0, 0, 0, 0])],
              [5]) := by
  refine ⟨?_, ?_, ?_, ?_, rfl, ?_, ?_, ?_, ?_⟩ <;> decide

theorem packetsend_purgetime (s : DEXState) (peer : Int) (peerpos ptr resp0 : Nat)
    (r : DEXState × Int) (h : komodo_DEXpacketsend s peer peerpos ptr resp0 = some r) :
    r.1.purgetime = s.purgetime := by
  unfold komodo_DEXpacketsend at h
  simp only at h
  split at h
  · cases h
  · split at h
    · cases h
    · cases h
      rfl

theorem modval_loop_purgetime (now modval : Nat) (peer : Int) (peerpos : Nat) (k : Nat) :
    ∀ (i : Nat) (s : DEXState) (recents : List Nat) (r : DEXState × List Nat),
      komodo_DEXmodval_loop now modval peer peerpos k i s recents = some r →
        r.1.purgetime = s.purgetime := by
  induction k with
  | zero =>
    intro i s recents r h
    simp only [komodo_DEXmodval_loop] at h
    cases h
    rfl
  | succ k ih =>
    intro i s recents r h
    simp only [komodo_DEXmodval_loop] at h
    split at h
    · split at h
      · cases h
      · rename_i b hb
        split at h
        · split at h
          · split at h
            · rename_i hsent
              split at h
              · split at h
                · cases h
                · rename_i r1 h1
                  split at h
                  · cases h
                  · rename_i b1 hb1
                    exact (ih _ _ _ _ h).trans (packetsend_purgetime _ _ _ _ _ _ h1)
              · exact ih _ _ _ _ h
            · exact ih _ _ _ _ h
          · exact ih _ _ _ _ h
        · exact ih _ _ _ _ h
    · exact ih _ _ _ _ h

theorem modval_purgetime (s : DEXState) (now : Nat) (modval : Int) (peer : Int)
    (r : DEXState × Int) (h : komodo_DEXmodval s now modval peer = some r) :
    r.1.purgetime = s.purgetime := by
  unfold komodo_DEXmodval at h
  simp only at h
  split at h
  · cases h; rfl
  · split at h
    · cases h; rfl
    · split at h
      · cases h
      · rename_i s1 recents h1
        have g1 : s1.purgetime = s.purgetime :=
          modval_loop_purgetime _ _ _ _ _ _ (komodo_DEXpeerpos s now peer).1 _ (s1, recents) h1
        split at h
        · cases h; exact g1
        · cases h; exact g1

theorem poll_scanloop_purgetime (now : Nat) (pto : Int) (k : Nat) :
    ∀ (i : Nat) (s s1 : DEXState), komodo_DEXpoll_scanloop now pto k i s = some s1 →
      s1.purgetime = s.purgetime := by
  induction k with
  | zero =>
    intro i s s1 h
    simp only [komodo_DEXpoll_scanloop] at h
    cases h
    rfl
  | succ k ih =>
    intro i s s1 h
    simp only [komodo_DEXpoll_scanloop] at h
    split at h
    · cases h
    · rename_i r hr
      refine (ih _ _ _ h).trans ?_
      have g := modval_purgetime _ _ _ _ _ hr
      split
      · exact g
      · exact g

theorem poll_scanphase_purgetime (s : DEXState) (now : Nat) (pto : Int) (s1 : DEXState)
    (h : komodo_DEXpoll_scanphase s now pto = some s1) : s1.purgetime = s.purgetime := by
  unfold komodo_DEXpoll_scanphase at h
  split at h
  · exact poll_scanloop_purgetime _ _ _ _ _ _ h
  · cases h
    rfl

theorem catchup_purgetime (cs : List Nat) :
    ∀ (s s1 : DEXState) (c : Nat), DEX_catchup (cs ++ [c]) s = some s1 →
      s1.purgetime = c + 1 := by
  induction cs with
  | nil =>
    intro s s1 c h
    simp only [List.nil_append, DEX_catchup] at h
    split at h
    · cases h
    · cases h
      rfl
  | cons c0 cs ih =>
    intro s s1 c h
    simp only [List.cons_append, DEX_catchup] at h
    split at h
    · cases h
    · exact ih _ _ _ h

theorem poll_purgeloop_catchup (ptime : Nat) (hpt : ptime < U32) (k : Nat) :
    ∀ (s : DEXState), s.purgetime + k = ptime →
      komodo_DEXpoll_purgeloop ptime k s = DEX_catchup (List.range' s.purgetime k) s := by
  induction k with
  | zero =>
    intro s _
    rfl
  | succ k ih =>
    intro s hs
    simp only [komodo_DEXpoll_purgeloop, List.range'_succ, DEX_catchup]
    rw [if_pos (show s.purgetime < ptime by omega)]
    cases hr : komodo_DEXpurge s s.purgetime with
    | none => rfl
    | some r =>
      simp only
      have e := (purge_static _ _ _ hr).1
      have e1 : (r.1.purgetime + 1) % U32 = s.purgetime + 1 := by
        rw [e]
        exact Nat.mod_eq_of_lt (by omega)
      rw [e1]
      exact ih { r.1 with purgetime := s.purgetime + 1 } (by show s.purgetime + 1 + k = ptime; omega)

theorem poll_purgephase_eq (s : DEXState) (now : Nat) :
    komodo_DEXpoll_purgephase s now
      = (if komodo_DEXpoll_ptime now > s.purgetime then
          match (if s.purgetime = 0 then some { s with purgetime := komodo_DEXpoll_ptime now }
                 else komodo_DEXpoll_purgeloop (komodo_DEXpoll_ptime now)
                        (komodo_DEXpoll_ptime now - s.purgetime) s) with
          | none => none
          | some s1 => some { s1 with DEX_Numpending := DEX_decay s1.DEX_Numpending }
        else some s) := rfl

/-- C27 (amended): for every `now` and every non-zero `purgetime`, with
`ptime = now - KOMODO_DEX_PURGETIME + KOMODO_DEX_MAXLAG` as `uint32_t`: when
`ptime` is larger than `purgetime`, the first half of `komodo_DEXpoll` calls
`komodo_DEXpurge` once for each cutoff from `purgetime` up to but excluding
`ptime`, in increasing order, then decays `DEX_Numpending`, and a poll that
returns leaves `purgetime == ptime`; otherwise nothing is purged and
`purgetime` stays. -/
theorem C27_catchup_limit (s : DEXState) (now : Nat) (pto : Int) (hp0 : s.purgetime ≠ 0) :
    (s.purgetime < komodo_DEXpoll_ptime now →
      komodo_DEXpoll_purgephase s now
        = (DEX_catchup
            (List.range' s.purgetime (komodo_DEXpoll_ptime now - s.purgetime)) s).map
            (fun s1 => { s1 with DEX_Numpending := DEX_decay s1.DEX_Numpending })
      ∧ ∀ s2, komodo_DEXpoll s now pto = some s2 → s2.purgetime = komodo_DEXpoll_ptime now)
    ∧ (komodo_DEXpoll_ptime now ≤ s.purgetime →
      komodo_DEXpoll_purgephase s now = some s
      ∧ ∀ s2, komodo_DEXpoll s now pto = some s2 → s2.purgetime = s.purgetime) := by
  have hpt : komodo_DEXpoll_ptime now < U32 := by
    unfold komodo_DEXpoll_ptime wrap32
    show _ < 4294967296
    omega
  have hsplit : ∀ s2, komodo_DEXpoll s now pto = some s2 →
      ∃ s1, komodo_DEXpoll_purgephase s now = some s1 ∧ s2.purgetime = s1.purgetime := by
    intro s2 h
    unfold komodo_DEXpoll at h
    split at h
    · cases h
    · rename_i s1 h1
      exact ⟨s1, h1, poll_scanphase_purgetime _ _ _ _ h⟩
  constructor
  · intro hlt
    have hphase : komodo_DEXpoll_purgephase s now
        = (DEX_catchup
            (List.range' s.purgetime (komodo_DEXpoll_ptime now - s.purgetime)) s).map
            (fun s1 => { s1 with DEX_Numpending := DEX_decay s1.DEX_Numpending }) := by
      have e := poll_purgeloop_catchup (komodo_DEXpoll_ptime now) hpt
        (komodo_DEXpoll_ptime now - s.purgetime) s (by omega)
      unfold komodo_DEXpoll_purgephase
      show (if komodo_DEXpoll_ptime now > s.purgetime then
          match (if s.purgetime = 0 then some { s with purgetime := komodo_DEXpoll_ptime now }
                 else komodo_DEXpoll_purgeloop (komodo_DEXpoll_ptime now)
                        (komodo_DEXpoll_ptime now - s.purgetime) s) with
          | none => none
          | some s1 => some { s1 with DEX_Numpending := DEX_decay s1.DEX_Numpending }
        else some s) = _
      rw [if_pos hlt, if_neg hp0, e]
      cases DEX_catchup (List.range' s.purgetime (komodo_DEXpoll_ptime now - s.purgetime)) s <;> rfl
    refine ⟨hphase, fun s2 h => ?_⟩
    obtain ⟨s1, h1, h2⟩ := hsplit s2 h
    rw [h2]
    rw [hphase] at h1
    obtain ⟨k, hk⟩ : ∃ k, komodo_DEXpoll_ptime now - s.purgetime = k + 1 :=
      ⟨komodo_DEXpoll_ptime now - s.purgetime - 1, by omega⟩
    rw [hk, List.range'_concat] at h1
    cases hc : DEX_catchup (List.range' s.purgetime k ++ [s.purgetime + 1 * k]) s with
    | none => rw [hc] at h1; cases h1
    | some s0 =>
      rw [hc] at h1
      cases h1
      have := catchup_purgetime _ _ _ _ hc
      show s0.purgetime = _
      rw [this]
      omega
  · intro hle
    have hphase : komodo_DEXpoll_purgephase s now = some s := by
      unfold komodo_DEXpoll_purgephase
      show (if komodo_DEXpoll_ptime now > s.purgetime then _ else some s) = _
      rw [if_neg (show ¬ komodo_DEXpoll_ptime now > s.purgetime by omega)]
    refine ⟨hphase, fun s2 h => ?_⟩
    obtain ⟨s1, h1, h2⟩ := hsplit s2 h
    rw [hphase] at h1
    cases h1
    exact h2

/-- Witness of C27: `exampleCatchup` (`purgetime` 6469) polled at time 10000. -/
theorem C27_catchup_limit_witness :
    exampleCatchup.purgetime ≠ 0
    ∧ ((exampleCatchup.purgetime < komodo_DEXpoll_ptime 10000 →
      komodo_DEXpoll_purgephase exampleCatchup 10000
        = (DEX_catchup
            (List.range' exampleCatchup.purgetime
              (komodo_DEXpoll_ptime 10000 - exampleCatchup.purgetime)) exampleCatchup).map
            (fun s1 => { s1 with DEX_Numpending := DEX_decay s1.DEX_Numpending })
      ∧ ∀ s2, komodo_DEXpoll exampleCatchup 10000 7 = some s2 →
          s2.purgetime = komodo_DEXpoll_ptime 10000)
    ∧ (komodo_DEXpoll_ptime 10000 ≤ exampleCatchup.purgetime →
      komodo_DEXpoll_purgephase exampleCatchup 10000 = some exampleCatchup
      ∧ ∀ s2, komodo_DEXpoll exampleCatchup 10000 7 = some s2 →
          s2.purgetime = exampleCatchup.purgetime)) :=
  ⟨by decide, C27_catchup_limit exampleCatchup 10000 7 (by decide)⟩

theorem exampleCatchup_purge : komodo_DEXpurge exampleCatchup 6469 = some (exampleCatchup, 0) := by
  have hl : komodo_DEXpurge_loop 6469 2869 KOMODO_DEX_HASHSIZE 0 exampleCatchup 0
      = some (exampleCatchup, 0) :=
    purge_loop_zeros 6469 2869 KOMODO_DEX_HASHSIZE 0 exampleCatchup 0 (fun _ _ _ => rfl)
  unfold komodo_DEXpurge
  rw [if_neg (by decide)]
  have hm : 6469 % KOMODO_DEX_PURGETIME = 2869 := by decide
  simp only [hm, hl]
  rfl

theorem poll_purgeloop_step (ptime k : Nat) (s : DEXState) (r : DEXState × Int)
    (hlt : s.purgetime < ptime) (hr : komodo_DEXpurge s s.purgetime = some r) :
    komodo_DEXpoll_purgeloop ptime (k + 1) s
      = komodo_DEXpoll_purgeloop ptime k { r.1 with purgetime := (r.1.purgetime + 1) % U32 } := by
  simp only [komodo_DEXpoll_purgeloop, if_pos hlt, hr]

theorem exampleCatchup_poll : komodo_DEXpoll exampleCatchup 10000 7 = some exampleCatchupPolled := by
  have hloop : komodo_DEXpoll_purgeloop 6470 1 exampleCatchup
      = some { exampleCatchup with purgetime := 6470 } :=
    (poll_purgeloop_step 6470 0 exampleCatchup (exampleCatchup, 0) (by decide)
      exampleCatchup_purge).trans rfl
  have hpt : komodo_DEXpoll_ptime 10000 = 6470 := by decide
  have e : exampleCatchup.purgetime = 6469 := rfl
  have hphase : komodo_DEXpoll_purgephase exampleCatchup 10000 = some exampleCatchupPolled := by
    rw [poll_purgephase_eq, hpt, e, if_pos (show 6470 > 6469 by decide),
      if_neg (show ¬ (6469 = 0) by decide), show 6470 - 6469 = 1 from rfl, hloop]
    rfl
  have hscan : komodo_DEXpoll_scanphase exampleCatchupPolled 10000 7
      = some exampleCatchupPolled := by
    unfold komodo_DEXpoll_scanphase
    have g1 : exampleCatchupPolled.Got_Recent_Quote = 0 := rfl
    have g2 : exampleCatchupPolled.dexlastping 7 = 10000 := rfl
    rw [g1, g2, if_neg (show ¬ ((10000 = 0 ∧ 10000 > 10000)
      ∨ 10000 ≥ (10000 + KOMODO_DEX_LOCALHEARTBEAT) % U32) by decide)]
  unfold komodo_DEXpoll
  rw [hphase]
  exact hscan

/-- C27 fails as stated: `exampleCatchup` has `purgetime` 6469 and is polled at
time 10000, where `now - MAX_LAG` is 9930.  The poll calls `komodo_DEXpurge`
for the cutoff 6469 only and leaves `purgetime` at 6470, which is
`now - KOMODO_DEX_PURGETIME + KOMODO_DEX_MAXLAG`. -/
theorem C27_counterexample :
    exampleCatchup.purgetime = 6469
    ∧ 10000 - KOMODO_DEX_MAXLAG = 9930
    ∧ komodo_DEXpoll exampleCatchup 10000 7 = some exampleCatchupPolled
    ∧ exampleCatchupPolled.purgetime = 6470
    ∧ komodo_DEXpoll_purgephase exampleCatchup 10000
        = (DEX_catchup [6469] exampleCatchup).map
            (fun s1 => { s1 with DEX_Numpending := DEX_decay s1.DEX_Numpending }) := by
  refine ⟨rfl, rfl, exampleCatchup_poll, rfl, ?_⟩
  have hc : DEX_catchup [6469] exampleCatchup = some { exampleCatchup with purgetime := 6470 } := by
    simp only [DEX_catchup]
    rw [exampleCatchup_purge]
  have hp : komodo_DEXpoll_purgephase exampleCatchup 10000 = some exampleCatchupPolled := by
    have h := exampleCatchup_poll
    unfold komodo_DEXpoll at h
    split at h
    · cases h
    · rename_i s1 h1
      rw [h1]
      have e : komodo_DEXpoll_scanphase s1 10000 7 = some s1 := by
        unfold komodo_DEXpoll_scanphase
        obtain ⟨e1, e2⟩ := poll_purgephase_static _ _ _ h1
        have g1 : exampleCatchup.Got_Recent_Quote = 0 := rfl
        have g2 : exampleCatchup.dexlastping 7 = 10000 := rfl
        rw [e1, e2, g1, g2, if_neg (show ¬ ((10000 = 0 ∧ 10000 > 10000)
          ∨ 10000 ≥ (10000 + KOMODO_DEX_LOCALHEARTBEAT) % U32) by decide)]
      rw [e] at h
      exact h
  rw [hp, hc]
  rfl

/-! ## The push scan -/

theorem modval_loop_append (now modval : Nat) (peer : Int) (peerpos : Nat) (a : Nat) :
    ∀ (b i : Nat) (s : DEXState) (recents : List Nat),
      komodo_DEXmodval_loop now modval peer peerpos (a + b) i s recents
        = (komodo_DEXmodval_loop now modval peer peerpos a i s recents).bind
            (fun r => komodo_DEXmodval_loop now modval peer peerpos b (i + a) r.1 r.2) := by
  induction a with
  | zero =>
    intro b i s recents
    rw [Nat.zero_add]
    rfl
  | succ a ih =>
    intro b i s recents
    have e : a + 1 + b = (a + b) + 1 := by omega
    have e2 : ∀ x : Nat, x + (a + 1) = x + 1 + a := by intro x; omega
    rw [e]
    simp only [komodo_DEXmodval_loop, ih, e2]
    split
    · split
      · rfl
      · split
        · split
          · split
            · split
              · split
                · rfl
                · split
                  · rfl
                  · rfl
              · rfl
            · rfl
          · rfl
        · rfl
    · rfl

theorem modval_loop_zeros (now modval : Nat) (peer : Int) (peerpos : Nat) (k : Nat) :
    ∀ (i : Nat) (s : DEXState) (recents : List Nat),
      (∀ j, i ≤ j → j < i + k → s.Hashtables modval j = 0) →
      komodo_DEXmodval_loop now modval peer peerpos k i s recents = some (s, recents) := by
  induction k with
  | zero => intro i s recents _; rfl
  | succ k ih =>
    intro i s recents h
    have h0 : s.Hashtables modval i = 0 := h i (le_refl _) (by omega)
    rw [komodo_DEXmodval_loop, if_neg (fun hc => hc.1 h0)]
    exact ih (i + 1) s recents (fun j h1 h2 => h j (by omega) (by omega))

theorem modval_loop_eval (now modval : Nat) (peer : Int) (peerpos c : Nat) (s : DEXState)
    (r : DEXState × List Nat)
    (hc : c < KOMODO_DEX_HASHSIZE)
    (hpre : ∀ j, j < c → s.Hashtables modval j = 0)
    (hstep : komodo_DEXmodval_loop now modval peer peerpos 1 c s [] = some r)
    (hpost : ∀ j, c < j → j < KOMODO_DEX_HASHSIZE → r.1.Hashtables modval j = 0) :
    komodo_DEXmodval_loop now modval peer peerpos KOMODO_DEX_HASHSIZE 0 s [] = some r := by
  have e : KOMODO_DEX_HASHSIZE = c + (1 + (KOMODO_DEX_HASHSIZE - 1 - c)) := by omega
  rw [e, modval_loop_append,
    modval_loop_zeros now modval peer peerpos c 0 s [] (fun j _ h2 => hpre j (by omega))]
  simp only [Option.some_bind]
  rw [modval_loop_append, Nat.zero_add, hstep]
  simp only [Option.some_bind]
  exact modval_loop_zeros now modval peer peerpos _ _ r.1 r.2
    (fun j h1 h2 => hpost j (by omega) (by omega))

theorem forward_packet (data : List Nat) (n : Nat) (hrelay : data.getD 0 0 ≤ 10) :
    (data.take n).set 0 (data.getD 0 0 % 256) = data.take n := by
  cases data with
  | nil => simp
  | cons x xs =>
    cases n with
    | zero => simp
    | succ n =>
      have hx : x ≤ 10 := hrelay
      have e : x % 256 = x := Nat.mod_eq_of_lt (by omega)
      simp [e]

/-- C23 (amended): when the scan loop of `komodo_DEXmodval` reaches a cell that
holds the blob `b` (of non-zero length), the blob is forwarded to the peer, that
is the stored frame is handed to `PushMessage`, the peer is marked present and
`numsent` is incremented, if and only if the peer is not marked present on `b`,
`now < b.timestamp + MAX_LAG`, `b.numsent < FANOUT`,
`DEX_Numpending < HASH_CAPACITY/8`, the stored relay byte is in
`[0, RELAY_DEPTH]` and `now < b.timestamp + HEARTBEAT`; otherwise the state is
left as it is.  The relay byte of the packet is the stored relay byte. -/
theorem C23_forward_condition (now modval : Nat) (peer : Int) (peerpos k i : Nat)
    (s : DEXState) (recents : List Nat) (b : DEX_datablob)
    (hh : s.Hashtables modval i ≠ 0) (hd : s.Datablobs modval i ≠ 0)
    (hb : s.heap (s.Datablobs modval i) = some b) (hlen : b.datalen ≠ 0) :
    (DEX_forwardable s now peerpos b →
      komodo_DEXmodval_loop now modval peer peerpos (k + 1) i s recents
        = komodo_DEXmodval_loop now modval peer peerpos k (i + 1)
            (DEX_forwarded s peer peerpos (s.Datablobs modval i) b)
            (recents ++ [s.Hashtables modval i]))
    ∧ (¬ DEX_forwardable s now peerpos b →
      ∃ recents1, komodo_DEXmodval_loop now modval peer peerpos (k + 1) i s recents
        = komodo_DEXmodval_loop now modval peer peerpos k (i + 1) s recents1)
    ∧ (∀ p, (DEX_forwarded s peer peerpos (s.Datablobs modval i) b).outbox = s.outbox ++ [p] →
        p.1 = peer ∧ p.2.getD 0 0 = b.data.getD 0 0) := by
  refine ⟨?_, ?_, ?_⟩
  · intro hf
    obtain ⟨f1, f2, f3, f4, f5, f6⟩ := hf
    have f5x : b.data.getD 0 0 ≤ 10 := f5
    have f3x : b.numsent < 3 := f3
    rw [komodo_DEXmodval_loop, if_pos ⟨hh, hd⟩]
    simp only [hb, if_pos f2, if_pos f1, if_pos (And.intro f3 f4),
      if_pos (show 0 ≤ b.data.getD 0 0 ∧ b.data.getD 0 0 ≤ KOMODO_DEX_RELAYDEPTH
        ∧ now < (DEX_blobtime b + KOMODO_DEX_LOCALHEARTBEAT) % U32 from ⟨Nat.zero_le _, f5, f6⟩)]
    unfold komodo_DEXpacketsend
    simp only [hb, if_neg hlen, forward_packet b.data b.datalen f5x]
    have e1 : (b.numsent + 1) % 256 = b.numsent + 1 := Nat.mod_eq_of_lt (by omega)
    simp only [heapSet, Function.update_same, Function.update_idem, e1]
    rfl
  · intro hf
    rw [komodo_DEXmodval_loop, if_pos ⟨hh, hd⟩]
    simp only [hb]
    by_cases f2 : now < (DEX_blobtime b + KOMODO_DEX_MAXLAG) % U32
    · rw [if_pos f2]
      by_cases f1 : GETBIT b.peermask peerpos = false
      · rw [if_pos f1]
        by_cases f34 : b.numsent < KOMODO_DEX_MAXFANOUT
            ∧ s.DEX_Numpending < ((KOMODO_DEX_HASHSIZE / 8 : Nat) : Int)
        · rw [if_pos f34]
          by_cases f56 : 0 ≤ b.data.getD 0 0 ∧ b.data.getD 0 0 ≤ KOMODO_DEX_RELAYDEPTH
              ∧ now < (DEX_blobtime b + KOMODO_DEX_LOCALHEARTBEAT) % U32
          · exact absurd ⟨f1, f2, f34.1, f34.2, f56.2.1, f56.2.2⟩ hf
          · rw [if_neg f56]
            exact ⟨_, rfl⟩
        · rw [if_neg f34]
          exact ⟨_, rfl⟩
      · rw [if_neg f1]
        exact ⟨_, rfl⟩
    · rw [if_neg f2]
      exact ⟨_, rfl⟩
  · intro p hp
    have e : (DEX_forwarded s peer peerpos (s.Datablobs modval i) b).outbox
        = s.outbox ++ [(peer, b.data.take b.datalen)] := rfl
    rw [e] at hp
    have e2 := List.append_cancel_left hp
    simp only [List.cons.injEq, and_true] at e2
    subst e2
    refine ⟨rfl, ?_⟩
    show (b.data.take b.datalen).getD 0 0 = b.data.getD 0 0
    cases hdata : b.data with
    | nil => simp
    | cons x xs =>
      obtain ⟨n, hn⟩ : ∃ n, b.datalen = n + 1 := ⟨b.datalen - 1, by omega⟩
      rw [hn]
      rfl

/-- Witness of C23: the scan for peer 8 (slot 2) at time 1000 on cell 5 of
bucket 1000 of `exampleStored`, which holds `exampleBlob` with the stored relay
byte 9. -/
theorem C23_forward_condition_witness :
    (exampleStored.Hashtables 1000 5 ≠ 0 ∧ exampleStored.Datablobs 1000 5 ≠ 0
      ∧ exampleStored.heap (exampleStored.Datablobs 1000 5) = some exampleBlob
      ∧ exampleBlob.datalen ≠ 0 ∧ DEX_forwardable exampleStored 1000 2 exampleBlob
      ∧ exampleBlob.data.getD 0 0 = 9)
    ∧ (
    ((DEX_forwardable exampleStored 1000 2 exampleBlob →
      komodo_DEXmodval_loop 1000 1000 8 2 (0 + 1) 5 exampleStored []
        = komodo_DEXmodval_loop 1000 1000 8 2 0 (5 + 1)
            (DEX_forwarded exampleStored 8 2 (exampleStored.Datablobs 1000 5) exampleBlob)
            ([] ++ [exampleStored.Hashtables 1000 5]))
    ∧ (¬ DEX_forwardable exampleStored 1000 2 exampleBlob →
      ∃ recents1, komodo_DEXmodval_loop 1000 1000 8 2 (0 + 1) 5 exampleStored []
        = komodo_DEXmodval_loop 1000 1000 8 2 0 (5 + 1) exampleStored recents1)
    ∧ (∀ p, (DEX_forwarded exampleStored 8 2 (exampleStored.Datablobs 1000 5) exampleBlob).outbox
          = exampleStored.outbox ++ [p] →
        p.1 = 8 ∧ p.2.getD 0 0 = exampleBlob.data.getD 0 0))) :=
  ⟨⟨by decide, by decide, exampleStored_blob, by decide,
      by unfold DEX_forwardable; decide, by decide⟩,
    C23_forward_condition 1000 1000 8 2 0 5 exampleStored [] exampleBlob (by decide) (by decide)
      exampleStored_blob (by decide)⟩

theorem modval_scanned (s : DEXState) (now : Nat) (modval : Int) (peer : Int) (s1 : DEXState)
    (recents : List Nat)
    (hm : ¬ (modval < 0 ∨ modval ≥ (KOMODO_DEX_PURGETIME : Int)))
    (hp : (komodo_DEXpeerpos s now peer).2 ≠ 0xffff)
    (hl : komodo_DEXmodval_loop now modval.toNat peer (komodo_DEXpeerpos s now peer).2
        KOMODO_DEX_HASHSIZE 0 (komodo_DEXpeerpos s now peer).1 [] = some (s1, recents))
    (hn : recents.length > 0) :
    komodo_DEXmodval s now modval peer
      = some ({ s1 with outbox := s1.outbox
                  ++ [(peer, komodo_DEXgenping now modval recents recents.length)] },
              (recents.length : Int)) := by
  unfold komodo_DEXmodval
  rw [if_neg hm]
  simp only [if_neg hp, hl, if_pos hn]

theorem exampleRelayZero_loop :
    komodo_DEXmodval_loop 1000 1000 8 2 KOMODO_DEX_HASHSIZE 0
      (komodo_DEXpeerpos exampleRelayZero 1000 8).1 [] = some exampleRelayZeroStep := by
  have e0 : (komodo_DEXpeerpos exampleRelayZero 1000 8).1.Hashtables 1000
      = Function.update (fun _ => 0) 5 5 := rfl
  have e1 : exampleRelayZeroStep.1.Hashtables 1000 = Function.update (fun _ => 0) 5 5 := rfl
  refine modval_loop_eval 1000 1000 8 2 5 _ exampleRelayZeroStep (by decide) ?_ rfl ?_
  · intro j hj
    rw [e0, Function.update_noteq (by omega)]
  · intro j hj _
    rw [e1, Function.update_noteq (by omega)]

theorem exampleRelayZero_recents : exampleRelayZeroStep.2 = [5] := by decide

theorem exampleRelayZero_modval :
    komodo_DEXmodval exampleRelayZero 1000 1000 8 = some (exampleRelayZeroScanned, 1) := by
  have hp : (komodo_DEXpeerpos exampleRelayZero 1000 8).2 = 2 := by decide
  have hl : komodo_DEXmodval_loop 1000 (1000 : Int).toNat 8
      (komodo_DEXpeerpos exampleRelayZero 1000 8).2 KOMODO_DEX_HASHSIZE 0
      (komodo_DEXpeerpos exampleRelayZero 1000 8).1 []
        = some (exampleRelayZeroStep.1, [5]) := by
    rw [hp, show (1000 : Int).toNat = 1000 from rfl, exampleRelayZero_loop,
      ← exampleRelayZero_recents]
  exact modval_scanned exampleRelayZero 1000 1000 8 exampleRelayZeroStep.1 [5] (by decide)
    (by rw [hp]; decide) hl (by decide)

/-- C23 fails as stated: in `exampleRelayZero` the stored relay byte of blob 1
is 0, outside `[1, RELAY_DEPTH]`.  `komodo_DEXmodval(1000, 1000, peer 8)`
nevertheless forwards the blob: the first message pushed to peer 8 is the stored
frame with relay byte 0, `numsent` goes from 0 to 1, and the ping that follows
advertises the short hash 5. -/
theorem C23_counterexample :
    (exampleRelayZero.heap 1).map (fun b => (b.data.getD 0 0, b.numsent)) = some (0, 0)
    ∧ exampleRelayZero.Datablobs 1000 5 = 1
    ∧ exampleRelayZero.outbox = []
    ∧ komodo_DEXmodval exampleRelayZero 1000 1000 8 = some (exampleRelayZeroScanned, 1)
    ∧ exampleRelayZeroScanned.outbox
        = [(8, [0, 81, 232, 3, 0, 0, 0, 0, 0, 0, 0, 0, 0, 0, 0, 0, 0, 0, 0, 0, 0, 0, 0, 0, 0]),
           (8, komodo_DEXgenping 1000 1000 [5] 1)]
    ∧ (exampleRelayZeroScanned.heap 1).map (fun b => (b.data.getD 0 0, b.numsent)) = some (0, 1) := by
  refine ⟨?_, ?_, ?_, exampleRelayZero_modval, ?_, ?_⟩ <;> decide

/-! ## Frames shorter than their body -/

/-- C31 at a failing input: peer 8 sends a G frame of 6 bytes (the routing
header only) to `exampleStored`.  The G path has no length test: it decodes
the short hash and the bucket from the indices 6..13.  With the bytes of
`exampleGet` behind the frame the stored quote is sent to peer 8 (25 bytes
returned); with zero bytes behind it nothing is sent, although the two buffers
agree on all indices below `len`.  A P frame of 6 bytes is dropped by the test
`len >= 12`. -/
theorem C31_short_get_reads_past_len :
    (∀ i, i < 6 → exampleGet i = exampleGetShort i)
    ∧ exampleGet 1 = 71
    ∧ (komodo_DEXprocess (exampleSha 5) exampleStored 1000 8 exampleGet 6 0).map
        (fun r => (r.1.outbox.length, r.2)) = some (1, 25)
    ∧ (komodo_DEXprocess (exampleSha 5) exampleStored 1000 8 exampleGetShort 6 0).map
        (fun r => (r.1.outbox.length, r.2)) = some (0, 0)
    ∧ examplePing 1 = 80
    ∧ (komodo_DEXprocess (exampleSha 5) exampleStored 1000 8 examplePing 6 0).map
        (fun r => (r.1.outbox.length, r.2)) = some (0, 0) := by
  refine ⟨?_, ?_, ?_, ?_, ?_, ?_⟩ <;> decide

/-! ## The two rings -/

theorem exampleZeroHash_reachable : Reachable (exampleSha 0) exampleZeroHash :=
  Reachable.step _ _ Reachable.init
    (Step.process _ _ 1000 7 (exampleFrame 10 1000) 25 1 0 (by decide) (Or.inr rfl) rfl)

/-- C32 at a failing input: `exampleZeroHash` is reachable, its cell 0 of bucket
1000 holds the blob pointer 1 in `Datablobs`, the low 32 bits of the blob's hash
are 0, and `Hashtables[1000][0]` is 0, the value of an empty cell.
The iteration of the purge loop of `komodo_DEXpurge(1000)` on this cell skips
it: the blob stays allocated. -/
theorem C32_zero_hash_unbinds_rings :
    Reachable (exampleSha 0) exampleZeroHash
    ∧ exampleZeroHash.Datablobs 1000 0 = 1
    ∧ (exampleZeroHash.heap 1).map (fun b => b.hash.uints0) = some 0
    ∧ exampleZeroHash.Hashtables 1000 0 = 0
    ∧ (komodo_DEXpurge_loop 1000 1000 1 0 exampleZeroHash 0).map
        (fun r => (r.1.Datablobs 1000 0, (r.1.heap 1).isSome, r.2)) = some (1, true, 0) := by
  refine ⟨exampleZeroHash_reachable, ?_, ?_, ?_, ?_⟩ <;> decide

/-! ## Peer slots of distinct peers -/

/-- C33 at a failing input: on the empty store the peer with id 0 is given slot
1 at time 1000, but the entry written is 0, the value of a free entry; peer 7
is then given slot 1 as well at the same time.  A later call for peer 0 returns
slot 2. -/
theorem C33_peer_zero_shares_slot :
    (komodo_DEXpeerpos DEXState.empty 1000 0).2 = 1
    ∧ (komodo_DEXpeerpos DEXState.empty 1000 0).1.DEX_peermaps 3 1 = 0
    ∧ (komodo_DEXpeerpos (komodo_DEXpeerpos DEXState.empty 1000 0).1 1000 7).2 = 1
    ∧ (komodo_DEXpeerpos
        (komodo_DEXpeerpos (komodo_DEXpeerpos DEXState.empty 1000 0).1 1000 7).1 1000 0).2 = 2 := by
  refine ⟨?_, ?_, ?_, ?_⟩ <;> decide

/-! ## The counter of pending requests -/

theorem frame_Numpending {s s1 : DEXState} (h : IndexFrame s s1) :
    s1.DEX_Numpending = s.DEX_Numpending := by
  have e : s1.noindex.DEX_Numpending = s.noindex.DEX_Numpending :=
    congrArg DEXState.DEX_Numpending h.1
  exact e

theorem find32_Numpending (s : DEXState) (hashsize shorthash : Nat) (clearflag : Int) :
    (komodo_DEXfind32 s hashsize shorthash clearflag).1.DEX_Numpending = s.DEX_Numpending := by
  simp only [komodo_DEXfind32]
  split
  · split <;> rfl
  · split <;> rfl

theorem add_Numpending (s : DEXState) (openind : Int) (now modval : Nat) (hash : bits256)
    (shorthash : Nat) (msg : Nat → Nat) (len newptr : Nat) (r : DEXState × Int)
    (h : komodo_DEXadd s openind now modval hash shorthash msg len newptr = some r) :
    r.1.DEX_Numpending = s.DEX_Numpending := by
  unfold komodo_DEXadd at h
  simp only at h
  generalize (if openind < 0 ∨ openind ≥ ((KOMODO_DEX_HASHSIZE : Nat) : Int)
    then komodo_DEXfind s modval shorthash else (-1, openind)) = f at h
  split at h
  · cases h; rfl
  · split at h
    · cases h; rfl
    · split at h
      · cases h; rfl
      · split at h
        · cases h
        · cases h; rfl
        · split at h
          · cases h; rfl
          · split at h
            · cases h
            · rename_i hl0
              split at h
              · cases h
              · rename_i r1 h1
                cases h
                have e := frame_Numpending (updatetips_frame _ _ _ _ _ _ _ _ _ _ h1)
                exact e

theorem purge_loop_Numpending (cutoff modval : Nat) (k : Nat) :
    ∀ (i : Nat) (s : DEXState) (n : Int) (r : DEXState × Int),
      komodo_DEXpurge_loop cutoff modval k i s n = some r →
        r.1.DEX_Numpending = s.DEX_Numpending := by
  induction k with
  | zero =>
    intro i s n r h
    simp only [komodo_DEXpurge_loop] at h
    cases h
    rfl
  | succ k ih =>
    intro i s n r h
    simp only [komodo_DEXpurge_loop] at h
    split at h
    · split at h
      · split at h
        · cases h
        · split at h
          · exact ih _ _ _ _ h
          · split at h
            · cases h
            · rename_i r1 h1
              have e1 : r1.1.DEX_Numpending = s.DEX_Numpending :=
                frame_Numpending (unlinkindices_frame _ _ _ h1)
              have e2 := ih _ _ _ _ h
              exact e2.trans e1
      · cases h
    · exact ih _ _ _ _ h

theorem purge_Numpending (s : DEXState) (cutoff : Nat) (r : DEXState × Int)
    (h : komodo_DEXpurge s cutoff = some r) : r.1.DEX_Numpending = s.DEX_Numpending := by
  unfold komodo_DEXpurge at h
  simp only at h
  split at h
  · cases h
  · rename_i s1 n h1
    have g1 : s1.DEX_Numpending = s.DEX_Numpending := by
      have g := purge_loop_Numpending _ _ _ _ _ _ (s1, n) h1
      split at g
      · exact g
      · exact g
    split at h
    · split at h
      · cases h
      · cases h; exact g1
    · cases h; exact g1

theorem packetsend_Numpending (s : DEXState) (peer : Int) (peerpos ptr resp0 : Nat)
    (r : DEXState × Int) (h : komodo_DEXpacketsend s peer peerpos ptr resp0 = some r) :
    r.1.DEX_Numpending = s.DEX_Numpending := by
  unfold komodo_DEXpacketsend at h
  simp only at h
  split at h
  · cases h
  · split at h
    · cases h
    · cases h
      rfl

theorem modval_loop_Numpending (now modval : Nat) (peer : Int) (peerpos : Nat) (k : Nat) :
    ∀ (i : Nat) (s : DEXState) (recents : List Nat) (r : DEXState × List Nat),
      komodo_DEXmodval_loop now modval peer peerpos k i s recents = some r →
        r.1.DEX_Numpending = s.DEX_Numpending := by
  induction k with
  | zero =>
    intro i s recents r h
    simp only [komodo_DEXmodval_loop] at h
    cases h
    rfl
  | succ k ih =>
    intro i s recents r h
    simp only [komodo_DEXmodval_loop] at h
    split at h
    · split at h
      · cases h
      · rename_i b hb
        split at h
        · split at h
          · split at h
            · rename_i hsent
              split at h
              · split at h
                · cases h
                · rename_i r1 h1
                  split at h
                  · cases h
                  · rename_i b1 hb1
                    exact (ih _ _ _ _ h).trans (packetsend_Numpending _ _ _ _ _ _ h1)
              · exact ih _ _ _ _ h
            · exact ih _ _ _ _ h
          · exact ih _ _ _ _ h
        · exact ih _ _ _ _ h
    · exact ih _ _ _ _ h

theorem modval_Numpending (s : DEXState) (now : Nat) (modval : Int) (peer : Int)
    (r : DEXState × Int) (h : komodo_DEXmodval s now modval peer = some r) :
    r.1.DEX_Numpending = s.DEX_Numpending := by
  unfold komodo_DEXmodval at h
  simp only at h
  split at h
  · cases h; rfl
  · split at h
    · cases h; rfl
    · split at h
      · cases h
      · rename_i s1 recents h1
        have g1 : s1.DEX_Numpending = s.DEX_Numpending :=
          modval_loop_Numpending _ _ _ _ _ _ (komodo_DEXpeerpos s now peer).1 _ (s1, recents) h1
        split at h
        · cases h; exact g1
        · cases h; exact g1

theorem poll_scanloop_Numpending (now : Nat) (pto : Int) (k : Nat) :
    ∀ (i : Nat) (s s1 : DEXState), komodo_DEXpoll_scanloop now pto k i s = some s1 →
      s1.DEX_Numpending = s.DEX_Numpending := by
  induction k with
  | zero =>
    intro i s s1 h
    simp only [komodo_DEXpoll_scanloop] at h
    cases h
    rfl
  | succ k ih =>
    intro i s s1 h
    simp only [komodo_DEXpoll_scanloop] at h
    split at h
    · cases h
    · rename_i r hr
      refine (ih _ _ _ h).trans ?_
      have g := modval_Numpending _ _ _ _ _ hr
      split
      · exact g
      · exact g

theorem poll_scanphase_Numpending (s : DEXState) (now : Nat) (pto : Int) (s1 : DEXState)
    (h : komodo_DEXpoll_scanphase s now pto = some s1) :
    s1.DEX_Numpending = s.DEX_Numpending := by
  unfold komodo_DEXpoll_scanphase at h
  split at h
  · exact poll_scanloop_Numpending _ _ _ _ _ _ h
  · cases h
    rfl

theorem poll_purgeloop_Numpending (ptime : Nat) (k : Nat) :
    ∀ (s s1 : DEXState), komodo_DEXpoll_purgeloop ptime k s = some s1 →
      s1.DEX_Numpending = s.DEX_Numpending := by
  induction k with
  | zero =>
    intro s s1 h
    simp only [komodo_DEXpoll_purgeloop] at h
    cases h
    rfl
  | succ k ih =>
    intro s s1 h
    simp only [komodo_DEXpoll_purgeloop] at h
    split at h
    · split at h
      · cases h
      · rename_i r hr
        exact (ih _ _ h).trans (purge_Numpending _ _ _ hr)
    · cases h
      rfl

theorem NumBound_of_eq {s s1 : DEXState} (e : s1.DEX_Numpending = s.DEX_Numpending)
    (hg : DEX_NumBound s) : DEX_NumBound s1 := by
  unfold DEX_NumBound
  rw [e]
  exact hg

theorem decay_bound (n : Int) (h0 : 0 ≤ n) : 0 ≤ DEX_decay n ∧ DEX_decay n ≤ n := by
  unfold DEX_decay
  rw [Int.tdiv_eq_ediv (by omega) (by decide)]
  omega

theorem poll_purgephase_bound (s : DEXState) (now : Nat) (s1 : DEXState)
    (h : komodo_DEXpoll_purgephase s now = some s1) (hg : DEX_NumBound s) : DEX_NumBound s1 := by
  have hd : ∀ s2 : DEXState, s2.DEX_Numpending = s.DEX_Numpending →
      DEX_NumBound { s2 with DEX_Numpending := DEX_decay s2.DEX_Numpending } := by
    intro s2 e
    obtain ⟨a, b⟩ := decay_bound s2.DEX_Numpending (by rw [e]; exact hg.1)
    refine ⟨a, ?_⟩
    show DEX_decay s2.DEX_Numpending ≤ _
    have := hg.2
    rw [← e] at this
    exact le_trans b this
  unfold komodo_DEXpoll_purgephase at h
  simp only at h
  split at h
  · split at h
    · cases h
    · rename_i s2 h2
      cases h
      split at h2
      · cases h2
        exact hd _ rfl
      · exact hd _ (poll_purgeloop_Numpending _ _ s s2 h2)
  · cases h
    exact hg

theorem poll_bound (s : DEXState) (now : Nat) (pto : Int) (s1 : DEXState)
    (h : komodo_DEXpoll s now pto = some s1) (hg : DEX_NumBound s) : DEX_NumBound s1 := by
  unfold komodo_DEXpoll at h
  cases hp : komodo_DEXpoll_purgephase s now with
  | none =>
    rw [hp] at h
    cases h
  | some s2 =>
    rw [hp] at h
    exact NumBound_of_eq (poll_scanphase_Numpending _ _ _ _ h) (poll_purgephase_bound _ _ _ hp hg)

theorem Ploop_bound (now : Nat) (pfrom : Int) (msg : Nat → Nat) (modval : Nat) (k : Nat) :
    ∀ (offset : Nat) (s : DEXState), DEX_NumBound s →
      DEX_NumBound (komodo_DEXprocess_Ploop now pfrom msg modval k offset s) := by
  induction k with
  | zero => intro offset s hg; exact hg
  | succ k ih =>
    intro offset s hg
    simp only [komodo_DEXprocess_Ploop]
    split
    · exact hg
    · rename_i hle
      split
      · exact ih _ _ hg
      · split
        · refine ih _ _ ?_
          have e : (komodo_DEXadd32 (komodo_DEXfind32 s PENDINGS_SIZE
              (iguana_rwnum_dec (bufAt msg offset) 4) 0).1 PENDINGS_SIZE
              (iguana_rwnum_dec (bufAt msg offset) 4)).1.DEX_Numpending = s.DEX_Numpending :=
            find32_Numpending _ _ _ _
          have h1 := hg.1
          have hle1 : s.DEX_Numpending ≤ ((16384 : Nat) : Int) := not_lt.mp hle
          constructor
          · show 0 ≤ _ + 1
            rw [e]
            omega
          · show _ + 1 ≤ ((16384 + 1 : Nat) : Int)
            rw [e]
            omega
        · exact ih _ _ (NumBound_of_eq (find32_Numpending _ _ _ _) hg)

theorem process_Q_bound (vcalc_sha256 : List Nat → bits256) (s : DEXState) (now : Nat)
    (peerpos : Nat) (relay t modval : Nat) (msg : Nat → Nat) (len newptr : Nat)
    (r : DEXState × Int)
    (h : komodo_DEXprocess_Q vcalc_sha256 s now peerpos relay t modval msg len newptr = some r)
    (hg : DEX_NumBound s) : DEX_NumBound r.1 := by
  unfold komodo_DEXprocess_Q at h
  simp only at h
  split at h
  · cases h; exact hg
  · split at h
    · split at h
      · cases h
      · rename_i s6 ind h6
        have g6 : DEX_NumBound s6 := by
          split at h6
          · split at h6
            · cases h6
            · rename_i s2 ind2 h2
              have e2 : s2.DEX_Numpending = s.DEX_Numpending := by
                have e := add_Numpending _ _ _ _ _ _ _ _ _ (s2, ind2) h2
                exact e
              have g2 : DEX_NumBound s2 := NumBound_of_eq e2 hg
              split at h6
              · cases h6
                have e3 := find32_Numpending s2 PENDINGS_SIZE
                  (komodo_DEXquotehash vcalc_sha256 msg len).uints0 1
                have g3 : DEX_NumBound (komodo_DEXfind32 s2 PENDINGS_SIZE
                    (komodo_DEXquotehash vcalc_sha256 msg len).uints0 1).1 :=
                  NumBound_of_eq e3 g2
                show DEX_NumBound _
                split
                · split
                  · rename_i hpos
                    refine ⟨?_, ?_⟩
                    · show 0 ≤ _ - 1
                      omega
                    · show _ - 1 ≤ _
                      have := g3.2
                      omega
                  · exact g3
                · exact g3
              · cases h6
                exact g2
          · cases h6
            exact hg
        split at h
        · cases h
        · split at h
          · split at h
            · cases h
            · cases h
              exact g6
          · cases h
            exact g6
    · cases h; exact hg

theorem process_P_bound (s : DEXState) (now : Nat) (pfrom : Int) (msg : Nat → Nat) (len : Nat)
    (r : DEXState × Int) (h : komodo_DEXprocess_P s now pfrom msg len = some r)
    (hg : DEX_NumBound s) : DEX_NumBound r.1 := by
  unfold komodo_DEXprocess_P at h
  simp only at h
  split at h
  · split at h
    · cases h
      exact Ploop_bound _ _ _ _ _ _ _ hg
    · cases h; exact hg
  · cases h; exact hg

theorem process_G_bound (s : DEXState) (pfrom : Int) (peerpos : Nat) (msg : Nat → Nat)
    (r : DEXState × Int) (h : komodo_DEXprocess_G s pfrom peerpos msg = some r)
    (hg : DEX_NumBound s) : DEX_NumBound r.1 := by
  unfold komodo_DEXprocess_G at h
  simp only at h
  split at h
  · split at h
    · split at h
      · cases h
      · split at h
        · exact NumBound_of_eq (packetsend_Numpending _ _ _ _ _ _ h) hg
        · cases h; exact hg
    · cases h; exact hg
  · cases h; exact hg

theorem dispatch_bound (vcalc_sha256 : List Nat → bits256) (s : DEXState) (now : Nat)
    (pfrom : Int) (peerpos : Nat) (relay funcid t modval : Nat) (msg : Nat → Nat)
    (len newptr : Nat) (r : DEXState × Int)
    (h : komodo_DEXprocess_dispatch vcalc_sha256 s now pfrom peerpos relay funcid t modval
          msg len newptr = some r)
    (hg : DEX_NumBound s) : DEX_NumBound r.1 := by
  unfold komodo_DEXprocess_dispatch at h
  split at h
  · exact process_Q_bound _ _ _ _ _ _ _ _ _ _ _ h hg
  · split at h
    · exact process_P_bound _ _ _ _ _ _ h hg
    · split at h
      · exact process_G_bound _ _ _ _ _ h hg
      · cases h; exact hg

theorem process_bound (vcalc_sha256 : List Nat → bits256) (s : DEXState) (now : Nat)
    (pfrom : Int) (msg : Nat → Nat) (len newptr : Nat) (r : DEXState × Int)
    (h : komodo_DEXprocess vcalc_sha256 s now pfrom msg len newptr = some r)
    (hg : DEX_NumBound s) : DEX_NumBound r.1 := by
  have g0 : DEX_NumBound (komodo_DEXpeerpos s now pfrom).1 := hg
  unfold komodo_DEXprocess at h
  simp only at h
  by_cases hguard : len ≥ KOMODO_DEX_ROUTESIZE ∧ (komodo_DEXpeerpos s now pfrom).2 ≠ 0xffff
  · rw [if_pos hguard] at h
    by_cases hfut : iguana_rwnum_dec (bufAt msg 2) 4 > (now + KOMODO_DEX_LOCALHEARTBEAT) % U32
    · rw [if_pos hfut] at h
      cases h; exact g0
    · rw [if_neg hfut] at h
      by_cases hlag : (if toInt32 (wrap32 ((now : Int) - (iguana_rwnum_dec (bufAt msg 2) 4 : Nat))) < 0
          then 0 else toInt32 (wrap32 ((now : Int) - (iguana_rwnum_dec (bufAt msg 2) 4 : Nat))))
          > ((KOMODO_DEX_MAXLAG : Nat) : Int)
      · rw [if_pos hlag] at h
        cases h; exact g0
      · rw [if_neg hlag] at h
        exact dispatch_bound _ _ _ _ _ _ _ _ _ _ _ _ _ h g0
  · rw [if_neg hguard] at h
    cases h; exact g0

theorem step_bound (vcalc_sha256 : List Nat → bits256) (s s1 : DEXState)
    (h : Step vcalc_sha256 s s1) (hg : DEX_NumBound s) : DEX_NumBound s1 := by
  cases h with
  | process now pfrom msg len newptr ret hnow hfresh h => exact process_bound _ _ _ _ _ _ _ _ h hg
  | add openind now modval hash shorthash msg len newptr ret hnow hmod hfresh h =>
    exact NumBound_of_eq (add_Numpending _ _ _ _ _ _ _ _ _ _ h) hg
  | poll now pto hnow h => exact poll_bound _ _ _ _ h hg
  | purge cutoff ret hcut h => exact NumBound_of_eq (purge_Numpending _ _ _ h) hg

theorem reachable_bound (vcalc_sha256 : List Nat → bits256) (s : DEXState)
    (h : Reachable vcalc_sha256 s) : DEX_NumBound s := by
  induction h with
  | init => exact ⟨le_refl _, by decide⟩
  | step s s1 _ hstep ih => exact step_bound _ _ _ hstep ih

/-- C34: in every reachable state `0 <= DEX_Numpending <= KOMODO_DEX_HASHSIZE + 1`
(16385).  In such a state the decay of `komodo_DEXpoll` gives a value between 0
and the counter, and once the counter exceeds `KOMODO_DEX_HASHSIZE` the loop of
the P path leaves the state as it is: no request is recorded or sent. -/
theorem C34_numpending_bounded (vcalc_sha256 : List Nat → bits256) (s : DEXState)
    (hs : Reachable vcalc_sha256 s) :
    0 ≤ s.DEX_Numpending ∧ s.DEX_Numpending ≤ 16385
    ∧ 0 ≤ DEX_decay s.DEX_Numpending ∧ DEX_decay s.DEX_Numpending ≤ s.DEX_Numpending
    ∧ (∀ (now : Nat) (pfrom : Int) (msg : Nat → Nat) (modval k offset : Nat),
        s.DEX_Numpending > 16384 →
        komodo_DEXprocess_Ploop now pfrom msg modval k offset s = s) := by
  obtain ⟨h0, h1⟩ := reachable_bound vcalc_sha256 s hs
  obtain ⟨d0, d1⟩ := decay_bound s.DEX_Numpending h0
  refine ⟨h0, h1, d0, d1, ?_⟩
  intro now pfrom msg modval k offset hgt
  cases k with
  | zero => rfl
  | succ k =>
    rw [komodo_DEXprocess_Ploop,
      if_pos (show s.DEX_Numpending > ((KOMODO_DEX_HASHSIZE : Nat) : Int) from hgt)]

/-- Witness of C34: the reachable store `exampleStored`. -/
theorem C34_numpending_bounded_witness :
    Reachable (exampleSha 5) exampleStored
    ∧ (0 ≤ exampleStored.DEX_Numpending ∧ exampleStored.DEX_Numpending ≤ 16385
    ∧ 0 ≤ DEX_decay exampleStored.DEX_Numpending
    ∧ DEX_decay exampleStored.DEX_Numpending ≤ exampleStored.DEX_Numpending
    ∧ (∀ (now : Nat) (pfrom : Int) (msg : Nat → Nat) (modval k offset : Nat),
        exampleStored.DEX_Numpending > 16384 →
        komodo_DEXprocess_Ploop now pfrom msg modval k offset exampleStored = exampleStored)) :=
  ⟨exampleStored_reachable, C34_numpending_bounded (exampleSha 5) exampleStored
    exampleStored_reachable⟩

end DEX
